import Mathlib

/-!
Shallow embedding of the PML boundary-update kernels of gprMax
(`gprMax/cython/pml_updates_magnetic_HORIPML.pyx` and
`gprMax/cython/pml_updates_electric_MRIPML.pyx`) and of the fractal
generator `generate_fractal2D`, together with proofs settling the frozen
claims about them.

Conventions of the embedding:
* Field values are exact rationals (the source computes in a uniformly
  chosen real floating precision; the claims under study are about the
  algebraic structure of the updates, not about rounding).
* The six field components are stored as one function `Grid.F c` with
  `c = 0,1,2,3,4,5` meaning `Ex, Ey, Ez, Hx, Hy, Hz` — the component
  order of the first axis of the `ID` array in the source.
* Global cell indices are integers; slab-local loop indices are naturals.
* A kernel is the sequential triple loop of the source (`iter3`); the
  `prange` parallel loop is race-free (each iteration writes disjoint
  cells), so the sequential order is its semantics.
-/

set_option maxHeartbeats 2000000

/-- Mutable state seen by one kernel call: the six Yee field components
`F c` (`c = 0..5` is `Ex, Ey, Ez, Hx, Hy, Hz`) and the two
recursive-convolution accumulators `Phi1`, `Phi2` (first index: pole/row,
then slab-local cell coordinates). -/
@[ext]
structure Grid where
  F : ℕ → ℤ → ℤ → ℤ → ℚ
  Phi1 : ℕ → ℕ → ℕ → ℕ → ℚ
  Phi2 : ℕ → ℕ → ℕ → ℕ → ℚ

/-- Read-only arguments of a kernel call: slab bounds, the update
coefficient table (`updatecoeffsH` or `updatecoeffsE`), the material `ID`
array, the four PML coefficient profiles and the spatial step `d`. -/
structure PMLEnv where
  xs : ℤ
  xf : ℤ
  ys : ℤ
  yf : ℤ
  zs : ℤ
  zf : ℤ
  uc : ℕ → ℕ → ℚ
  ID : ℕ → ℤ → ℤ → ℤ → ℕ
  RA : ℕ → ℕ → ℚ
  RB : ℕ → ℕ → ℚ
  RE : ℕ → ℕ → ℚ
  RF : ℕ → ℕ → ℚ
  d : ℚ

/-- `nx = xf - xs` of the source (`range(0, nx)` is empty for `nx ≤ 0`). -/
def PMLEnv.nx (e : PMLEnv) : ℕ := (e.xf - e.xs).toNat

/-- `ny = yf - ys` of the source. -/
def PMLEnv.ny (e : PMLEnv) : ℕ := (e.yf - e.ys).toNat

/-- `nz = zf - zs` of the source. -/
def PMLEnv.nz (e : PMLEnv) : ℕ := (e.zf - e.zs).toNat

/-- In-place store `field[x, y, z] = v` of one entry of component `c`. -/
def setF (g : Grid) (c : ℕ) (x y z : ℤ) (v : ℚ) : Grid :=
  { g with F := fun c' x' y' z' =>
      if c' = c ∧ x' = x ∧ y' = y ∧ z' = z then v else g.F c' x' y' z' }

/-- In-place store `Phi1[l, i, j, k] = v`. -/
def setPhi1 (g : Grid) (l i j k : ℕ) (v : ℚ) : Grid :=
  { g with Phi1 := fun l' i' j' k' =>
      if l' = l ∧ i' = i ∧ j' = j ∧ k' = k then v else g.Phi1 l' i' j' k' }

/-- In-place store `Phi2[l, i, j, k] = v`. -/
def setPhi2 (g : Grid) (l i j k : ℕ) (v : ℚ) : Grid :=
  { g with Phi2 := fun l' i' j' k' =>
      if l' = l ∧ i' = i ∧ j' = j ∧ k' = k then v else g.Phi2 l' i' j' k' }

/-- `for v in range(0, n): s = f v s` — a Python counting loop. -/
def loopN {α : Type} (n : ℕ) (f : ℕ → α → α) (s : α) : α :=
  (List.range n).foldl (fun a v => f v a) s

/-- The triple nested loop `for i in range(nx): for j in range(ny):
for k in range(nz): s = body i j k s` shared by all kernels. -/
def iter3 {α : Type} (nx ny nz : ℕ) (body : ℕ → ℕ → ℕ → α → α) (s : α) : α :=
  loopN nx (fun i => loopN ny (fun j => loopN nz (fun k => body i j k))) s

/-- The list of loop-index triples of `iter3`, in execution order. -/
def boxList (nx ny nz : ℕ) : List (ℕ × ℕ × ℕ) :=
  (List.range nx).flatMap fun i =>
    (List.range ny).flatMap fun j =>
      (List.range nz).map fun k => (i, j, k)

theorem foldl_flatMap {α β γ : Type} (l : List α) (f : α → List β)
    (step : γ → β → γ) (init : γ) :
    (l.flatMap f).foldl step init = l.foldl (fun s a => (f a).foldl step s) init := by
  induction l generalizing init with
  | nil => rfl
  | cons a l ih => rw [List.flatMap_cons, List.foldl_append, List.foldl_cons, ih]

theorem iter3_eq_foldl_boxList {α : Type} (nx ny nz : ℕ)
    (body : ℕ → ℕ → ℕ → α → α) (s : α) :
    iter3 nx ny nz body s =
      (boxList nx ny nz).foldl (fun g t => body t.1 t.2.1 t.2.2 g) s := by
  unfold iter3 boxList loopN
  rw [foldl_flatMap]
  have h2 : ∀ (i j : ℕ) (g : α),
      ((List.range nz).map fun k => (i, j, k)).foldl
        (fun g t => body t.1 t.2.1 t.2.2 g) g
        = (List.range nz).foldl (fun a k => body i j k a) g := by
    intro i j g
    rw [List.foldl_map]
  have h1 : ∀ (i : ℕ) (g : α),
      ((List.range ny).flatMap fun j => (List.range nz).map fun k => (i, j, k)).foldl
        (fun g t => body t.1 t.2.1 t.2.2 g) g
        = (List.range ny).foldl
            (fun a j => (List.range nz).foldl (fun a' k => body i j k a') a) g := by
    intro i g
    rw [foldl_flatMap]
    simp only [h2]
  simp only [h1]

theorem mem_boxList {nx ny nz : ℕ} {t : ℕ × ℕ × ℕ} :
    t ∈ boxList nx ny nz ↔ t.1 < nx ∧ t.2.1 < ny ∧ t.2.2 < nz := by
  obtain ⟨i, j, k⟩ := t
  simp only [boxList, List.mem_flatMap, List.mem_map, List.mem_range]
  constructor
  · rintro ⟨a, ha, b, hb, c, hc, h⟩
    obtain ⟨rfl, rfl, rfl⟩ : a = i ∧ b = j ∧ c = k := by
      refine ⟨congrArg (fun p => p.1) h, congrArg (fun p => p.2.1) h,
        congrArg (fun p => p.2.2) h⟩
    exact ⟨ha, hb, hc⟩
  · rintro ⟨hi, hj, hk⟩
    exact ⟨i, hi, j, hj, k, hk, rfl⟩

theorem boxList_nodup (nx ny nz : ℕ) : (boxList nx ny nz).Nodup := by
  unfold boxList
  rw [List.nodup_flatMap]
  constructor
  · intro i _
    rw [List.nodup_flatMap]
    constructor
    · intro j _
      refine (List.nodup_range _).map ?_
      intro a b h
      exact congrArg (fun p => p.2.2) h
    · refine (List.nodup_range ny).imp ?_
      intro j j' hne t ht ht'
      simp only [List.mem_map] at ht ht'
      obtain ⟨k, _, rfl⟩ := ht
      obtain ⟨k', _, hk⟩ := ht'
      exact hne (congrArg (fun p => p.2.1) hk).symm
  · refine (List.nodup_range nx).imp ?_
    intro i i' hne t ht ht'
    simp only [List.mem_flatMap, List.mem_map, List.mem_range] at ht ht'
    obtain ⟨j, _, k, _, rfl⟩ := ht
    obtain ⟨j', _, k', _, hk⟩ := ht'
    exact hne (congrArg (fun p => p.1) hk).symm

/-- Abstract description of one loop-cell of a kernel: the indices `c1`,
`c2` of the two written field components, the written global address, and
the values stored there and in the `Phi` accumulators, all as functions of
the state at the start of the cell. -/
structure CellSpec where
  c1 : ℕ
  c2 : ℕ
  addr : ℕ → ℕ → ℕ → ℤ × ℤ × ℤ
  v1 : ℕ → ℕ → ℕ → Grid → ℚ
  v2 : ℕ → ℕ → ℕ → Grid → ℚ
  p1 : ℕ → ℕ → ℕ → ℕ → Grid → ℚ
  p2 : ℕ → ℕ → ℕ → ℕ → Grid → ℚ

/-- Two grids agree on everything the cell body at `(i, j, k)` may read:
every component other than the two written ones, the written components at
the cell's own address, and the `Phi` entries of the cell itself. -/
def ReadsEq (S : CellSpec) (i j k : ℕ) (g g' : Grid) : Prop :=
  (∀ c, c ≠ S.c1 → c ≠ S.c2 → g.F c = g'.F c) ∧
  g.F S.c1 (S.addr i j k).1 (S.addr i j k).2.1 (S.addr i j k).2.2 =
    g'.F S.c1 (S.addr i j k).1 (S.addr i j k).2.1 (S.addr i j k).2.2 ∧
  g.F S.c2 (S.addr i j k).1 (S.addr i j k).2.1 (S.addr i j k).2.2 =
    g'.F S.c2 (S.addr i j k).1 (S.addr i j k).2.1 (S.addr i j k).2.2 ∧
  (∀ l, g.Phi1 l i j k = g'.Phi1 l i j k) ∧
  (∀ l, g.Phi2 l i j k = g'.Phi2 l i j k)

/-- The loop body `body` realizes the cell description `S` on the
`nx × ny × nz` index box: it writes exactly the described locations with
the described values, and those values only read the locations allowed by
`ReadsEq`. -/
structure Realizes (S : CellSpec) (nx ny nz : ℕ)
    (body : ℕ → ℕ → ℕ → Grid → Grid) : Prop where
  hne : S.c1 ≠ S.c2
  inj : ∀ i j k i' j' k', i < nx → j < ny → k < nz →
    i' < nx → j' < ny → k' < nz →
    S.addr i j k = S.addr i' j' k' → i = i' ∧ j = j' ∧ k = k'
  frameF : ∀ i j k g c x y z,
    ((c ≠ S.c1 ∧ c ≠ S.c2) ∨ (x, y, z) ≠ S.addr i j k) →
    (body i j k g).F c x y z = g.F c x y z
  val1 : ∀ i j k g,
    (body i j k g).F S.c1 (S.addr i j k).1 (S.addr i j k).2.1 (S.addr i j k).2.2 =
      S.v1 i j k g
  val2 : ∀ i j k g,
    (body i j k g).F S.c2 (S.addr i j k).1 (S.addr i j k).2.1 (S.addr i j k).2.2 =
      S.v2 i j k g
  framePhi : ∀ i j k g l i' j' k', (i', j', k') ≠ (i, j, k) →
    (body i j k g).Phi1 l i' j' k' = g.Phi1 l i' j' k' ∧
    (body i j k g).Phi2 l i' j' k' = g.Phi2 l i' j' k'
  valP1 : ∀ i j k g l, (body i j k g).Phi1 l i j k = S.p1 l i j k g
  valP2 : ∀ i j k g l, (body i j k g).Phi2 l i j k = S.p2 l i j k g
  dep : ∀ i j k g g', ReadsEq S i j k g g' →
    S.v1 i j k g = S.v1 i j k g' ∧ S.v2 i j k g = S.v2 i j k g' ∧
    (∀ l, S.p1 l i j k g = S.p1 l i j k g') ∧
    (∀ l, S.p2 l i j k g = S.p2 l i j k g')

theorem foldl_cells_spec {S : CellSpec} {nx ny nz : ℕ}
    {body : ℕ → ℕ → ℕ → Grid → Grid} (hr : Realizes S nx ny nz body) :
    ∀ L : List (ℕ × ℕ × ℕ),
      (∀ t ∈ L, t.1 < nx ∧ t.2.1 < ny ∧ t.2.2 < nz) → L.Nodup →
      ∀ g : Grid,
      (∀ t ∈ L,
        (L.foldl (fun g t => body t.1 t.2.1 t.2.2 g) g).F S.c1
          (S.addr t.1 t.2.1 t.2.2).1 (S.addr t.1 t.2.1 t.2.2).2.1
          (S.addr t.1 t.2.1 t.2.2).2.2 = S.v1 t.1 t.2.1 t.2.2 g ∧
        (L.foldl (fun g t => body t.1 t.2.1 t.2.2 g) g).F S.c2
          (S.addr t.1 t.2.1 t.2.2).1 (S.addr t.1 t.2.1 t.2.2).2.1
          (S.addr t.1 t.2.1 t.2.2).2.2 = S.v2 t.1 t.2.1 t.2.2 g ∧
        (∀ l, (L.foldl (fun g t => body t.1 t.2.1 t.2.2 g) g).Phi1 l t.1 t.2.1 t.2.2 =
          S.p1 l t.1 t.2.1 t.2.2 g) ∧
        (∀ l, (L.foldl (fun g t => body t.1 t.2.1 t.2.2 g) g).Phi2 l t.1 t.2.1 t.2.2 =
          S.p2 l t.1 t.2.1 t.2.2 g)) ∧
      (∀ c x y z,
        ((c ≠ S.c1 ∧ c ≠ S.c2) ∨ ∀ t ∈ L, (x, y, z) ≠ S.addr t.1 t.2.1 t.2.2) →
        (L.foldl (fun g t => body t.1 t.2.1 t.2.2 g) g).F c x y z = g.F c x y z) ∧
      (∀ l i j k, (∀ t ∈ L, t ≠ (i, j, k)) →
        (L.foldl (fun g t => body t.1 t.2.1 t.2.2 g) g).Phi1 l i j k = g.Phi1 l i j k ∧
        (L.foldl (fun g t => body t.1 t.2.1 t.2.2 g) g).Phi2 l i j k = g.Phi2 l i j k) := by
  intro L
  induction L with
  | nil =>
    intro _ _ g
    refine ⟨fun t ht => absurd ht (List.not_mem_nil t), fun c x y z _ => rfl,
      fun l i j k _ => ⟨rfl, rfl⟩⟩
  | cons t L' ih =>
    intro hmem hnd g
    obtain ⟨ti, tj, tk⟩ := t
    have htbox : ti < nx ∧ tj < ny ∧ tk < nz := hmem _ (List.mem_cons_self _ _)
    have htnotin : (ti, tj, tk) ∉ L' := (List.nodup_cons.mp hnd).1
    have hmem' : ∀ u ∈ L', u.1 < nx ∧ u.2.1 < ny ∧ u.2.2 < nz :=
      fun u hu => hmem u (List.mem_cons_of_mem _ hu)
    have hnd' : L'.Nodup := (List.nodup_cons.mp hnd).2
    obtain ⟨IH1, IH2, IH3⟩ := ih hmem' hnd' (body ti tj tk g)
    -- the address written by the head differs from every later address
    have haddr_ne : ∀ u ∈ L', S.addr u.1 u.2.1 u.2.2 ≠ S.addr ti tj tk := by
      intro u hu h
      obtain ⟨ui, uj, uk⟩ := u
      obtain ⟨h1, h2, h3⟩ := hr.inj ui uj uk ti tj tk (hmem' _ hu).1 (hmem' _ hu).2.1
        (hmem' _ hu).2.2 htbox.1 htbox.2.1 htbox.2.2 h
      subst h1; subst h2; subst h3
      exact htnotin hu
    have hcell_ne : ∀ u ∈ L', u ≠ (ti, tj, tk) := by
      intro u hu h
      subst h
      exact htnotin hu
    -- the tail's foldl, started from `body t g`, over-writes nothing the head wrote
    have hreads : ∀ u ∈ L', ReadsEq S u.1 u.2.1 u.2.2 (body ti tj tk g) g := by
      intro u hu
      refine ⟨?_, ?_, ?_, ?_, ?_⟩
      · intro c hc1 hc2
        funext x y z
        exact hr.frameF ti tj tk g c x y z (Or.inl ⟨hc1, hc2⟩)
      · exact hr.frameF ti tj tk g S.c1 _ _ _ (Or.inr (by
          rw [show ((S.addr u.1 u.2.1 u.2.2).1, (S.addr u.1 u.2.1 u.2.2).2.1,
            (S.addr u.1 u.2.1 u.2.2).2.2) = S.addr u.1 u.2.1 u.2.2 from rfl]
          exact haddr_ne u hu))
      · exact hr.frameF ti tj tk g S.c2 _ _ _ (Or.inr (by
          rw [show ((S.addr u.1 u.2.1 u.2.2).1, (S.addr u.1 u.2.1 u.2.2).2.1,
            (S.addr u.1 u.2.1 u.2.2).2.2) = S.addr u.1 u.2.1 u.2.2 from rfl]
          exact haddr_ne u hu))
      · intro l
        exact (hr.framePhi ti tj tk g l u.1 u.2.1 u.2.2 (by
          intro h
          exact hcell_ne u hu (by
            obtain ⟨ui, uj, uk⟩ := u
            exact h))).1
      · intro l
        exact (hr.framePhi ti tj tk g l u.1 u.2.1 u.2.2 (by
          intro h
          exact hcell_ne u hu (by
            obtain ⟨ui, uj, uk⟩ := u
            exact h))).2
    refine ⟨?_, ?_, ?_⟩
    · -- written values
      intro u hu
      rcases List.mem_cons.mp hu with hu | hu
      · subst hu
        refine ⟨?_, ?_, ?_, ?_⟩
        · rw [List.foldl_cons]
          rw [IH2 S.c1 _ _ _ (Or.inr fun u' hu' h => haddr_ne u' hu' (by
              rw [← h]))]
          exact hr.val1 ti tj tk g
        · rw [List.foldl_cons]
          rw [IH2 S.c2 _ _ _ (Or.inr fun u' hu' h => haddr_ne u' hu' (by
              rw [← h]))]
          exact hr.val2 ti tj tk g
        · intro l
          rw [List.foldl_cons]
          rw [(IH3 l ti tj tk hcell_ne).1]
          exact hr.valP1 ti tj tk g l
        · intro l
          rw [List.foldl_cons]
          rw [(IH3 l ti tj tk hcell_ne).2]
          exact hr.valP2 ti tj tk g l
      · obtain ⟨e1, e2, e3, e4⟩ := IH1 u hu
        obtain ⟨d1, d2, d3, d4⟩ := hr.dep u.1 u.2.1 u.2.2 (body ti tj tk g) g
          (hreads u hu)
        rw [List.foldl_cons]
        exact ⟨e1.trans d1, e2.trans d2, fun l => (e3 l).trans (d3 l),
          fun l => (e4 l).trans (d4 l)⟩
    · -- frame on field components
      intro c x y z h
      rw [List.foldl_cons]
      rcases h with h | h
      · rw [IH2 c x y z (Or.inl h)]
        exact hr.frameF ti tj tk g c x y z (Or.inl h)
      · rw [IH2 c x y z (Or.inr fun u hu => h u (List.mem_cons_of_mem _ hu))]
        exact hr.frameF ti tj tk g c x y z (Or.inr (h _ (List.mem_cons_self _ _)))
    · -- frame on Phi entries
      intro l i j k h
      rw [List.foldl_cons]
      have h' : ∀ u ∈ L', u ≠ (i, j, k) := fun u hu => h u (List.mem_cons_of_mem _ hu)
      have hhd : ((i : ℕ), (j : ℕ), (k : ℕ)) ≠ (ti, tj, tk) :=
        fun hh => h _ (List.mem_cons_self _ _) hh.symm
      refine ⟨?_, ?_⟩
      · rw [(IH3 l i j k h').1]
        exact (hr.framePhi ti tj tk g l i j k hhd).1
      · rw [(IH3 l i j k h').2]
        exact (hr.framePhi ti tj tk g l i j k hhd).2

/-- Frame property of a whole kernel call on the field components: a
component other than the two written ones, or any entry whose address is
not written by any loop cell, is left unchanged. -/
theorem Realizes.frameF_iter3 {S : CellSpec} {nx ny nz : ℕ}
    {body : ℕ → ℕ → ℕ → Grid → Grid} (hr : Realizes S nx ny nz body)
    (g : Grid) (c : ℕ) (x y z : ℤ)
    (h : (c ≠ S.c1 ∧ c ≠ S.c2) ∨
      ∀ i j k : ℕ, i < nx → j < ny → k < nz → (x, y, z) ≠ S.addr i j k) :
    (iter3 nx ny nz body g).F c x y z = g.F c x y z := by
  rw [iter3_eq_foldl_boxList]
  refine (foldl_cells_spec hr (boxList nx ny nz)
    (fun t ht => mem_boxList.mp ht) (boxList_nodup nx ny nz) g).2.1 c x y z ?_
  rcases h with h | h
  · exact Or.inl h
  · refine Or.inr fun t ht => ?_
    obtain ⟨h1, h2, h3⟩ := mem_boxList.mp ht
    exact h t.1 t.2.1 t.2.2 h1 h2 h3

/-- Frame property of a whole kernel call on the `Phi` accumulators:
entries outside the loop box are left unchanged. -/
theorem Realizes.framePhi_iter3 {S : CellSpec} {nx ny nz : ℕ}
    {body : ℕ → ℕ → ℕ → Grid → Grid} (hr : Realizes S nx ny nz body)
    (g : Grid) (l i j k : ℕ) (h : ¬(i < nx ∧ j < ny ∧ k < nz)) :
    (iter3 nx ny nz body g).Phi1 l i j k = g.Phi1 l i j k ∧
    (iter3 nx ny nz body g).Phi2 l i j k = g.Phi2 l i j k := by
  rw [iter3_eq_foldl_boxList]
  refine (foldl_cells_spec hr (boxList nx ny nz)
    (fun t ht => mem_boxList.mp ht) (boxList_nodup nx ny nz) g).2.2 l i j k ?_
  intro t ht he
  subst he
  exact h (mem_boxList.mp ht)

/-- Value property of a whole kernel call: each loop cell stores, at its
own address and `Phi` entries, the described functions of the initial
state. -/
theorem Realizes.val_iter3 {S : CellSpec} {nx ny nz : ℕ}
    {body : ℕ → ℕ → ℕ → Grid → Grid} (hr : Realizes S nx ny nz body)
    (g : Grid) (i j k : ℕ) (hi : i < nx) (hj : j < ny) (hk : k < nz) :
    (iter3 nx ny nz body g).F S.c1 (S.addr i j k).1 (S.addr i j k).2.1
      (S.addr i j k).2.2 = S.v1 i j k g ∧
    (iter3 nx ny nz body g).F S.c2 (S.addr i j k).1 (S.addr i j k).2.1
      (S.addr i j k).2.2 = S.v2 i j k g ∧
    (∀ l, (iter3 nx ny nz body g).Phi1 l i j k = S.p1 l i j k g) ∧
    (∀ l, (iter3 nx ny nz body g).Phi2 l i j k = S.p2 l i j k g) := by
  rw [iter3_eq_foldl_boxList]
  exact (foldl_cells_spec hr (boxList nx ny nz)
    (fun t ht => mem_boxList.mp ht) (boxList_nodup nx ny nz) g).1 (i, j, k)
    (mem_boxList.mpr ⟨hi, hj, hk⟩)

@[simp]
theorem setF_F_apply (g : Grid) (c : ℕ) (x y z : ℤ) (v : ℚ) (c' : ℕ) (x' y' z' : ℤ) :
    (setF g c x y z v).F c' x' y' z' =
      if c' = c ∧ x' = x ∧ y' = y ∧ z' = z then v else g.F c' x' y' z' := rfl

@[simp]
theorem setF_Phi1 (g : Grid) (c : ℕ) (x y z : ℤ) (v : ℚ) :
    (setF g c x y z v).Phi1 = g.Phi1 := rfl

@[simp]
theorem setF_Phi2 (g : Grid) (c : ℕ) (x y z : ℤ) (v : ℚ) :
    (setF g c x y z v).Phi2 = g.Phi2 := rfl

@[simp]
theorem setPhi1_F (g : Grid) (l i j k : ℕ) (v : ℚ) :
    (setPhi1 g l i j k v).F = g.F := rfl

@[simp]
theorem setPhi1_Phi1_apply (g : Grid) (l i j k : ℕ) (v : ℚ) (l' i' j' k' : ℕ) :
    (setPhi1 g l i j k v).Phi1 l' i' j' k' =
      if l' = l ∧ i' = i ∧ j' = j ∧ k' = k then v else g.Phi1 l' i' j' k' := rfl

@[simp]
theorem setPhi1_Phi2 (g : Grid) (l i j k : ℕ) (v : ℚ) :
    (setPhi1 g l i j k v).Phi2 = g.Phi2 := rfl

@[simp]
theorem setPhi2_F (g : Grid) (l i j k : ℕ) (v : ℚ) :
    (setPhi2 g l i j k v).F = g.F := rfl

@[simp]
theorem setPhi2_Phi1 (g : Grid) (l i j k : ℕ) (v : ℚ) :
    (setPhi2 g l i j k v).Phi1 = g.Phi1 := rfl

@[simp]
theorem setPhi2_Phi2_apply (g : Grid) (l i j k : ℕ) (v : ℚ) (l' i' j' k' : ℕ) :
    (setPhi2 g l i j k v).Phi2 l' i' j' k' =
      if l' = l ∧ i' = i ∧ j' = j ∧ k' = k then v else g.Phi2 l' i' j' k' := rfl

section ShapeO1

variable (g : Grid) (c1 c2 : ℕ) (a1 a2 a3 : ℤ) (i j k : ℕ) (w1 w2 q1 q2 : ℚ)

/-- Field-frame fact for the order-1 cell shape
`field1[a] = w1; Phi1[0] = q1; field2[a] = w2; Phi2[0] = q2`. -/
theorem shapeO1_frameF (c : ℕ) (x y z : ℤ)
    (h : (c ≠ c1 ∧ c ≠ c2) ∨ (x, y, z) ≠ (a1, a2, a3)) :
    (setPhi2 (setF (setPhi1 (setF g c1 a1 a2 a3 w1) 0 i j k q1)
      c2 a1 a2 a3 w2) 0 i j k q2).F c x y z = g.F c x y z := by
  rcases h with ⟨h1, h2⟩ | h
  · simp [setPhi2_F, setF_F_apply, setPhi1_F, h1, h2]
  · have hxyz : ¬(x = a1 ∧ y = a2 ∧ z = a3) := by
      rintro ⟨rfl, rfl, rfl⟩
      exact h rfl
    simp [setPhi2_F, setF_F_apply, setPhi1_F, hxyz]

theorem shapeO1_val1 (hne : c1 ≠ c2) :
    (setPhi2 (setF (setPhi1 (setF g c1 a1 a2 a3 w1) 0 i j k q1)
      c2 a1 a2 a3 w2) 0 i j k q2).F c1 a1 a2 a3 = w1 := by
  simp [setPhi2_F, setF_F_apply, setPhi1_F, hne]

theorem shapeO1_val2 :
    (setPhi2 (setF (setPhi1 (setF g c1 a1 a2 a3 w1) 0 i j k q1)
      c2 a1 a2 a3 w2) 0 i j k q2).F c2 a1 a2 a3 = w2 := by
  simp [setPhi2_F, setF_F_apply, setPhi1_F]

theorem shapeO1_framePhi (l i' j' k' : ℕ) (h : (i', j', k') ≠ (i, j, k)) :
    (setPhi2 (setF (setPhi1 (setF g c1 a1 a2 a3 w1) 0 i j k q1)
      c2 a1 a2 a3 w2) 0 i j k q2).Phi1 l i' j' k' = g.Phi1 l i' j' k' ∧
    (setPhi2 (setF (setPhi1 (setF g c1 a1 a2 a3 w1) 0 i j k q1)
      c2 a1 a2 a3 w2) 0 i j k q2).Phi2 l i' j' k' = g.Phi2 l i' j' k' := by
  have hijk : ¬(i' = i ∧ j' = j ∧ k' = k) := by
    rintro ⟨rfl, rfl, rfl⟩
    exact h rfl
  constructor
  · simp [setPhi2_Phi1, setF_Phi1, setPhi1_Phi1_apply, hijk]
  · simp [setPhi2_Phi2_apply, setF_Phi2, setPhi1_Phi2, hijk]

theorem shapeO1_valPhi1 (l : ℕ) :
    (setPhi2 (setF (setPhi1 (setF g c1 a1 a2 a3 w1) 0 i j k q1)
      c2 a1 a2 a3 w2) 0 i j k q2).Phi1 l i j k =
      if l = 0 then q1 else g.Phi1 l i j k := by
  by_cases hl : l = 0 <;>
    simp [setPhi2_Phi1, setF_Phi1, setPhi1_Phi1_apply, hl]

theorem shapeO1_valPhi2 (l : ℕ) :
    (setPhi2 (setF (setPhi1 (setF g c1 a1 a2 a3 w1) 0 i j k q1)
      c2 a1 a2 a3 w2) 0 i j k q2).Phi2 l i j k =
      if l = 0 then q2 else g.Phi2 l i j k := by
  by_cases hl : l = 0 <;>
    simp [setPhi2_Phi2_apply, setF_Phi2, setPhi1_Phi2, hl]

end ShapeO1

section ShapeO2

variable (g : Grid) (c1 c2 : ℕ) (a1 a2 a3 : ℤ) (i j k : ℕ)
variable (w1 w2 q1a q1b q2a q2b : ℚ)

/-- Field-frame fact for the order-2 cell shape `field1[a] = w1;
Phi1[1] = q1a; Phi1[0] = q1b; field2[a] = w2; Phi2[1] = q2a;
Phi2[0] = q2b`. -/
theorem shapeO2_frameF (c : ℕ) (x y z : ℤ)
    (h : (c ≠ c1 ∧ c ≠ c2) ∨ (x, y, z) ≠ (a1, a2, a3)) :
    (setPhi2 (setPhi2 (setF (setPhi1 (setPhi1 (setF g c1 a1 a2 a3 w1)
      1 i j k q1a) 0 i j k q1b) c2 a1 a2 a3 w2) 1 i j k q2a) 0 i j k q2b).F
      c x y z = g.F c x y z := by
  rcases h with ⟨h1, h2⟩ | h
  · simp [setPhi2_F, setF_F_apply, setPhi1_F, h1, h2]
  · have hxyz : ¬(x = a1 ∧ y = a2 ∧ z = a3) := by
      rintro ⟨rfl, rfl, rfl⟩
      exact h rfl
    simp [setPhi2_F, setF_F_apply, setPhi1_F, hxyz]

theorem shapeO2_val1 (hne : c1 ≠ c2) :
    (setPhi2 (setPhi2 (setF (setPhi1 (setPhi1 (setF g c1 a1 a2 a3 w1)
      1 i j k q1a) 0 i j k q1b) c2 a1 a2 a3 w2) 1 i j k q2a) 0 i j k q2b).F
      c1 a1 a2 a3 = w1 := by
  simp [setPhi2_F, setF_F_apply, setPhi1_F, hne]

theorem shapeO2_val2 :
    (setPhi2 (setPhi2 (setF (setPhi1 (setPhi1 (setF g c1 a1 a2 a3 w1)
      1 i j k q1a) 0 i j k q1b) c2 a1 a2 a3 w2) 1 i j k q2a) 0 i j k q2b).F
      c2 a1 a2 a3 = w2 := by
  simp [setPhi2_F, setF_F_apply, setPhi1_F]

theorem shapeO2_framePhi (l i' j' k' : ℕ) (h : (i', j', k') ≠ (i, j, k)) :
    (setPhi2 (setPhi2 (setF (setPhi1 (setPhi1 (setF g c1 a1 a2 a3 w1)
      1 i j k q1a) 0 i j k q1b) c2 a1 a2 a3 w2) 1 i j k q2a) 0 i j k q2b).Phi1
      l i' j' k' = g.Phi1 l i' j' k' ∧
    (setPhi2 (setPhi2 (setF (setPhi1 (setPhi1 (setF g c1 a1 a2 a3 w1)
      1 i j k q1a) 0 i j k q1b) c2 a1 a2 a3 w2) 1 i j k q2a) 0 i j k q2b).Phi2
      l i' j' k' = g.Phi2 l i' j' k' := by
  have hijk : ¬(i' = i ∧ j' = j ∧ k' = k) := by
    rintro ⟨rfl, rfl, rfl⟩
    exact h rfl
  constructor
  · simp [setPhi2_Phi1, setF_Phi1, setPhi1_Phi1_apply, hijk]
  · simp [setPhi2_Phi2_apply, setF_Phi2, setPhi1_Phi2, hijk]

theorem shapeO2_valPhi1 (l : ℕ) :
    (setPhi2 (setPhi2 (setF (setPhi1 (setPhi1 (setF g c1 a1 a2 a3 w1)
      1 i j k q1a) 0 i j k q1b) c2 a1 a2 a3 w2) 1 i j k q2a) 0 i j k q2b).Phi1
      l i j k = if l = 0 then q1b else if l = 1 then q1a else g.Phi1 l i j k := by
  by_cases h0 : l = 0
  · simp [setPhi2_Phi1, setF_Phi1, setPhi1_Phi1_apply, h0]
  · by_cases h1 : l = 1 <;>
      simp [setPhi2_Phi1, setF_Phi1, setPhi1_Phi1_apply, h0, h1]

theorem shapeO2_valPhi2 (l : ℕ) :
    (setPhi2 (setPhi2 (setF (setPhi1 (setPhi1 (setF g c1 a1 a2 a3 w1)
      1 i j k q1a) 0 i j k q1b) c2 a1 a2 a3 w2) 1 i j k q2a) 0 i j k q2b).Phi2
      l i j k = if l = 0 then q2b else if l = 1 then q2a else g.Phi2 l i j k := by
  by_cases h0 : l = 0
  · simp [setPhi2_Phi2_apply, setF_Phi2, setPhi1_Phi2, h0]
  · by_cases h1 : l = 1 <;>
      simp [setPhi2_Phi2_apply, setF_Phi2, setPhi1_Phi2, h0, h1]

end ShapeO2


namespace HORIPML

/-! Kernels of `gprMax/cython/pml_updates_magnetic_HORIPML.pyx`;
`e.uc` plays the role of `updatecoeffsH`. -/


/-- `dEz` of the xminus magnetic kernels (forward difference along
the normal axis, divided by `d`). -/
def o1xmH_dEz (e : PMLEnv) (i j k : ℕ) (g : Grid) : ℚ :=
  (g.F 2 (e.xf - (i + 1) + 1) (e.ys + j) (e.zs + k) -
    g.F 2 (e.xf - (i + 1)) (e.ys + j) (e.zs + k)) / e.d

/-- `dEy` of the xminus magnetic kernels (forward difference along
the normal axis, divided by `d`). -/
def o1xmH_dEy (e : PMLEnv) (i j k : ℕ) (g : Grid) : ℚ :=
  (g.F 1 (e.xf - (i + 1) + 1) (e.ys + j) (e.zs + k) -
    g.F 1 (e.xf - (i + 1)) (e.ys + j) (e.zs + k)) / e.d

/-- Value stored in `Hy[ii, jj, kk]` by one cell of `order1_xminus`. -/
def o1xmH_vHy (e : PMLEnv) (i j k : ℕ) (g : Grid) : ℚ :=
  g.F 4 (e.xf - (i + 1)) (e.ys + j) (e.zs + k) +
    e.uc (e.ID 4 (e.xf - (i + 1)) (e.ys + j) (e.zs + k)) 4 *
      ((e.RA 0 i - 1) * o1xmH_dEz e i j k g + e.RB 0 i * g.Phi1 0 i j k)

/-- Value stored in `Hz[ii, jj, kk]` by one cell of `order1_xminus`. -/
def o1xmH_vHz (e : PMLEnv) (i j k : ℕ) (g : Grid) : ℚ :=
  g.F 5 (e.xf - (i + 1)) (e.ys + j) (e.zs + k) -
    e.uc (e.ID 5 (e.xf - (i + 1)) (e.ys + j) (e.zs + k)) 4 *
      ((e.RA 0 i - 1) * o1xmH_dEy e i j k g + e.RB 0 i * g.Phi2 0 i j k)

/-- Final `Phi1` row values of one cell of `order1_xminus`. -/
def o1xmH_pPhi1 (e : PMLEnv) (l i j k : ℕ) (g : Grid) : ℚ :=
  if l = 0 then e.RE 0 i * g.Phi1 0 i j k - e.RF 0 i * o1xmH_dEz e i j k g
  else g.Phi1 l i j k

/-- Final `Phi2` row values of one cell of `order1_xminus`. -/
def o1xmH_pPhi2 (e : PMLEnv) (l i j k : ℕ) (g : Grid) : ℚ :=
  if l = 0 then e.RE 0 i * g.Phi2 0 i j k - e.RF 0 i * o1xmH_dEy e i j k g
  else g.Phi2 l i j k

/-- Loop body of `order1_xminus` (magnetic, HORIPML), translated
statement by statement from the source (loop-invariant coefficient reads,
hoisted to an outer loop in the source, are re-read per cell; they are
read-only, so this is equivalent). -/
def order1_xminus_cell (e : PMLEnv) (i j k : ℕ) (g : Grid) : Grid :=
  let ii : ℤ := e.xf - (i + 1)
  let jj : ℤ := e.ys + j
  let kk : ℤ := e.zs + k
  let RA01 : ℚ := e.RA 0 i - 1
  let RB0 : ℚ := e.RB 0 i
  let RE0 : ℚ := e.RE 0 i
  let RF0 : ℚ := e.RF 0 i
  let materialHy : ℕ := e.ID 4 ii jj kk
  let dEz : ℚ := (g.F 2 (ii + 1) jj kk - g.F 2 ii jj kk) / e.d
  let g1 : Grid := setF g 4 ii jj kk
    (g.F 4 ii jj kk + e.uc materialHy 4 *
      (RA01 * dEz + RB0 * g.Phi1 0 i j k))
  let g2 : Grid := setPhi1 g1 0 i j k (RE0 * g1.Phi1 0 i j k - RF0 * dEz)
  let materialHz : ℕ := e.ID 5 ii jj kk
  let dEy : ℚ := (g2.F 1 (ii + 1) jj kk - g2.F 1 ii jj kk) / e.d
  let g3 : Grid := setF g2 5 ii jj kk
    (g2.F 5 ii jj kk - e.uc materialHz 4 *
      (RA01 * dEy + RB0 * g2.Phi2 0 i j k))
  let g4 : Grid := setPhi2 g3 0 i j k (RE0 * g3.Phi2 0 i j k - RF0 * dEy)
  g4

/-- `order1_xminus` of `pml_updates_magnetic_HORIPML.pyx`: updates
the `Hy` and `Hz` components on the xminus slab. -/
def order1_xminus (e : PMLEnv) (g : Grid) : Grid :=
  iter3 e.nx e.ny e.nz (order1_xminus_cell e) g

/-- Cell description of `order1_xminus`. -/
def o1xmH_spec (e : PMLEnv) : CellSpec where
  c1 := 4
  c2 := 5
  addr := fun i j k => (e.xf - (i + 1), e.ys + j, e.zs + k)
  v1 := o1xmH_vHy e
  v2 := o1xmH_vHz e
  p1 := fun l i j k => o1xmH_pPhi1 e l i j k
  p2 := fun l i j k => o1xmH_pPhi2 e l i j k

theorem o1xmH_realizes (e : PMLEnv) :
    Realizes (o1xmH_spec e) e.nx e.ny e.nz (order1_xminus_cell e) := by
  constructor
  case hne =>
    simp only [o1xmH_spec]
    decide
  case inj =>
    intro i j k i' j' k' _ _ _ _ _ _ h
    simp only [o1xmH_spec, Prod.mk.injEq] at h
    refine ⟨?_, ?_, ?_⟩ <;> omega
  case frameF =>
    intro i j k g c x y z h
    simp only [o1xmH_spec] at h
    simp only [order1_xminus_cell, o1xmH_spec]
    exact shapeO1_frameF _ _ _ _ _ _ _ _ _ _ _ _ _ c x y z h
  case val1 =>
    intro i j k g
    simp only [order1_xminus_cell, o1xmH_spec]
    exact shapeO1_val1 _ _ _ _ _ _ _ _ _ _ _ _ _ (by decide)
  case val2 =>
    intro i j k g
    simp only [order1_xminus_cell, o1xmH_spec]
    exact shapeO1_val2 _ _ _ _ _ _ _ _ _ _ _ _ _ 
  case framePhi =>
    intro i j k g l i' j' k' h
    simp only [order1_xminus_cell, o1xmH_spec]
    exact shapeO1_framePhi _ _ _ _ _ _ _ _ _ _ _ _ _ l i' j' k' h
  case valP1 =>
    intro i j k g l
    simp only [order1_xminus_cell, o1xmH_spec]
    rw [shapeO1_valPhi1]
    rfl
  case valP2 =>
    intro i j k g l
    simp only [order1_xminus_cell, o1xmH_spec]
    rw [shapeO1_valPhi2]
    rfl
  case dep =>
    intro i j k g g' h
    obtain ⟨h0, h1, h2, h3, h4⟩ := h
    simp only [o1xmH_spec] at h0 h1 h2
    simp only [o1xmH_spec]
    refine ⟨?_, ?_, fun l => ?_, fun l => ?_⟩
    · simp only [o1xmH_vHy, o1xmH_dEz, h0 2 (by decide) (by decide), h1, h3]
    · simp only [o1xmH_vHz, o1xmH_dEy, h0 1 (by decide) (by decide), h2, h4]
    · simp only [o1xmH_pPhi1, o1xmH_dEz, h0 2 (by decide) (by decide), h3]
    · simp only [o1xmH_pPhi2, o1xmH_dEy, h0 1 (by decide) (by decide), h4]


/-- Value stored in `Hy[ii, jj, kk]` by one cell of `order2_xminus`. -/
def o2xmH_vHy (e : PMLEnv) (i j k : ℕ) (g : Grid) : ℚ :=
  g.F 4 (e.xf - (i + 1)) (e.ys + j) (e.zs + k) +
    e.uc (e.ID 4 (e.xf - (i + 1)) (e.ys + j) (e.zs + k)) 4 *
      ((e.RA 0 i * e.RA 1 i - 1) * o1xmH_dEz e i j k g +
        e.RA 1 i * e.RB 0 i * g.Phi1 0 i j k + e.RB 1 i * g.Phi1 1 i j k)

/-- Value stored in `Hz[ii, jj, kk]` by one cell of `order2_xminus`. -/
def o2xmH_vHz (e : PMLEnv) (i j k : ℕ) (g : Grid) : ℚ :=
  g.F 5 (e.xf - (i + 1)) (e.ys + j) (e.zs + k) -
    e.uc (e.ID 5 (e.xf - (i + 1)) (e.ys + j) (e.zs + k)) 4 *
      ((e.RA 0 i * e.RA 1 i - 1) * o1xmH_dEy e i j k g +
        e.RA 1 i * e.RB 0 i * g.Phi2 0 i j k + e.RB 1 i * g.Phi2 1 i j k)

/-- Final `Phi1` row values of one cell of `order2_xminus`: row `1`
is written first, reading the pre-update row `0`; then row `0`. -/
def o2xmH_pPhi1 (e : PMLEnv) (l i j k : ℕ) (g : Grid) : ℚ :=
  if l = 0 then e.RE 0 i * g.Phi1 0 i j k - e.RF 0 i * o1xmH_dEz e i j k g
  else if l = 1 then
    e.RE 1 i * g.Phi1 1 i j k -
      e.RF 1 i * (e.RA 0 i * o1xmH_dEz e i j k g + e.RB 0 i * g.Phi1 0 i j k)
  else g.Phi1 l i j k

/-- Final `Phi2` row values of one cell of `order2_xminus`. -/
def o2xmH_pPhi2 (e : PMLEnv) (l i j k : ℕ) (g : Grid) : ℚ :=
  if l = 0 then e.RE 0 i * g.Phi2 0 i j k - e.RF 0 i * o1xmH_dEy e i j k g
  else if l = 1 then
    e.RE 1 i * g.Phi2 1 i j k -
      e.RF 1 i * (e.RA 0 i * o1xmH_dEy e i j k g + e.RB 0 i * g.Phi2 0 i j k)
  else g.Phi2 l i j k

/-- Loop body of `order2_xminus` (magnetic, HORIPML). -/
def order2_xminus_cell (e : PMLEnv) (i j k : ℕ) (g : Grid) : Grid :=
  let ii : ℤ := e.xf - (i + 1)
  let jj : ℤ := e.ys + j
  let kk : ℤ := e.zs + k
  let RA0 : ℚ := e.RA 0 i
  let RB0 : ℚ := e.RB 0 i
  let RE0 : ℚ := e.RE 0 i
  let RF0 : ℚ := e.RF 0 i
  let RA1 : ℚ := e.RA 1 i
  let RB1 : ℚ := e.RB 1 i
  let RE1 : ℚ := e.RE 1 i
  let RF1 : ℚ := e.RF 1 i
  let RA01 : ℚ := e.RA 0 i * e.RA 1 i - 1
  let materialHy : ℕ := e.ID 4 ii jj kk
  let dEz : ℚ := (g.F 2 (ii + 1) jj kk - g.F 2 ii jj kk) / e.d
  let g1 : Grid := setF g 4 ii jj kk
    (g.F 4 ii jj kk + e.uc materialHy 4 *
      (RA01 * dEz + RA1 * RB0 * g.Phi1 0 i j k + RB1 * g.Phi1 1 i j k))
  let g2 : Grid := setPhi1 g1 1 i j k
    (RE1 * g1.Phi1 1 i j k - RF1 * (RA0 * dEz + RB0 * g1.Phi1 0 i j k))
  let g3 : Grid := setPhi1 g2 0 i j k (RE0 * g2.Phi1 0 i j k - RF0 * dEz)
  let materialHz : ℕ := e.ID 5 ii jj kk
  let dEy : ℚ := (g3.F 1 (ii + 1) jj kk - g3.F 1 ii jj kk) / e.d
  let g4 : Grid := setF g3 5 ii jj kk
    (g3.F 5 ii jj kk - e.uc materialHz 4 *
      (RA01 * dEy + RA1 * RB0 * g3.Phi2 0 i j k + RB1 * g3.Phi2 1 i j k))
  let g5 : Grid := setPhi2 g4 1 i j k
    (RE1 * g4.Phi2 1 i j k - RF1 * (RA0 * dEy + RB0 * g4.Phi2 0 i j k))
  let g6 : Grid := setPhi2 g5 0 i j k (RE0 * g5.Phi2 0 i j k - RF0 * dEy)
  g6

/-- `order2_xminus` of `pml_updates_magnetic_HORIPML.pyx`. -/
def order2_xminus (e : PMLEnv) (g : Grid) : Grid :=
  iter3 e.nx e.ny e.nz (order2_xminus_cell e) g

/-- Cell description of `order2_xminus`. -/
def o2xmH_spec (e : PMLEnv) : CellSpec where
  c1 := 4
  c2 := 5
  addr := fun i j k => (e.xf - (i + 1), e.ys + j, e.zs + k)
  v1 := o2xmH_vHy e
  v2 := o2xmH_vHz e
  p1 := fun l i j k => o2xmH_pPhi1 e l i j k
  p2 := fun l i j k => o2xmH_pPhi2 e l i j k

theorem o2xmH_realizes (e : PMLEnv) :
    Realizes (o2xmH_spec e) e.nx e.ny e.nz (order2_xminus_cell e) := by
  constructor
  case hne =>
    simp only [o2xmH_spec]
    decide
  case inj =>
    intro i j k i' j' k' _ _ _ _ _ _ h
    simp only [o2xmH_spec, Prod.mk.injEq] at h
    refine ⟨?_, ?_, ?_⟩ <;> omega
  case frameF =>
    intro i j k g c x y z h
    simp only [o2xmH_spec] at h
    simp only [order2_xminus_cell, o2xmH_spec]
    exact shapeO2_frameF _ _ _ _ _ _ _ _ _ _ _ _ _ _ _ c x y z h
  case val1 =>
    intro i j k g
    simp only [order2_xminus_cell, o2xmH_spec]
    exact shapeO2_val1 _ _ _ _ _ _ _ _ _ _ _ _ _ _ _ (by decide)
  case val2 =>
    intro i j k g
    simp only [order2_xminus_cell, o2xmH_spec]
    exact shapeO2_val2 _ _ _ _ _ _ _ _ _ _ _ _ _ _ _ 
  case framePhi =>
    intro i j k g l i' j' k' h
    simp only [order2_xminus_cell, o2xmH_spec]
    exact shapeO2_framePhi _ _ _ _ _ _ _ _ _ _ _ _ _ _ _ l i' j' k' h
  case valP1 =>
    intro i j k g l
    simp only [order2_xminus_cell, o2xmH_spec]
    rw [shapeO2_valPhi1]
    rfl
  case valP2 =>
    intro i j k g l
    simp only [order2_xminus_cell, o2xmH_spec]
    rw [shapeO2_valPhi2]
    rfl
  case dep =>
    intro i j k g g' h
    obtain ⟨h0, h1, h2, h3, h4⟩ := h
    simp only [o2xmH_spec] at h0 h1 h2
    simp only [o2xmH_spec]
    refine ⟨?_, ?_, fun l => ?_, fun l => ?_⟩
    · simp only [o2xmH_vHy, o1xmH_dEz, h0 2 (by decide) (by decide), h1, h3]
    · simp only [o2xmH_vHz, o1xmH_dEy, h0 1 (by decide) (by decide), h2, h4]
    · simp only [o2xmH_pPhi1, o1xmH_dEz, h0 2 (by decide) (by decide), h3]
    · simp only [o2xmH_pPhi2, o1xmH_dEy, h0 1 (by decide) (by decide), h4]


/-- `dEz` of the xplus magnetic kernels (forward difference along
the normal axis, divided by `d`). -/
def o1xpH_dEz (e : PMLEnv) (i j k : ℕ) (g : Grid) : ℚ :=
  (g.F 2 (e.xs + i + 1) (e.ys + j) (e.zs + k) -
    g.F 2 (e.xs + i) (e.ys + j) (e.zs + k)) / e.d

/-- `dEy` of the xplus magnetic kernels (forward difference along
the normal axis, divided by `d`). -/
def o1xpH_dEy (e : PMLEnv) (i j k : ℕ) (g : Grid) : ℚ :=
  (g.F 1 (e.xs + i + 1) (e.ys + j) (e.zs + k) -
    g.F 1 (e.xs + i) (e.ys + j) (e.zs + k)) / e.d

/-- Value stored in `Hy[ii, jj, kk]` by one cell of `order1_xplus`. -/
def o1xpH_vHy (e : PMLEnv) (i j k : ℕ) (g : Grid) : ℚ :=
  g.F 4 (e.xs + i) (e.ys + j) (e.zs + k) +
    e.uc (e.ID 4 (e.xs + i) (e.ys + j) (e.zs + k)) 4 *
      ((e.RA 0 i - 1) * o1xpH_dEz e i j k g + e.RB 0 i * g.Phi1 0 i j k)

/-- Value stored in `Hz[ii, jj, kk]` by one cell of `order1_xplus`. -/
def o1xpH_vHz (e : PMLEnv) (i j k : ℕ) (g : Grid) : ℚ :=
  g.F 5 (e.xs + i) (e.ys + j) (e.zs + k) -
    e.uc (e.ID 5 (e.xs + i) (e.ys + j) (e.zs + k)) 4 *
      ((e.RA 0 i - 1) * o1xpH_dEy e i j k g + e.RB 0 i * g.Phi2 0 i j k)

/-- Final `Phi1` row values of one cell of `order1_xplus`. -/
def o1xpH_pPhi1 (e : PMLEnv) (l i j k : ℕ) (g : Grid) : ℚ :=
  if l = 0 then e.RE 0 i * g.Phi1 0 i j k - e.RF 0 i * o1xpH_dEz e i j k g
  else g.Phi1 l i j k

/-- Final `Phi2` row values of one cell of `order1_xplus`. -/
def o1xpH_pPhi2 (e : PMLEnv) (l i j k : ℕ) (g : Grid) : ℚ :=
  if l = 0 then e.RE 0 i * g.Phi2 0 i j k - e.RF 0 i * o1xpH_dEy e i j k g
  else g.Phi2 l i j k

/-- Loop body of `order1_xplus` (magnetic, HORIPML), translated
statement by statement from the source (loop-invariant coefficient reads,
hoisted to an outer loop in the source, are re-read per cell; they are
read-only, so this is equivalent). -/
def order1_xplus_cell (e : PMLEnv) (i j k : ℕ) (g : Grid) : Grid :=
  let ii : ℤ := e.xs + i
  let jj : ℤ := e.ys + j
  let kk : ℤ := e.zs + k
  let RA01 : ℚ := e.RA 0 i - 1
  let RB0 : ℚ := e.RB 0 i
  let RE0 : ℚ := e.RE 0 i
  let RF0 : ℚ := e.RF 0 i
  let materialHy : ℕ := e.ID 4 ii jj kk
  let dEz : ℚ := (g.F 2 (ii + 1) jj kk - g.F 2 ii jj kk) / e.d
  let g1 : Grid := setF g 4 ii jj kk
    (g.F 4 ii jj kk + e.uc materialHy 4 *
      (RA01 * dEz + RB0 * g.Phi1 0 i j k))
  let g2 : Grid := setPhi1 g1 0 i j k (RE0 * g1.Phi1 0 i j k - RF0 * dEz)
  let materialHz : ℕ := e.ID 5 ii jj kk
  let dEy : ℚ := (g2.F 1 (ii + 1) jj kk - g2.F 1 ii jj kk) / e.d
  let g3 : Grid := setF g2 5 ii jj kk
    (g2.F 5 ii jj kk - e.uc materialHz 4 *
      (RA01 * dEy + RB0 * g2.Phi2 0 i j k))
  let g4 : Grid := setPhi2 g3 0 i j k (RE0 * g3.Phi2 0 i j k - RF0 * dEy)
  g4

/-- `order1_xplus` of `pml_updates_magnetic_HORIPML.pyx`: updates
the `Hy` and `Hz` components on the xplus slab. -/
def order1_xplus (e : PMLEnv) (g : Grid) : Grid :=
  iter3 e.nx e.ny e.nz (order1_xplus_cell e) g

/-- Cell description of `order1_xplus`. -/
def o1xpH_spec (e : PMLEnv) : CellSpec where
  c1 := 4
  c2 := 5
  addr := fun i j k => (e.xs + i, e.ys + j, e.zs + k)
  v1 := o1xpH_vHy e
  v2 := o1xpH_vHz e
  p1 := fun l i j k => o1xpH_pPhi1 e l i j k
  p2 := fun l i j k => o1xpH_pPhi2 e l i j k

theorem o1xpH_realizes (e : PMLEnv) :
    Realizes (o1xpH_spec e) e.nx e.ny e.nz (order1_xplus_cell e) := by
  constructor
  case hne =>
    simp only [o1xpH_spec]
    decide
  case inj =>
    intro i j k i' j' k' _ _ _ _ _ _ h
    simp only [o1xpH_spec, Prod.mk.injEq] at h
    refine ⟨?_, ?_, ?_⟩ <;> omega
  case frameF =>
    intro i j k g c x y z h
    simp only [o1xpH_spec] at h
    simp only [order1_xplus_cell, o1xpH_spec]
    exact shapeO1_frameF _ _ _ _ _ _ _ _ _ _ _ _ _ c x y z h
  case val1 =>
    intro i j k g
    simp only [order1_xplus_cell, o1xpH_spec]
    exact shapeO1_val1 _ _ _ _ _ _ _ _ _ _ _ _ _ (by decide)
  case val2 =>
    intro i j k g
    simp only [order1_xplus_cell, o1xpH_spec]
    exact shapeO1_val2 _ _ _ _ _ _ _ _ _ _ _ _ _ 
  case framePhi =>
    intro i j k g l i' j' k' h
    simp only [order1_xplus_cell, o1xpH_spec]
    exact shapeO1_framePhi _ _ _ _ _ _ _ _ _ _ _ _ _ l i' j' k' h
  case valP1 =>
    intro i j k g l
    simp only [order1_xplus_cell, o1xpH_spec]
    rw [shapeO1_valPhi1]
    rfl
  case valP2 =>
    intro i j k g l
    simp only [order1_xplus_cell, o1xpH_spec]
    rw [shapeO1_valPhi2]
    rfl
  case dep =>
    intro i j k g g' h
    obtain ⟨h0, h1, h2, h3, h4⟩ := h
    simp only [o1xpH_spec] at h0 h1 h2
    simp only [o1xpH_spec]
    refine ⟨?_, ?_, fun l => ?_, fun l => ?_⟩
    · simp only [o1xpH_vHy, o1xpH_dEz, h0 2 (by decide) (by decide), h1, h3]
    · simp only [o1xpH_vHz, o1xpH_dEy, h0 1 (by decide) (by decide), h2, h4]
    · simp only [o1xpH_pPhi1, o1xpH_dEz, h0 2 (by decide) (by decide), h3]
    · simp only [o1xpH_pPhi2, o1xpH_dEy, h0 1 (by decide) (by decide), h4]


/-- Value stored in `Hy[ii, jj, kk]` by one cell of `order2_xplus`. -/
def o2xpH_vHy (e : PMLEnv) (i j k : ℕ) (g : Grid) : ℚ :=
  g.F 4 (e.xs + i) (e.ys + j) (e.zs + k) +
    e.uc (e.ID 4 (e.xs + i) (e.ys + j) (e.zs + k)) 4 *
      ((e.RA 0 i * e.RA 1 i - 1) * o1xpH_dEz e i j k g +
        e.RA 1 i * e.RB 0 i * g.Phi1 0 i j k + e.RB 1 i * g.Phi1 1 i j k)

/-- Value stored in `Hz[ii, jj, kk]` by one cell of `order2_xplus`. -/
def o2xpH_vHz (e : PMLEnv) (i j k : ℕ) (g : Grid) : ℚ :=
  g.F 5 (e.xs + i) (e.ys + j) (e.zs + k) -
    e.uc (e.ID 5 (e.xs + i) (e.ys + j) (e.zs + k)) 4 *
      ((e.RA 0 i * e.RA 1 i - 1) * o1xpH_dEy e i j k g +
        e.RA 1 i * e.RB 0 i * g.Phi2 0 i j k + e.RB 1 i * g.Phi2 1 i j k)

/-- Final `Phi1` row values of one cell of `order2_xplus`: row `1`
is written first, reading the pre-update row `0`; then row `0`. -/
def o2xpH_pPhi1 (e : PMLEnv) (l i j k : ℕ) (g : Grid) : ℚ :=
  if l = 0 then e.RE 0 i * g.Phi1 0 i j k - e.RF 0 i * o1xpH_dEz e i j k g
  else if l = 1 then
    e.RE 1 i * g.Phi1 1 i j k -
      e.RF 1 i * (e.RA 0 i * o1xpH_dEz e i j k g + e.RB 0 i * g.Phi1 0 i j k)
  else g.Phi1 l i j k

/-- Final `Phi2` row values of one cell of `order2_xplus`. -/
def o2xpH_pPhi2 (e : PMLEnv) (l i j k : ℕ) (g : Grid) : ℚ :=
  if l = 0 then e.RE 0 i * g.Phi2 0 i j k - e.RF 0 i * o1xpH_dEy e i j k g
  else if l = 1 then
    e.RE 1 i * g.Phi2 1 i j k -
      e.RF 1 i * (e.RA 0 i * o1xpH_dEy e i j k g + e.RB 0 i * g.Phi2 0 i j k)
  else g.Phi2 l i j k

/-- Loop body of `order2_xplus` (magnetic, HORIPML). -/
def order2_xplus_cell (e : PMLEnv) (i j k : ℕ) (g : Grid) : Grid :=
  let ii : ℤ := e.xs + i
  let jj : ℤ := e.ys + j
  let kk : ℤ := e.zs + k
  let RA0 : ℚ := e.RA 0 i
  let RB0 : ℚ := e.RB 0 i
  let RE0 : ℚ := e.RE 0 i
  let RF0 : ℚ := e.RF 0 i
  let RA1 : ℚ := e.RA 1 i
  let RB1 : ℚ := e.RB 1 i
  let RE1 : ℚ := e.RE 1 i
  let RF1 : ℚ := e.RF 1 i
  let RA01 : ℚ := e.RA 0 i * e.RA 1 i - 1
  let materialHy : ℕ := e.ID 4 ii jj kk
  let dEz : ℚ := (g.F 2 (ii + 1) jj kk - g.F 2 ii jj kk) / e.d
  let g1 : Grid := setF g 4 ii jj kk
    (g.F 4 ii jj kk + e.uc materialHy 4 *
      (RA01 * dEz + RA1 * RB0 * g.Phi1 0 i j k + RB1 * g.Phi1 1 i j k))
  let g2 : Grid := setPhi1 g1 1 i j k
    (RE1 * g1.Phi1 1 i j k - RF1 * (RA0 * dEz + RB0 * g1.Phi1 0 i j k))
  let g3 : Grid := setPhi1 g2 0 i j k (RE0 * g2.Phi1 0 i j k - RF0 * dEz)
  let materialHz : ℕ := e.ID 5 ii jj kk
  let dEy : ℚ := (g3.F 1 (ii + 1) jj kk - g3.F 1 ii jj kk) / e.d
  let g4 : Grid := setF g3 5 ii jj kk
    (g3.F 5 ii jj kk - e.uc materialHz 4 *
      (RA01 * dEy + RA1 * RB0 * g3.Phi2 0 i j k + RB1 * g3.Phi2 1 i j k))
  let g5 : Grid := setPhi2 g4 1 i j k
    (RE1 * g4.Phi2 1 i j k - RF1 * (RA0 * dEy + RB0 * g4.Phi2 0 i j k))
  let g6 : Grid := setPhi2 g5 0 i j k (RE0 * g5.Phi2 0 i j k - RF0 * dEy)
  g6

/-- `order2_xplus` of `pml_updates_magnetic_HORIPML.pyx`. -/
def order2_xplus (e : PMLEnv) (g : Grid) : Grid :=
  iter3 e.nx e.ny e.nz (order2_xplus_cell e) g

/-- Cell description of `order2_xplus`. -/
def o2xpH_spec (e : PMLEnv) : CellSpec where
  c1 := 4
  c2 := 5
  addr := fun i j k => (e.xs + i, e.ys + j, e.zs + k)
  v1 := o2xpH_vHy e
  v2 := o2xpH_vHz e
  p1 := fun l i j k => o2xpH_pPhi1 e l i j k
  p2 := fun l i j k => o2xpH_pPhi2 e l i j k

theorem o2xpH_realizes (e : PMLEnv) :
    Realizes (o2xpH_spec e) e.nx e.ny e.nz (order2_xplus_cell e) := by
  constructor
  case hne =>
    simp only [o2xpH_spec]
    decide
  case inj =>
    intro i j k i' j' k' _ _ _ _ _ _ h
    simp only [o2xpH_spec, Prod.mk.injEq] at h
    refine ⟨?_, ?_, ?_⟩ <;> omega
  case frameF =>
    intro i j k g c x y z h
    simp only [o2xpH_spec] at h
    simp only [order2_xplus_cell, o2xpH_spec]
    exact shapeO2_frameF _ _ _ _ _ _ _ _ _ _ _ _ _ _ _ c x y z h
  case val1 =>
    intro i j k g
    simp only [order2_xplus_cell, o2xpH_spec]
    exact shapeO2_val1 _ _ _ _ _ _ _ _ _ _ _ _ _ _ _ (by decide)
  case val2 =>
    intro i j k g
    simp only [order2_xplus_cell, o2xpH_spec]
    exact shapeO2_val2 _ _ _ _ _ _ _ _ _ _ _ _ _ _ _ 
  case framePhi =>
    intro i j k g l i' j' k' h
    simp only [order2_xplus_cell, o2xpH_spec]
    exact shapeO2_framePhi _ _ _ _ _ _ _ _ _ _ _ _ _ _ _ l i' j' k' h
  case valP1 =>
    intro i j k g l
    simp only [order2_xplus_cell, o2xpH_spec]
    rw [shapeO2_valPhi1]
    rfl
  case valP2 =>
    intro i j k g l
    simp only [order2_xplus_cell, o2xpH_spec]
    rw [shapeO2_valPhi2]
    rfl
  case dep =>
    intro i j k g g' h
    obtain ⟨h0, h1, h2, h3, h4⟩ := h
    simp only [o2xpH_spec] at h0 h1 h2
    simp only [o2xpH_spec]
    refine ⟨?_, ?_, fun l => ?_, fun l => ?_⟩
    · simp only [o2xpH_vHy, o1xpH_dEz, h0 2 (by decide) (by decide), h1, h3]
    · simp only [o2xpH_vHz, o1xpH_dEy, h0 1 (by decide) (by decide), h2, h4]
    · simp only [o2xpH_pPhi1, o1xpH_dEz, h0 2 (by decide) (by decide), h3]
    · simp only [o2xpH_pPhi2, o1xpH_dEy, h0 1 (by decide) (by decide), h4]


/-- `dEz` of the yminus magnetic kernels (forward difference along
the normal axis, divided by `d`). -/
def o1ymH_dEz (e : PMLEnv) (i j k : ℕ) (g : Grid) : ℚ :=
  (g.F 2 (e.xs + i) (e.yf - (j + 1) + 1) (e.zs + k) -
    g.F 2 (e.xs + i) (e.yf - (j + 1)) (e.zs + k)) / e.d

/-- `dEx` of the yminus magnetic kernels (forward difference along
the normal axis, divided by `d`). -/
def o1ymH_dEx (e : PMLEnv) (i j k : ℕ) (g : Grid) : ℚ :=
  (g.F 0 (e.xs + i) (e.yf - (j + 1) + 1) (e.zs + k) -
    g.F 0 (e.xs + i) (e.yf - (j + 1)) (e.zs + k)) / e.d

/-- Value stored in `Hx[ii, jj, kk]` by one cell of `order1_yminus`. -/
def o1ymH_vHx (e : PMLEnv) (i j k : ℕ) (g : Grid) : ℚ :=
  g.F 3 (e.xs + i) (e.yf - (j + 1)) (e.zs + k) -
    e.uc (e.ID 3 (e.xs + i) (e.yf - (j + 1)) (e.zs + k)) 4 *
      ((e.RA 0 j - 1) * o1ymH_dEz e i j k g + e.RB 0 j * g.Phi1 0 i j k)

/-- Value stored in `Hz[ii, jj, kk]` by one cell of `order1_yminus`. -/
def o1ymH_vHz (e : PMLEnv) (i j k : ℕ) (g : Grid) : ℚ :=
  g.F 5 (e.xs + i) (e.yf - (j + 1)) (e.zs + k) +
    e.uc (e.ID 5 (e.xs + i) (e.yf - (j + 1)) (e.zs + k)) 4 *
      ((e.RA 0 j - 1) * o1ymH_dEx e i j k g + e.RB 0 j * g.Phi2 0 i j k)

/-- Final `Phi1` row values of one cell of `order1_yminus`. -/
def o1ymH_pPhi1 (e : PMLEnv) (l i j k : ℕ) (g : Grid) : ℚ :=
  if l = 0 then e.RE 0 j * g.Phi1 0 i j k - e.RF 0 j * o1ymH_dEz e i j k g
  else g.Phi1 l i j k

/-- Final `Phi2` row values of one cell of `order1_yminus`. -/
def o1ymH_pPhi2 (e : PMLEnv) (l i j k : ℕ) (g : Grid) : ℚ :=
  if l = 0 then e.RE 0 j * g.Phi2 0 i j k - e.RF 0 j * o1ymH_dEx e i j k g
  else g.Phi2 l i j k

/-- Loop body of `order1_yminus` (magnetic, HORIPML), translated
statement by statement from the source (loop-invariant coefficient reads,
hoisted to an outer loop in the source, are re-read per cell; they are
read-only, so this is equivalent). -/
def order1_yminus_cell (e : PMLEnv) (i j k : ℕ) (g : Grid) : Grid :=
  let ii : ℤ := e.xs + i
  let jj : ℤ := e.yf - (j + 1)
  let kk : ℤ := e.zs + k
  let RA01 : ℚ := e.RA 0 j - 1
  let RB0 : ℚ := e.RB 0 j
  let RE0 : ℚ := e.RE 0 j
  let RF0 : ℚ := e.RF 0 j
  let materialHx : ℕ := e.ID 3 ii jj kk
  let dEz : ℚ := (g.F 2 ii (jj + 1) kk - g.F 2 ii jj kk) / e.d
  let g1 : Grid := setF g 3 ii jj kk
    (g.F 3 ii jj kk - e.uc materialHx 4 *
      (RA01 * dEz + RB0 * g.Phi1 0 i j k))
  let g2 : Grid := setPhi1 g1 0 i j k (RE0 * g1.Phi1 0 i j k - RF0 * dEz)
  let materialHz : ℕ := e.ID 5 ii jj kk
  let dEx : ℚ := (g2.F 0 ii (jj + 1) kk - g2.F 0 ii jj kk) / e.d
  let g3 : Grid := setF g2 5 ii jj kk
    (g2.F 5 ii jj kk + e.uc materialHz 4 *
      (RA01 * dEx + RB0 * g2.Phi2 0 i j k))
  let g4 : Grid := setPhi2 g3 0 i j k (RE0 * g3.Phi2 0 i j k - RF0 * dEx)
  g4

/-- `order1_yminus` of `pml_updates_magnetic_HORIPML.pyx`: updates
the `Hx` and `Hz` components on the yminus slab. -/
def order1_yminus (e : PMLEnv) (g : Grid) : Grid :=
  iter3 e.nx e.ny e.nz (order1_yminus_cell e) g

/-- Cell description of `order1_yminus`. -/
def o1ymH_spec (e : PMLEnv) : CellSpec where
  c1 := 3
  c2 := 5
  addr := fun i j k => (e.xs + i, e.yf - (j + 1), e.zs + k)
  v1 := o1ymH_vHx e
  v2 := o1ymH_vHz e
  p1 := fun l i j k => o1ymH_pPhi1 e l i j k
  p2 := fun l i j k => o1ymH_pPhi2 e l i j k

theorem o1ymH_realizes (e : PMLEnv) :
    Realizes (o1ymH_spec e) e.nx e.ny e.nz (order1_yminus_cell e) := by
  constructor
  case hne =>
    simp only [o1ymH_spec]
    decide
  case inj =>
    intro i j k i' j' k' _ _ _ _ _ _ h
    simp only [o1ymH_spec, Prod.mk.injEq] at h
    refine ⟨?_, ?_, ?_⟩ <;> omega
  case frameF =>
    intro i j k g c x y z h
    simp only [o1ymH_spec] at h
    simp only [order1_yminus_cell, o1ymH_spec]
    exact shapeO1_frameF _ _ _ _ _ _ _ _ _ _ _ _ _ c x y z h
  case val1 =>
    intro i j k g
    simp only [order1_yminus_cell, o1ymH_spec]
    exact shapeO1_val1 _ _ _ _ _ _ _ _ _ _ _ _ _ (by decide)
  case val2 =>
    intro i j k g
    simp only [order1_yminus_cell, o1ymH_spec]
    exact shapeO1_val2 _ _ _ _ _ _ _ _ _ _ _ _ _ 
  case framePhi =>
    intro i j k g l i' j' k' h
    simp only [order1_yminus_cell, o1ymH_spec]
    exact shapeO1_framePhi _ _ _ _ _ _ _ _ _ _ _ _ _ l i' j' k' h
  case valP1 =>
    intro i j k g l
    simp only [order1_yminus_cell, o1ymH_spec]
    rw [shapeO1_valPhi1]
    rfl
  case valP2 =>
    intro i j k g l
    simp only [order1_yminus_cell, o1ymH_spec]
    rw [shapeO1_valPhi2]
    rfl
  case dep =>
    intro i j k g g' h
    obtain ⟨h0, h1, h2, h3, h4⟩ := h
    simp only [o1ymH_spec] at h0 h1 h2
    simp only [o1ymH_spec]
    refine ⟨?_, ?_, fun l => ?_, fun l => ?_⟩
    · simp only [o1ymH_vHx, o1ymH_dEz, h0 2 (by decide) (by decide), h1, h3]
    · simp only [o1ymH_vHz, o1ymH_dEx, h0 0 (by decide) (by decide), h2, h4]
    · simp only [o1ymH_pPhi1, o1ymH_dEz, h0 2 (by decide) (by decide), h3]
    · simp only [o1ymH_pPhi2, o1ymH_dEx, h0 0 (by decide) (by decide), h4]


/-- Value stored in `Hx[ii, jj, kk]` by one cell of `order2_yminus`. -/
def o2ymH_vHx (e : PMLEnv) (i j k : ℕ) (g : Grid) : ℚ :=
  g.F 3 (e.xs + i) (e.yf - (j + 1)) (e.zs + k) -
    e.uc (e.ID 3 (e.xs + i) (e.yf - (j + 1)) (e.zs + k)) 4 *
      ((e.RA 0 j * e.RA 1 j - 1) * o1ymH_dEz e i j k g +
        e.RA 1 j * e.RB 0 j * g.Phi1 0 i j k + e.RB 1 j * g.Phi1 1 i j k)

/-- Value stored in `Hz[ii, jj, kk]` by one cell of `order2_yminus`. -/
def o2ymH_vHz (e : PMLEnv) (i j k : ℕ) (g : Grid) : ℚ :=
  g.F 5 (e.xs + i) (e.yf - (j + 1)) (e.zs + k) +
    e.uc (e.ID 5 (e.xs + i) (e.yf - (j + 1)) (e.zs + k)) 4 *
      ((e.RA 0 j * e.RA 1 j - 1) * o1ymH_dEx e i j k g +
        e.RA 1 j * e.RB 0 j * g.Phi2 0 i j k + e.RB 1 j * g.Phi2 1 i j k)

/-- Final `Phi1` row values of one cell of `order2_yminus`: row `1`
is written first, reading the pre-update row `0`; then row `0`. -/
def o2ymH_pPhi1 (e : PMLEnv) (l i j k : ℕ) (g : Grid) : ℚ :=
  if l = 0 then e.RE 0 j * g.Phi1 0 i j k - e.RF 0 j * o1ymH_dEz e i j k g
  else if l = 1 then
    e.RE 1 j * g.Phi1 1 i j k -
      e.RF 1 j * (e.RA 0 j * o1ymH_dEz e i j k g + e.RB 0 j * g.Phi1 0 i j k)
  else g.Phi1 l i j k

/-- Final `Phi2` row values of one cell of `order2_yminus`. -/
def o2ymH_pPhi2 (e : PMLEnv) (l i j k : ℕ) (g : Grid) : ℚ :=
  if l = 0 then e.RE 0 j * g.Phi2 0 i j k - e.RF 0 j * o1ymH_dEx e i j k g
  else if l = 1 then
    e.RE 1 j * g.Phi2 1 i j k -
      e.RF 1 j * (e.RA 0 j * o1ymH_dEx e i j k g + e.RB 0 j * g.Phi2 0 i j k)
  else g.Phi2 l i j k

/-- Loop body of `order2_yminus` (magnetic, HORIPML). -/
def order2_yminus_cell (e : PMLEnv) (i j k : ℕ) (g : Grid) : Grid :=
  let ii : ℤ := e.xs + i
  let jj : ℤ := e.yf - (j + 1)
  let kk : ℤ := e.zs + k
  let RA0 : ℚ := e.RA 0 j
  let RB0 : ℚ := e.RB 0 j
  let RE0 : ℚ := e.RE 0 j
  let RF0 : ℚ := e.RF 0 j
  let RA1 : ℚ := e.RA 1 j
  let RB1 : ℚ := e.RB 1 j
  let RE1 : ℚ := e.RE 1 j
  let RF1 : ℚ := e.RF 1 j
  let RA01 : ℚ := e.RA 0 j * e.RA 1 j - 1
  let materialHx : ℕ := e.ID 3 ii jj kk
  let dEz : ℚ := (g.F 2 ii (jj + 1) kk - g.F 2 ii jj kk) / e.d
  let g1 : Grid := setF g 3 ii jj kk
    (g.F 3 ii jj kk - e.uc materialHx 4 *
      (RA01 * dEz + RA1 * RB0 * g.Phi1 0 i j k + RB1 * g.Phi1 1 i j k))
  let g2 : Grid := setPhi1 g1 1 i j k
    (RE1 * g1.Phi1 1 i j k - RF1 * (RA0 * dEz + RB0 * g1.Phi1 0 i j k))
  let g3 : Grid := setPhi1 g2 0 i j k (RE0 * g2.Phi1 0 i j k - RF0 * dEz)
  let materialHz : ℕ := e.ID 5 ii jj kk
  let dEx : ℚ := (g3.F 0 ii (jj + 1) kk - g3.F 0 ii jj kk) / e.d
  let g4 : Grid := setF g3 5 ii jj kk
    (g3.F 5 ii jj kk + e.uc materialHz 4 *
      (RA01 * dEx + RA1 * RB0 * g3.Phi2 0 i j k + RB1 * g3.Phi2 1 i j k))
  let g5 : Grid := setPhi2 g4 1 i j k
    (RE1 * g4.Phi2 1 i j k - RF1 * (RA0 * dEx + RB0 * g4.Phi2 0 i j k))
  let g6 : Grid := setPhi2 g5 0 i j k (RE0 * g5.Phi2 0 i j k - RF0 * dEx)
  g6

/-- `order2_yminus` of `pml_updates_magnetic_HORIPML.pyx`. -/
def order2_yminus (e : PMLEnv) (g : Grid) : Grid :=
  iter3 e.nx e.ny e.nz (order2_yminus_cell e) g

/-- Cell description of `order2_yminus`. -/
def o2ymH_spec (e : PMLEnv) : CellSpec where
  c1 := 3
  c2 := 5
  addr := fun i j k => (e.xs + i, e.yf - (j + 1), e.zs + k)
  v1 := o2ymH_vHx e
  v2 := o2ymH_vHz e
  p1 := fun l i j k => o2ymH_pPhi1 e l i j k
  p2 := fun l i j k => o2ymH_pPhi2 e l i j k

theorem o2ymH_realizes (e : PMLEnv) :
    Realizes (o2ymH_spec e) e.nx e.ny e.nz (order2_yminus_cell e) := by
  constructor
  case hne =>
    simp only [o2ymH_spec]
    decide
  case inj =>
    intro i j k i' j' k' _ _ _ _ _ _ h
    simp only [o2ymH_spec, Prod.mk.injEq] at h
    refine ⟨?_, ?_, ?_⟩ <;> omega
  case frameF =>
    intro i j k g c x y z h
    simp only [o2ymH_spec] at h
    simp only [order2_yminus_cell, o2ymH_spec]
    exact shapeO2_frameF _ _ _ _ _ _ _ _ _ _ _ _ _ _ _ c x y z h
  case val1 =>
    intro i j k g
    simp only [order2_yminus_cell, o2ymH_spec]
    exact shapeO2_val1 _ _ _ _ _ _ _ _ _ _ _ _ _ _ _ (by decide)
  case val2 =>
    intro i j k g
    simp only [order2_yminus_cell, o2ymH_spec]
    exact shapeO2_val2 _ _ _ _ _ _ _ _ _ _ _ _ _ _ _ 
  case framePhi =>
    intro i j k g l i' j' k' h
    simp only [order2_yminus_cell, o2ymH_spec]
    exact shapeO2_framePhi _ _ _ _ _ _ _ _ _ _ _ _ _ _ _ l i' j' k' h
  case valP1 =>
    intro i j k g l
    simp only [order2_yminus_cell, o2ymH_spec]
    rw [shapeO2_valPhi1]
    rfl
  case valP2 =>
    intro i j k g l
    simp only [order2_yminus_cell, o2ymH_spec]
    rw [shapeO2_valPhi2]
    rfl
  case dep =>
    intro i j k g g' h
    obtain ⟨h0, h1, h2, h3, h4⟩ := h
    simp only [o2ymH_spec] at h0 h1 h2
    simp only [o2ymH_spec]
    refine ⟨?_, ?_, fun l => ?_, fun l => ?_⟩
    · simp only [o2ymH_vHx, o1ymH_dEz, h0 2 (by decide) (by decide), h1, h3]
    · simp only [o2ymH_vHz, o1ymH_dEx, h0 0 (by decide) (by decide), h2, h4]
    · simp only [o2ymH_pPhi1, o1ymH_dEz, h0 2 (by decide) (by decide), h3]
    · simp only [o2ymH_pPhi2, o1ymH_dEx, h0 0 (by decide) (by decide), h4]


/-- `dEz` of the yplus magnetic kernels (forward difference along
the normal axis, divided by `d`). -/
def o1ypH_dEz (e : PMLEnv) (i j k : ℕ) (g : Grid) : ℚ :=
  (g.F 2 (e.xs + i) (e.ys + j + 1) (e.zs + k) -
    g.F 2 (e.xs + i) (e.ys + j) (e.zs + k)) / e.d

/-- `dEx` of the yplus magnetic kernels (forward difference along
the normal axis, divided by `d`). -/
def o1ypH_dEx (e : PMLEnv) (i j k : ℕ) (g : Grid) : ℚ :=
  (g.F 0 (e.xs + i) (e.ys + j + 1) (e.zs + k) -
    g.F 0 (e.xs + i) (e.ys + j) (e.zs + k)) / e.d

/-- Value stored in `Hx[ii, jj, kk]` by one cell of `order1_yplus`. -/
def o1ypH_vHx (e : PMLEnv) (i j k : ℕ) (g : Grid) : ℚ :=
  g.F 3 (e.xs + i) (e.ys + j) (e.zs + k) -
    e.uc (e.ID 3 (e.xs + i) (e.ys + j) (e.zs + k)) 4 *
      ((e.RA 0 j - 1) * o1ypH_dEz e i j k g + e.RB 0 j * g.Phi1 0 i j k)

/-- Value stored in `Hz[ii, jj, kk]` by one cell of `order1_yplus`. -/
def o1ypH_vHz (e : PMLEnv) (i j k : ℕ) (g : Grid) : ℚ :=
  g.F 5 (e.xs + i) (e.ys + j) (e.zs + k) +
    e.uc (e.ID 5 (e.xs + i) (e.ys + j) (e.zs + k)) 4 *
      ((e.RA 0 j - 1) * o1ypH_dEx e i j k g + e.RB 0 j * g.Phi2 0 i j k)

/-- Final `Phi1` row values of one cell of `order1_yplus`. -/
def o1ypH_pPhi1 (e : PMLEnv) (l i j k : ℕ) (g : Grid) : ℚ :=
  if l = 0 then e.RE 0 j * g.Phi1 0 i j k - e.RF 0 j * o1ypH_dEz e i j k g
  else g.Phi1 l i j k

/-- Final `Phi2` row values of one cell of `order1_yplus`. -/
def o1ypH_pPhi2 (e : PMLEnv) (l i j k : ℕ) (g : Grid) : ℚ :=
  if l = 0 then e.RE 0 j * g.Phi2 0 i j k - e.RF 0 j * o1ypH_dEx e i j k g
  else g.Phi2 l i j k

/-- Loop body of `order1_yplus` (magnetic, HORIPML), translated
statement by statement from the source (loop-invariant coefficient reads,
hoisted to an outer loop in the source, are re-read per cell; they are
read-only, so this is equivalent). -/
def order1_yplus_cell (e : PMLEnv) (i j k : ℕ) (g : Grid) : Grid :=
  let ii : ℤ := e.xs + i
  let jj : ℤ := e.ys + j
  let kk : ℤ := e.zs + k
  let RA01 : ℚ := e.RA 0 j - 1
  let RB0 : ℚ := e.RB 0 j
  let RE0 : ℚ := e.RE 0 j
  let RF0 : ℚ := e.RF 0 j
  let materialHx : ℕ := e.ID 3 ii jj kk
  let dEz : ℚ := (g.F 2 ii (jj + 1) kk - g.F 2 ii jj kk) / e.d
  let g1 : Grid := setF g 3 ii jj kk
    (g.F 3 ii jj kk - e.uc materialHx 4 *
      (RA01 * dEz + RB0 * g.Phi1 0 i j k))
  let g2 : Grid := setPhi1 g1 0 i j k (RE0 * g1.Phi1 0 i j k - RF0 * dEz)
  let materialHz : ℕ := e.ID 5 ii jj kk
  let dEx : ℚ := (g2.F 0 ii (jj + 1) kk - g2.F 0 ii jj kk) / e.d
  let g3 : Grid := setF g2 5 ii jj kk
    (g2.F 5 ii jj kk + e.uc materialHz 4 *
      (RA01 * dEx + RB0 * g2.Phi2 0 i j k))
  let g4 : Grid := setPhi2 g3 0 i j k (RE0 * g3.Phi2 0 i j k - RF0 * dEx)
  g4

/-- `order1_yplus` of `pml_updates_magnetic_HORIPML.pyx`: updates
the `Hx` and `Hz` components on the yplus slab. -/
def order1_yplus (e : PMLEnv) (g : Grid) : Grid :=
  iter3 e.nx e.ny e.nz (order1_yplus_cell e) g

/-- Cell description of `order1_yplus`. -/
def o1ypH_spec (e : PMLEnv) : CellSpec where
  c1 := 3
  c2 := 5
  addr := fun i j k => (e.xs + i, e.ys + j, e.zs + k)
  v1 := o1ypH_vHx e
  v2 := o1ypH_vHz e
  p1 := fun l i j k => o1ypH_pPhi1 e l i j k
  p2 := fun l i j k => o1ypH_pPhi2 e l i j k

theorem o1ypH_realizes (e : PMLEnv) :
    Realizes (o1ypH_spec e) e.nx e.ny e.nz (order1_yplus_cell e) := by
  constructor
  case hne =>
    simp only [o1ypH_spec]
    decide
  case inj =>
    intro i j k i' j' k' _ _ _ _ _ _ h
    simp only [o1ypH_spec, Prod.mk.injEq] at h
    refine ⟨?_, ?_, ?_⟩ <;> omega
  case frameF =>
    intro i j k g c x y z h
    simp only [o1ypH_spec] at h
    simp only [order1_yplus_cell, o1ypH_spec]
    exact shapeO1_frameF _ _ _ _ _ _ _ _ _ _ _ _ _ c x y z h
  case val1 =>
    intro i j k g
    simp only [order1_yplus_cell, o1ypH_spec]
    exact shapeO1_val1 _ _ _ _ _ _ _ _ _ _ _ _ _ (by decide)
  case val2 =>
    intro i j k g
    simp only [order1_yplus_cell, o1ypH_spec]
    exact shapeO1_val2 _ _ _ _ _ _ _ _ _ _ _ _ _ 
  case framePhi =>
    intro i j k g l i' j' k' h
    simp only [order1_yplus_cell, o1ypH_spec]
    exact shapeO1_framePhi _ _ _ _ _ _ _ _ _ _ _ _ _ l i' j' k' h
  case valP1 =>
    intro i j k g l
    simp only [order1_yplus_cell, o1ypH_spec]
    rw [shapeO1_valPhi1]
    rfl
  case valP2 =>
    intro i j k g l
    simp only [order1_yplus_cell, o1ypH_spec]
    rw [shapeO1_valPhi2]
    rfl
  case dep =>
    intro i j k g g' h
    obtain ⟨h0, h1, h2, h3, h4⟩ := h
    simp only [o1ypH_spec] at h0 h1 h2
    simp only [o1ypH_spec]
    refine ⟨?_, ?_, fun l => ?_, fun l => ?_⟩
    · simp only [o1ypH_vHx, o1ypH_dEz, h0 2 (by decide) (by decide), h1, h3]
    · simp only [o1ypH_vHz, o1ypH_dEx, h0 0 (by decide) (by decide), h2, h4]
    · simp only [o1ypH_pPhi1, o1ypH_dEz, h0 2 (by decide) (by decide), h3]
    · simp only [o1ypH_pPhi2, o1ypH_dEx, h0 0 (by decide) (by decide), h4]


/-- Value stored in `Hx[ii, jj, kk]` by one cell of `order2_yplus`. -/
def o2ypH_vHx (e : PMLEnv) (i j k : ℕ) (g : Grid) : ℚ :=
  g.F 3 (e.xs + i) (e.ys + j) (e.zs + k) -
    e.uc (e.ID 3 (e.xs + i) (e.ys + j) (e.zs + k)) 4 *
      ((e.RA 0 j * e.RA 1 j - 1) * o1ypH_dEz e i j k g +
        e.RA 1 j * e.RB 0 j * g.Phi1 0 i j k + e.RB 1 j * g.Phi1 1 i j k)

/-- Value stored in `Hz[ii, jj, kk]` by one cell of `order2_yplus`. -/
def o2ypH_vHz (e : PMLEnv) (i j k : ℕ) (g : Grid) : ℚ :=
  g.F 5 (e.xs + i) (e.ys + j) (e.zs + k) +
    e.uc (e.ID 5 (e.xs + i) (e.ys + j) (e.zs + k)) 4 *
      ((e.RA 0 j * e.RA 1 j - 1) * o1ypH_dEx e i j k g +
        e.RA 1 j * e.RB 0 j * g.Phi2 0 i j k + e.RB 1 j * g.Phi2 1 i j k)

/-- Final `Phi1` row values of one cell of `order2_yplus`: row `1`
is written first, reading the pre-update row `0`; then row `0`. -/
def o2ypH_pPhi1 (e : PMLEnv) (l i j k : ℕ) (g : Grid) : ℚ :=
  if l = 0 then e.RE 0 j * g.Phi1 0 i j k - e.RF 0 j * o1ypH_dEz e i j k g
  else if l = 1 then
    e.RE 1 j * g.Phi1 1 i j k -
      e.RF 1 j * (e.RA 0 j * o1ypH_dEz e i j k g + e.RB 0 j * g.Phi1 0 i j k)
  else g.Phi1 l i j k

/-- Final `Phi2` row values of one cell of `order2_yplus`. -/
def o2ypH_pPhi2 (e : PMLEnv) (l i j k : ℕ) (g : Grid) : ℚ :=
  if l = 0 then e.RE 0 j * g.Phi2 0 i j k - e.RF 0 j * o1ypH_dEx e i j k g
  else if l = 1 then
    e.RE 1 j * g.Phi2 1 i j k -
      e.RF 1 j * (e.RA 0 j * o1ypH_dEx e i j k g + e.RB 0 j * g.Phi2 0 i j k)
  else g.Phi2 l i j k

/-- Loop body of `order2_yplus` (magnetic, HORIPML). -/
def order2_yplus_cell (e : PMLEnv) (i j k : ℕ) (g : Grid) : Grid :=
  let ii : ℤ := e.xs + i
  let jj : ℤ := e.ys + j
  let kk : ℤ := e.zs + k
  let RA0 : ℚ := e.RA 0 j
  let RB0 : ℚ := e.RB 0 j
  let RE0 : ℚ := e.RE 0 j
  let RF0 : ℚ := e.RF 0 j
  let RA1 : ℚ := e.RA 1 j
  let RB1 : ℚ := e.RB 1 j
  let RE1 : ℚ := e.RE 1 j
  let RF1 : ℚ := e.RF 1 j
  let RA01 : ℚ := e.RA 0 j * e.RA 1 j - 1
  let materialHx : ℕ := e.ID 3 ii jj kk
  let dEz : ℚ := (g.F 2 ii (jj + 1) kk - g.F 2 ii jj kk) / e.d
  let g1 : Grid := setF g 3 ii jj kk
    (g.F 3 ii jj kk - e.uc materialHx 4 *
      (RA01 * dEz + RA1 * RB0 * g.Phi1 0 i j k + RB1 * g.Phi1 1 i j k))
  let g2 : Grid := setPhi1 g1 1 i j k
    (RE1 * g1.Phi1 1 i j k - RF1 * (RA0 * dEz + RB0 * g1.Phi1 0 i j k))
  let g3 : Grid := setPhi1 g2 0 i j k (RE0 * g2.Phi1 0 i j k - RF0 * dEz)
  let materialHz : ℕ := e.ID 5 ii jj kk
  let dEx : ℚ := (g3.F 0 ii (jj + 1) kk - g3.F 0 ii jj kk) / e.d
  let g4 : Grid := setF g3 5 ii jj kk
    (g3.F 5 ii jj kk + e.uc materialHz 4 *
      (RA01 * dEx + RA1 * RB0 * g3.Phi2 0 i j k + RB1 * g3.Phi2 1 i j k))
  let g5 : Grid := setPhi2 g4 1 i j k
    (RE1 * g4.Phi2 1 i j k - RF1 * (RA0 * dEx + RB0 * g4.Phi2 0 i j k))
  let g6 : Grid := setPhi2 g5 0 i j k (RE0 * g5.Phi2 0 i j k - RF0 * dEx)
  g6

/-- `order2_yplus` of `pml_updates_magnetic_HORIPML.pyx`. -/
def order2_yplus (e : PMLEnv) (g : Grid) : Grid :=
  iter3 e.nx e.ny e.nz (order2_yplus_cell e) g

/-- Cell description of `order2_yplus`. -/
def o2ypH_spec (e : PMLEnv) : CellSpec where
  c1 := 3
  c2 := 5
  addr := fun i j k => (e.xs + i, e.ys + j, e.zs + k)
  v1 := o2ypH_vHx e
  v2 := o2ypH_vHz e
  p1 := fun l i j k => o2ypH_pPhi1 e l i j k
  p2 := fun l i j k => o2ypH_pPhi2 e l i j k

theorem o2ypH_realizes (e : PMLEnv) :
    Realizes (o2ypH_spec e) e.nx e.ny e.nz (order2_yplus_cell e) := by
  constructor
  case hne =>
    simp only [o2ypH_spec]
    decide
  case inj =>
    intro i j k i' j' k' _ _ _ _ _ _ h
    simp only [o2ypH_spec, Prod.mk.injEq] at h
    refine ⟨?_, ?_, ?_⟩ <;> omega
  case frameF =>
    intro i j k g c x y z h
    simp only [o2ypH_spec] at h
    simp only [order2_yplus_cell, o2ypH_spec]
    exact shapeO2_frameF _ _ _ _ _ _ _ _ _ _ _ _ _ _ _ c x y z h
  case val1 =>
    intro i j k g
    simp only [order2_yplus_cell, o2ypH_spec]
    exact shapeO2_val1 _ _ _ _ _ _ _ _ _ _ _ _ _ _ _ (by decide)
  case val2 =>
    intro i j k g
    simp only [order2_yplus_cell, o2ypH_spec]
    exact shapeO2_val2 _ _ _ _ _ _ _ _ _ _ _ _ _ _ _ 
  case framePhi =>
    intro i j k g l i' j' k' h
    simp only [order2_yplus_cell, o2ypH_spec]
    exact shapeO2_framePhi _ _ _ _ _ _ _ _ _ _ _ _ _ _ _ l i' j' k' h
  case valP1 =>
    intro i j k g l
    simp only [order2_yplus_cell, o2ypH_spec]
    rw [shapeO2_valPhi1]
    rfl
  case valP2 =>
    intro i j k g l
    simp only [order2_yplus_cell, o2ypH_spec]
    rw [shapeO2_valPhi2]
    rfl
  case dep =>
    intro i j k g g' h
    obtain ⟨h0, h1, h2, h3, h4⟩ := h
    simp only [o2ypH_spec] at h0 h1 h2
    simp only [o2ypH_spec]
    refine ⟨?_, ?_, fun l => ?_, fun l => ?_⟩
    · simp only [o2ypH_vHx, o1ypH_dEz, h0 2 (by decide) (by decide), h1, h3]
    · simp only [o2ypH_vHz, o1ypH_dEx, h0 0 (by decide) (by decide), h2, h4]
    · simp only [o2ypH_pPhi1, o1ypH_dEz, h0 2 (by decide) (by decide), h3]
    · simp only [o2ypH_pPhi2, o1ypH_dEx, h0 0 (by decide) (by decide), h4]


/-- `dEy` of the zminus magnetic kernels (forward difference along
the normal axis, divided by `d`). -/
def o1zmH_dEy (e : PMLEnv) (i j k : ℕ) (g : Grid) : ℚ :=
  (g.F 1 (e.xs + i) (e.ys + j) (e.zf - (k + 1) + 1) -
    g.F 1 (e.xs + i) (e.ys + j) (e.zf - (k + 1))) / e.d

/-- `dEx` of the zminus magnetic kernels (forward difference along
the normal axis, divided by `d`). -/
def o1zmH_dEx (e : PMLEnv) (i j k : ℕ) (g : Grid) : ℚ :=
  (g.F 0 (e.xs + i) (e.ys + j) (e.zf - (k + 1) + 1) -
    g.F 0 (e.xs + i) (e.ys + j) (e.zf - (k + 1))) / e.d

/-- Value stored in `Hx[ii, jj, kk]` by one cell of `order1_zminus`. -/
def o1zmH_vHx (e : PMLEnv) (i j k : ℕ) (g : Grid) : ℚ :=
  g.F 3 (e.xs + i) (e.ys + j) (e.zf - (k + 1)) +
    e.uc (e.ID 3 (e.xs + i) (e.ys + j) (e.zf - (k + 1))) 4 *
      ((e.RA 0 k - 1) * o1zmH_dEy e i j k g + e.RB 0 k * g.Phi1 0 i j k)

/-- Value stored in `Hy[ii, jj, kk]` by one cell of `order1_zminus`. -/
def o1zmH_vHy (e : PMLEnv) (i j k : ℕ) (g : Grid) : ℚ :=
  g.F 4 (e.xs + i) (e.ys + j) (e.zf - (k + 1)) -
    e.uc (e.ID 4 (e.xs + i) (e.ys + j) (e.zf - (k + 1))) 4 *
      ((e.RA 0 k - 1) * o1zmH_dEx e i j k g + e.RB 0 k * g.Phi2 0 i j k)

/-- Final `Phi1` row values of one cell of `order1_zminus`. -/
def o1zmH_pPhi1 (e : PMLEnv) (l i j k : ℕ) (g : Grid) : ℚ :=
  if l = 0 then e.RE 0 k * g.Phi1 0 i j k - e.RF 0 k * o1zmH_dEy e i j k g
  else g.Phi1 l i j k

/-- Final `Phi2` row values of one cell of `order1_zminus`. -/
def o1zmH_pPhi2 (e : PMLEnv) (l i j k : ℕ) (g : Grid) : ℚ :=
  if l = 0 then e.RE 0 k * g.Phi2 0 i j k - e.RF 0 k * o1zmH_dEx e i j k g
  else g.Phi2 l i j k

/-- Loop body of `order1_zminus` (magnetic, HORIPML), translated
statement by statement from the source (loop-invariant coefficient reads,
hoisted to an outer loop in the source, are re-read per cell; they are
read-only, so this is equivalent). -/
def order1_zminus_cell (e : PMLEnv) (i j k : ℕ) (g : Grid) : Grid :=
  let ii : ℤ := e.xs + i
  let jj : ℤ := e.ys + j
  let kk : ℤ := e.zf - (k + 1)
  let RA01 : ℚ := e.RA 0 k - 1
  let RB0 : ℚ := e.RB 0 k
  let RE0 : ℚ := e.RE 0 k
  let RF0 : ℚ := e.RF 0 k
  let materialHx : ℕ := e.ID 3 ii jj kk
  let dEy : ℚ := (g.F 1 ii jj (kk + 1) - g.F 1 ii jj kk) / e.d
  let g1 : Grid := setF g 3 ii jj kk
    (g.F 3 ii jj kk + e.uc materialHx 4 *
      (RA01 * dEy + RB0 * g.Phi1 0 i j k))
  let g2 : Grid := setPhi1 g1 0 i j k (RE0 * g1.Phi1 0 i j k - RF0 * dEy)
  let materialHy : ℕ := e.ID 4 ii jj kk
  let dEx : ℚ := (g2.F 0 ii jj (kk + 1) - g2.F 0 ii jj kk) / e.d
  let g3 : Grid := setF g2 4 ii jj kk
    (g2.F 4 ii jj kk - e.uc materialHy 4 *
      (RA01 * dEx + RB0 * g2.Phi2 0 i j k))
  let g4 : Grid := setPhi2 g3 0 i j k (RE0 * g3.Phi2 0 i j k - RF0 * dEx)
  g4

/-- `order1_zminus` of `pml_updates_magnetic_HORIPML.pyx`: updates
the `Hx` and `Hy` components on the zminus slab. -/
def order1_zminus (e : PMLEnv) (g : Grid) : Grid :=
  iter3 e.nx e.ny e.nz (order1_zminus_cell e) g

/-- Cell description of `order1_zminus`. -/
def o1zmH_spec (e : PMLEnv) : CellSpec where
  c1 := 3
  c2 := 4
  addr := fun i j k => (e.xs + i, e.ys + j, e.zf - (k + 1))
  v1 := o1zmH_vHx e
  v2 := o1zmH_vHy e
  p1 := fun l i j k => o1zmH_pPhi1 e l i j k
  p2 := fun l i j k => o1zmH_pPhi2 e l i j k

theorem o1zmH_realizes (e : PMLEnv) :
    Realizes (o1zmH_spec e) e.nx e.ny e.nz (order1_zminus_cell e) := by
  constructor
  case hne =>
    simp only [o1zmH_spec]
    decide
  case inj =>
    intro i j k i' j' k' _ _ _ _ _ _ h
    simp only [o1zmH_spec, Prod.mk.injEq] at h
    refine ⟨?_, ?_, ?_⟩ <;> omega
  case frameF =>
    intro i j k g c x y z h
    simp only [o1zmH_spec] at h
    simp only [order1_zminus_cell, o1zmH_spec]
    exact shapeO1_frameF _ _ _ _ _ _ _ _ _ _ _ _ _ c x y z h
  case val1 =>
    intro i j k g
    simp only [order1_zminus_cell, o1zmH_spec]
    exact shapeO1_val1 _ _ _ _ _ _ _ _ _ _ _ _ _ (by decide)
  case val2 =>
    intro i j k g
    simp only [order1_zminus_cell, o1zmH_spec]
    exact shapeO1_val2 _ _ _ _ _ _ _ _ _ _ _ _ _ 
  case framePhi =>
    intro i j k g l i' j' k' h
    simp only [order1_zminus_cell, o1zmH_spec]
    exact shapeO1_framePhi _ _ _ _ _ _ _ _ _ _ _ _ _ l i' j' k' h
  case valP1 =>
    intro i j k g l
    simp only [order1_zminus_cell, o1zmH_spec]
    rw [shapeO1_valPhi1]
    rfl
  case valP2 =>
    intro i j k g l
    simp only [order1_zminus_cell, o1zmH_spec]
    rw [shapeO1_valPhi2]
    rfl
  case dep =>
    intro i j k g g' h
    obtain ⟨h0, h1, h2, h3, h4⟩ := h
    simp only [o1zmH_spec] at h0 h1 h2
    simp only [o1zmH_spec]
    refine ⟨?_, ?_, fun l => ?_, fun l => ?_⟩
    · simp only [o1zmH_vHx, o1zmH_dEy, h0 1 (by decide) (by decide), h1, h3]
    · simp only [o1zmH_vHy, o1zmH_dEx, h0 0 (by decide) (by decide), h2, h4]
    · simp only [o1zmH_pPhi1, o1zmH_dEy, h0 1 (by decide) (by decide), h3]
    · simp only [o1zmH_pPhi2, o1zmH_dEx, h0 0 (by decide) (by decide), h4]


/-- Value stored in `Hx[ii, jj, kk]` by one cell of `order2_zminus`. -/
def o2zmH_vHx (e : PMLEnv) (i j k : ℕ) (g : Grid) : ℚ :=
  g.F 3 (e.xs + i) (e.ys + j) (e.zf - (k + 1)) +
    e.uc (e.ID 3 (e.xs + i) (e.ys + j) (e.zf - (k + 1))) 4 *
      ((e.RA 0 k * e.RA 1 k - 1) * o1zmH_dEy e i j k g +
        e.RA 1 k * e.RB 0 k * g.Phi1 0 i j k + e.RB 1 k * g.Phi1 1 i j k)

/-- Value stored in `Hy[ii, jj, kk]` by one cell of `order2_zminus`. -/
def o2zmH_vHy (e : PMLEnv) (i j k : ℕ) (g : Grid) : ℚ :=
  g.F 4 (e.xs + i) (e.ys + j) (e.zf - (k + 1)) -
    e.uc (e.ID 4 (e.xs + i) (e.ys + j) (e.zf - (k + 1))) 4 *
      ((e.RA 0 k * e.RA 1 k - 1) * o1zmH_dEx e i j k g +
        e.RA 1 k * e.RB 0 k * g.Phi2 0 i j k + e.RB 1 k * g.Phi2 1 i j k)

/-- Final `Phi1` row values of one cell of `order2_zminus`: row `1`
is written first, reading the pre-update row `0`; then row `0`. -/
def o2zmH_pPhi1 (e : PMLEnv) (l i j k : ℕ) (g : Grid) : ℚ :=
  if l = 0 then e.RE 0 k * g.Phi1 0 i j k - e.RF 0 k * o1zmH_dEy e i j k g
  else if l = 1 then
    e.RE 1 k * g.Phi1 1 i j k -
      e.RF 1 k * (e.RA 0 k * o1zmH_dEy e i j k g + e.RB 0 k * g.Phi1 0 i j k)
  else g.Phi1 l i j k

/-- Final `Phi2` row values of one cell of `order2_zminus`. -/
def o2zmH_pPhi2 (e : PMLEnv) (l i j k : ℕ) (g : Grid) : ℚ :=
  if l = 0 then e.RE 0 k * g.Phi2 0 i j k - e.RF 0 k * o1zmH_dEx e i j k g
  else if l = 1 then
    e.RE 1 k * g.Phi2 1 i j k -
      e.RF 1 k * (e.RA 0 k * o1zmH_dEx e i j k g + e.RB 0 k * g.Phi2 0 i j k)
  else g.Phi2 l i j k

/-- Loop body of `order2_zminus` (magnetic, HORIPML). -/
def order2_zminus_cell (e : PMLEnv) (i j k : ℕ) (g : Grid) : Grid :=
  let ii : ℤ := e.xs + i
  let jj : ℤ := e.ys + j
  let kk : ℤ := e.zf - (k + 1)
  let RA0 : ℚ := e.RA 0 k
  let RB0 : ℚ := e.RB 0 k
  let RE0 : ℚ := e.RE 0 k
  let RF0 : ℚ := e.RF 0 k
  let RA1 : ℚ := e.RA 1 k
  let RB1 : ℚ := e.RB 1 k
  let RE1 : ℚ := e.RE 1 k
  let RF1 : ℚ := e.RF 1 k
  let RA01 : ℚ := e.RA 0 k * e.RA 1 k - 1
  let materialHx : ℕ := e.ID 3 ii jj kk
  let dEy : ℚ := (g.F 1 ii jj (kk + 1) - g.F 1 ii jj kk) / e.d
  let g1 : Grid := setF g 3 ii jj kk
    (g.F 3 ii jj kk + e.uc materialHx 4 *
      (RA01 * dEy + RA1 * RB0 * g.Phi1 0 i j k + RB1 * g.Phi1 1 i j k))
  let g2 : Grid := setPhi1 g1 1 i j k
    (RE1 * g1.Phi1 1 i j k - RF1 * (RA0 * dEy + RB0 * g1.Phi1 0 i j k))
  let g3 : Grid := setPhi1 g2 0 i j k (RE0 * g2.Phi1 0 i j k - RF0 * dEy)
  let materialHy : ℕ := e.ID 4 ii jj kk
  let dEx : ℚ := (g3.F 0 ii jj (kk + 1) - g3.F 0 ii jj kk) / e.d
  let g4 : Grid := setF g3 4 ii jj kk
    (g3.F 4 ii jj kk - e.uc materialHy 4 *
      (RA01 * dEx + RA1 * RB0 * g3.Phi2 0 i j k + RB1 * g3.Phi2 1 i j k))
  let g5 : Grid := setPhi2 g4 1 i j k
    (RE1 * g4.Phi2 1 i j k - RF1 * (RA0 * dEx + RB0 * g4.Phi2 0 i j k))
  let g6 : Grid := setPhi2 g5 0 i j k (RE0 * g5.Phi2 0 i j k - RF0 * dEx)
  g6

/-- `order2_zminus` of `pml_updates_magnetic_HORIPML.pyx`. -/
def order2_zminus (e : PMLEnv) (g : Grid) : Grid :=
  iter3 e.nx e.ny e.nz (order2_zminus_cell e) g

/-- Cell description of `order2_zminus`. -/
def o2zmH_spec (e : PMLEnv) : CellSpec where
  c1 := 3
  c2 := 4
  addr := fun i j k => (e.xs + i, e.ys + j, e.zf - (k + 1))
  v1 := o2zmH_vHx e
  v2 := o2zmH_vHy e
  p1 := fun l i j k => o2zmH_pPhi1 e l i j k
  p2 := fun l i j k => o2zmH_pPhi2 e l i j k

theorem o2zmH_realizes (e : PMLEnv) :
    Realizes (o2zmH_spec e) e.nx e.ny e.nz (order2_zminus_cell e) := by
  constructor
  case hne =>
    simp only [o2zmH_spec]
    decide
  case inj =>
    intro i j k i' j' k' _ _ _ _ _ _ h
    simp only [o2zmH_spec, Prod.mk.injEq] at h
    refine ⟨?_, ?_, ?_⟩ <;> omega
  case frameF =>
    intro i j k g c x y z h
    simp only [o2zmH_spec] at h
    simp only [order2_zminus_cell, o2zmH_spec]
    exact shapeO2_frameF _ _ _ _ _ _ _ _ _ _ _ _ _ _ _ c x y z h
  case val1 =>
    intro i j k g
    simp only [order2_zminus_cell, o2zmH_spec]
    exact shapeO2_val1 _ _ _ _ _ _ _ _ _ _ _ _ _ _ _ (by decide)
  case val2 =>
    intro i j k g
    simp only [order2_zminus_cell, o2zmH_spec]
    exact shapeO2_val2 _ _ _ _ _ _ _ _ _ _ _ _ _ _ _ 
  case framePhi =>
    intro i j k g l i' j' k' h
    simp only [order2_zminus_cell, o2zmH_spec]
    exact shapeO2_framePhi _ _ _ _ _ _ _ _ _ _ _ _ _ _ _ l i' j' k' h
  case valP1 =>
    intro i j k g l
    simp only [order2_zminus_cell, o2zmH_spec]
    rw [shapeO2_valPhi1]
    rfl
  case valP2 =>
    intro i j k g l
    simp only [order2_zminus_cell, o2zmH_spec]
    rw [shapeO2_valPhi2]
    rfl
  case dep =>
    intro i j k g g' h
    obtain ⟨h0, h1, h2, h3, h4⟩ := h
    simp only [o2zmH_spec] at h0 h1 h2
    simp only [o2zmH_spec]
    refine ⟨?_, ?_, fun l => ?_, fun l => ?_⟩
    · simp only [o2zmH_vHx, o1zmH_dEy, h0 1 (by decide) (by decide), h1, h3]
    · simp only [o2zmH_vHy, o1zmH_dEx, h0 0 (by decide) (by decide), h2, h4]
    · simp only [o2zmH_pPhi1, o1zmH_dEy, h0 1 (by decide) (by decide), h3]
    · simp only [o2zmH_pPhi2, o1zmH_dEx, h0 0 (by decide) (by decide), h4]


/-- `dEy` of the zplus magnetic kernels (forward difference along
the normal axis, divided by `d`). -/
def o1zpH_dEy (e : PMLEnv) (i j k : ℕ) (g : Grid) : ℚ :=
  (g.F 1 (e.xs + i) (e.ys + j) (e.zs + k + 1) -
    g.F 1 (e.xs + i) (e.ys + j) (e.zs + k)) / e.d

/-- `dEx` of the zplus magnetic kernels (forward difference along
the normal axis, divided by `d`). -/
def o1zpH_dEx (e : PMLEnv) (i j k : ℕ) (g : Grid) : ℚ :=
  (g.F 0 (e.xs + i) (e.ys + j) (e.zs + k + 1) -
    g.F 0 (e.xs + i) (e.ys + j) (e.zs + k)) / e.d

/-- Value stored in `Hx[ii, jj, kk]` by one cell of `order1_zplus`. -/
def o1zpH_vHx (e : PMLEnv) (i j k : ℕ) (g : Grid) : ℚ :=
  g.F 3 (e.xs + i) (e.ys + j) (e.zs + k) +
    e.uc (e.ID 3 (e.xs + i) (e.ys + j) (e.zs + k)) 4 *
      ((e.RA 0 k - 1) * o1zpH_dEy e i j k g + e.RB 0 k * g.Phi1 0 i j k)

/-- Value stored in `Hy[ii, jj, kk]` by one cell of `order1_zplus`. -/
def o1zpH_vHy (e : PMLEnv) (i j k : ℕ) (g : Grid) : ℚ :=
  g.F 4 (e.xs + i) (e.ys + j) (e.zs + k) -
    e.uc (e.ID 4 (e.xs + i) (e.ys + j) (e.zs + k)) 4 *
      ((e.RA 0 k - 1) * o1zpH_dEx e i j k g + e.RB 0 k * g.Phi2 0 i j k)

/-- Final `Phi1` row values of one cell of `order1_zplus`. -/
def o1zpH_pPhi1 (e : PMLEnv) (l i j k : ℕ) (g : Grid) : ℚ :=
  if l = 0 then e.RE 0 k * g.Phi1 0 i j k - e.RF 0 k * o1zpH_dEy e i j k g
  else g.Phi1 l i j k

/-- Final `Phi2` row values of one cell of `order1_zplus`. -/
def o1zpH_pPhi2 (e : PMLEnv) (l i j k : ℕ) (g : Grid) : ℚ :=
  if l = 0 then e.RE 0 k * g.Phi2 0 i j k - e.RF 0 k * o1zpH_dEx e i j k g
  else g.Phi2 l i j k

/-- Loop body of `order1_zplus` (magnetic, HORIPML), translated
statement by statement from the source (loop-invariant coefficient reads,
hoisted to an outer loop in the source, are re-read per cell; they are
read-only, so this is equivalent). -/
def order1_zplus_cell (e : PMLEnv) (i j k : ℕ) (g : Grid) : Grid :=
  let ii : ℤ := e.xs + i
  let jj : ℤ := e.ys + j
  let kk : ℤ := e.zs + k
  let RA01 : ℚ := e.RA 0 k - 1
  let RB0 : ℚ := e.RB 0 k
  let RE0 : ℚ := e.RE 0 k
  let RF0 : ℚ := e.RF 0 k
  let materialHx : ℕ := e.ID 3 ii jj kk
  let dEy : ℚ := (g.F 1 ii jj (kk + 1) - g.F 1 ii jj kk) / e.d
  let g1 : Grid := setF g 3 ii jj kk
    (g.F 3 ii jj kk + e.uc materialHx 4 *
      (RA01 * dEy + RB0 * g.Phi1 0 i j k))
  let g2 : Grid := setPhi1 g1 0 i j k (RE0 * g1.Phi1 0 i j k - RF0 * dEy)
  let materialHy : ℕ := e.ID 4 ii jj kk
  let dEx : ℚ := (g2.F 0 ii jj (kk + 1) - g2.F 0 ii jj kk) / e.d
  let g3 : Grid := setF g2 4 ii jj kk
    (g2.F 4 ii jj kk - e.uc materialHy 4 *
      (RA01 * dEx + RB0 * g2.Phi2 0 i j k))
  let g4 : Grid := setPhi2 g3 0 i j k (RE0 * g3.Phi2 0 i j k - RF0 * dEx)
  g4

/-- `order1_zplus` of `pml_updates_magnetic_HORIPML.pyx`: updates
the `Hx` and `Hy` components on the zplus slab. -/
def order1_zplus (e : PMLEnv) (g : Grid) : Grid :=
  iter3 e.nx e.ny e.nz (order1_zplus_cell e) g

/-- Cell description of `order1_zplus`. -/
def o1zpH_spec (e : PMLEnv) : CellSpec where
  c1 := 3
  c2 := 4
  addr := fun i j k => (e.xs + i, e.ys + j, e.zs + k)
  v1 := o1zpH_vHx e
  v2 := o1zpH_vHy e
  p1 := fun l i j k => o1zpH_pPhi1 e l i j k
  p2 := fun l i j k => o1zpH_pPhi2 e l i j k

theorem o1zpH_realizes (e : PMLEnv) :
    Realizes (o1zpH_spec e) e.nx e.ny e.nz (order1_zplus_cell e) := by
  constructor
  case hne =>
    simp only [o1zpH_spec]
    decide
  case inj =>
    intro i j k i' j' k' _ _ _ _ _ _ h
    simp only [o1zpH_spec, Prod.mk.injEq] at h
    refine ⟨?_, ?_, ?_⟩ <;> omega
  case frameF =>
    intro i j k g c x y z h
    simp only [o1zpH_spec] at h
    simp only [order1_zplus_cell, o1zpH_spec]
    exact shapeO1_frameF _ _ _ _ _ _ _ _ _ _ _ _ _ c x y z h
  case val1 =>
    intro i j k g
    simp only [order1_zplus_cell, o1zpH_spec]
    exact shapeO1_val1 _ _ _ _ _ _ _ _ _ _ _ _ _ (by decide)
  case val2 =>
    intro i j k g
    simp only [order1_zplus_cell, o1zpH_spec]
    exact shapeO1_val2 _ _ _ _ _ _ _ _ _ _ _ _ _ 
  case framePhi =>
    intro i j k g l i' j' k' h
    simp only [order1_zplus_cell, o1zpH_spec]
    exact shapeO1_framePhi _ _ _ _ _ _ _ _ _ _ _ _ _ l i' j' k' h
  case valP1 =>
    intro i j k g l
    simp only [order1_zplus_cell, o1zpH_spec]
    rw [shapeO1_valPhi1]
    rfl
  case valP2 =>
    intro i j k g l
    simp only [order1_zplus_cell, o1zpH_spec]
    rw [shapeO1_valPhi2]
    rfl
  case dep =>
    intro i j k g g' h
    obtain ⟨h0, h1, h2, h3, h4⟩ := h
    simp only [o1zpH_spec] at h0 h1 h2
    simp only [o1zpH_spec]
    refine ⟨?_, ?_, fun l => ?_, fun l => ?_⟩
    · simp only [o1zpH_vHx, o1zpH_dEy, h0 1 (by decide) (by decide), h1, h3]
    · simp only [o1zpH_vHy, o1zpH_dEx, h0 0 (by decide) (by decide), h2, h4]
    · simp only [o1zpH_pPhi1, o1zpH_dEy, h0 1 (by decide) (by decide), h3]
    · simp only [o1zpH_pPhi2, o1zpH_dEx, h0 0 (by decide) (by decide), h4]


/-- Value stored in `Hx[ii, jj, kk]` by one cell of `order2_zplus`. -/
def o2zpH_vHx (e : PMLEnv) (i j k : ℕ) (g : Grid) : ℚ :=
  g.F 3 (e.xs + i) (e.ys + j) (e.zs + k) +
    e.uc (e.ID 3 (e.xs + i) (e.ys + j) (e.zs + k)) 4 *
      ((e.RA 0 k * e.RA 1 k - 1) * o1zpH_dEy e i j k g +
        e.RA 1 k * e.RB 0 k * g.Phi1 0 i j k + e.RB 1 k * g.Phi1 1 i j k)

/-- Value stored in `Hy[ii, jj, kk]` by one cell of `order2_zplus`. -/
def o2zpH_vHy (e : PMLEnv) (i j k : ℕ) (g : Grid) : ℚ :=
  g.F 4 (e.xs + i) (e.ys + j) (e.zs + k) -
    e.uc (e.ID 4 (e.xs + i) (e.ys + j) (e.zs + k)) 4 *
      ((e.RA 0 k * e.RA 1 k - 1) * o1zpH_dEx e i j k g +
        e.RA 1 k * e.RB 0 k * g.Phi2 0 i j k + e.RB 1 k * g.Phi2 1 i j k)

/-- Final `Phi1` row values of one cell of `order2_zplus`: row `1`
is written first, reading the pre-update row `0`; then row `0`. -/
def o2zpH_pPhi1 (e : PMLEnv) (l i j k : ℕ) (g : Grid) : ℚ :=
  if l = 0 then e.RE 0 k * g.Phi1 0 i j k - e.RF 0 k * o1zpH_dEy e i j k g
  else if l = 1 then
    e.RE 1 k * g.Phi1 1 i j k -
      e.RF 1 k * (e.RA 0 k * o1zpH_dEy e i j k g + e.RB 0 k * g.Phi1 0 i j k)
  else g.Phi1 l i j k

/-- Final `Phi2` row values of one cell of `order2_zplus`. -/
def o2zpH_pPhi2 (e : PMLEnv) (l i j k : ℕ) (g : Grid) : ℚ :=
  if l = 0 then e.RE 0 k * g.Phi2 0 i j k - e.RF 0 k * o1zpH_dEx e i j k g
  else if l = 1 then
    e.RE 1 k * g.Phi2 1 i j k -
      e.RF 1 k * (e.RA 0 k * o1zpH_dEx e i j k g + e.RB 0 k * g.Phi2 0 i j k)
  else g.Phi2 l i j k

/-- Loop body of `order2_zplus` (magnetic, HORIPML). -/
def order2_zplus_cell (e : PMLEnv) (i j k : ℕ) (g : Grid) : Grid :=
  let ii : ℤ := e.xs + i
  let jj : ℤ := e.ys + j
  let kk : ℤ := e.zs + k
  let RA0 : ℚ := e.RA 0 k
  let RB0 : ℚ := e.RB 0 k
  let RE0 : ℚ := e.RE 0 k
  let RF0 : ℚ := e.RF 0 k
  let RA1 : ℚ := e.RA 1 k
  let RB1 : ℚ := e.RB 1 k
  let RE1 : ℚ := e.RE 1 k
  let RF1 : ℚ := e.RF 1 k
  let RA01 : ℚ := e.RA 0 k * e.RA 1 k - 1
  let materialHx : ℕ := e.ID 3 ii jj kk
  let dEy : ℚ := (g.F 1 ii jj (kk + 1) - g.F 1 ii jj kk) / e.d
  let g1 : Grid := setF g 3 ii jj kk
    (g.F 3 ii jj kk + e.uc materialHx 4 *
      (RA01 * dEy + RA1 * RB0 * g.Phi1 0 i j k + RB1 * g.Phi1 1 i j k))
  let g2 : Grid := setPhi1 g1 1 i j k
    (RE1 * g1.Phi1 1 i j k - RF1 * (RA0 * dEy + RB0 * g1.Phi1 0 i j k))
  let g3 : Grid := setPhi1 g2 0 i j k (RE0 * g2.Phi1 0 i j k - RF0 * dEy)
  let materialHy : ℕ := e.ID 4 ii jj kk
  let dEx : ℚ := (g3.F 0 ii jj (kk + 1) - g3.F 0 ii jj kk) / e.d
  let g4 : Grid := setF g3 4 ii jj kk
    (g3.F 4 ii jj kk - e.uc materialHy 4 *
      (RA01 * dEx + RA1 * RB0 * g3.Phi2 0 i j k + RB1 * g3.Phi2 1 i j k))
  let g5 : Grid := setPhi2 g4 1 i j k
    (RE1 * g4.Phi2 1 i j k - RF1 * (RA0 * dEx + RB0 * g4.Phi2 0 i j k))
  let g6 : Grid := setPhi2 g5 0 i j k (RE0 * g5.Phi2 0 i j k - RF0 * dEx)
  g6

/-- `order2_zplus` of `pml_updates_magnetic_HORIPML.pyx`. -/
def order2_zplus (e : PMLEnv) (g : Grid) : Grid :=
  iter3 e.nx e.ny e.nz (order2_zplus_cell e) g

/-- Cell description of `order2_zplus`. -/
def o2zpH_spec (e : PMLEnv) : CellSpec where
  c1 := 3
  c2 := 4
  addr := fun i j k => (e.xs + i, e.ys + j, e.zs + k)
  v1 := o2zpH_vHx e
  v2 := o2zpH_vHy e
  p1 := fun l i j k => o2zpH_pPhi1 e l i j k
  p2 := fun l i j k => o2zpH_pPhi2 e l i j k

theorem o2zpH_realizes (e : PMLEnv) :
    Realizes (o2zpH_spec e) e.nx e.ny e.nz (order2_zplus_cell e) := by
  constructor
  case hne =>
    simp only [o2zpH_spec]
    decide
  case inj =>
    intro i j k i' j' k' _ _ _ _ _ _ h
    simp only [o2zpH_spec, Prod.mk.injEq] at h
    refine ⟨?_, ?_, ?_⟩ <;> omega
  case frameF =>
    intro i j k g c x y z h
    simp only [o2zpH_spec] at h
    simp only [order2_zplus_cell, o2zpH_spec]
    exact shapeO2_frameF _ _ _ _ _ _ _ _ _ _ _ _ _ _ _ c x y z h
  case val1 =>
    intro i j k g
    simp only [order2_zplus_cell, o2zpH_spec]
    exact shapeO2_val1 _ _ _ _ _ _ _ _ _ _ _ _ _ _ _ (by decide)
  case val2 =>
    intro i j k g
    simp only [order2_zplus_cell, o2zpH_spec]
    exact shapeO2_val2 _ _ _ _ _ _ _ _ _ _ _ _ _ _ _ 
  case framePhi =>
    intro i j k g l i' j' k' h
    simp only [order2_zplus_cell, o2zpH_spec]
    exact shapeO2_framePhi _ _ _ _ _ _ _ _ _ _ _ _ _ _ _ l i' j' k' h
  case valP1 =>
    intro i j k g l
    simp only [order2_zplus_cell, o2zpH_spec]
    rw [shapeO2_valPhi1]
    rfl
  case valP2 =>
    intro i j k g l
    simp only [order2_zplus_cell, o2zpH_spec]
    rw [shapeO2_valPhi2]
    rfl
  case dep =>
    intro i j k g g' h
    obtain ⟨h0, h1, h2, h3, h4⟩ := h
    simp only [o2zpH_spec] at h0 h1 h2
    simp only [o2zpH_spec]
    refine ⟨?_, ?_, fun l => ?_, fun l => ?_⟩
    · simp only [o2zpH_vHx, o1zpH_dEy, h0 1 (by decide) (by decide), h1, h3]
    · simp only [o2zpH_vHy, o1zpH_dEx, h0 0 (by decide) (by decide), h2, h4]
    · simp only [o2zpH_pPhi1, o1zpH_dEy, h0 1 (by decide) (by decide), h3]
    · simp only [o2zpH_pPhi2, o1zpH_dEx, h0 0 (by decide) (by decide), h4]


end HORIPML


namespace MRIPML

/-! Kernels of `gprMax/cython/pml_updates_electric_MRIPML.pyx`;
`e.uc` plays the role of `updatecoeffsE`. -/


/-- `dHz` of the xminus electric kernels (backward difference along
the normal axis, divided by `d`). -/
def o1xmE_dHz (e : PMLEnv) (i j k : ℕ) (g : Grid) : ℚ :=
  (g.F 5 (e.xf - i) (e.ys + j) (e.zs + k) -
    g.F 5 (e.xf - i - 1) (e.ys + j) (e.zs + k)) / e.d

/-- `dHy` of the xminus electric kernels (backward difference along
the normal axis, divided by `d`). -/
def o1xmE_dHy (e : PMLEnv) (i j k : ℕ) (g : Grid) : ℚ :=
  (g.F 4 (e.xf - i) (e.ys + j) (e.zs + k) -
    g.F 4 (e.xf - i - 1) (e.ys + j) (e.zs + k)) / e.d

/-- Value stored in `Ey[ii, jj, kk]` by one cell of `order1_xminus`
(`IRA = 1 / RA[0, i]`, `IRA1 = IRA - 1`). -/
def o1xmE_vEy (e : PMLEnv) (i j k : ℕ) (g : Grid) : ℚ :=
  g.F 1 (e.xf - i) (e.ys + j) (e.zs + k) -
    e.uc (e.ID 1 (e.xf - i) (e.ys + j) (e.zs + k)) 4 *
      ((1 / e.RA 0 i - 1) * o1xmE_dHz e i j k g -
        1 / e.RA 0 i * g.Phi1 0 i j k)

/-- Value stored in `Ez[ii, jj, kk]` by one cell of `order1_xminus`. -/
def o1xmE_vEz (e : PMLEnv) (i j k : ℕ) (g : Grid) : ℚ :=
  g.F 2 (e.xf - i) (e.ys + j) (e.zs + k) +
    e.uc (e.ID 2 (e.xf - i) (e.ys + j) (e.zs + k)) 4 *
      ((1 / e.RA 0 i - 1) * o1xmE_dHy e i j k g -
        1 / e.RA 0 i * g.Phi2 0 i j k)

/-- Final `Phi1` row values of one cell of `order1_xminus`
(`RC0 = IRA * RB[0, i] * RF[0, i]`; the `- RC0 * Phi1[0]` term reads
the pre-update value). -/
def o1xmE_pPhi1 (e : PMLEnv) (l i j k : ℕ) (g : Grid) : ℚ :=
  if l = 0 then
    e.RE 0 i * g.Phi1 0 i j k +
      1 / e.RA 0 i * e.RB 0 i * e.RF 0 i * o1xmE_dHz e i j k g -
      1 / e.RA 0 i * e.RB 0 i * e.RF 0 i * g.Phi1 0 i j k
  else g.Phi1 l i j k

/-- Final `Phi2` row values of one cell of `order1_xminus`. -/
def o1xmE_pPhi2 (e : PMLEnv) (l i j k : ℕ) (g : Grid) : ℚ :=
  if l = 0 then
    e.RE 0 i * g.Phi2 0 i j k +
      1 / e.RA 0 i * e.RB 0 i * e.RF 0 i * o1xmE_dHy e i j k g -
      1 / e.RA 0 i * e.RB 0 i * e.RF 0 i * g.Phi2 0 i j k
  else g.Phi2 l i j k

/-- Loop body of `order1_xminus` (electric, MRIPML), translated
statement by statement from the source (loop-invariant coefficient reads,
hoisted to an outer loop in the source, are re-read per cell; they are
read-only, so this is equivalent). -/
def order1_xminus_cell (e : PMLEnv) (i j k : ℕ) (g : Grid) : Grid :=
  let ii : ℤ := e.xf - i
  let jj : ℤ := e.ys + j
  let kk : ℤ := e.zs + k
  let IRA : ℚ := 1 / e.RA 0 i
  let IRA1 : ℚ := IRA - 1
  let RB0 : ℚ := e.RB 0 i
  let RE0 : ℚ := e.RE 0 i
  let RF0 : ℚ := e.RF 0 i
  let RC0 : ℚ := IRA * RB0 * RF0
  let materialEy : ℕ := e.ID 1 ii jj kk
  let dHz : ℚ := (g.F 5 ii jj kk - g.F 5 (ii - 1) jj kk) / e.d
  let g1 : Grid := setF g 1 ii jj kk
    (g.F 1 ii jj kk - e.uc materialEy 4 *
      (IRA1 * dHz - IRA * g.Phi1 0 i j k))
  let g2 : Grid := setPhi1 g1 0 i j k
    (RE0 * g1.Phi1 0 i j k + RC0 * dHz - RC0 * g1.Phi1 0 i j k)
  let materialEz : ℕ := e.ID 2 ii jj kk
  let dHy : ℚ := (g2.F 4 ii jj kk - g2.F 4 (ii - 1) jj kk) / e.d
  let g3 : Grid := setF g2 2 ii jj kk
    (g2.F 2 ii jj kk + e.uc materialEz 4 *
      (IRA1 * dHy - IRA * g2.Phi2 0 i j k))
  let g4 : Grid := setPhi2 g3 0 i j k
    (RE0 * g3.Phi2 0 i j k + RC0 * dHy - RC0 * g3.Phi2 0 i j k)
  g4

/-- `order1_xminus` of `pml_updates_electric_MRIPML.pyx`: updates
the `Ey` and `Ez` components on the xminus slab. -/
def order1_xminus (e : PMLEnv) (g : Grid) : Grid :=
  iter3 e.nx e.ny e.nz (order1_xminus_cell e) g

/-- Cell description of `order1_xminus`. -/
def o1xmE_spec (e : PMLEnv) : CellSpec where
  c1 := 1
  c2 := 2
  addr := fun i j k => (e.xf - i, e.ys + j, e.zs + k)
  v1 := o1xmE_vEy e
  v2 := o1xmE_vEz e
  p1 := fun l i j k => o1xmE_pPhi1 e l i j k
  p2 := fun l i j k => o1xmE_pPhi2 e l i j k

theorem o1xmE_realizes (e : PMLEnv) :
    Realizes (o1xmE_spec e) e.nx e.ny e.nz (order1_xminus_cell e) := by
  constructor
  case hne =>
    simp only [o1xmE_spec]
    decide
  case inj =>
    intro i j k i' j' k' _ _ _ _ _ _ h
    simp only [o1xmE_spec, Prod.mk.injEq] at h
    refine ⟨?_, ?_, ?_⟩ <;> omega
  case frameF =>
    intro i j k g c x y z h
    simp only [o1xmE_spec] at h
    simp only [order1_xminus_cell, o1xmE_spec]
    exact shapeO1_frameF _ _ _ _ _ _ _ _ _ _ _ _ _ c x y z h
  case val1 =>
    intro i j k g
    simp only [order1_xminus_cell, o1xmE_spec]
    exact shapeO1_val1 _ _ _ _ _ _ _ _ _ _ _ _ _ (by decide)
  case val2 =>
    intro i j k g
    simp only [order1_xminus_cell, o1xmE_spec]
    exact shapeO1_val2 _ _ _ _ _ _ _ _ _ _ _ _ _ 
  case framePhi =>
    intro i j k g l i' j' k' h
    simp only [order1_xminus_cell, o1xmE_spec]
    exact shapeO1_framePhi _ _ _ _ _ _ _ _ _ _ _ _ _ l i' j' k' h
  case valP1 =>
    intro i j k g l
    simp only [order1_xminus_cell, o1xmE_spec]
    rw [shapeO1_valPhi1]
    rfl
  case valP2 =>
    intro i j k g l
    simp only [order1_xminus_cell, o1xmE_spec]
    rw [shapeO1_valPhi2]
    rfl
  case dep =>
    intro i j k g g' h
    obtain ⟨h0, h1, h2, h3, h4⟩ := h
    simp only [o1xmE_spec] at h0 h1 h2
    simp only [o1xmE_spec]
    refine ⟨?_, ?_, fun l => ?_, fun l => ?_⟩
    · simp only [o1xmE_vEy, o1xmE_dHz, h0 5 (by decide) (by decide), h1, h3]
    · simp only [o1xmE_vEz, o1xmE_dHy, h0 4 (by decide) (by decide), h2, h4]
    · simp only [o1xmE_pPhi1, o1xmE_dHz, h0 5 (by decide) (by decide), h3]
    · simp only [o1xmE_pPhi2, o1xmE_dHy, h0 4 (by decide) (by decide), h4]


/-- Value stored in `Ey[ii, jj, kk]` by one cell of `order2_xminus`
(`IRA = 1 / (RA[0, i] + RA[1, i])`, `Psi1 = RB[0]*Phi1[0] + RB[1]*Phi1[1]`). -/
def o2xmE_vEy (e : PMLEnv) (i j k : ℕ) (g : Grid) : ℚ :=
  g.F 1 (e.xf - i) (e.ys + j) (e.zs + k) -
    e.uc (e.ID 1 (e.xf - i) (e.ys + j) (e.zs + k)) 4 *
      ((1 / (e.RA 0 i + e.RA 1 i) - 1) * o1xmE_dHz e i j k g -
        1 / (e.RA 0 i + e.RA 1 i) * (e.RB 0 i * g.Phi1 0 i j k + e.RB 1 i * g.Phi1 1 i j k))

/-- Value stored in `Ez[ii, jj, kk]` by one cell of `order2_xminus`. -/
def o2xmE_vEz (e : PMLEnv) (i j k : ℕ) (g : Grid) : ℚ :=
  g.F 2 (e.xf - i) (e.ys + j) (e.zs + k) +
    e.uc (e.ID 2 (e.xf - i) (e.ys + j) (e.zs + k)) 4 *
      ((1 / (e.RA 0 i + e.RA 1 i) - 1) * o1xmE_dHy e i j k g -
        1 / (e.RA 0 i + e.RA 1 i) * (e.RB 0 i * g.Phi2 0 i j k + e.RB 1 i * g.Phi2 1 i j k))

/-- Final `Phi1` row values of one cell of `order2_xminus`
(`RC0 = IRA * RF[0, i]`, `RC1 = IRA * RF[1, i]`; both rows read the
pre-update `Psi1`). -/
def o2xmE_pPhi1 (e : PMLEnv) (l i j k : ℕ) (g : Grid) : ℚ :=
  if l = 0 then
    e.RE 0 i * g.Phi1 0 i j k +
      1 / (e.RA 0 i + e.RA 1 i) * e.RF 0 i * (o1xmE_dHz e i j k g - (e.RB 0 i * g.Phi1 0 i j k + e.RB 1 i * g.Phi1 1 i j k))
  else if l = 1 then
    e.RE 1 i * g.Phi1 1 i j k +
      1 / (e.RA 0 i + e.RA 1 i) * e.RF 1 i * (o1xmE_dHz e i j k g - (e.RB 0 i * g.Phi1 0 i j k + e.RB 1 i * g.Phi1 1 i j k))
  else g.Phi1 l i j k

/-- Final `Phi2` row values of one cell of `order2_xminus`. -/
def o2xmE_pPhi2 (e : PMLEnv) (l i j k : ℕ) (g : Grid) : ℚ :=
  if l = 0 then
    e.RE 0 i * g.Phi2 0 i j k +
      1 / (e.RA 0 i + e.RA 1 i) * e.RF 0 i * (o1xmE_dHy e i j k g - (e.RB 0 i * g.Phi2 0 i j k + e.RB 1 i * g.Phi2 1 i j k))
  else if l = 1 then
    e.RE 1 i * g.Phi2 1 i j k +
      1 / (e.RA 0 i + e.RA 1 i) * e.RF 1 i * (o1xmE_dHy e i j k g - (e.RB 0 i * g.Phi2 0 i j k + e.RB 1 i * g.Phi2 1 i j k))
  else g.Phi2 l i j k

/-- Loop body of `order2_xminus` (electric, MRIPML). -/
def order2_xminus_cell (e : PMLEnv) (i j k : ℕ) (g : Grid) : Grid :=
  let ii : ℤ := e.xf - i
  let jj : ℤ := e.ys + j
  let kk : ℤ := e.zs + k
  let IRA : ℚ := 1 / (e.RA 0 i + e.RA 1 i)
  let IRA1 : ℚ := IRA - 1
  let RB0 : ℚ := e.RB 0 i
  let RE0 : ℚ := e.RE 0 i
  let RF0 : ℚ := e.RF 0 i
  let RC0 : ℚ := IRA * RF0
  let RB1 : ℚ := e.RB 1 i
  let RE1 : ℚ := e.RE 1 i
  let RF1 : ℚ := e.RF 1 i
  let RC1 : ℚ := IRA * RF1
  let Psi1 : ℚ := RB0 * g.Phi1 0 i j k + RB1 * g.Phi1 1 i j k
  let Psi2 : ℚ := RB0 * g.Phi2 0 i j k + RB1 * g.Phi2 1 i j k
  let materialEy : ℕ := e.ID 1 ii jj kk
  let dHz : ℚ := (g.F 5 ii jj kk - g.F 5 (ii - 1) jj kk) / e.d
  let g1 : Grid := setF g 1 ii jj kk
    (g.F 1 ii jj kk - e.uc materialEy 4 *
      (IRA1 * dHz - IRA * Psi1))
  let g2 : Grid := setPhi1 g1 1 i j k (RE1 * g1.Phi1 1 i j k + RC1 * (dHz - Psi1))
  let g3 : Grid := setPhi1 g2 0 i j k (RE0 * g2.Phi1 0 i j k + RC0 * (dHz - Psi1))
  let materialEz : ℕ := e.ID 2 ii jj kk
  let dHy : ℚ := (g3.F 4 ii jj kk - g3.F 4 (ii - 1) jj kk) / e.d
  let g4 : Grid := setF g3 2 ii jj kk
    (g3.F 2 ii jj kk + e.uc materialEz 4 *
      (IRA1 * dHy - IRA * Psi2))
  let g5 : Grid := setPhi2 g4 1 i j k (RE1 * g4.Phi2 1 i j k + RC1 * (dHy - Psi2))
  let g6 : Grid := setPhi2 g5 0 i j k (RE0 * g5.Phi2 0 i j k + RC0 * (dHy - Psi2))
  g6

/-- `order2_xminus` of `pml_updates_electric_MRIPML.pyx`. -/
def order2_xminus (e : PMLEnv) (g : Grid) : Grid :=
  iter3 e.nx e.ny e.nz (order2_xminus_cell e) g

/-- Cell description of `order2_xminus`. -/
def o2xmE_spec (e : PMLEnv) : CellSpec where
  c1 := 1
  c2 := 2
  addr := fun i j k => (e.xf - i, e.ys + j, e.zs + k)
  v1 := o2xmE_vEy e
  v2 := o2xmE_vEz e
  p1 := fun l i j k => o2xmE_pPhi1 e l i j k
  p2 := fun l i j k => o2xmE_pPhi2 e l i j k

theorem o2xmE_realizes (e : PMLEnv) :
    Realizes (o2xmE_spec e) e.nx e.ny e.nz (order2_xminus_cell e) := by
  constructor
  case hne =>
    simp only [o2xmE_spec]
    decide
  case inj =>
    intro i j k i' j' k' _ _ _ _ _ _ h
    simp only [o2xmE_spec, Prod.mk.injEq] at h
    refine ⟨?_, ?_, ?_⟩ <;> omega
  case frameF =>
    intro i j k g c x y z h
    simp only [o2xmE_spec] at h
    simp only [order2_xminus_cell, o2xmE_spec]
    exact shapeO2_frameF _ _ _ _ _ _ _ _ _ _ _ _ _ _ _ c x y z h
  case val1 =>
    intro i j k g
    simp only [order2_xminus_cell, o2xmE_spec]
    exact shapeO2_val1 _ _ _ _ _ _ _ _ _ _ _ _ _ _ _ (by decide)
  case val2 =>
    intro i j k g
    simp only [order2_xminus_cell, o2xmE_spec]
    exact shapeO2_val2 _ _ _ _ _ _ _ _ _ _ _ _ _ _ _ 
  case framePhi =>
    intro i j k g l i' j' k' h
    simp only [order2_xminus_cell, o2xmE_spec]
    exact shapeO2_framePhi _ _ _ _ _ _ _ _ _ _ _ _ _ _ _ l i' j' k' h
  case valP1 =>
    intro i j k g l
    simp only [order2_xminus_cell, o2xmE_spec]
    rw [shapeO2_valPhi1]
    rfl
  case valP2 =>
    intro i j k g l
    simp only [order2_xminus_cell, o2xmE_spec]
    rw [shapeO2_valPhi2]
    rfl
  case dep =>
    intro i j k g g' h
    obtain ⟨h0, h1, h2, h3, h4⟩ := h
    simp only [o2xmE_spec] at h0 h1 h2
    simp only [o2xmE_spec]
    refine ⟨?_, ?_, fun l => ?_, fun l => ?_⟩
    · simp only [o2xmE_vEy, o1xmE_dHz, h0 5 (by decide) (by decide), h1, h3]
    · simp only [o2xmE_vEz, o1xmE_dHy, h0 4 (by decide) (by decide), h2, h4]
    · simp only [o2xmE_pPhi1, o1xmE_dHz, h0 5 (by decide) (by decide), h3]
    · simp only [o2xmE_pPhi2, o1xmE_dHy, h0 4 (by decide) (by decide), h4]


/-- `dHz` of the xplus electric kernels (backward difference along
the normal axis, divided by `d`). -/
def o1xpE_dHz (e : PMLEnv) (i j k : ℕ) (g : Grid) : ℚ :=
  (g.F 5 (e.xs + i) (e.ys + j) (e.zs + k) -
    g.F 5 (e.xs + i - 1) (e.ys + j) (e.zs + k)) / e.d

/-- `dHy` of the xplus electric kernels (backward difference along
the normal axis, divided by `d`). -/
def o1xpE_dHy (e : PMLEnv) (i j k : ℕ) (g : Grid) : ℚ :=
  (g.F 4 (e.xs + i) (e.ys + j) (e.zs + k) -
    g.F 4 (e.xs + i - 1) (e.ys + j) (e.zs + k)) / e.d

/-- Value stored in `Ey[ii, jj, kk]` by one cell of `order1_xplus`
(`IRA = 1 / RA[0, i]`, `IRA1 = IRA - 1`). -/
def o1xpE_vEy (e : PMLEnv) (i j k : ℕ) (g : Grid) : ℚ :=
  g.F 1 (e.xs + i) (e.ys + j) (e.zs + k) -
    e.uc (e.ID 1 (e.xs + i) (e.ys + j) (e.zs + k)) 4 *
      ((1 / e.RA 0 i - 1) * o1xpE_dHz e i j k g -
        1 / e.RA 0 i * g.Phi1 0 i j k)

/-- Value stored in `Ez[ii, jj, kk]` by one cell of `order1_xplus`. -/
def o1xpE_vEz (e : PMLEnv) (i j k : ℕ) (g : Grid) : ℚ :=
  g.F 2 (e.xs + i) (e.ys + j) (e.zs + k) +
    e.uc (e.ID 2 (e.xs + i) (e.ys + j) (e.zs + k)) 4 *
      ((1 / e.RA 0 i - 1) * o1xpE_dHy e i j k g -
        1 / e.RA 0 i * g.Phi2 0 i j k)

/-- Final `Phi1` row values of one cell of `order1_xplus`
(`RC0 = IRA * RB[0, i] * RF[0, i]`; the `- RC0 * Phi1[0]` term reads
the pre-update value). -/
def o1xpE_pPhi1 (e : PMLEnv) (l i j k : ℕ) (g : Grid) : ℚ :=
  if l = 0 then
    e.RE 0 i * g.Phi1 0 i j k +
      1 / e.RA 0 i * e.RB 0 i * e.RF 0 i * o1xpE_dHz e i j k g -
      1 / e.RA 0 i * e.RB 0 i * e.RF 0 i * g.Phi1 0 i j k
  else g.Phi1 l i j k

/-- Final `Phi2` row values of one cell of `order1_xplus`. -/
def o1xpE_pPhi2 (e : PMLEnv) (l i j k : ℕ) (g : Grid) : ℚ :=
  if l = 0 then
    e.RE 0 i * g.Phi2 0 i j k +
      1 / e.RA 0 i * e.RB 0 i * e.RF 0 i * o1xpE_dHy e i j k g -
      1 / e.RA 0 i * e.RB 0 i * e.RF 0 i * g.Phi2 0 i j k
  else g.Phi2 l i j k

/-- Loop body of `order1_xplus` (electric, MRIPML), translated
statement by statement from the source (loop-invariant coefficient reads,
hoisted to an outer loop in the source, are re-read per cell; they are
read-only, so this is equivalent). -/
def order1_xplus_cell (e : PMLEnv) (i j k : ℕ) (g : Grid) : Grid :=
  let ii : ℤ := e.xs + i
  let jj : ℤ := e.ys + j
  let kk : ℤ := e.zs + k
  let IRA : ℚ := 1 / e.RA 0 i
  let IRA1 : ℚ := IRA - 1
  let RB0 : ℚ := e.RB 0 i
  let RE0 : ℚ := e.RE 0 i
  let RF0 : ℚ := e.RF 0 i
  let RC0 : ℚ := IRA * RB0 * RF0
  let materialEy : ℕ := e.ID 1 ii jj kk
  let dHz : ℚ := (g.F 5 ii jj kk - g.F 5 (ii - 1) jj kk) / e.d
  let g1 : Grid := setF g 1 ii jj kk
    (g.F 1 ii jj kk - e.uc materialEy 4 *
      (IRA1 * dHz - IRA * g.Phi1 0 i j k))
  let g2 : Grid := setPhi1 g1 0 i j k
    (RE0 * g1.Phi1 0 i j k + RC0 * dHz - RC0 * g1.Phi1 0 i j k)
  let materialEz : ℕ := e.ID 2 ii jj kk
  let dHy : ℚ := (g2.F 4 ii jj kk - g2.F 4 (ii - 1) jj kk) / e.d
  let g3 : Grid := setF g2 2 ii jj kk
    (g2.F 2 ii jj kk + e.uc materialEz 4 *
      (IRA1 * dHy - IRA * g2.Phi2 0 i j k))
  let g4 : Grid := setPhi2 g3 0 i j k
    (RE0 * g3.Phi2 0 i j k + RC0 * dHy - RC0 * g3.Phi2 0 i j k)
  g4

/-- `order1_xplus` of `pml_updates_electric_MRIPML.pyx`: updates
the `Ey` and `Ez` components on the xplus slab. -/
def order1_xplus (e : PMLEnv) (g : Grid) : Grid :=
  iter3 e.nx e.ny e.nz (order1_xplus_cell e) g

/-- Cell description of `order1_xplus`. -/
def o1xpE_spec (e : PMLEnv) : CellSpec where
  c1 := 1
  c2 := 2
  addr := fun i j k => (e.xs + i, e.ys + j, e.zs + k)
  v1 := o1xpE_vEy e
  v2 := o1xpE_vEz e
  p1 := fun l i j k => o1xpE_pPhi1 e l i j k
  p2 := fun l i j k => o1xpE_pPhi2 e l i j k

theorem o1xpE_realizes (e : PMLEnv) :
    Realizes (o1xpE_spec e) e.nx e.ny e.nz (order1_xplus_cell e) := by
  constructor
  case hne =>
    simp only [o1xpE_spec]
    decide
  case inj =>
    intro i j k i' j' k' _ _ _ _ _ _ h
    simp only [o1xpE_spec, Prod.mk.injEq] at h
    refine ⟨?_, ?_, ?_⟩ <;> omega
  case frameF =>
    intro i j k g c x y z h
    simp only [o1xpE_spec] at h
    simp only [order1_xplus_cell, o1xpE_spec]
    exact shapeO1_frameF _ _ _ _ _ _ _ _ _ _ _ _ _ c x y z h
  case val1 =>
    intro i j k g
    simp only [order1_xplus_cell, o1xpE_spec]
    exact shapeO1_val1 _ _ _ _ _ _ _ _ _ _ _ _ _ (by decide)
  case val2 =>
    intro i j k g
    simp only [order1_xplus_cell, o1xpE_spec]
    exact shapeO1_val2 _ _ _ _ _ _ _ _ _ _ _ _ _ 
  case framePhi =>
    intro i j k g l i' j' k' h
    simp only [order1_xplus_cell, o1xpE_spec]
    exact shapeO1_framePhi _ _ _ _ _ _ _ _ _ _ _ _ _ l i' j' k' h
  case valP1 =>
    intro i j k g l
    simp only [order1_xplus_cell, o1xpE_spec]
    rw [shapeO1_valPhi1]
    rfl
  case valP2 =>
    intro i j k g l
    simp only [order1_xplus_cell, o1xpE_spec]
    rw [shapeO1_valPhi2]
    rfl
  case dep =>
    intro i j k g g' h
    obtain ⟨h0, h1, h2, h3, h4⟩ := h
    simp only [o1xpE_spec] at h0 h1 h2
    simp only [o1xpE_spec]
    refine ⟨?_, ?_, fun l => ?_, fun l => ?_⟩
    · simp only [o1xpE_vEy, o1xpE_dHz, h0 5 (by decide) (by decide), h1, h3]
    · simp only [o1xpE_vEz, o1xpE_dHy, h0 4 (by decide) (by decide), h2, h4]
    · simp only [o1xpE_pPhi1, o1xpE_dHz, h0 5 (by decide) (by decide), h3]
    · simp only [o1xpE_pPhi2, o1xpE_dHy, h0 4 (by decide) (by decide), h4]


/-- Value stored in `Ey[ii, jj, kk]` by one cell of `order2_xplus`
(`IRA = 1 / (RA[0, i] + RA[1, i])`, `Psi1 = RB[0]*Phi1[0] + RB[1]*Phi1[1]`). -/
def o2xpE_vEy (e : PMLEnv) (i j k : ℕ) (g : Grid) : ℚ :=
  g.F 1 (e.xs + i) (e.ys + j) (e.zs + k) -
    e.uc (e.ID 1 (e.xs + i) (e.ys + j) (e.zs + k)) 4 *
      ((1 / (e.RA 0 i + e.RA 1 i) - 1) * o1xpE_dHz e i j k g -
        1 / (e.RA 0 i + e.RA 1 i) * (e.RB 0 i * g.Phi1 0 i j k + e.RB 1 i * g.Phi1 1 i j k))

/-- Value stored in `Ez[ii, jj, kk]` by one cell of `order2_xplus`. -/
def o2xpE_vEz (e : PMLEnv) (i j k : ℕ) (g : Grid) : ℚ :=
  g.F 2 (e.xs + i) (e.ys + j) (e.zs + k) +
    e.uc (e.ID 2 (e.xs + i) (e.ys + j) (e.zs + k)) 4 *
      ((1 / (e.RA 0 i + e.RA 1 i) - 1) * o1xpE_dHy e i j k g -
        1 / (e.RA 0 i + e.RA 1 i) * (e.RB 0 i * g.Phi2 0 i j k + e.RB 1 i * g.Phi2 1 i j k))

/-- Final `Phi1` row values of one cell of `order2_xplus`
(`RC0 = IRA * RF[0, i]`, `RC1 = IRA * RF[1, i]`; both rows read the
pre-update `Psi1`). -/
def o2xpE_pPhi1 (e : PMLEnv) (l i j k : ℕ) (g : Grid) : ℚ :=
  if l = 0 then
    e.RE 0 i * g.Phi1 0 i j k +
      1 / (e.RA 0 i + e.RA 1 i) * e.RF 0 i * (o1xpE_dHz e i j k g - (e.RB 0 i * g.Phi1 0 i j k + e.RB 1 i * g.Phi1 1 i j k))
  else if l = 1 then
    e.RE 1 i * g.Phi1 1 i j k +
      1 / (e.RA 0 i + e.RA 1 i) * e.RF 1 i * (o1xpE_dHz e i j k g - (e.RB 0 i * g.Phi1 0 i j k + e.RB 1 i * g.Phi1 1 i j k))
  else g.Phi1 l i j k

/-- Final `Phi2` row values of one cell of `order2_xplus`. -/
def o2xpE_pPhi2 (e : PMLEnv) (l i j k : ℕ) (g : Grid) : ℚ :=
  if l = 0 then
    e.RE 0 i * g.Phi2 0 i j k +
      1 / (e.RA 0 i + e.RA 1 i) * e.RF 0 i * (o1xpE_dHy e i j k g - (e.RB 0 i * g.Phi2 0 i j k + e.RB 1 i * g.Phi2 1 i j k))
  else if l = 1 then
    e.RE 1 i * g.Phi2 1 i j k +
      1 / (e.RA 0 i + e.RA 1 i) * e.RF 1 i * (o1xpE_dHy e i j k g - (e.RB 0 i * g.Phi2 0 i j k + e.RB 1 i * g.Phi2 1 i j k))
  else g.Phi2 l i j k

/-- Loop body of `order2_xplus` (electric, MRIPML). -/
def order2_xplus_cell (e : PMLEnv) (i j k : ℕ) (g : Grid) : Grid :=
  let ii : ℤ := e.xs + i
  let jj : ℤ := e.ys + j
  let kk : ℤ := e.zs + k
  let IRA : ℚ := 1 / (e.RA 0 i + e.RA 1 i)
  let IRA1 : ℚ := IRA - 1
  let RB0 : ℚ := e.RB 0 i
  let RE0 : ℚ := e.RE 0 i
  let RF0 : ℚ := e.RF 0 i
  let RC0 : ℚ := IRA * RF0
  let RB1 : ℚ := e.RB 1 i
  let RE1 : ℚ := e.RE 1 i
  let RF1 : ℚ := e.RF 1 i
  let RC1 : ℚ := IRA * RF1
  let Psi1 : ℚ := RB0 * g.Phi1 0 i j k + RB1 * g.Phi1 1 i j k
  let Psi2 : ℚ := RB0 * g.Phi2 0 i j k + RB1 * g.Phi2 1 i j k
  let materialEy : ℕ := e.ID 1 ii jj kk
  let dHz : ℚ := (g.F 5 ii jj kk - g.F 5 (ii - 1) jj kk) / e.d
  let g1 : Grid := setF g 1 ii jj kk
    (g.F 1 ii jj kk - e.uc materialEy 4 *
      (IRA1 * dHz - IRA * Psi1))
  let g2 : Grid := setPhi1 g1 1 i j k (RE1 * g1.Phi1 1 i j k + RC1 * (dHz - Psi1))
  let g3 : Grid := setPhi1 g2 0 i j k (RE0 * g2.Phi1 0 i j k + RC0 * (dHz - Psi1))
  let materialEz : ℕ := e.ID 2 ii jj kk
  let dHy : ℚ := (g3.F 4 ii jj kk - g3.F 4 (ii - 1) jj kk) / e.d
  let g4 : Grid := setF g3 2 ii jj kk
    (g3.F 2 ii jj kk + e.uc materialEz 4 *
      (IRA1 * dHy - IRA * Psi2))
  let g5 : Grid := setPhi2 g4 1 i j k (RE1 * g4.Phi2 1 i j k + RC1 * (dHy - Psi2))
  let g6 : Grid := setPhi2 g5 0 i j k (RE0 * g5.Phi2 0 i j k + RC0 * (dHy - Psi2))
  g6

/-- `order2_xplus` of `pml_updates_electric_MRIPML.pyx`. -/
def order2_xplus (e : PMLEnv) (g : Grid) : Grid :=
  iter3 e.nx e.ny e.nz (order2_xplus_cell e) g

/-- Cell description of `order2_xplus`. -/
def o2xpE_spec (e : PMLEnv) : CellSpec where
  c1 := 1
  c2 := 2
  addr := fun i j k => (e.xs + i, e.ys + j, e.zs + k)
  v1 := o2xpE_vEy e
  v2 := o2xpE_vEz e
  p1 := fun l i j k => o2xpE_pPhi1 e l i j k
  p2 := fun l i j k => o2xpE_pPhi2 e l i j k

theorem o2xpE_realizes (e : PMLEnv) :
    Realizes (o2xpE_spec e) e.nx e.ny e.nz (order2_xplus_cell e) := by
  constructor
  case hne =>
    simp only [o2xpE_spec]
    decide
  case inj =>
    intro i j k i' j' k' _ _ _ _ _ _ h
    simp only [o2xpE_spec, Prod.mk.injEq] at h
    refine ⟨?_, ?_, ?_⟩ <;> omega
  case frameF =>
    intro i j k g c x y z h
    simp only [o2xpE_spec] at h
    simp only [order2_xplus_cell, o2xpE_spec]
    exact shapeO2_frameF _ _ _ _ _ _ _ _ _ _ _ _ _ _ _ c x y z h
  case val1 =>
    intro i j k g
    simp only [order2_xplus_cell, o2xpE_spec]
    exact shapeO2_val1 _ _ _ _ _ _ _ _ _ _ _ _ _ _ _ (by decide)
  case val2 =>
    intro i j k g
    simp only [order2_xplus_cell, o2xpE_spec]
    exact shapeO2_val2 _ _ _ _ _ _ _ _ _ _ _ _ _ _ _ 
  case framePhi =>
    intro i j k g l i' j' k' h
    simp only [order2_xplus_cell, o2xpE_spec]
    exact shapeO2_framePhi _ _ _ _ _ _ _ _ _ _ _ _ _ _ _ l i' j' k' h
  case valP1 =>
    intro i j k g l
    simp only [order2_xplus_cell, o2xpE_spec]
    rw [shapeO2_valPhi1]
    rfl
  case valP2 =>
    intro i j k g l
    simp only [order2_xplus_cell, o2xpE_spec]
    rw [shapeO2_valPhi2]
    rfl
  case dep =>
    intro i j k g g' h
    obtain ⟨h0, h1, h2, h3, h4⟩ := h
    simp only [o2xpE_spec] at h0 h1 h2
    simp only [o2xpE_spec]
    refine ⟨?_, ?_, fun l => ?_, fun l => ?_⟩
    · simp only [o2xpE_vEy, o1xpE_dHz, h0 5 (by decide) (by decide), h1, h3]
    · simp only [o2xpE_vEz, o1xpE_dHy, h0 4 (by decide) (by decide), h2, h4]
    · simp only [o2xpE_pPhi1, o1xpE_dHz, h0 5 (by decide) (by decide), h3]
    · simp only [o2xpE_pPhi2, o1xpE_dHy, h0 4 (by decide) (by decide), h4]


/-- `dHz` of the yminus electric kernels (backward difference along
the normal axis, divided by `d`). -/
def o1ymE_dHz (e : PMLEnv) (i j k : ℕ) (g : Grid) : ℚ :=
  (g.F 5 (e.xs + i) (e.yf - j) (e.zs + k) -
    g.F 5 (e.xs + i) (e.yf - j - 1) (e.zs + k)) / e.d

/-- `dHx` of the yminus electric kernels (backward difference along
the normal axis, divided by `d`). -/
def o1ymE_dHx (e : PMLEnv) (i j k : ℕ) (g : Grid) : ℚ :=
  (g.F 3 (e.xs + i) (e.yf - j) (e.zs + k) -
    g.F 3 (e.xs + i) (e.yf - j - 1) (e.zs + k)) / e.d

/-- Value stored in `Ex[ii, jj, kk]` by one cell of `order1_yminus`
(`IRA = 1 / RA[0, j]`, `IRA1 = IRA - 1`). -/
def o1ymE_vEx (e : PMLEnv) (i j k : ℕ) (g : Grid) : ℚ :=
  g.F 0 (e.xs + i) (e.yf - j) (e.zs + k) +
    e.uc (e.ID 0 (e.xs + i) (e.yf - j) (e.zs + k)) 4 *
      ((1 / e.RA 0 j - 1) * o1ymE_dHz e i j k g -
        1 / e.RA 0 j * g.Phi1 0 i j k)

/-- Value stored in `Ez[ii, jj, kk]` by one cell of `order1_yminus`. -/
def o1ymE_vEz (e : PMLEnv) (i j k : ℕ) (g : Grid) : ℚ :=
  g.F 2 (e.xs + i) (e.yf - j) (e.zs + k) -
    e.uc (e.ID 2 (e.xs + i) (e.yf - j) (e.zs + k)) 4 *
      ((1 / e.RA 0 j - 1) * o1ymE_dHx e i j k g -
        1 / e.RA 0 j * g.Phi2 0 i j k)

/-- Final `Phi1` row values of one cell of `order1_yminus`
(`RC0 = IRA * RB[0, j] * RF[0, j]`; the `- RC0 * Phi1[0]` term reads
the pre-update value). -/
def o1ymE_pPhi1 (e : PMLEnv) (l i j k : ℕ) (g : Grid) : ℚ :=
  if l = 0 then
    e.RE 0 j * g.Phi1 0 i j k +
      1 / e.RA 0 j * e.RB 0 j * e.RF 0 j * o1ymE_dHz e i j k g -
      1 / e.RA 0 j * e.RB 0 j * e.RF 0 j * g.Phi1 0 i j k
  else g.Phi1 l i j k

/-- Final `Phi2` row values of one cell of `order1_yminus`. -/
def o1ymE_pPhi2 (e : PMLEnv) (l i j k : ℕ) (g : Grid) : ℚ :=
  if l = 0 then
    e.RE 0 j * g.Phi2 0 i j k +
      1 / e.RA 0 j * e.RB 0 j * e.RF 0 j * o1ymE_dHx e i j k g -
      1 / e.RA 0 j * e.RB 0 j * e.RF 0 j * g.Phi2 0 i j k
  else g.Phi2 l i j k

/-- Loop body of `order1_yminus` (electric, MRIPML), translated
statement by statement from the source (loop-invariant coefficient reads,
hoisted to an outer loop in the source, are re-read per cell; they are
read-only, so this is equivalent). -/
def order1_yminus_cell (e : PMLEnv) (i j k : ℕ) (g : Grid) : Grid :=
  let ii : ℤ := e.xs + i
  let jj : ℤ := e.yf - j
  let kk : ℤ := e.zs + k
  let IRA : ℚ := 1 / e.RA 0 j
  let IRA1 : ℚ := IRA - 1
  let RB0 : ℚ := e.RB 0 j
  let RE0 : ℚ := e.RE 0 j
  let RF0 : ℚ := e.RF 0 j
  let RC0 : ℚ := IRA * RB0 * RF0
  let materialEx : ℕ := e.ID 0 ii jj kk
  let dHz : ℚ := (g.F 5 ii jj kk - g.F 5 ii (jj - 1) kk) / e.d
  let g1 : Grid := setF g 0 ii jj kk
    (g.F 0 ii jj kk + e.uc materialEx 4 *
      (IRA1 * dHz - IRA * g.Phi1 0 i j k))
  let g2 : Grid := setPhi1 g1 0 i j k
    (RE0 * g1.Phi1 0 i j k + RC0 * dHz - RC0 * g1.Phi1 0 i j k)
  let materialEz : ℕ := e.ID 2 ii jj kk
  let dHx : ℚ := (g2.F 3 ii jj kk - g2.F 3 ii (jj - 1) kk) / e.d
  let g3 : Grid := setF g2 2 ii jj kk
    (g2.F 2 ii jj kk - e.uc materialEz 4 *
      (IRA1 * dHx - IRA * g2.Phi2 0 i j k))
  let g4 : Grid := setPhi2 g3 0 i j k
    (RE0 * g3.Phi2 0 i j k + RC0 * dHx - RC0 * g3.Phi2 0 i j k)
  g4

/-- `order1_yminus` of `pml_updates_electric_MRIPML.pyx`: updates
the `Ex` and `Ez` components on the yminus slab. -/
def order1_yminus (e : PMLEnv) (g : Grid) : Grid :=
  iter3 e.nx e.ny e.nz (order1_yminus_cell e) g

/-- Cell description of `order1_yminus`. -/
def o1ymE_spec (e : PMLEnv) : CellSpec where
  c1 := 0
  c2 := 2
  addr := fun i j k => (e.xs + i, e.yf - j, e.zs + k)
  v1 := o1ymE_vEx e
  v2 := o1ymE_vEz e
  p1 := fun l i j k => o1ymE_pPhi1 e l i j k
  p2 := fun l i j k => o1ymE_pPhi2 e l i j k

theorem o1ymE_realizes (e : PMLEnv) :
    Realizes (o1ymE_spec e) e.nx e.ny e.nz (order1_yminus_cell e) := by
  constructor
  case hne =>
    simp only [o1ymE_spec]
    decide
  case inj =>
    intro i j k i' j' k' _ _ _ _ _ _ h
    simp only [o1ymE_spec, Prod.mk.injEq] at h
    refine ⟨?_, ?_, ?_⟩ <;> omega
  case frameF =>
    intro i j k g c x y z h
    simp only [o1ymE_spec] at h
    simp only [order1_yminus_cell, o1ymE_spec]
    exact shapeO1_frameF _ _ _ _ _ _ _ _ _ _ _ _ _ c x y z h
  case val1 =>
    intro i j k g
    simp only [order1_yminus_cell, o1ymE_spec]
    exact shapeO1_val1 _ _ _ _ _ _ _ _ _ _ _ _ _ (by decide)
  case val2 =>
    intro i j k g
    simp only [order1_yminus_cell, o1ymE_spec]
    exact shapeO1_val2 _ _ _ _ _ _ _ _ _ _ _ _ _ 
  case framePhi =>
    intro i j k g l i' j' k' h
    simp only [order1_yminus_cell, o1ymE_spec]
    exact shapeO1_framePhi _ _ _ _ _ _ _ _ _ _ _ _ _ l i' j' k' h
  case valP1 =>
    intro i j k g l
    simp only [order1_yminus_cell, o1ymE_spec]
    rw [shapeO1_valPhi1]
    rfl
  case valP2 =>
    intro i j k g l
    simp only [order1_yminus_cell, o1ymE_spec]
    rw [shapeO1_valPhi2]
    rfl
  case dep =>
    intro i j k g g' h
    obtain ⟨h0, h1, h2, h3, h4⟩ := h
    simp only [o1ymE_spec] at h0 h1 h2
    simp only [o1ymE_spec]
    refine ⟨?_, ?_, fun l => ?_, fun l => ?_⟩
    · simp only [o1ymE_vEx, o1ymE_dHz, h0 5 (by decide) (by decide), h1, h3]
    · simp only [o1ymE_vEz, o1ymE_dHx, h0 3 (by decide) (by decide), h2, h4]
    · simp only [o1ymE_pPhi1, o1ymE_dHz, h0 5 (by decide) (by decide), h3]
    · simp only [o1ymE_pPhi2, o1ymE_dHx, h0 3 (by decide) (by decide), h4]


/-- Value stored in `Ex[ii, jj, kk]` by one cell of `order2_yminus`
(`IRA = 1 / (RA[0, j] + RA[1, j])`, `Psi1 = RB[0]*Phi1[0] + RB[1]*Phi1[1]`). -/
def o2ymE_vEx (e : PMLEnv) (i j k : ℕ) (g : Grid) : ℚ :=
  g.F 0 (e.xs + i) (e.yf - j) (e.zs + k) +
    e.uc (e.ID 0 (e.xs + i) (e.yf - j) (e.zs + k)) 4 *
      ((1 / (e.RA 0 j + e.RA 1 j) - 1) * o1ymE_dHz e i j k g -
        1 / (e.RA 0 j + e.RA 1 j) * (e.RB 0 j * g.Phi1 0 i j k + e.RB 1 j * g.Phi1 1 i j k))

/-- Value stored in `Ez[ii, jj, kk]` by one cell of `order2_yminus`. -/
def o2ymE_vEz (e : PMLEnv) (i j k : ℕ) (g : Grid) : ℚ :=
  g.F 2 (e.xs + i) (e.yf - j) (e.zs + k) -
    e.uc (e.ID 2 (e.xs + i) (e.yf - j) (e.zs + k)) 4 *
      ((1 / (e.RA 0 j + e.RA 1 j) - 1) * o1ymE_dHx e i j k g -
        1 / (e.RA 0 j + e.RA 1 j) * (e.RB 0 j * g.Phi2 0 i j k + e.RB 1 j * g.Phi2 1 i j k))

/-- Final `Phi1` row values of one cell of `order2_yminus`
(`RC0 = IRA * RF[0, j]`, `RC1 = IRA * RF[1, j]`; both rows read the
pre-update `Psi1`). -/
def o2ymE_pPhi1 (e : PMLEnv) (l i j k : ℕ) (g : Grid) : ℚ :=
  if l = 0 then
    e.RE 0 j * g.Phi1 0 i j k +
      1 / (e.RA 0 j + e.RA 1 j) * e.RF 0 j * (o1ymE_dHz e i j k g - (e.RB 0 j * g.Phi1 0 i j k + e.RB 1 j * g.Phi1 1 i j k))
  else if l = 1 then
    e.RE 1 j * g.Phi1 1 i j k +
      1 / (e.RA 0 j + e.RA 1 j) * e.RF 1 j * (o1ymE_dHz e i j k g - (e.RB 0 j * g.Phi1 0 i j k + e.RB 1 j * g.Phi1 1 i j k))
  else g.Phi1 l i j k

/-- Final `Phi2` row values of one cell of `order2_yminus`. -/
def o2ymE_pPhi2 (e : PMLEnv) (l i j k : ℕ) (g : Grid) : ℚ :=
  if l = 0 then
    e.RE 0 j * g.Phi2 0 i j k +
      1 / (e.RA 0 j + e.RA 1 j) * e.RF 0 j * (o1ymE_dHx e i j k g - (e.RB 0 j * g.Phi2 0 i j k + e.RB 1 j * g.Phi2 1 i j k))
  else if l = 1 then
    e.RE 1 j * g.Phi2 1 i j k +
      1 / (e.RA 0 j + e.RA 1 j) * e.RF 1 j * (o1ymE_dHx e i j k g - (e.RB 0 j * g.Phi2 0 i j k + e.RB 1 j * g.Phi2 1 i j k))
  else g.Phi2 l i j k

/-- Loop body of `order2_yminus` (electric, MRIPML). -/
def order2_yminus_cell (e : PMLEnv) (i j k : ℕ) (g : Grid) : Grid :=
  let ii : ℤ := e.xs + i
  let jj : ℤ := e.yf - j
  let kk : ℤ := e.zs + k
  let IRA : ℚ := 1 / (e.RA 0 j + e.RA 1 j)
  let IRA1 : ℚ := IRA - 1
  let RB0 : ℚ := e.RB 0 j
  let RE0 : ℚ := e.RE 0 j
  let RF0 : ℚ := e.RF 0 j
  let RC0 : ℚ := IRA * RF0
  let RB1 : ℚ := e.RB 1 j
  let RE1 : ℚ := e.RE 1 j
  let RF1 : ℚ := e.RF 1 j
  let RC1 : ℚ := IRA * RF1
  let Psi1 : ℚ := RB0 * g.Phi1 0 i j k + RB1 * g.Phi1 1 i j k
  let Psi2 : ℚ := RB0 * g.Phi2 0 i j k + RB1 * g.Phi2 1 i j k
  let materialEx : ℕ := e.ID 0 ii jj kk
  let dHz : ℚ := (g.F 5 ii jj kk - g.F 5 ii (jj - 1) kk) / e.d
  let g1 : Grid := setF g 0 ii jj kk
    (g.F 0 ii jj kk + e.uc materialEx 4 *
      (IRA1 * dHz - IRA * Psi1))
  let g2 : Grid := setPhi1 g1 1 i j k (RE1 * g1.Phi1 1 i j k + RC1 * (dHz - Psi1))
  let g3 : Grid := setPhi1 g2 0 i j k (RE0 * g2.Phi1 0 i j k + RC0 * (dHz - Psi1))
  let materialEz : ℕ := e.ID 2 ii jj kk
  let dHx : ℚ := (g3.F 3 ii jj kk - g3.F 3 ii (jj - 1) kk) / e.d
  let g4 : Grid := setF g3 2 ii jj kk
    (g3.F 2 ii jj kk - e.uc materialEz 4 *
      (IRA1 * dHx - IRA * Psi2))
  let g5 : Grid := setPhi2 g4 1 i j k (RE1 * g4.Phi2 1 i j k + RC1 * (dHx - Psi2))
  let g6 : Grid := setPhi2 g5 0 i j k (RE0 * g5.Phi2 0 i j k + RC0 * (dHx - Psi2))
  g6

/-- `order2_yminus` of `pml_updates_electric_MRIPML.pyx`. -/
def order2_yminus (e : PMLEnv) (g : Grid) : Grid :=
  iter3 e.nx e.ny e.nz (order2_yminus_cell e) g

/-- Cell description of `order2_yminus`. -/
def o2ymE_spec (e : PMLEnv) : CellSpec where
  c1 := 0
  c2 := 2
  addr := fun i j k => (e.xs + i, e.yf - j, e.zs + k)
  v1 := o2ymE_vEx e
  v2 := o2ymE_vEz e
  p1 := fun l i j k => o2ymE_pPhi1 e l i j k
  p2 := fun l i j k => o2ymE_pPhi2 e l i j k

theorem o2ymE_realizes (e : PMLEnv) :
    Realizes (o2ymE_spec e) e.nx e.ny e.nz (order2_yminus_cell e) := by
  constructor
  case hne =>
    simp only [o2ymE_spec]
    decide
  case inj =>
    intro i j k i' j' k' _ _ _ _ _ _ h
    simp only [o2ymE_spec, Prod.mk.injEq] at h
    refine ⟨?_, ?_, ?_⟩ <;> omega
  case frameF =>
    intro i j k g c x y z h
    simp only [o2ymE_spec] at h
    simp only [order2_yminus_cell, o2ymE_spec]
    exact shapeO2_frameF _ _ _ _ _ _ _ _ _ _ _ _ _ _ _ c x y z h
  case val1 =>
    intro i j k g
    simp only [order2_yminus_cell, o2ymE_spec]
    exact shapeO2_val1 _ _ _ _ _ _ _ _ _ _ _ _ _ _ _ (by decide)
  case val2 =>
    intro i j k g
    simp only [order2_yminus_cell, o2ymE_spec]
    exact shapeO2_val2 _ _ _ _ _ _ _ _ _ _ _ _ _ _ _ 
  case framePhi =>
    intro i j k g l i' j' k' h
    simp only [order2_yminus_cell, o2ymE_spec]
    exact shapeO2_framePhi _ _ _ _ _ _ _ _ _ _ _ _ _ _ _ l i' j' k' h
  case valP1 =>
    intro i j k g l
    simp only [order2_yminus_cell, o2ymE_spec]
    rw [shapeO2_valPhi1]
    rfl
  case valP2 =>
    intro i j k g l
    simp only [order2_yminus_cell, o2ymE_spec]
    rw [shapeO2_valPhi2]
    rfl
  case dep =>
    intro i j k g g' h
    obtain ⟨h0, h1, h2, h3, h4⟩ := h
    simp only [o2ymE_spec] at h0 h1 h2
    simp only [o2ymE_spec]
    refine ⟨?_, ?_, fun l => ?_, fun l => ?_⟩
    · simp only [o2ymE_vEx, o1ymE_dHz, h0 5 (by decide) (by decide), h1, h3]
    · simp only [o2ymE_vEz, o1ymE_dHx, h0 3 (by decide) (by decide), h2, h4]
    · simp only [o2ymE_pPhi1, o1ymE_dHz, h0 5 (by decide) (by decide), h3]
    · simp only [o2ymE_pPhi2, o1ymE_dHx, h0 3 (by decide) (by decide), h4]


/-- `dHz` of the yplus electric kernels (backward difference along
the normal axis, divided by `d`). -/
def o1ypE_dHz (e : PMLEnv) (i j k : ℕ) (g : Grid) : ℚ :=
  (g.F 5 (e.xs + i) (e.ys + j) (e.zs + k) -
    g.F 5 (e.xs + i) (e.ys + j - 1) (e.zs + k)) / e.d

/-- `dHx` of the yplus electric kernels (backward difference along
the normal axis, divided by `d`). -/
def o1ypE_dHx (e : PMLEnv) (i j k : ℕ) (g : Grid) : ℚ :=
  (g.F 3 (e.xs + i) (e.ys + j) (e.zs + k) -
    g.F 3 (e.xs + i) (e.ys + j - 1) (e.zs + k)) / e.d

/-- Value stored in `Ex[ii, jj, kk]` by one cell of `order1_yplus`
(`IRA = 1 / RA[0, j]`, `IRA1 = IRA - 1`). -/
def o1ypE_vEx (e : PMLEnv) (i j k : ℕ) (g : Grid) : ℚ :=
  g.F 0 (e.xs + i) (e.ys + j) (e.zs + k) +
    e.uc (e.ID 0 (e.xs + i) (e.ys + j) (e.zs + k)) 4 *
      ((1 / e.RA 0 j - 1) * o1ypE_dHz e i j k g -
        1 / e.RA 0 j * g.Phi1 0 i j k)

/-- Value stored in `Ez[ii, jj, kk]` by one cell of `order1_yplus`. -/
def o1ypE_vEz (e : PMLEnv) (i j k : ℕ) (g : Grid) : ℚ :=
  g.F 2 (e.xs + i) (e.ys + j) (e.zs + k) -
    e.uc (e.ID 2 (e.xs + i) (e.ys + j) (e.zs + k)) 4 *
      ((1 / e.RA 0 j - 1) * o1ypE_dHx e i j k g -
        1 / e.RA 0 j * g.Phi2 0 i j k)

/-- Final `Phi1` row values of one cell of `order1_yplus`
(`RC0 = IRA * RB[0, j] * RF[0, j]`; the `- RC0 * Phi1[0]` term reads
the pre-update value). -/
def o1ypE_pPhi1 (e : PMLEnv) (l i j k : ℕ) (g : Grid) : ℚ :=
  if l = 0 then
    e.RE 0 j * g.Phi1 0 i j k +
      1 / e.RA 0 j * e.RB 0 j * e.RF 0 j * o1ypE_dHz e i j k g -
      1 / e.RA 0 j * e.RB 0 j * e.RF 0 j * g.Phi1 0 i j k
  else g.Phi1 l i j k

/-- Final `Phi2` row values of one cell of `order1_yplus`. -/
def o1ypE_pPhi2 (e : PMLEnv) (l i j k : ℕ) (g : Grid) : ℚ :=
  if l = 0 then
    e.RE 0 j * g.Phi2 0 i j k +
      1 / e.RA 0 j * e.RB 0 j * e.RF 0 j * o1ypE_dHx e i j k g -
      1 / e.RA 0 j * e.RB 0 j * e.RF 0 j * g.Phi2 0 i j k
  else g.Phi2 l i j k

/-- Loop body of `order1_yplus` (electric, MRIPML), translated
statement by statement from the source (loop-invariant coefficient reads,
hoisted to an outer loop in the source, are re-read per cell; they are
read-only, so this is equivalent). -/
def order1_yplus_cell (e : PMLEnv) (i j k : ℕ) (g : Grid) : Grid :=
  let ii : ℤ := e.xs + i
  let jj : ℤ := e.ys + j
  let kk : ℤ := e.zs + k
  let IRA : ℚ := 1 / e.RA 0 j
  let IRA1 : ℚ := IRA - 1
  let RB0 : ℚ := e.RB 0 j
  let RE0 : ℚ := e.RE 0 j
  let RF0 : ℚ := e.RF 0 j
  let RC0 : ℚ := IRA * RB0 * RF0
  let materialEx : ℕ := e.ID 0 ii jj kk
  let dHz : ℚ := (g.F 5 ii jj kk - g.F 5 ii (jj - 1) kk) / e.d
  let g1 : Grid := setF g 0 ii jj kk
    (g.F 0 ii jj kk + e.uc materialEx 4 *
      (IRA1 * dHz - IRA * g.Phi1 0 i j k))
  let g2 : Grid := setPhi1 g1 0 i j k
    (RE0 * g1.Phi1 0 i j k + RC0 * dHz - RC0 * g1.Phi1 0 i j k)
  let materialEz : ℕ := e.ID 2 ii jj kk
  let dHx : ℚ := (g2.F 3 ii jj kk - g2.F 3 ii (jj - 1) kk) / e.d
  let g3 : Grid := setF g2 2 ii jj kk
    (g2.F 2 ii jj kk - e.uc materialEz 4 *
      (IRA1 * dHx - IRA * g2.Phi2 0 i j k))
  let g4 : Grid := setPhi2 g3 0 i j k
    (RE0 * g3.Phi2 0 i j k + RC0 * dHx - RC0 * g3.Phi2 0 i j k)
  g4

/-- `order1_yplus` of `pml_updates_electric_MRIPML.pyx`: updates
the `Ex` and `Ez` components on the yplus slab. -/
def order1_yplus (e : PMLEnv) (g : Grid) : Grid :=
  iter3 e.nx e.ny e.nz (order1_yplus_cell e) g

/-- Cell description of `order1_yplus`. -/
def o1ypE_spec (e : PMLEnv) : CellSpec where
  c1 := 0
  c2 := 2
  addr := fun i j k => (e.xs + i, e.ys + j, e.zs + k)
  v1 := o1ypE_vEx e
  v2 := o1ypE_vEz e
  p1 := fun l i j k => o1ypE_pPhi1 e l i j k
  p2 := fun l i j k => o1ypE_pPhi2 e l i j k

theorem o1ypE_realizes (e : PMLEnv) :
    Realizes (o1ypE_spec e) e.nx e.ny e.nz (order1_yplus_cell e) := by
  constructor
  case hne =>
    simp only [o1ypE_spec]
    decide
  case inj =>
    intro i j k i' j' k' _ _ _ _ _ _ h
    simp only [o1ypE_spec, Prod.mk.injEq] at h
    refine ⟨?_, ?_, ?_⟩ <;> omega
  case frameF =>
    intro i j k g c x y z h
    simp only [o1ypE_spec] at h
    simp only [order1_yplus_cell, o1ypE_spec]
    exact shapeO1_frameF _ _ _ _ _ _ _ _ _ _ _ _ _ c x y z h
  case val1 =>
    intro i j k g
    simp only [order1_yplus_cell, o1ypE_spec]
    exact shapeO1_val1 _ _ _ _ _ _ _ _ _ _ _ _ _ (by decide)
  case val2 =>
    intro i j k g
    simp only [order1_yplus_cell, o1ypE_spec]
    exact shapeO1_val2 _ _ _ _ _ _ _ _ _ _ _ _ _ 
  case framePhi =>
    intro i j k g l i' j' k' h
    simp only [order1_yplus_cell, o1ypE_spec]
    exact shapeO1_framePhi _ _ _ _ _ _ _ _ _ _ _ _ _ l i' j' k' h
  case valP1 =>
    intro i j k g l
    simp only [order1_yplus_cell, o1ypE_spec]
    rw [shapeO1_valPhi1]
    rfl
  case valP2 =>
    intro i j k g l
    simp only [order1_yplus_cell, o1ypE_spec]
    rw [shapeO1_valPhi2]
    rfl
  case dep =>
    intro i j k g g' h
    obtain ⟨h0, h1, h2, h3, h4⟩ := h
    simp only [o1ypE_spec] at h0 h1 h2
    simp only [o1ypE_spec]
    refine ⟨?_, ?_, fun l => ?_, fun l => ?_⟩
    · simp only [o1ypE_vEx, o1ypE_dHz, h0 5 (by decide) (by decide), h1, h3]
    · simp only [o1ypE_vEz, o1ypE_dHx, h0 3 (by decide) (by decide), h2, h4]
    · simp only [o1ypE_pPhi1, o1ypE_dHz, h0 5 (by decide) (by decide), h3]
    · simp only [o1ypE_pPhi2, o1ypE_dHx, h0 3 (by decide) (by decide), h4]


/-- Value stored in `Ex[ii, jj, kk]` by one cell of `order2_yplus`
(`IRA = 1 / (RA[0, j] + RA[1, j])`, `Psi1 = RB[0]*Phi1[0] + RB[1]*Phi1[1]`). -/
def o2ypE_vEx (e : PMLEnv) (i j k : ℕ) (g : Grid) : ℚ :=
  g.F 0 (e.xs + i) (e.ys + j) (e.zs + k) +
    e.uc (e.ID 0 (e.xs + i) (e.ys + j) (e.zs + k)) 4 *
      ((1 / (e.RA 0 j + e.RA 1 j) - 1) * o1ypE_dHz e i j k g -
        1 / (e.RA 0 j + e.RA 1 j) * (e.RB 0 j * g.Phi1 0 i j k + e.RB 1 j * g.Phi1 1 i j k))

/-- Value stored in `Ez[ii, jj, kk]` by one cell of `order2_yplus`. -/
def o2ypE_vEz (e : PMLEnv) (i j k : ℕ) (g : Grid) : ℚ :=
  g.F 2 (e.xs + i) (e.ys + j) (e.zs + k) -
    e.uc (e.ID 2 (e.xs + i) (e.ys + j) (e.zs + k)) 4 *
      ((1 / (e.RA 0 j + e.RA 1 j) - 1) * o1ypE_dHx e i j k g -
        1 / (e.RA 0 j + e.RA 1 j) * (e.RB 0 j * g.Phi2 0 i j k + e.RB 1 j * g.Phi2 1 i j k))

/-- Final `Phi1` row values of one cell of `order2_yplus`
(`RC0 = IRA * RF[0, j]`, `RC1 = IRA * RF[1, j]`; both rows read the
pre-update `Psi1`). -/
def o2ypE_pPhi1 (e : PMLEnv) (l i j k : ℕ) (g : Grid) : ℚ :=
  if l = 0 then
    e.RE 0 j * g.Phi1 0 i j k +
      1 / (e.RA 0 j + e.RA 1 j) * e.RF 0 j * (o1ypE_dHz e i j k g - (e.RB 0 j * g.Phi1 0 i j k + e.RB 1 j * g.Phi1 1 i j k))
  else if l = 1 then
    e.RE 1 j * g.Phi1 1 i j k +
      1 / (e.RA 0 j + e.RA 1 j) * e.RF 1 j * (o1ypE_dHz e i j k g - (e.RB 0 j * g.Phi1 0 i j k + e.RB 1 j * g.Phi1 1 i j k))
  else g.Phi1 l i j k

/-- Final `Phi2` row values of one cell of `order2_yplus`. -/
def o2ypE_pPhi2 (e : PMLEnv) (l i j k : ℕ) (g : Grid) : ℚ :=
  if l = 0 then
    e.RE 0 j * g.Phi2 0 i j k +
      1 / (e.RA 0 j + e.RA 1 j) * e.RF 0 j * (o1ypE_dHx e i j k g - (e.RB 0 j * g.Phi2 0 i j k + e.RB 1 j * g.Phi2 1 i j k))
  else if l = 1 then
    e.RE 1 j * g.Phi2 1 i j k +
      1 / (e.RA 0 j + e.RA 1 j) * e.RF 1 j * (o1ypE_dHx e i j k g - (e.RB 0 j * g.Phi2 0 i j k + e.RB 1 j * g.Phi2 1 i j k))
  else g.Phi2 l i j k

/-- Loop body of `order2_yplus` (electric, MRIPML). -/
def order2_yplus_cell (e : PMLEnv) (i j k : ℕ) (g : Grid) : Grid :=
  let ii : ℤ := e.xs + i
  let jj : ℤ := e.ys + j
  let kk : ℤ := e.zs + k
  let IRA : ℚ := 1 / (e.RA 0 j + e.RA 1 j)
  let IRA1 : ℚ := IRA - 1
  let RB0 : ℚ := e.RB 0 j
  let RE0 : ℚ := e.RE 0 j
  let RF0 : ℚ := e.RF 0 j
  let RC0 : ℚ := IRA * RF0
  let RB1 : ℚ := e.RB 1 j
  let RE1 : ℚ := e.RE 1 j
  let RF1 : ℚ := e.RF 1 j
  let RC1 : ℚ := IRA * RF1
  let Psi1 : ℚ := RB0 * g.Phi1 0 i j k + RB1 * g.Phi1 1 i j k
  let Psi2 : ℚ := RB0 * g.Phi2 0 i j k + RB1 * g.Phi2 1 i j k
  let materialEx : ℕ := e.ID 0 ii jj kk
  let dHz : ℚ := (g.F 5 ii jj kk - g.F 5 ii (jj - 1) kk) / e.d
  let g1 : Grid := setF g 0 ii jj kk
    (g.F 0 ii jj kk + e.uc materialEx 4 *
      (IRA1 * dHz - IRA * Psi1))
  let g2 : Grid := setPhi1 g1 1 i j k (RE1 * g1.Phi1 1 i j k + RC1 * (dHz - Psi1))
  let g3 : Grid := setPhi1 g2 0 i j k (RE0 * g2.Phi1 0 i j k + RC0 * (dHz - Psi1))
  let materialEz : ℕ := e.ID 2 ii jj kk
  let dHx : ℚ := (g3.F 3 ii jj kk - g3.F 3 ii (jj - 1) kk) / e.d
  let g4 : Grid := setF g3 2 ii jj kk
    (g3.F 2 ii jj kk - e.uc materialEz 4 *
      (IRA1 * dHx - IRA * Psi2))
  let g5 : Grid := setPhi2 g4 1 i j k (RE1 * g4.Phi2 1 i j k + RC1 * (dHx - Psi2))
  let g6 : Grid := setPhi2 g5 0 i j k (RE0 * g5.Phi2 0 i j k + RC0 * (dHx - Psi2))
  g6

/-- `order2_yplus` of `pml_updates_electric_MRIPML.pyx`. -/
def order2_yplus (e : PMLEnv) (g : Grid) : Grid :=
  iter3 e.nx e.ny e.nz (order2_yplus_cell e) g

/-- Cell description of `order2_yplus`. -/
def o2ypE_spec (e : PMLEnv) : CellSpec where
  c1 := 0
  c2 := 2
  addr := fun i j k => (e.xs + i, e.ys + j, e.zs + k)
  v1 := o2ypE_vEx e
  v2 := o2ypE_vEz e
  p1 := fun l i j k => o2ypE_pPhi1 e l i j k
  p2 := fun l i j k => o2ypE_pPhi2 e l i j k

theorem o2ypE_realizes (e : PMLEnv) :
    Realizes (o2ypE_spec e) e.nx e.ny e.nz (order2_yplus_cell e) := by
  constructor
  case hne =>
    simp only [o2ypE_spec]
    decide
  case inj =>
    intro i j k i' j' k' _ _ _ _ _ _ h
    simp only [o2ypE_spec, Prod.mk.injEq] at h
    refine ⟨?_, ?_, ?_⟩ <;> omega
  case frameF =>
    intro i j k g c x y z h
    simp only [o2ypE_spec] at h
    simp only [order2_yplus_cell, o2ypE_spec]
    exact shapeO2_frameF _ _ _ _ _ _ _ _ _ _ _ _ _ _ _ c x y z h
  case val1 =>
    intro i j k g
    simp only [order2_yplus_cell, o2ypE_spec]
    exact shapeO2_val1 _ _ _ _ _ _ _ _ _ _ _ _ _ _ _ (by decide)
  case val2 =>
    intro i j k g
    simp only [order2_yplus_cell, o2ypE_spec]
    exact shapeO2_val2 _ _ _ _ _ _ _ _ _ _ _ _ _ _ _ 
  case framePhi =>
    intro i j k g l i' j' k' h
    simp only [order2_yplus_cell, o2ypE_spec]
    exact shapeO2_framePhi _ _ _ _ _ _ _ _ _ _ _ _ _ _ _ l i' j' k' h
  case valP1 =>
    intro i j k g l
    simp only [order2_yplus_cell, o2ypE_spec]
    rw [shapeO2_valPhi1]
    rfl
  case valP2 =>
    intro i j k g l
    simp only [order2_yplus_cell, o2ypE_spec]
    rw [shapeO2_valPhi2]
    rfl
  case dep =>
    intro i j k g g' h
    obtain ⟨h0, h1, h2, h3, h4⟩ := h
    simp only [o2ypE_spec] at h0 h1 h2
    simp only [o2ypE_spec]
    refine ⟨?_, ?_, fun l => ?_, fun l => ?_⟩
    · simp only [o2ypE_vEx, o1ypE_dHz, h0 5 (by decide) (by decide), h1, h3]
    · simp only [o2ypE_vEz, o1ypE_dHx, h0 3 (by decide) (by decide), h2, h4]
    · simp only [o2ypE_pPhi1, o1ypE_dHz, h0 5 (by decide) (by decide), h3]
    · simp only [o2ypE_pPhi2, o1ypE_dHx, h0 3 (by decide) (by decide), h4]


/-- `dHy` of the zminus electric kernels (backward difference along
the normal axis, divided by `d`). -/
def o1zmE_dHy (e : PMLEnv) (i j k : ℕ) (g : Grid) : ℚ :=
  (g.F 4 (e.xs + i) (e.ys + j) (e.zf - k) -
    g.F 4 (e.xs + i) (e.ys + j) (e.zf - k - 1)) / e.d

/-- `dHx` of the zminus electric kernels (backward difference along
the normal axis, divided by `d`). -/
def o1zmE_dHx (e : PMLEnv) (i j k : ℕ) (g : Grid) : ℚ :=
  (g.F 3 (e.xs + i) (e.ys + j) (e.zf - k) -
    g.F 3 (e.xs + i) (e.ys + j) (e.zf - k - 1)) / e.d

/-- Value stored in `Ex[ii, jj, kk]` by one cell of `order1_zminus`
(`IRA = 1 / RA[0, k]`, `IRA1 = IRA - 1`). -/
def o1zmE_vEx (e : PMLEnv) (i j k : ℕ) (g : Grid) : ℚ :=
  g.F 0 (e.xs + i) (e.ys + j) (e.zf - k) -
    e.uc (e.ID 0 (e.xs + i) (e.ys + j) (e.zf - k)) 4 *
      ((1 / e.RA 0 k - 1) * o1zmE_dHy e i j k g -
        1 / e.RA 0 k * g.Phi1 0 i j k)

/-- Value stored in `Ey[ii, jj, kk]` by one cell of `order1_zminus`. -/
def o1zmE_vEy (e : PMLEnv) (i j k : ℕ) (g : Grid) : ℚ :=
  g.F 1 (e.xs + i) (e.ys + j) (e.zf - k) +
    e.uc (e.ID 1 (e.xs + i) (e.ys + j) (e.zf - k)) 4 *
      ((1 / e.RA 0 k - 1) * o1zmE_dHx e i j k g -
        1 / e.RA 0 k * g.Phi2 0 i j k)

/-- Final `Phi1` row values of one cell of `order1_zminus`
(`RC0 = IRA * RB[0, k] * RF[0, k]`; the `- RC0 * Phi1[0]` term reads
the pre-update value). -/
def o1zmE_pPhi1 (e : PMLEnv) (l i j k : ℕ) (g : Grid) : ℚ :=
  if l = 0 then
    e.RE 0 k * g.Phi1 0 i j k +
      1 / e.RA 0 k * e.RB 0 k * e.RF 0 k * o1zmE_dHy e i j k g -
      1 / e.RA 0 k * e.RB 0 k * e.RF 0 k * g.Phi1 0 i j k
  else g.Phi1 l i j k

/-- Final `Phi2` row values of one cell of `order1_zminus`. -/
def o1zmE_pPhi2 (e : PMLEnv) (l i j k : ℕ) (g : Grid) : ℚ :=
  if l = 0 then
    e.RE 0 k * g.Phi2 0 i j k +
      1 / e.RA 0 k * e.RB 0 k * e.RF 0 k * o1zmE_dHx e i j k g -
      1 / e.RA 0 k * e.RB 0 k * e.RF 0 k * g.Phi2 0 i j k
  else g.Phi2 l i j k

/-- Loop body of `order1_zminus` (electric, MRIPML), translated
statement by statement from the source (loop-invariant coefficient reads,
hoisted to an outer loop in the source, are re-read per cell; they are
read-only, so this is equivalent). -/
def order1_zminus_cell (e : PMLEnv) (i j k : ℕ) (g : Grid) : Grid :=
  let ii : ℤ := e.xs + i
  let jj : ℤ := e.ys + j
  let kk : ℤ := e.zf - k
  let IRA : ℚ := 1 / e.RA 0 k
  let IRA1 : ℚ := IRA - 1
  let RB0 : ℚ := e.RB 0 k
  let RE0 : ℚ := e.RE 0 k
  let RF0 : ℚ := e.RF 0 k
  let RC0 : ℚ := IRA * RB0 * RF0
  let materialEx : ℕ := e.ID 0 ii jj kk
  let dHy : ℚ := (g.F 4 ii jj kk - g.F 4 ii jj (kk - 1)) / e.d
  let g1 : Grid := setF g 0 ii jj kk
    (g.F 0 ii jj kk - e.uc materialEx 4 *
      (IRA1 * dHy - IRA * g.Phi1 0 i j k))
  let g2 : Grid := setPhi1 g1 0 i j k
    (RE0 * g1.Phi1 0 i j k + RC0 * dHy - RC0 * g1.Phi1 0 i j k)
  let materialEy : ℕ := e.ID 1 ii jj kk
  let dHx : ℚ := (g2.F 3 ii jj kk - g2.F 3 ii jj (kk - 1)) / e.d
  let g3 : Grid := setF g2 1 ii jj kk
    (g2.F 1 ii jj kk + e.uc materialEy 4 *
      (IRA1 * dHx - IRA * g2.Phi2 0 i j k))
  let g4 : Grid := setPhi2 g3 0 i j k
    (RE0 * g3.Phi2 0 i j k + RC0 * dHx - RC0 * g3.Phi2 0 i j k)
  g4

/-- `order1_zminus` of `pml_updates_electric_MRIPML.pyx`: updates
the `Ex` and `Ey` components on the zminus slab. -/
def order1_zminus (e : PMLEnv) (g : Grid) : Grid :=
  iter3 e.nx e.ny e.nz (order1_zminus_cell e) g

/-- Cell description of `order1_zminus`. -/
def o1zmE_spec (e : PMLEnv) : CellSpec where
  c1 := 0
  c2 := 1
  addr := fun i j k => (e.xs + i, e.ys + j, e.zf - k)
  v1 := o1zmE_vEx e
  v2 := o1zmE_vEy e
  p1 := fun l i j k => o1zmE_pPhi1 e l i j k
  p2 := fun l i j k => o1zmE_pPhi2 e l i j k

theorem o1zmE_realizes (e : PMLEnv) :
    Realizes (o1zmE_spec e) e.nx e.ny e.nz (order1_zminus_cell e) := by
  constructor
  case hne =>
    simp only [o1zmE_spec]
    decide
  case inj =>
    intro i j k i' j' k' _ _ _ _ _ _ h
    simp only [o1zmE_spec, Prod.mk.injEq] at h
    refine ⟨?_, ?_, ?_⟩ <;> omega
  case frameF =>
    intro i j k g c x y z h
    simp only [o1zmE_spec] at h
    simp only [order1_zminus_cell, o1zmE_spec]
    exact shapeO1_frameF _ _ _ _ _ _ _ _ _ _ _ _ _ c x y z h
  case val1 =>
    intro i j k g
    simp only [order1_zminus_cell, o1zmE_spec]
    exact shapeO1_val1 _ _ _ _ _ _ _ _ _ _ _ _ _ (by decide)
  case val2 =>
    intro i j k g
    simp only [order1_zminus_cell, o1zmE_spec]
    exact shapeO1_val2 _ _ _ _ _ _ _ _ _ _ _ _ _ 
  case framePhi =>
    intro i j k g l i' j' k' h
    simp only [order1_zminus_cell, o1zmE_spec]
    exact shapeO1_framePhi _ _ _ _ _ _ _ _ _ _ _ _ _ l i' j' k' h
  case valP1 =>
    intro i j k g l
    simp only [order1_zminus_cell, o1zmE_spec]
    rw [shapeO1_valPhi1]
    rfl
  case valP2 =>
    intro i j k g l
    simp only [order1_zminus_cell, o1zmE_spec]
    rw [shapeO1_valPhi2]
    rfl
  case dep =>
    intro i j k g g' h
    obtain ⟨h0, h1, h2, h3, h4⟩ := h
    simp only [o1zmE_spec] at h0 h1 h2
    simp only [o1zmE_spec]
    refine ⟨?_, ?_, fun l => ?_, fun l => ?_⟩
    · simp only [o1zmE_vEx, o1zmE_dHy, h0 4 (by decide) (by decide), h1, h3]
    · simp only [o1zmE_vEy, o1zmE_dHx, h0 3 (by decide) (by decide), h2, h4]
    · simp only [o1zmE_pPhi1, o1zmE_dHy, h0 4 (by decide) (by decide), h3]
    · simp only [o1zmE_pPhi2, o1zmE_dHx, h0 3 (by decide) (by decide), h4]


/-- Value stored in `Ex[ii, jj, kk]` by one cell of `order2_zminus`
(`IRA = 1 / (RA[0, k] + RA[1, k])`, `Psi1 = RB[0]*Phi1[0] + RB[1]*Phi1[1]`). -/
def o2zmE_vEx (e : PMLEnv) (i j k : ℕ) (g : Grid) : ℚ :=
  g.F 0 (e.xs + i) (e.ys + j) (e.zf - k) -
    e.uc (e.ID 0 (e.xs + i) (e.ys + j) (e.zf - k)) 4 *
      ((1 / (e.RA 0 k + e.RA 1 k) - 1) * o1zmE_dHy e i j k g -
        1 / (e.RA 0 k + e.RA 1 k) * (e.RB 0 k * g.Phi1 0 i j k + e.RB 1 k * g.Phi1 1 i j k))

/-- Value stored in `Ey[ii, jj, kk]` by one cell of `order2_zminus`. -/
def o2zmE_vEy (e : PMLEnv) (i j k : ℕ) (g : Grid) : ℚ :=
  g.F 1 (e.xs + i) (e.ys + j) (e.zf - k) +
    e.uc (e.ID 1 (e.xs + i) (e.ys + j) (e.zf - k)) 4 *
      ((1 / (e.RA 0 k + e.RA 1 k) - 1) * o1zmE_dHx e i j k g -
        1 / (e.RA 0 k + e.RA 1 k) * (e.RB 0 k * g.Phi2 0 i j k + e.RB 1 k * g.Phi2 1 i j k))

/-- Final `Phi1` row values of one cell of `order2_zminus`
(`RC0 = IRA * RF[0, k]`, `RC1 = IRA * RF[1, k]`; both rows read the
pre-update `Psi1`). -/
def o2zmE_pPhi1 (e : PMLEnv) (l i j k : ℕ) (g : Grid) : ℚ :=
  if l = 0 then
    e.RE 0 k * g.Phi1 0 i j k +
      1 / (e.RA 0 k + e.RA 1 k) * e.RF 0 k * (o1zmE_dHy e i j k g - (e.RB 0 k * g.Phi1 0 i j k + e.RB 1 k * g.Phi1 1 i j k))
  else if l = 1 then
    e.RE 1 k * g.Phi1 1 i j k +
      1 / (e.RA 0 k + e.RA 1 k) * e.RF 1 k * (o1zmE_dHy e i j k g - (e.RB 0 k * g.Phi1 0 i j k + e.RB 1 k * g.Phi1 1 i j k))
  else g.Phi1 l i j k

/-- Final `Phi2` row values of one cell of `order2_zminus`. -/
def o2zmE_pPhi2 (e : PMLEnv) (l i j k : ℕ) (g : Grid) : ℚ :=
  if l = 0 then
    e.RE 0 k * g.Phi2 0 i j k +
      1 / (e.RA 0 k + e.RA 1 k) * e.RF 0 k * (o1zmE_dHx e i j k g - (e.RB 0 k * g.Phi2 0 i j k + e.RB 1 k * g.Phi2 1 i j k))
  else if l = 1 then
    e.RE 1 k * g.Phi2 1 i j k +
      1 / (e.RA 0 k + e.RA 1 k) * e.RF 1 k * (o1zmE_dHx e i j k g - (e.RB 0 k * g.Phi2 0 i j k + e.RB 1 k * g.Phi2 1 i j k))
  else g.Phi2 l i j k

/-- Loop body of `order2_zminus` (electric, MRIPML). -/
def order2_zminus_cell (e : PMLEnv) (i j k : ℕ) (g : Grid) : Grid :=
  let ii : ℤ := e.xs + i
  let jj : ℤ := e.ys + j
  let kk : ℤ := e.zf - k
  let IRA : ℚ := 1 / (e.RA 0 k + e.RA 1 k)
  let IRA1 : ℚ := IRA - 1
  let RB0 : ℚ := e.RB 0 k
  let RE0 : ℚ := e.RE 0 k
  let RF0 : ℚ := e.RF 0 k
  let RC0 : ℚ := IRA * RF0
  let RB1 : ℚ := e.RB 1 k
  let RE1 : ℚ := e.RE 1 k
  let RF1 : ℚ := e.RF 1 k
  let RC1 : ℚ := IRA * RF1
  let Psi1 : ℚ := RB0 * g.Phi1 0 i j k + RB1 * g.Phi1 1 i j k
  let Psi2 : ℚ := RB0 * g.Phi2 0 i j k + RB1 * g.Phi2 1 i j k
  let materialEx : ℕ := e.ID 0 ii jj kk
  let dHy : ℚ := (g.F 4 ii jj kk - g.F 4 ii jj (kk - 1)) / e.d
  let g1 : Grid := setF g 0 ii jj kk
    (g.F 0 ii jj kk - e.uc materialEx 4 *
      (IRA1 * dHy - IRA * Psi1))
  let g2 : Grid := setPhi1 g1 1 i j k (RE1 * g1.Phi1 1 i j k + RC1 * (dHy - Psi1))
  let g3 : Grid := setPhi1 g2 0 i j k (RE0 * g2.Phi1 0 i j k + RC0 * (dHy - Psi1))
  let materialEy : ℕ := e.ID 1 ii jj kk
  let dHx : ℚ := (g3.F 3 ii jj kk - g3.F 3 ii jj (kk - 1)) / e.d
  let g4 : Grid := setF g3 1 ii jj kk
    (g3.F 1 ii jj kk + e.uc materialEy 4 *
      (IRA1 * dHx - IRA * Psi2))
  let g5 : Grid := setPhi2 g4 1 i j k (RE1 * g4.Phi2 1 i j k + RC1 * (dHx - Psi2))
  let g6 : Grid := setPhi2 g5 0 i j k (RE0 * g5.Phi2 0 i j k + RC0 * (dHx - Psi2))
  g6

/-- `order2_zminus` of `pml_updates_electric_MRIPML.pyx`. -/
def order2_zminus (e : PMLEnv) (g : Grid) : Grid :=
  iter3 e.nx e.ny e.nz (order2_zminus_cell e) g

/-- Cell description of `order2_zminus`. -/
def o2zmE_spec (e : PMLEnv) : CellSpec where
  c1 := 0
  c2 := 1
  addr := fun i j k => (e.xs + i, e.ys + j, e.zf - k)
  v1 := o2zmE_vEx e
  v2 := o2zmE_vEy e
  p1 := fun l i j k => o2zmE_pPhi1 e l i j k
  p2 := fun l i j k => o2zmE_pPhi2 e l i j k

theorem o2zmE_realizes (e : PMLEnv) :
    Realizes (o2zmE_spec e) e.nx e.ny e.nz (order2_zminus_cell e) := by
  constructor
  case hne =>
    simp only [o2zmE_spec]
    decide
  case inj =>
    intro i j k i' j' k' _ _ _ _ _ _ h
    simp only [o2zmE_spec, Prod.mk.injEq] at h
    refine ⟨?_, ?_, ?_⟩ <;> omega
  case frameF =>
    intro i j k g c x y z h
    simp only [o2zmE_spec] at h
    simp only [order2_zminus_cell, o2zmE_spec]
    exact shapeO2_frameF _ _ _ _ _ _ _ _ _ _ _ _ _ _ _ c x y z h
  case val1 =>
    intro i j k g
    simp only [order2_zminus_cell, o2zmE_spec]
    exact shapeO2_val1 _ _ _ _ _ _ _ _ _ _ _ _ _ _ _ (by decide)
  case val2 =>
    intro i j k g
    simp only [order2_zminus_cell, o2zmE_spec]
    exact shapeO2_val2 _ _ _ _ _ _ _ _ _ _ _ _ _ _ _ 
  case framePhi =>
    intro i j k g l i' j' k' h
    simp only [order2_zminus_cell, o2zmE_spec]
    exact shapeO2_framePhi _ _ _ _ _ _ _ _ _ _ _ _ _ _ _ l i' j' k' h
  case valP1 =>
    intro i j k g l
    simp only [order2_zminus_cell, o2zmE_spec]
    rw [shapeO2_valPhi1]
    rfl
  case valP2 =>
    intro i j k g l
    simp only [order2_zminus_cell, o2zmE_spec]
    rw [shapeO2_valPhi2]
    rfl
  case dep =>
    intro i j k g g' h
    obtain ⟨h0, h1, h2, h3, h4⟩ := h
    simp only [o2zmE_spec] at h0 h1 h2
    simp only [o2zmE_spec]
    refine ⟨?_, ?_, fun l => ?_, fun l => ?_⟩
    · simp only [o2zmE_vEx, o1zmE_dHy, h0 4 (by decide) (by decide), h1, h3]
    · simp only [o2zmE_vEy, o1zmE_dHx, h0 3 (by decide) (by decide), h2, h4]
    · simp only [o2zmE_pPhi1, o1zmE_dHy, h0 4 (by decide) (by decide), h3]
    · simp only [o2zmE_pPhi2, o1zmE_dHx, h0 3 (by decide) (by decide), h4]


/-- `dHy` of the zplus electric kernels (backward difference along
the normal axis, divided by `d`). -/
def o1zpE_dHy (e : PMLEnv) (i j k : ℕ) (g : Grid) : ℚ :=
  (g.F 4 (e.xs + i) (e.ys + j) (e.zs + k) -
    g.F 4 (e.xs + i) (e.ys + j) (e.zs + k - 1)) / e.d

/-- `dHx` of the zplus electric kernels (backward difference along
the normal axis, divided by `d`). -/
def o1zpE_dHx (e : PMLEnv) (i j k : ℕ) (g : Grid) : ℚ :=
  (g.F 3 (e.xs + i) (e.ys + j) (e.zs + k) -
    g.F 3 (e.xs + i) (e.ys + j) (e.zs + k - 1)) / e.d

/-- Value stored in `Ex[ii, jj, kk]` by one cell of `order1_zplus`
(`IRA = 1 / RA[0, k]`, `IRA1 = IRA - 1`). -/
def o1zpE_vEx (e : PMLEnv) (i j k : ℕ) (g : Grid) : ℚ :=
  g.F 0 (e.xs + i) (e.ys + j) (e.zs + k) -
    e.uc (e.ID 0 (e.xs + i) (e.ys + j) (e.zs + k)) 4 *
      ((1 / e.RA 0 k - 1) * o1zpE_dHy e i j k g -
        1 / e.RA 0 k * g.Phi1 0 i j k)

/-- Value stored in `Ey[ii, jj, kk]` by one cell of `order1_zplus`. -/
def o1zpE_vEy (e : PMLEnv) (i j k : ℕ) (g : Grid) : ℚ :=
  g.F 1 (e.xs + i) (e.ys + j) (e.zs + k) +
    e.uc (e.ID 1 (e.xs + i) (e.ys + j) (e.zs + k)) 4 *
      ((1 / e.RA 0 k - 1) * o1zpE_dHx e i j k g -
        1 / e.RA 0 k * g.Phi2 0 i j k)

/-- Final `Phi1` row values of one cell of `order1_zplus`
(`RC0 = IRA * RB[0, k] * RF[0, k]`; the `- RC0 * Phi1[0]` term reads
the pre-update value). -/
def o1zpE_pPhi1 (e : PMLEnv) (l i j k : ℕ) (g : Grid) : ℚ :=
  if l = 0 then
    e.RE 0 k * g.Phi1 0 i j k +
      1 / e.RA 0 k * e.RB 0 k * e.RF 0 k * o1zpE_dHy e i j k g -
      1 / e.RA 0 k * e.RB 0 k * e.RF 0 k * g.Phi1 0 i j k
  else g.Phi1 l i j k

/-- Final `Phi2` row values of one cell of `order1_zplus`. -/
def o1zpE_pPhi2 (e : PMLEnv) (l i j k : ℕ) (g : Grid) : ℚ :=
  if l = 0 then
    e.RE 0 k * g.Phi2 0 i j k +
      1 / e.RA 0 k * e.RB 0 k * e.RF 0 k * o1zpE_dHx e i j k g -
      1 / e.RA 0 k * e.RB 0 k * e.RF 0 k * g.Phi2 0 i j k
  else g.Phi2 l i j k

/-- Loop body of `order1_zplus` (electric, MRIPML), translated
statement by statement from the source (loop-invariant coefficient reads,
hoisted to an outer loop in the source, are re-read per cell; they are
read-only, so this is equivalent). -/
def order1_zplus_cell (e : PMLEnv) (i j k : ℕ) (g : Grid) : Grid :=
  let ii : ℤ := e.xs + i
  let jj : ℤ := e.ys + j
  let kk : ℤ := e.zs + k
  let IRA : ℚ := 1 / e.RA 0 k
  let IRA1 : ℚ := IRA - 1
  let RB0 : ℚ := e.RB 0 k
  let RE0 : ℚ := e.RE 0 k
  let RF0 : ℚ := e.RF 0 k
  let RC0 : ℚ := IRA * RB0 * RF0
  let materialEx : ℕ := e.ID 0 ii jj kk
  let dHy : ℚ := (g.F 4 ii jj kk - g.F 4 ii jj (kk - 1)) / e.d
  let g1 : Grid := setF g 0 ii jj kk
    (g.F 0 ii jj kk - e.uc materialEx 4 *
      (IRA1 * dHy - IRA * g.Phi1 0 i j k))
  let g2 : Grid := setPhi1 g1 0 i j k
    (RE0 * g1.Phi1 0 i j k + RC0 * dHy - RC0 * g1.Phi1 0 i j k)
  let materialEy : ℕ := e.ID 1 ii jj kk
  let dHx : ℚ := (g2.F 3 ii jj kk - g2.F 3 ii jj (kk - 1)) / e.d
  let g3 : Grid := setF g2 1 ii jj kk
    (g2.F 1 ii jj kk + e.uc materialEy 4 *
      (IRA1 * dHx - IRA * g2.Phi2 0 i j k))
  let g4 : Grid := setPhi2 g3 0 i j k
    (RE0 * g3.Phi2 0 i j k + RC0 * dHx - RC0 * g3.Phi2 0 i j k)
  g4

/-- `order1_zplus` of `pml_updates_electric_MRIPML.pyx`: updates
the `Ex` and `Ey` components on the zplus slab. -/
def order1_zplus (e : PMLEnv) (g : Grid) : Grid :=
  iter3 e.nx e.ny e.nz (order1_zplus_cell e) g

/-- Cell description of `order1_zplus`. -/
def o1zpE_spec (e : PMLEnv) : CellSpec where
  c1 := 0
  c2 := 1
  addr := fun i j k => (e.xs + i, e.ys + j, e.zs + k)
  v1 := o1zpE_vEx e
  v2 := o1zpE_vEy e
  p1 := fun l i j k => o1zpE_pPhi1 e l i j k
  p2 := fun l i j k => o1zpE_pPhi2 e l i j k

theorem o1zpE_realizes (e : PMLEnv) :
    Realizes (o1zpE_spec e) e.nx e.ny e.nz (order1_zplus_cell e) := by
  constructor
  case hne =>
    simp only [o1zpE_spec]
    decide
  case inj =>
    intro i j k i' j' k' _ _ _ _ _ _ h
    simp only [o1zpE_spec, Prod.mk.injEq] at h
    refine ⟨?_, ?_, ?_⟩ <;> omega
  case frameF =>
    intro i j k g c x y z h
    simp only [o1zpE_spec] at h
    simp only [order1_zplus_cell, o1zpE_spec]
    exact shapeO1_frameF _ _ _ _ _ _ _ _ _ _ _ _ _ c x y z h
  case val1 =>
    intro i j k g
    simp only [order1_zplus_cell, o1zpE_spec]
    exact shapeO1_val1 _ _ _ _ _ _ _ _ _ _ _ _ _ (by decide)
  case val2 =>
    intro i j k g
    simp only [order1_zplus_cell, o1zpE_spec]
    exact shapeO1_val2 _ _ _ _ _ _ _ _ _ _ _ _ _ 
  case framePhi =>
    intro i j k g l i' j' k' h
    simp only [order1_zplus_cell, o1zpE_spec]
    exact shapeO1_framePhi _ _ _ _ _ _ _ _ _ _ _ _ _ l i' j' k' h
  case valP1 =>
    intro i j k g l
    simp only [order1_zplus_cell, o1zpE_spec]
    rw [shapeO1_valPhi1]
    rfl
  case valP2 =>
    intro i j k g l
    simp only [order1_zplus_cell, o1zpE_spec]
    rw [shapeO1_valPhi2]
    rfl
  case dep =>
    intro i j k g g' h
    obtain ⟨h0, h1, h2, h3, h4⟩ := h
    simp only [o1zpE_spec] at h0 h1 h2
    simp only [o1zpE_spec]
    refine ⟨?_, ?_, fun l => ?_, fun l => ?_⟩
    · simp only [o1zpE_vEx, o1zpE_dHy, h0 4 (by decide) (by decide), h1, h3]
    · simp only [o1zpE_vEy, o1zpE_dHx, h0 3 (by decide) (by decide), h2, h4]
    · simp only [o1zpE_pPhi1, o1zpE_dHy, h0 4 (by decide) (by decide), h3]
    · simp only [o1zpE_pPhi2, o1zpE_dHx, h0 3 (by decide) (by decide), h4]


/-- Value stored in `Ex[ii, jj, kk]` by one cell of `order2_zplus`
(`IRA = 1 / (RA[0, k] + RA[1, k])`, `Psi1 = RB[0]*Phi1[0] + RB[1]*Phi1[1]`). -/
def o2zpE_vEx (e : PMLEnv) (i j k : ℕ) (g : Grid) : ℚ :=
  g.F 0 (e.xs + i) (e.ys + j) (e.zs + k) -
    e.uc (e.ID 0 (e.xs + i) (e.ys + j) (e.zs + k)) 4 *
      ((1 / (e.RA 0 k + e.RA 1 k) - 1) * o1zpE_dHy e i j k g -
        1 / (e.RA 0 k + e.RA 1 k) * (e.RB 0 k * g.Phi1 0 i j k + e.RB 1 k * g.Phi1 1 i j k))

/-- Value stored in `Ey[ii, jj, kk]` by one cell of `order2_zplus`. -/
def o2zpE_vEy (e : PMLEnv) (i j k : ℕ) (g : Grid) : ℚ :=
  g.F 1 (e.xs + i) (e.ys + j) (e.zs + k) +
    e.uc (e.ID 1 (e.xs + i) (e.ys + j) (e.zs + k)) 4 *
      ((1 / (e.RA 0 k + e.RA 1 k) - 1) * o1zpE_dHx e i j k g -
        1 / (e.RA 0 k + e.RA 1 k) * (e.RB 0 k * g.Phi2 0 i j k + e.RB 1 k * g.Phi2 1 i j k))

/-- Final `Phi1` row values of one cell of `order2_zplus`
(`RC0 = IRA * RF[0, k]`, `RC1 = IRA * RF[1, k]`; both rows read the
pre-update `Psi1`). -/
def o2zpE_pPhi1 (e : PMLEnv) (l i j k : ℕ) (g : Grid) : ℚ :=
  if l = 0 then
    e.RE 0 k * g.Phi1 0 i j k +
      1 / (e.RA 0 k + e.RA 1 k) * e.RF 0 k * (o1zpE_dHy e i j k g - (e.RB 0 k * g.Phi1 0 i j k + e.RB 1 k * g.Phi1 1 i j k))
  else if l = 1 then
    e.RE 1 k * g.Phi1 1 i j k +
      1 / (e.RA 0 k + e.RA 1 k) * e.RF 1 k * (o1zpE_dHy e i j k g - (e.RB 0 k * g.Phi1 0 i j k + e.RB 1 k * g.Phi1 1 i j k))
  else g.Phi1 l i j k

/-- Final `Phi2` row values of one cell of `order2_zplus`. -/
def o2zpE_pPhi2 (e : PMLEnv) (l i j k : ℕ) (g : Grid) : ℚ :=
  if l = 0 then
    e.RE 0 k * g.Phi2 0 i j k +
      1 / (e.RA 0 k + e.RA 1 k) * e.RF 0 k * (o1zpE_dHx e i j k g - (e.RB 0 k * g.Phi2 0 i j k + e.RB 1 k * g.Phi2 1 i j k))
  else if l = 1 then
    e.RE 1 k * g.Phi2 1 i j k +
      1 / (e.RA 0 k + e.RA 1 k) * e.RF 1 k * (o1zpE_dHx e i j k g - (e.RB 0 k * g.Phi2 0 i j k + e.RB 1 k * g.Phi2 1 i j k))
  else g.Phi2 l i j k

/-- Loop body of `order2_zplus` (electric, MRIPML). -/
def order2_zplus_cell (e : PMLEnv) (i j k : ℕ) (g : Grid) : Grid :=
  let ii : ℤ := e.xs + i
  let jj : ℤ := e.ys + j
  let kk : ℤ := e.zs + k
  let IRA : ℚ := 1 / (e.RA 0 k + e.RA 1 k)
  let IRA1 : ℚ := IRA - 1
  let RB0 : ℚ := e.RB 0 k
  let RE0 : ℚ := e.RE 0 k
  let RF0 : ℚ := e.RF 0 k
  let RC0 : ℚ := IRA * RF0
  let RB1 : ℚ := e.RB 1 k
  let RE1 : ℚ := e.RE 1 k
  let RF1 : ℚ := e.RF 1 k
  let RC1 : ℚ := IRA * RF1
  let Psi1 : ℚ := RB0 * g.Phi1 0 i j k + RB1 * g.Phi1 1 i j k
  let Psi2 : ℚ := RB0 * g.Phi2 0 i j k + RB1 * g.Phi2 1 i j k
  let materialEx : ℕ := e.ID 0 ii jj kk
  let dHy : ℚ := (g.F 4 ii jj kk - g.F 4 ii jj (kk - 1)) / e.d
  let g1 : Grid := setF g 0 ii jj kk
    (g.F 0 ii jj kk - e.uc materialEx 4 *
      (IRA1 * dHy - IRA * Psi1))
  let g2 : Grid := setPhi1 g1 1 i j k (RE1 * g1.Phi1 1 i j k + RC1 * (dHy - Psi1))
  let g3 : Grid := setPhi1 g2 0 i j k (RE0 * g2.Phi1 0 i j k + RC0 * (dHy - Psi1))
  let materialEy : ℕ := e.ID 1 ii jj kk
  let dHx : ℚ := (g3.F 3 ii jj kk - g3.F 3 ii jj (kk - 1)) / e.d
  let g4 : Grid := setF g3 1 ii jj kk
    (g3.F 1 ii jj kk + e.uc materialEy 4 *
      (IRA1 * dHx - IRA * Psi2))
  let g5 : Grid := setPhi2 g4 1 i j k (RE1 * g4.Phi2 1 i j k + RC1 * (dHx - Psi2))
  let g6 : Grid := setPhi2 g5 0 i j k (RE0 * g5.Phi2 0 i j k + RC0 * (dHx - Psi2))
  g6

/-- `order2_zplus` of `pml_updates_electric_MRIPML.pyx`. -/
def order2_zplus (e : PMLEnv) (g : Grid) : Grid :=
  iter3 e.nx e.ny e.nz (order2_zplus_cell e) g

/-- Cell description of `order2_zplus`. -/
def o2zpE_spec (e : PMLEnv) : CellSpec where
  c1 := 0
  c2 := 1
  addr := fun i j k => (e.xs + i, e.ys + j, e.zs + k)
  v1 := o2zpE_vEx e
  v2 := o2zpE_vEy e
  p1 := fun l i j k => o2zpE_pPhi1 e l i j k
  p2 := fun l i j k => o2zpE_pPhi2 e l i j k

theorem o2zpE_realizes (e : PMLEnv) :
    Realizes (o2zpE_spec e) e.nx e.ny e.nz (order2_zplus_cell e) := by
  constructor
  case hne =>
    simp only [o2zpE_spec]
    decide
  case inj =>
    intro i j k i' j' k' _ _ _ _ _ _ h
    simp only [o2zpE_spec, Prod.mk.injEq] at h
    refine ⟨?_, ?_, ?_⟩ <;> omega
  case frameF =>
    intro i j k g c x y z h
    simp only [o2zpE_spec] at h
    simp only [order2_zplus_cell, o2zpE_spec]
    exact shapeO2_frameF _ _ _ _ _ _ _ _ _ _ _ _ _ _ _ c x y z h
  case val1 =>
    intro i j k g
    simp only [order2_zplus_cell, o2zpE_spec]
    exact shapeO2_val1 _ _ _ _ _ _ _ _ _ _ _ _ _ _ _ (by decide)
  case val2 =>
    intro i j k g
    simp only [order2_zplus_cell, o2zpE_spec]
    exact shapeO2_val2 _ _ _ _ _ _ _ _ _ _ _ _ _ _ _ 
  case framePhi =>
    intro i j k g l i' j' k' h
    simp only [order2_zplus_cell, o2zpE_spec]
    exact shapeO2_framePhi _ _ _ _ _ _ _ _ _ _ _ _ _ _ _ l i' j' k' h
  case valP1 =>
    intro i j k g l
    simp only [order2_zplus_cell, o2zpE_spec]
    rw [shapeO2_valPhi1]
    rfl
  case valP2 =>
    intro i j k g l
    simp only [order2_zplus_cell, o2zpE_spec]
    rw [shapeO2_valPhi2]
    rfl
  case dep =>
    intro i j k g g' h
    obtain ⟨h0, h1, h2, h3, h4⟩ := h
    simp only [o2zpE_spec] at h0 h1 h2
    simp only [o2zpE_spec]
    refine ⟨?_, ?_, fun l => ?_, fun l => ?_⟩
    · simp only [o2zpE_vEx, o1zpE_dHy, h0 4 (by decide) (by decide), h1, h3]
    · simp only [o2zpE_vEy, o1zpE_dHx, h0 3 (by decide) (by decide), h2, h4]
    · simp only [o2zpE_pPhi1, o1zpE_dHy, h0 4 (by decide) (by decide), h3]
    · simp only [o2zpE_pPhi2, o1zpE_dHx, h0 3 (by decide) (by decide), h4]


end MRIPML

/-! Concrete inputs used by witnesses and counterexamples. -/

/-- Builder for concrete 1×1×1 slab environments: bounds `[0,1)³`,
`updatecoeffs = 1` everywhere, `ID = 0`, `d = 1`. -/
def mkEnv (ra rb re rf : ℕ → ℕ → ℚ) : PMLEnv where
  xs := 0
  xf := 1
  ys := 0
  yf := 1
  zs := 0
  zf := 1
  uc := fun _ _ => 1
  ID := fun _ _ _ _ => 0
  RA := ra
  RB := rb
  RE := re
  RF := rf
  d := 1

/-- Concrete grid: `Ez[x, y, z] = x`, other components zero,
`Phi1 = Phi2 = 1` everywhere. -/
def gridEz : Grid where
  F := fun c x _ _ => if c = 2 then (x : ℚ) else 0
  Phi1 := fun _ _ _ _ => 1
  Phi2 := fun _ _ _ _ => 1

/-- Concrete grid: `Hz[x, y, z] = x`, other components zero,
`Phi1 = Phi2 = 1` everywhere. -/
def gridHz : Grid where
  F := fun c x _ _ => if c = 5 then (x : ℚ) else 0
  Phi1 := fun _ _ _ _ => 1
  Phi2 := fun _ _ _ _ => 1

/-- Constant coefficient profile `2`. -/
def cRA : ℕ → ℕ → ℚ := fun _ _ => 2

/-- Constant coefficient profile `3`. -/
def cRB : ℕ → ℕ → ℚ := fun _ _ => 3

/-- Constant coefficient profile `5`. -/
def cRE : ℕ → ℕ → ℚ := fun _ _ => 5

/-- Constant coefficient profile `7`. -/
def cRF : ℕ → ℕ → ℚ := fun _ _ => 7

/-- **C2.** The order-1 HORIPML magnetic xminus kernel, at every slab cell
`(i, j, k)`, forms the forward differences
`dEz = (Ez[ii+1,jj,kk] - Ez[ii,jj,kk]) / d` and
`dEy = (Ey[ii+1,jj,kk] - Ey[ii,jj,kk]) / d` at `ii = xf - (i+1)`,
`jj = ys + j`, `kk = zs + k`, adds `c_Hy·((RA[0,i]-1)·dEz + RB[0,i]·Phi1[0,i,j,k])`
to `Hy[ii,jj,kk]` and subtracts `c_Hz·((RA[0,i]-1)·dEy + RB[0,i]·Phi2[0,i,j,k])`
from `Hz[ii,jj,kk]`, with `c_Hy = updatecoeffsH[ID[4,ii,jj,kk],4]` and
`c_Hz = updatecoeffsH[ID[5,ii,jj,kk],4]`, then overwrites
`Phi1[0,i,j,k]` with `RE[0,i]·Phi1[0,i,j,k] - RF[0,i]·dEz` (and `Phi2`
analogously with `dEy`); all right-hand sides read the pre-call values. -/
theorem C2_horipml_order1_xminus (e : PMLEnv) (g : Grid) (i j k : ℕ)
    (hi : i < e.nx) (hj : j < e.ny) (hk : k < e.nz) :
    (HORIPML.order1_xminus e g).F 4 (e.xf - (i + 1)) (e.ys + j) (e.zs + k) =
      g.F 4 (e.xf - (i + 1)) (e.ys + j) (e.zs + k) +
        e.uc (e.ID 4 (e.xf - (i + 1)) (e.ys + j) (e.zs + k)) 4 *
          ((e.RA 0 i - 1) *
              ((g.F 2 (e.xf - (i + 1) + 1) (e.ys + j) (e.zs + k) -
                g.F 2 (e.xf - (i + 1)) (e.ys + j) (e.zs + k)) / e.d) +
            e.RB 0 i * g.Phi1 0 i j k) ∧
    (HORIPML.order1_xminus e g).F 5 (e.xf - (i + 1)) (e.ys + j) (e.zs + k) =
      g.F 5 (e.xf - (i + 1)) (e.ys + j) (e.zs + k) -
        e.uc (e.ID 5 (e.xf - (i + 1)) (e.ys + j) (e.zs + k)) 4 *
          ((e.RA 0 i - 1) *
              ((g.F 1 (e.xf - (i + 1) + 1) (e.ys + j) (e.zs + k) -
                g.F 1 (e.xf - (i + 1)) (e.ys + j) (e.zs + k)) / e.d) +
            e.RB 0 i * g.Phi2 0 i j k) ∧
    (HORIPML.order1_xminus e g).Phi1 0 i j k =
      e.RE 0 i * g.Phi1 0 i j k -
        e.RF 0 i *
          ((g.F 2 (e.xf - (i + 1) + 1) (e.ys + j) (e.zs + k) -
            g.F 2 (e.xf - (i + 1)) (e.ys + j) (e.zs + k)) / e.d) ∧
    (HORIPML.order1_xminus e g).Phi2 0 i j k =
      e.RE 0 i * g.Phi2 0 i j k -
        e.RF 0 i *
          ((g.F 1 (e.xf - (i + 1) + 1) (e.ys + j) (e.zs + k) -
            g.F 1 (e.xf - (i + 1)) (e.ys + j) (e.zs + k)) / e.d) := by
  have h := (HORIPML.o1xmH_realizes e).val_iter3 g i j k hi hj hk
  exact ⟨h.1, h.2.1, h.2.2.1 0, h.2.2.2 0⟩

/-- Witness for C2 on a concrete 1×1×1 slab. -/
theorem C2_horipml_order1_xminus_witness :
    (HORIPML.order1_xminus (mkEnv cRA cRB cRE cRF) gridEz).F 4 0 0 0 = 4 ∧
    (HORIPML.order1_xminus (mkEnv cRA cRB cRE cRF) gridEz).F 5 0 0 0 = -3 ∧
    (HORIPML.order1_xminus (mkEnv cRA cRB cRE cRF) gridEz).Phi1 0 0 0 0 = -2 ∧
    (HORIPML.order1_xminus (mkEnv cRA cRB cRE cRF) gridEz).Phi2 0 0 0 0 = 5 := by
  obtain ⟨h1, h2, h3, h4⟩ := C2_horipml_order1_xminus (mkEnv cRA cRB cRE cRF)
    gridEz 0 0 0 (by decide) (by decide) (by decide)
  refine ⟨?_, ?_, ?_, ?_⟩
  · simp only [mkEnv, cRA, cRB, cRE, cRF, gridEz] at h1
    norm_num at h1
    exact h1
  · simp only [mkEnv, cRA, cRB, cRE, cRF, gridEz] at h2
    norm_num at h2
    exact h2
  · simp only [mkEnv, cRA, cRB, cRE, cRF, gridEz] at h3
    norm_num at h3
    exact h3
  · simp only [mkEnv, cRA, cRB, cRE, cRF, gridEz] at h4
    norm_num at h4
    exact h4

/-- Row-dependent profile: `2` in row 0, `3` in row 1. -/
def rowRA : ℕ → ℕ → ℚ := fun r _ => if r = 0 then 2 else 3

/-- Row-dependent profile: `3` in row 0, `5` in row 1. -/
def rowRB : ℕ → ℕ → ℚ := fun r _ => if r = 0 then 3 else 5

/-- Row-dependent profile: `5` in row 0, `7` in row 1. -/
def rowRE : ℕ → ℕ → ℚ := fun r _ => if r = 0 then 5 else 7

/-- Row-dependent profile: `7` in row 0, `11` in row 1. -/
def rowRF : ℕ → ℕ → ℚ := fun r _ => if r = 0 then 7 else 11

/-- **C3.** The order-1 MRIPML electric xminus kernel, at every slab cell,
with `IRA = 1/RA[0,i]`, `IRA1 = IRA - 1`, `RC0 = IRA·RB[0,i]·RF[0,i]`,
forms the backward difference `dHz = (Hz[ii,jj,kk] - Hz[ii-1,jj,kk])/d`
at `ii = xf - i`, subtracts `c_E·(IRA1·dHz - IRA·Phi1[0,i,j,k])` from
`Ey[ii,jj,kk]` with `c_E = updatecoeffsE[ID[1,ii,jj,kk],4]`, and replaces
`Phi1[0,i,j,k]` by `RE[0,i]·Phi1[0] + RC0·dHz - RC0·Phi1[0]`, both
occurrences reading the pre-call value, i.e. the new `Phi1[0]` equals
`(RE[0,i] - RC0)·Phi1[0]_old + RC0·dHz`; analogously for `Ez` with `dHy`
and `Phi2`. -/
theorem C3_mripml_order1_xminus (e : PMLEnv) (g : Grid) (i j k : ℕ)
    (hi : i < e.nx) (hj : j < e.ny) (hk : k < e.nz) :
    (MRIPML.order1_xminus e g).F 1 (e.xf - i) (e.ys + j) (e.zs + k) =
      g.F 1 (e.xf - i) (e.ys + j) (e.zs + k) -
        e.uc (e.ID 1 (e.xf - i) (e.ys + j) (e.zs + k)) 4 *
          ((1 / e.RA 0 i - 1) *
              ((g.F 5 (e.xf - i) (e.ys + j) (e.zs + k) -
                g.F 5 (e.xf - i - 1) (e.ys + j) (e.zs + k)) / e.d) -
            1 / e.RA 0 i * g.Phi1 0 i j k) ∧
    (MRIPML.order1_xminus e g).F 2 (e.xf - i) (e.ys + j) (e.zs + k) =
      g.F 2 (e.xf - i) (e.ys + j) (e.zs + k) +
        e.uc (e.ID 2 (e.xf - i) (e.ys + j) (e.zs + k)) 4 *
          ((1 / e.RA 0 i - 1) *
              ((g.F 4 (e.xf - i) (e.ys + j) (e.zs + k) -
                g.F 4 (e.xf - i - 1) (e.ys + j) (e.zs + k)) / e.d) -
            1 / e.RA 0 i * g.Phi2 0 i j k) ∧
    (MRIPML.order1_xminus e g).Phi1 0 i j k =
      e.RE 0 i * g.Phi1 0 i j k +
        1 / e.RA 0 i * e.RB 0 i * e.RF 0 i *
          ((g.F 5 (e.xf - i) (e.ys + j) (e.zs + k) -
            g.F 5 (e.xf - i - 1) (e.ys + j) (e.zs + k)) / e.d) -
        1 / e.RA 0 i * e.RB 0 i * e.RF 0 i * g.Phi1 0 i j k ∧
    (MRIPML.order1_xminus e g).Phi2 0 i j k =
      e.RE 0 i * g.Phi2 0 i j k +
        1 / e.RA 0 i * e.RB 0 i * e.RF 0 i *
          ((g.F 4 (e.xf - i) (e.ys + j) (e.zs + k) -
            g.F 4 (e.xf - i - 1) (e.ys + j) (e.zs + k)) / e.d) -
        1 / e.RA 0 i * e.RB 0 i * e.RF 0 i * g.Phi2 0 i j k ∧
    (MRIPML.order1_xminus e g).Phi1 0 i j k =
      (e.RE 0 i - 1 / e.RA 0 i * e.RB 0 i * e.RF 0 i) * g.Phi1 0 i j k +
        1 / e.RA 0 i * e.RB 0 i * e.RF 0 i *
          ((g.F 5 (e.xf - i) (e.ys + j) (e.zs + k) -
            g.F 5 (e.xf - i - 1) (e.ys + j) (e.zs + k)) / e.d) := by
  have h := (MRIPML.o1xmE_realizes e).val_iter3 g i j k hi hj hk
  have h3 : (MRIPML.order1_xminus e g).Phi1 0 i j k =
      e.RE 0 i * g.Phi1 0 i j k +
        1 / e.RA 0 i * e.RB 0 i * e.RF 0 i *
          ((g.F 5 (e.xf - i) (e.ys + j) (e.zs + k) -
            g.F 5 (e.xf - i - 1) (e.ys + j) (e.zs + k)) / e.d) -
        1 / e.RA 0 i * e.RB 0 i * e.RF 0 i * g.Phi1 0 i j k := h.2.2.1 0
  refine ⟨h.1, h.2.1, h3, h.2.2.2 0, ?_⟩
  rw [h3]
  ring

/-- Witness for C3 on a concrete 1×1×1 slab. -/
theorem C3_mripml_order1_xminus_witness :
    (MRIPML.order1_xminus (mkEnv cRA cRB cRE cRF) gridHz).F 1 1 0 0 = 1 ∧
    (MRIPML.order1_xminus (mkEnv cRA cRB cRE cRF) gridHz).F 2 1 0 0 = -(1/2) ∧
    (MRIPML.order1_xminus (mkEnv cRA cRB cRE cRF) gridHz).Phi1 0 0 0 0 = 5 ∧
    (MRIPML.order1_xminus (mkEnv cRA cRB cRE cRF) gridHz).Phi2 0 0 0 0 = -(11/2) := by
  obtain ⟨h1, h2, h3, h4, -⟩ := C3_mripml_order1_xminus (mkEnv cRA cRB cRE cRF)
    gridHz 0 0 0 (by decide) (by decide) (by decide)
  refine ⟨?_, ?_, ?_, ?_⟩
  · simp only [mkEnv, cRA, cRB, cRE, cRF, gridHz] at h1
    norm_num at h1
    exact h1
  · simp only [mkEnv, cRA, cRB, cRE, cRF, gridHz] at h2
    norm_num at h2
    exact h2
  · simp only [mkEnv, cRA, cRB, cRE, cRF, gridHz] at h3
    norm_num at h3
    exact h3
  · simp only [mkEnv, cRA, cRB, cRE, cRF, gridHz] at h4
    norm_num at h4
    exact h4

/-- **C4.** The order-2 HORIPML magnetic xminus kernel, at every slab
cell, adds `c_H·((RA[0,i]·RA[1,i]-1)·dEz + RA[1,i]·RB[0,i]·Phi1[0] +
RB[1,i]·Phi1[1])` to `Hy` (and subtracts the analogue with `dEy`, `Phi2`
from `Hz`), and the auxiliary states end up as
`Phi1[1] = RE[1,i]·Phi1[1] - RF[1,i]·(RA[0,i]·dEz + RB[0,i]·Phi1[0])`
(reading the pre-update `Phi1[0]`: the `[1]` update runs first) and
`Phi1[0] = RE[0,i]·Phi1[0] - RF[0,i]·dEz`; the field corrections read
both pre-update `Phi` values. -/
theorem C4_horipml_order2_xminus (e : PMLEnv) (g : Grid) (i j k : ℕ)
    (hi : i < e.nx) (hj : j < e.ny) (hk : k < e.nz) :
    (HORIPML.order2_xminus e g).F 4 (e.xf - (i + 1)) (e.ys + j) (e.zs + k) =
      g.F 4 (e.xf - (i + 1)) (e.ys + j) (e.zs + k) +
        e.uc (e.ID 4 (e.xf - (i + 1)) (e.ys + j) (e.zs + k)) 4 *
          ((e.RA 0 i * e.RA 1 i - 1) *
              ((g.F 2 (e.xf - (i + 1) + 1) (e.ys + j) (e.zs + k) -
                g.F 2 (e.xf - (i + 1)) (e.ys + j) (e.zs + k)) / e.d) +
            e.RA 1 i * e.RB 0 i * g.Phi1 0 i j k +
            e.RB 1 i * g.Phi1 1 i j k) ∧
    (HORIPML.order2_xminus e g).F 5 (e.xf - (i + 1)) (e.ys + j) (e.zs + k) =
      g.F 5 (e.xf - (i + 1)) (e.ys + j) (e.zs + k) -
        e.uc (e.ID 5 (e.xf - (i + 1)) (e.ys + j) (e.zs + k)) 4 *
          ((e.RA 0 i * e.RA 1 i - 1) *
              ((g.F 1 (e.xf - (i + 1) + 1) (e.ys + j) (e.zs + k) -
                g.F 1 (e.xf - (i + 1)) (e.ys + j) (e.zs + k)) / e.d) +
            e.RA 1 i * e.RB 0 i * g.Phi2 0 i j k +
            e.RB 1 i * g.Phi2 1 i j k) ∧
    (HORIPML.order2_xminus e g).Phi1 1 i j k =
      e.RE 1 i * g.Phi1 1 i j k -
        e.RF 1 i *
          (e.RA 0 i *
              ((g.F 2 (e.xf - (i + 1) + 1) (e.ys + j) (e.zs + k) -
                g.F 2 (e.xf - (i + 1)) (e.ys + j) (e.zs + k)) / e.d) +
            e.RB 0 i * g.Phi1 0 i j k) ∧
    (HORIPML.order2_xminus e g).Phi1 0 i j k =
      e.RE 0 i * g.Phi1 0 i j k -
        e.RF 0 i *
          ((g.F 2 (e.xf - (i + 1) + 1) (e.ys + j) (e.zs + k) -
            g.F 2 (e.xf - (i + 1)) (e.ys + j) (e.zs + k)) / e.d) ∧
    (HORIPML.order2_xminus e g).Phi2 1 i j k =
      e.RE 1 i * g.Phi2 1 i j k -
        e.RF 1 i *
          (e.RA 0 i *
              ((g.F 1 (e.xf - (i + 1) + 1) (e.ys + j) (e.zs + k) -
                g.F 1 (e.xf - (i + 1)) (e.ys + j) (e.zs + k)) / e.d) +
            e.RB 0 i * g.Phi2 0 i j k) ∧
    (HORIPML.order2_xminus e g).Phi2 0 i j k =
      e.RE 0 i * g.Phi2 0 i j k -
        e.RF 0 i *
          ((g.F 1 (e.xf - (i + 1) + 1) (e.ys + j) (e.zs + k) -
            g.F 1 (e.xf - (i + 1)) (e.ys + j) (e.zs + k)) / e.d) := by
  have h := (HORIPML.o2xmH_realizes e).val_iter3 g i j k hi hj hk
  exact ⟨h.1, h.2.1, h.2.2.1 1, h.2.2.1 0, h.2.2.2 1, h.2.2.2 0⟩

/-- Witness for C4 on a concrete 1×1×1 slab with row-dependent profiles. -/
theorem C4_horipml_order2_xminus_witness :
    (HORIPML.order2_xminus (mkEnv rowRA rowRB rowRE rowRF) gridEz).F 4 0 0 0 = 19 ∧
    (HORIPML.order2_xminus (mkEnv rowRA rowRB rowRE rowRF) gridEz).F 5 0 0 0 = -14 ∧
    (HORIPML.order2_xminus (mkEnv rowRA rowRB rowRE rowRF) gridEz).Phi1 1 0 0 0 = -48 ∧
    (HORIPML.order2_xminus (mkEnv rowRA rowRB rowRE rowRF) gridEz).Phi1 0 0 0 0 = -2 ∧
    (HORIPML.order2_xminus (mkEnv rowRA rowRB rowRE rowRF) gridEz).Phi2 1 0 0 0 = -26 ∧
    (HORIPML.order2_xminus (mkEnv rowRA rowRB rowRE rowRF) gridEz).Phi2 0 0 0 0 = 5 := by
  obtain ⟨h1, h2, h3, h4, h5, h6⟩ := C4_horipml_order2_xminus
    (mkEnv rowRA rowRB rowRE rowRF) gridEz 0 0 0 (by decide) (by decide) (by decide)
  refine ⟨?_, ?_, ?_, ?_, ?_, ?_⟩
  · simp only [mkEnv, rowRA, rowRB, rowRE, rowRF, gridEz] at h1
    norm_num at h1
    exact h1
  · simp only [mkEnv, rowRA, rowRB, rowRE, rowRF, gridEz] at h2
    norm_num at h2
    exact h2
  · simp only [mkEnv, rowRA, rowRB, rowRE, rowRF, gridEz] at h3
    norm_num at h3
    exact h3
  · simp only [mkEnv, rowRA, rowRB, rowRE, rowRF, gridEz] at h4
    norm_num at h4
    exact h4
  · simp only [mkEnv, rowRA, rowRB, rowRE, rowRF, gridEz] at h5
    norm_num at h5
    exact h5
  · simp only [mkEnv, rowRA, rowRB, rowRE, rowRF, gridEz] at h6
    norm_num at h6
    exact h6

/-- Replace the four coefficient profiles of an environment, keeping
everything else. -/
def PMLEnv.withProfiles (e : PMLEnv) (ra rb re rf : ℕ → ℕ → ℚ) : PMLEnv :=
  { e with RA := ra, RB := rb, RE := re, RF := rf }

/-- **C1.** Minus-face index maps. A minus-face HORIPML magnetic kernel
changes its two target components only at global cells
`(xf-(i+1), ys+j, zs+k)` (x), `(xs+i, yf-(j+1), zs+k)` (y),
`(xs+i, ys+j, zf-(k+1))` (z) for slab-local `(i,j,k)` in the loop box,
while a minus-face MRIPML electric kernel uses `xf-i` (resp. `yf-j`,
`zf-k`) on the normal axis — E one cell further out than H; and in both
formulations the written field values and `Phi` entries of the slab cell
with normal-axis index `n` depend on the `RA`, `RB`, `RE`, `RF` profiles
only through their column `n` (`n = i` for x-faces, `j` for y-faces,
`k` for z-faces). -/
theorem C1_minus_face_indexing (e : PMLEnv) :
    (∀ g : Grid, ∀ c : ℕ, ∀ x y z : ℤ,
      (HORIPML.order1_xminus e g).F c x y z ≠ g.F c x y z →
      (c = 4 ∨ c = 5) ∧
        ∃ i j k : ℕ, i < e.nx ∧ j < e.ny ∧ k < e.nz ∧
          x = e.xf - (i + 1) ∧ y = e.ys + j ∧ z = e.zs + k) ∧
    (∀ g : Grid, ∀ i j k : ℕ, i < e.nx → j < e.ny → k < e.nz →
      ∀ ra rb re rf : ℕ → ℕ → ℚ,
        (∀ r, ra r i = e.RA r i) → (∀ r, rb r i = e.RB r i) →
        (∀ r, re r i = e.RE r i) → (∀ r, rf r i = e.RF r i) →
        (HORIPML.order1_xminus (e.withProfiles ra rb re rf) g).F 4 (e.xf - (i + 1)) (e.ys + j) (e.zs + k) =
          (HORIPML.order1_xminus e g).F 4 (e.xf - (i + 1)) (e.ys + j) (e.zs + k) ∧
        (HORIPML.order1_xminus (e.withProfiles ra rb re rf) g).F 5 (e.xf - (i + 1)) (e.ys + j) (e.zs + k) =
          (HORIPML.order1_xminus e g).F 5 (e.xf - (i + 1)) (e.ys + j) (e.zs + k) ∧
        (∀ l, (HORIPML.order1_xminus (e.withProfiles ra rb re rf) g).Phi1 l i j k =
          (HORIPML.order1_xminus e g).Phi1 l i j k) ∧
        (∀ l, (HORIPML.order1_xminus (e.withProfiles ra rb re rf) g).Phi2 l i j k =
          (HORIPML.order1_xminus e g).Phi2 l i j k)) ∧
    (∀ g : Grid, ∀ c : ℕ, ∀ x y z : ℤ,
      (HORIPML.order2_xminus e g).F c x y z ≠ g.F c x y z →
      (c = 4 ∨ c = 5) ∧
        ∃ i j k : ℕ, i < e.nx ∧ j < e.ny ∧ k < e.nz ∧
          x = e.xf - (i + 1) ∧ y = e.ys + j ∧ z = e.zs + k) ∧
    (∀ g : Grid, ∀ i j k : ℕ, i < e.nx → j < e.ny → k < e.nz →
      ∀ ra rb re rf : ℕ → ℕ → ℚ,
        (∀ r, ra r i = e.RA r i) → (∀ r, rb r i = e.RB r i) →
        (∀ r, re r i = e.RE r i) → (∀ r, rf r i = e.RF r i) →
        (HORIPML.order2_xminus (e.withProfiles ra rb re rf) g).F 4 (e.xf - (i + 1)) (e.ys + j) (e.zs + k) =
          (HORIPML.order2_xminus e g).F 4 (e.xf - (i + 1)) (e.ys + j) (e.zs + k) ∧
        (HORIPML.order2_xminus (e.withProfiles ra rb re rf) g).F 5 (e.xf - (i + 1)) (e.ys + j) (e.zs + k) =
          (HORIPML.order2_xminus e g).F 5 (e.xf - (i + 1)) (e.ys + j) (e.zs + k) ∧
        (∀ l, (HORIPML.order2_xminus (e.withProfiles ra rb re rf) g).Phi1 l i j k =
          (HORIPML.order2_xminus e g).Phi1 l i j k) ∧
        (∀ l, (HORIPML.order2_xminus (e.withProfiles ra rb re rf) g).Phi2 l i j k =
          (HORIPML.order2_xminus e g).Phi2 l i j k)) ∧
    (∀ g : Grid, ∀ c : ℕ, ∀ x y z : ℤ,
      (HORIPML.order1_yminus e g).F c x y z ≠ g.F c x y z →
      (c = 3 ∨ c = 5) ∧
        ∃ i j k : ℕ, i < e.nx ∧ j < e.ny ∧ k < e.nz ∧
          x = e.xs + i ∧ y = e.yf - (j + 1) ∧ z = e.zs + k) ∧
    (∀ g : Grid, ∀ i j k : ℕ, i < e.nx → j < e.ny → k < e.nz →
      ∀ ra rb re rf : ℕ → ℕ → ℚ,
        (∀ r, ra r j = e.RA r j) → (∀ r, rb r j = e.RB r j) →
        (∀ r, re r j = e.RE r j) → (∀ r, rf r j = e.RF r j) →
        (HORIPML.order1_yminus (e.withProfiles ra rb re rf) g).F 3 (e.xs + i) (e.yf - (j + 1)) (e.zs + k) =
          (HORIPML.order1_yminus e g).F 3 (e.xs + i) (e.yf - (j + 1)) (e.zs + k) ∧
        (HORIPML.order1_yminus (e.withProfiles ra rb re rf) g).F 5 (e.xs + i) (e.yf - (j + 1)) (e.zs + k) =
          (HORIPML.order1_yminus e g).F 5 (e.xs + i) (e.yf - (j + 1)) (e.zs + k) ∧
        (∀ l, (HORIPML.order1_yminus (e.withProfiles ra rb re rf) g).Phi1 l i j k =
          (HORIPML.order1_yminus e g).Phi1 l i j k) ∧
        (∀ l, (HORIPML.order1_yminus (e.withProfiles ra rb re rf) g).Phi2 l i j k =
          (HORIPML.order1_yminus e g).Phi2 l i j k)) ∧
    (∀ g : Grid, ∀ c : ℕ, ∀ x y z : ℤ,
      (HORIPML.order2_yminus e g).F c x y z ≠ g.F c x y z →
      (c = 3 ∨ c = 5) ∧
        ∃ i j k : ℕ, i < e.nx ∧ j < e.ny ∧ k < e.nz ∧
          x = e.xs + i ∧ y = e.yf - (j + 1) ∧ z = e.zs + k) ∧
    (∀ g : Grid, ∀ i j k : ℕ, i < e.nx → j < e.ny → k < e.nz →
      ∀ ra rb re rf : ℕ → ℕ → ℚ,
        (∀ r, ra r j = e.RA r j) → (∀ r, rb r j = e.RB r j) →
        (∀ r, re r j = e.RE r j) → (∀ r, rf r j = e.RF r j) →
        (HORIPML.order2_yminus (e.withProfiles ra rb re rf) g).F 3 (e.xs + i) (e.yf - (j + 1)) (e.zs + k) =
          (HORIPML.order2_yminus e g).F 3 (e.xs + i) (e.yf - (j + 1)) (e.zs + k) ∧
        (HORIPML.order2_yminus (e.withProfiles ra rb re rf) g).F 5 (e.xs + i) (e.yf - (j + 1)) (e.zs + k) =
          (HORIPML.order2_yminus e g).F 5 (e.xs + i) (e.yf - (j + 1)) (e.zs + k) ∧
        (∀ l, (HORIPML.order2_yminus (e.withProfiles ra rb re rf) g).Phi1 l i j k =
          (HORIPML.order2_yminus e g).Phi1 l i j k) ∧
        (∀ l, (HORIPML.order2_yminus (e.withProfiles ra rb re rf) g).Phi2 l i j k =
          (HORIPML.order2_yminus e g).Phi2 l i j k)) ∧
    (∀ g : Grid, ∀ c : ℕ, ∀ x y z : ℤ,
      (HORIPML.order1_zminus e g).F c x y z ≠ g.F c x y z →
      (c = 3 ∨ c = 4) ∧
        ∃ i j k : ℕ, i < e.nx ∧ j < e.ny ∧ k < e.nz ∧
          x = e.xs + i ∧ y = e.ys + j ∧ z = e.zf - (k + 1)) ∧
    (∀ g : Grid, ∀ i j k : ℕ, i < e.nx → j < e.ny → k < e.nz →
      ∀ ra rb re rf : ℕ → ℕ → ℚ,
        (∀ r, ra r k = e.RA r k) → (∀ r, rb r k = e.RB r k) →
        (∀ r, re r k = e.RE r k) → (∀ r, rf r k = e.RF r k) →
        (HORIPML.order1_zminus (e.withProfiles ra rb re rf) g).F 3 (e.xs + i) (e.ys + j) (e.zf - (k + 1)) =
          (HORIPML.order1_zminus e g).F 3 (e.xs + i) (e.ys + j) (e.zf - (k + 1)) ∧
        (HORIPML.order1_zminus (e.withProfiles ra rb re rf) g).F 4 (e.xs + i) (e.ys + j) (e.zf - (k + 1)) =
          (HORIPML.order1_zminus e g).F 4 (e.xs + i) (e.ys + j) (e.zf - (k + 1)) ∧
        (∀ l, (HORIPML.order1_zminus (e.withProfiles ra rb re rf) g).Phi1 l i j k =
          (HORIPML.order1_zminus e g).Phi1 l i j k) ∧
        (∀ l, (HORIPML.order1_zminus (e.withProfiles ra rb re rf) g).Phi2 l i j k =
          (HORIPML.order1_zminus e g).Phi2 l i j k)) ∧
    (∀ g : Grid, ∀ c : ℕ, ∀ x y z : ℤ,
      (HORIPML.order2_zminus e g).F c x y z ≠ g.F c x y z →
      (c = 3 ∨ c = 4) ∧
        ∃ i j k : ℕ, i < e.nx ∧ j < e.ny ∧ k < e.nz ∧
          x = e.xs + i ∧ y = e.ys + j ∧ z = e.zf - (k + 1)) ∧
    (∀ g : Grid, ∀ i j k : ℕ, i < e.nx → j < e.ny → k < e.nz →
      ∀ ra rb re rf : ℕ → ℕ → ℚ,
        (∀ r, ra r k = e.RA r k) → (∀ r, rb r k = e.RB r k) →
        (∀ r, re r k = e.RE r k) → (∀ r, rf r k = e.RF r k) →
        (HORIPML.order2_zminus (e.withProfiles ra rb re rf) g).F 3 (e.xs + i) (e.ys + j) (e.zf - (k + 1)) =
          (HORIPML.order2_zminus e g).F 3 (e.xs + i) (e.ys + j) (e.zf - (k + 1)) ∧
        (HORIPML.order2_zminus (e.withProfiles ra rb re rf) g).F 4 (e.xs + i) (e.ys + j) (e.zf - (k + 1)) =
          (HORIPML.order2_zminus e g).F 4 (e.xs + i) (e.ys + j) (e.zf - (k + 1)) ∧
        (∀ l, (HORIPML.order2_zminus (e.withProfiles ra rb re rf) g).Phi1 l i j k =
          (HORIPML.order2_zminus e g).Phi1 l i j k) ∧
        (∀ l, (HORIPML.order2_zminus (e.withProfiles ra rb re rf) g).Phi2 l i j k =
          (HORIPML.order2_zminus e g).Phi2 l i j k)) ∧
    (∀ g : Grid, ∀ c : ℕ, ∀ x y z : ℤ,
      (MRIPML.order1_xminus e g).F c x y z ≠ g.F c x y z →
      (c = 1 ∨ c = 2) ∧
        ∃ i j k : ℕ, i < e.nx ∧ j < e.ny ∧ k < e.nz ∧
          x = e.xf - i ∧ y = e.ys + j ∧ z = e.zs + k) ∧
    (∀ g : Grid, ∀ i j k : ℕ, i < e.nx → j < e.ny → k < e.nz →
      ∀ ra rb re rf : ℕ → ℕ → ℚ,
        (∀ r, ra r i = e.RA r i) → (∀ r, rb r i = e.RB r i) →
        (∀ r, re r i = e.RE r i) → (∀ r, rf r i = e.RF r i) →
        (MRIPML.order1_xminus (e.withProfiles ra rb re rf) g).F 1 (e.xf - i) (e.ys + j) (e.zs + k) =
          (MRIPML.order1_xminus e g).F 1 (e.xf - i) (e.ys + j) (e.zs + k) ∧
        (MRIPML.order1_xminus (e.withProfiles ra rb re rf) g).F 2 (e.xf - i) (e.ys + j) (e.zs + k) =
          (MRIPML.order1_xminus e g).F 2 (e.xf - i) (e.ys + j) (e.zs + k) ∧
        (∀ l, (MRIPML.order1_xminus (e.withProfiles ra rb re rf) g).Phi1 l i j k =
          (MRIPML.order1_xminus e g).Phi1 l i j k) ∧
        (∀ l, (MRIPML.order1_xminus (e.withProfiles ra rb re rf) g).Phi2 l i j k =
          (MRIPML.order1_xminus e g).Phi2 l i j k)) ∧
    (∀ g : Grid, ∀ c : ℕ, ∀ x y z : ℤ,
      (MRIPML.order2_xminus e g).F c x y z ≠ g.F c x y z →
      (c = 1 ∨ c = 2) ∧
        ∃ i j k : ℕ, i < e.nx ∧ j < e.ny ∧ k < e.nz ∧
          x = e.xf - i ∧ y = e.ys + j ∧ z = e.zs + k) ∧
    (∀ g : Grid, ∀ i j k : ℕ, i < e.nx → j < e.ny → k < e.nz →
      ∀ ra rb re rf : ℕ → ℕ → ℚ,
        (∀ r, ra r i = e.RA r i) → (∀ r, rb r i = e.RB r i) →
        (∀ r, re r i = e.RE r i) → (∀ r, rf r i = e.RF r i) →
        (MRIPML.order2_xminus (e.withProfiles ra rb re rf) g).F 1 (e.xf - i) (e.ys + j) (e.zs + k) =
          (MRIPML.order2_xminus e g).F 1 (e.xf - i) (e.ys + j) (e.zs + k) ∧
        (MRIPML.order2_xminus (e.withProfiles ra rb re rf) g).F 2 (e.xf - i) (e.ys + j) (e.zs + k) =
          (MRIPML.order2_xminus e g).F 2 (e.xf - i) (e.ys + j) (e.zs + k) ∧
        (∀ l, (MRIPML.order2_xminus (e.withProfiles ra rb re rf) g).Phi1 l i j k =
          (MRIPML.order2_xminus e g).Phi1 l i j k) ∧
        (∀ l, (MRIPML.order2_xminus (e.withProfiles ra rb re rf) g).Phi2 l i j k =
          (MRIPML.order2_xminus e g).Phi2 l i j k)) ∧
    (∀ g : Grid, ∀ c : ℕ, ∀ x y z : ℤ,
      (MRIPML.order1_yminus e g).F c x y z ≠ g.F c x y z →
      (c = 0 ∨ c = 2) ∧
        ∃ i j k : ℕ, i < e.nx ∧ j < e.ny ∧ k < e.nz ∧
          x = e.xs + i ∧ y = e.yf - j ∧ z = e.zs + k) ∧
    (∀ g : Grid, ∀ i j k : ℕ, i < e.nx → j < e.ny → k < e.nz →
      ∀ ra rb re rf : ℕ → ℕ → ℚ,
        (∀ r, ra r j = e.RA r j) → (∀ r, rb r j = e.RB r j) →
        (∀ r, re r j = e.RE r j) → (∀ r, rf r j = e.RF r j) →
        (MRIPML.order1_yminus (e.withProfiles ra rb re rf) g).F 0 (e.xs + i) (e.yf - j) (e.zs + k) =
          (MRIPML.order1_yminus e g).F 0 (e.xs + i) (e.yf - j) (e.zs + k) ∧
        (MRIPML.order1_yminus (e.withProfiles ra rb re rf) g).F 2 (e.xs + i) (e.yf - j) (e.zs + k) =
          (MRIPML.order1_yminus e g).F 2 (e.xs + i) (e.yf - j) (e.zs + k) ∧
        (∀ l, (MRIPML.order1_yminus (e.withProfiles ra rb re rf) g).Phi1 l i j k =
          (MRIPML.order1_yminus e g).Phi1 l i j k) ∧
        (∀ l, (MRIPML.order1_yminus (e.withProfiles ra rb re rf) g).Phi2 l i j k =
          (MRIPML.order1_yminus e g).Phi2 l i j k)) ∧
    (∀ g : Grid, ∀ c : ℕ, ∀ x y z : ℤ,
      (MRIPML.order2_yminus e g).F c x y z ≠ g.F c x y z →
      (c = 0 ∨ c = 2) ∧
        ∃ i j k : ℕ, i < e.nx ∧ j < e.ny ∧ k < e.nz ∧
          x = e.xs + i ∧ y = e.yf - j ∧ z = e.zs + k) ∧
    (∀ g : Grid, ∀ i j k : ℕ, i < e.nx → j < e.ny → k < e.nz →
      ∀ ra rb re rf : ℕ → ℕ → ℚ,
        (∀ r, ra r j = e.RA r j) → (∀ r, rb r j = e.RB r j) →
        (∀ r, re r j = e.RE r j) → (∀ r, rf r j = e.RF r j) →
        (MRIPML.order2_yminus (e.withProfiles ra rb re rf) g).F 0 (e.xs + i) (e.yf - j) (e.zs + k) =
          (MRIPML.order2_yminus e g).F 0 (e.xs + i) (e.yf - j) (e.zs + k) ∧
        (MRIPML.order2_yminus (e.withProfiles ra rb re rf) g).F 2 (e.xs + i) (e.yf - j) (e.zs + k) =
          (MRIPML.order2_yminus e g).F 2 (e.xs + i) (e.yf - j) (e.zs + k) ∧
        (∀ l, (MRIPML.order2_yminus (e.withProfiles ra rb re rf) g).Phi1 l i j k =
          (MRIPML.order2_yminus e g).Phi1 l i j k) ∧
        (∀ l, (MRIPML.order2_yminus (e.withProfiles ra rb re rf) g).Phi2 l i j k =
          (MRIPML.order2_yminus e g).Phi2 l i j k)) ∧
    (∀ g : Grid, ∀ c : ℕ, ∀ x y z : ℤ,
      (MRIPML.order1_zminus e g).F c x y z ≠ g.F c x y z →
      (c = 0 ∨ c = 1) ∧
        ∃ i j k : ℕ, i < e.nx ∧ j < e.ny ∧ k < e.nz ∧
          x = e.xs + i ∧ y = e.ys + j ∧ z = e.zf - k) ∧
    (∀ g : Grid, ∀ i j k : ℕ, i < e.nx → j < e.ny → k < e.nz →
      ∀ ra rb re rf : ℕ → ℕ → ℚ,
        (∀ r, ra r k = e.RA r k) → (∀ r, rb r k = e.RB r k) →
        (∀ r, re r k = e.RE r k) → (∀ r, rf r k = e.RF r k) →
        (MRIPML.order1_zminus (e.withProfiles ra rb re rf) g).F 0 (e.xs + i) (e.ys + j) (e.zf - k) =
          (MRIPML.order1_zminus e g).F 0 (e.xs + i) (e.ys + j) (e.zf - k) ∧
        (MRIPML.order1_zminus (e.withProfiles ra rb re rf) g).F 1 (e.xs + i) (e.ys + j) (e.zf - k) =
          (MRIPML.order1_zminus e g).F 1 (e.xs + i) (e.ys + j) (e.zf - k) ∧
        (∀ l, (MRIPML.order1_zminus (e.withProfiles ra rb re rf) g).Phi1 l i j k =
          (MRIPML.order1_zminus e g).Phi1 l i j k) ∧
        (∀ l, (MRIPML.order1_zminus (e.withProfiles ra rb re rf) g).Phi2 l i j k =
          (MRIPML.order1_zminus e g).Phi2 l i j k)) ∧
    (∀ g : Grid, ∀ c : ℕ, ∀ x y z : ℤ,
      (MRIPML.order2_zminus e g).F c x y z ≠ g.F c x y z →
      (c = 0 ∨ c = 1) ∧
        ∃ i j k : ℕ, i < e.nx ∧ j < e.ny ∧ k < e.nz ∧
          x = e.xs + i ∧ y = e.ys + j ∧ z = e.zf - k) ∧
    (∀ g : Grid, ∀ i j k : ℕ, i < e.nx → j < e.ny → k < e.nz →
      ∀ ra rb re rf : ℕ → ℕ → ℚ,
        (∀ r, ra r k = e.RA r k) → (∀ r, rb r k = e.RB r k) →
        (∀ r, re r k = e.RE r k) → (∀ r, rf r k = e.RF r k) →
        (MRIPML.order2_zminus (e.withProfiles ra rb re rf) g).F 0 (e.xs + i) (e.ys + j) (e.zf - k) =
          (MRIPML.order2_zminus e g).F 0 (e.xs + i) (e.ys + j) (e.zf - k) ∧
        (MRIPML.order2_zminus (e.withProfiles ra rb re rf) g).F 1 (e.xs + i) (e.ys + j) (e.zf - k) =
          (MRIPML.order2_zminus e g).F 1 (e.xs + i) (e.ys + j) (e.zf - k) ∧
        (∀ l, (MRIPML.order2_zminus (e.withProfiles ra rb re rf) g).Phi1 l i j k =
          (MRIPML.order2_zminus e g).Phi1 l i j k) ∧
        (∀ l, (MRIPML.order2_zminus (e.withProfiles ra rb re rf) g).Phi2 l i j k =
          (MRIPML.order2_zminus e g).Phi2 l i j k)) := by
  refine ⟨?_, ?_, ?_, ?_, ?_, ?_, ?_, ?_, ?_, ?_, ?_, ?_, ?_, ?_, ?_, ?_, ?_, ?_, ?_, ?_, ?_, ?_, ?_, ?_⟩
  · intro g c x y z hne
    constructor
    · by_contra hc
      push_neg at hc
      exact hne ((HORIPML.o1xmH_realizes e).frameF_iter3 g c x y z (Or.inl ⟨hc.1, hc.2⟩))
    · by_contra hex
      push_neg at hex
      refine hne ((HORIPML.o1xmH_realizes e).frameF_iter3 g c x y z (Or.inr ?_))
      intro i j k hi hj hk heq
      rw [Prod.ext_iff] at heq
      obtain ⟨hx, heq2⟩ := heq
      rw [Prod.ext_iff] at heq2
      obtain ⟨hy, hz⟩ := heq2
      exact hex i j k hi hj hk hx hy hz
  · intro g i j k hi hj hk ra rb re rf hra hrb hre hrf
    have h1 := (HORIPML.o1xmH_realizes (e.withProfiles ra rb re rf)).val_iter3 g i j k hi hj hk
    have h2 := (HORIPML.o1xmH_realizes e).val_iter3 g i j k hi hj hk
    have hv1 : HORIPML.o1xmH_vHy (e.withProfiles ra rb re rf) i j k g =
        HORIPML.o1xmH_vHy e i j k g := by
      simp only [HORIPML.o1xmH_vHy, HORIPML.o1xmH_dEz, PMLEnv.withProfiles,
        hra, hrb, hre, hrf]
    have hv2 : HORIPML.o1xmH_vHz (e.withProfiles ra rb re rf) i j k g =
        HORIPML.o1xmH_vHz e i j k g := by
      simp only [HORIPML.o1xmH_vHz, HORIPML.o1xmH_dEy, PMLEnv.withProfiles,
        hra, hrb, hre, hrf]
    have hp1 : ∀ l, HORIPML.o1xmH_pPhi1 (e.withProfiles ra rb re rf) l i j k g =
        HORIPML.o1xmH_pPhi1 e l i j k g := by
      intro l
      simp only [HORIPML.o1xmH_pPhi1, HORIPML.o1xmH_dEz, PMLEnv.withProfiles,
        hra, hrb, hre, hrf]
    have hp2 : ∀ l, HORIPML.o1xmH_pPhi2 (e.withProfiles ra rb re rf) l i j k g =
        HORIPML.o1xmH_pPhi2 e l i j k g := by
      intro l
      simp only [HORIPML.o1xmH_pPhi2, HORIPML.o1xmH_dEy, PMLEnv.withProfiles,
        hra, hrb, hre, hrf]
    exact ⟨(h1.1.trans hv1).trans h2.1.symm,
      (h1.2.1.trans hv2).trans h2.2.1.symm,
      fun l => ((h1.2.2.1 l).trans (hp1 l)).trans (h2.2.2.1 l).symm,
      fun l => ((h1.2.2.2 l).trans (hp2 l)).trans (h2.2.2.2 l).symm⟩
  · intro g c x y z hne
    constructor
    · by_contra hc
      push_neg at hc
      exact hne ((HORIPML.o2xmH_realizes e).frameF_iter3 g c x y z (Or.inl ⟨hc.1, hc.2⟩))
    · by_contra hex
      push_neg at hex
      refine hne ((HORIPML.o2xmH_realizes e).frameF_iter3 g c x y z (Or.inr ?_))
      intro i j k hi hj hk heq
      rw [Prod.ext_iff] at heq
      obtain ⟨hx, heq2⟩ := heq
      rw [Prod.ext_iff] at heq2
      obtain ⟨hy, hz⟩ := heq2
      exact hex i j k hi hj hk hx hy hz
  · intro g i j k hi hj hk ra rb re rf hra hrb hre hrf
    have h1 := (HORIPML.o2xmH_realizes (e.withProfiles ra rb re rf)).val_iter3 g i j k hi hj hk
    have h2 := (HORIPML.o2xmH_realizes e).val_iter3 g i j k hi hj hk
    have hv1 : HORIPML.o2xmH_vHy (e.withProfiles ra rb re rf) i j k g =
        HORIPML.o2xmH_vHy e i j k g := by
      simp only [HORIPML.o2xmH_vHy, HORIPML.o1xmH_dEz, PMLEnv.withProfiles,
        hra, hrb, hre, hrf]
    have hv2 : HORIPML.o2xmH_vHz (e.withProfiles ra rb re rf) i j k g =
        HORIPML.o2xmH_vHz e i j k g := by
      simp only [HORIPML.o2xmH_vHz, HORIPML.o1xmH_dEy, PMLEnv.withProfiles,
        hra, hrb, hre, hrf]
    have hp1 : ∀ l, HORIPML.o2xmH_pPhi1 (e.withProfiles ra rb re rf) l i j k g =
        HORIPML.o2xmH_pPhi1 e l i j k g := by
      intro l
      simp only [HORIPML.o2xmH_pPhi1, HORIPML.o1xmH_dEz, PMLEnv.withProfiles,
        hra, hrb, hre, hrf]
    have hp2 : ∀ l, HORIPML.o2xmH_pPhi2 (e.withProfiles ra rb re rf) l i j k g =
        HORIPML.o2xmH_pPhi2 e l i j k g := by
      intro l
      simp only [HORIPML.o2xmH_pPhi2, HORIPML.o1xmH_dEy, PMLEnv.withProfiles,
        hra, hrb, hre, hrf]
    exact ⟨(h1.1.trans hv1).trans h2.1.symm,
      (h1.2.1.trans hv2).trans h2.2.1.symm,
      fun l => ((h1.2.2.1 l).trans (hp1 l)).trans (h2.2.2.1 l).symm,
      fun l => ((h1.2.2.2 l).trans (hp2 l)).trans (h2.2.2.2 l).symm⟩
  · intro g c x y z hne
    constructor
    · by_contra hc
      push_neg at hc
      exact hne ((HORIPML.o1ymH_realizes e).frameF_iter3 g c x y z (Or.inl ⟨hc.1, hc.2⟩))
    · by_contra hex
      push_neg at hex
      refine hne ((HORIPML.o1ymH_realizes e).frameF_iter3 g c x y z (Or.inr ?_))
      intro i j k hi hj hk heq
      rw [Prod.ext_iff] at heq
      obtain ⟨hx, heq2⟩ := heq
      rw [Prod.ext_iff] at heq2
      obtain ⟨hy, hz⟩ := heq2
      exact hex i j k hi hj hk hx hy hz
  · intro g i j k hi hj hk ra rb re rf hra hrb hre hrf
    have h1 := (HORIPML.o1ymH_realizes (e.withProfiles ra rb re rf)).val_iter3 g i j k hi hj hk
    have h2 := (HORIPML.o1ymH_realizes e).val_iter3 g i j k hi hj hk
    have hv1 : HORIPML.o1ymH_vHx (e.withProfiles ra rb re rf) i j k g =
        HORIPML.o1ymH_vHx e i j k g := by
      simp only [HORIPML.o1ymH_vHx, HORIPML.o1ymH_dEz, PMLEnv.withProfiles,
        hra, hrb, hre, hrf]
    have hv2 : HORIPML.o1ymH_vHz (e.withProfiles ra rb re rf) i j k g =
        HORIPML.o1ymH_vHz e i j k g := by
      simp only [HORIPML.o1ymH_vHz, HORIPML.o1ymH_dEx, PMLEnv.withProfiles,
        hra, hrb, hre, hrf]
    have hp1 : ∀ l, HORIPML.o1ymH_pPhi1 (e.withProfiles ra rb re rf) l i j k g =
        HORIPML.o1ymH_pPhi1 e l i j k g := by
      intro l
      simp only [HORIPML.o1ymH_pPhi1, HORIPML.o1ymH_dEz, PMLEnv.withProfiles,
        hra, hrb, hre, hrf]
    have hp2 : ∀ l, HORIPML.o1ymH_pPhi2 (e.withProfiles ra rb re rf) l i j k g =
        HORIPML.o1ymH_pPhi2 e l i j k g := by
      intro l
      simp only [HORIPML.o1ymH_pPhi2, HORIPML.o1ymH_dEx, PMLEnv.withProfiles,
        hra, hrb, hre, hrf]
    exact ⟨(h1.1.trans hv1).trans h2.1.symm,
      (h1.2.1.trans hv2).trans h2.2.1.symm,
      fun l => ((h1.2.2.1 l).trans (hp1 l)).trans (h2.2.2.1 l).symm,
      fun l => ((h1.2.2.2 l).trans (hp2 l)).trans (h2.2.2.2 l).symm⟩
  · intro g c x y z hne
    constructor
    · by_contra hc
      push_neg at hc
      exact hne ((HORIPML.o2ymH_realizes e).frameF_iter3 g c x y z (Or.inl ⟨hc.1, hc.2⟩))
    · by_contra hex
      push_neg at hex
      refine hne ((HORIPML.o2ymH_realizes e).frameF_iter3 g c x y z (Or.inr ?_))
      intro i j k hi hj hk heq
      rw [Prod.ext_iff] at heq
      obtain ⟨hx, heq2⟩ := heq
      rw [Prod.ext_iff] at heq2
      obtain ⟨hy, hz⟩ := heq2
      exact hex i j k hi hj hk hx hy hz
  · intro g i j k hi hj hk ra rb re rf hra hrb hre hrf
    have h1 := (HORIPML.o2ymH_realizes (e.withProfiles ra rb re rf)).val_iter3 g i j k hi hj hk
    have h2 := (HORIPML.o2ymH_realizes e).val_iter3 g i j k hi hj hk
    have hv1 : HORIPML.o2ymH_vHx (e.withProfiles ra rb re rf) i j k g =
        HORIPML.o2ymH_vHx e i j k g := by
      simp only [HORIPML.o2ymH_vHx, HORIPML.o1ymH_dEz, PMLEnv.withProfiles,
        hra, hrb, hre, hrf]
    have hv2 : HORIPML.o2ymH_vHz (e.withProfiles ra rb re rf) i j k g =
        HORIPML.o2ymH_vHz e i j k g := by
      simp only [HORIPML.o2ymH_vHz, HORIPML.o1ymH_dEx, PMLEnv.withProfiles,
        hra, hrb, hre, hrf]
    have hp1 : ∀ l, HORIPML.o2ymH_pPhi1 (e.withProfiles ra rb re rf) l i j k g =
        HORIPML.o2ymH_pPhi1 e l i j k g := by
      intro l
      simp only [HORIPML.o2ymH_pPhi1, HORIPML.o1ymH_dEz, PMLEnv.withProfiles,
        hra, hrb, hre, hrf]
    have hp2 : ∀ l, HORIPML.o2ymH_pPhi2 (e.withProfiles ra rb re rf) l i j k g =
        HORIPML.o2ymH_pPhi2 e l i j k g := by
      intro l
      simp only [HORIPML.o2ymH_pPhi2, HORIPML.o1ymH_dEx, PMLEnv.withProfiles,
        hra, hrb, hre, hrf]
    exact ⟨(h1.1.trans hv1).trans h2.1.symm,
      (h1.2.1.trans hv2).trans h2.2.1.symm,
      fun l => ((h1.2.2.1 l).trans (hp1 l)).trans (h2.2.2.1 l).symm,
      fun l => ((h1.2.2.2 l).trans (hp2 l)).trans (h2.2.2.2 l).symm⟩
  · intro g c x y z hne
    constructor
    · by_contra hc
      push_neg at hc
      exact hne ((HORIPML.o1zmH_realizes e).frameF_iter3 g c x y z (Or.inl ⟨hc.1, hc.2⟩))
    · by_contra hex
      push_neg at hex
      refine hne ((HORIPML.o1zmH_realizes e).frameF_iter3 g c x y z (Or.inr ?_))
      intro i j k hi hj hk heq
      rw [Prod.ext_iff] at heq
      obtain ⟨hx, heq2⟩ := heq
      rw [Prod.ext_iff] at heq2
      obtain ⟨hy, hz⟩ := heq2
      exact hex i j k hi hj hk hx hy hz
  · intro g i j k hi hj hk ra rb re rf hra hrb hre hrf
    have h1 := (HORIPML.o1zmH_realizes (e.withProfiles ra rb re rf)).val_iter3 g i j k hi hj hk
    have h2 := (HORIPML.o1zmH_realizes e).val_iter3 g i j k hi hj hk
    have hv1 : HORIPML.o1zmH_vHx (e.withProfiles ra rb re rf) i j k g =
        HORIPML.o1zmH_vHx e i j k g := by
      simp only [HORIPML.o1zmH_vHx, HORIPML.o1zmH_dEy, PMLEnv.withProfiles,
        hra, hrb, hre, hrf]
    have hv2 : HORIPML.o1zmH_vHy (e.withProfiles ra rb re rf) i j k g =
        HORIPML.o1zmH_vHy e i j k g := by
      simp only [HORIPML.o1zmH_vHy, HORIPML.o1zmH_dEx, PMLEnv.withProfiles,
        hra, hrb, hre, hrf]
    have hp1 : ∀ l, HORIPML.o1zmH_pPhi1 (e.withProfiles ra rb re rf) l i j k g =
        HORIPML.o1zmH_pPhi1 e l i j k g := by
      intro l
      simp only [HORIPML.o1zmH_pPhi1, HORIPML.o1zmH_dEy, PMLEnv.withProfiles,
        hra, hrb, hre, hrf]
    have hp2 : ∀ l, HORIPML.o1zmH_pPhi2 (e.withProfiles ra rb re rf) l i j k g =
        HORIPML.o1zmH_pPhi2 e l i j k g := by
      intro l
      simp only [HORIPML.o1zmH_pPhi2, HORIPML.o1zmH_dEx, PMLEnv.withProfiles,
        hra, hrb, hre, hrf]
    exact ⟨(h1.1.trans hv1).trans h2.1.symm,
      (h1.2.1.trans hv2).trans h2.2.1.symm,
      fun l => ((h1.2.2.1 l).trans (hp1 l)).trans (h2.2.2.1 l).symm,
      fun l => ((h1.2.2.2 l).trans (hp2 l)).trans (h2.2.2.2 l).symm⟩
  · intro g c x y z hne
    constructor
    · by_contra hc
      push_neg at hc
      exact hne ((HORIPML.o2zmH_realizes e).frameF_iter3 g c x y z (Or.inl ⟨hc.1, hc.2⟩))
    · by_contra hex
      push_neg at hex
      refine hne ((HORIPML.o2zmH_realizes e).frameF_iter3 g c x y z (Or.inr ?_))
      intro i j k hi hj hk heq
      rw [Prod.ext_iff] at heq
      obtain ⟨hx, heq2⟩ := heq
      rw [Prod.ext_iff] at heq2
      obtain ⟨hy, hz⟩ := heq2
      exact hex i j k hi hj hk hx hy hz
  · intro g i j k hi hj hk ra rb re rf hra hrb hre hrf
    have h1 := (HORIPML.o2zmH_realizes (e.withProfiles ra rb re rf)).val_iter3 g i j k hi hj hk
    have h2 := (HORIPML.o2zmH_realizes e).val_iter3 g i j k hi hj hk
    have hv1 : HORIPML.o2zmH_vHx (e.withProfiles ra rb re rf) i j k g =
        HORIPML.o2zmH_vHx e i j k g := by
      simp only [HORIPML.o2zmH_vHx, HORIPML.o1zmH_dEy, PMLEnv.withProfiles,
        hra, hrb, hre, hrf]
    have hv2 : HORIPML.o2zmH_vHy (e.withProfiles ra rb re rf) i j k g =
        HORIPML.o2zmH_vHy e i j k g := by
      simp only [HORIPML.o2zmH_vHy, HORIPML.o1zmH_dEx, PMLEnv.withProfiles,
        hra, hrb, hre, hrf]
    have hp1 : ∀ l, HORIPML.o2zmH_pPhi1 (e.withProfiles ra rb re rf) l i j k g =
        HORIPML.o2zmH_pPhi1 e l i j k g := by
      intro l
      simp only [HORIPML.o2zmH_pPhi1, HORIPML.o1zmH_dEy, PMLEnv.withProfiles,
        hra, hrb, hre, hrf]
    have hp2 : ∀ l, HORIPML.o2zmH_pPhi2 (e.withProfiles ra rb re rf) l i j k g =
        HORIPML.o2zmH_pPhi2 e l i j k g := by
      intro l
      simp only [HORIPML.o2zmH_pPhi2, HORIPML.o1zmH_dEx, PMLEnv.withProfiles,
        hra, hrb, hre, hrf]
    exact ⟨(h1.1.trans hv1).trans h2.1.symm,
      (h1.2.1.trans hv2).trans h2.2.1.symm,
      fun l => ((h1.2.2.1 l).trans (hp1 l)).trans (h2.2.2.1 l).symm,
      fun l => ((h1.2.2.2 l).trans (hp2 l)).trans (h2.2.2.2 l).symm⟩
  · intro g c x y z hne
    constructor
    · by_contra hc
      push_neg at hc
      exact hne ((MRIPML.o1xmE_realizes e).frameF_iter3 g c x y z (Or.inl ⟨hc.1, hc.2⟩))
    · by_contra hex
      push_neg at hex
      refine hne ((MRIPML.o1xmE_realizes e).frameF_iter3 g c x y z (Or.inr ?_))
      intro i j k hi hj hk heq
      rw [Prod.ext_iff] at heq
      obtain ⟨hx, heq2⟩ := heq
      rw [Prod.ext_iff] at heq2
      obtain ⟨hy, hz⟩ := heq2
      exact hex i j k hi hj hk hx hy hz
  · intro g i j k hi hj hk ra rb re rf hra hrb hre hrf
    have h1 := (MRIPML.o1xmE_realizes (e.withProfiles ra rb re rf)).val_iter3 g i j k hi hj hk
    have h2 := (MRIPML.o1xmE_realizes e).val_iter3 g i j k hi hj hk
    have hv1 : MRIPML.o1xmE_vEy (e.withProfiles ra rb re rf) i j k g =
        MRIPML.o1xmE_vEy e i j k g := by
      simp only [MRIPML.o1xmE_vEy, MRIPML.o1xmE_dHz, PMLEnv.withProfiles,
        hra, hrb, hre, hrf]
    have hv2 : MRIPML.o1xmE_vEz (e.withProfiles ra rb re rf) i j k g =
        MRIPML.o1xmE_vEz e i j k g := by
      simp only [MRIPML.o1xmE_vEz, MRIPML.o1xmE_dHy, PMLEnv.withProfiles,
        hra, hrb, hre, hrf]
    have hp1 : ∀ l, MRIPML.o1xmE_pPhi1 (e.withProfiles ra rb re rf) l i j k g =
        MRIPML.o1xmE_pPhi1 e l i j k g := by
      intro l
      simp only [MRIPML.o1xmE_pPhi1, MRIPML.o1xmE_dHz, PMLEnv.withProfiles,
        hra, hrb, hre, hrf]
    have hp2 : ∀ l, MRIPML.o1xmE_pPhi2 (e.withProfiles ra rb re rf) l i j k g =
        MRIPML.o1xmE_pPhi2 e l i j k g := by
      intro l
      simp only [MRIPML.o1xmE_pPhi2, MRIPML.o1xmE_dHy, PMLEnv.withProfiles,
        hra, hrb, hre, hrf]
    exact ⟨(h1.1.trans hv1).trans h2.1.symm,
      (h1.2.1.trans hv2).trans h2.2.1.symm,
      fun l => ((h1.2.2.1 l).trans (hp1 l)).trans (h2.2.2.1 l).symm,
      fun l => ((h1.2.2.2 l).trans (hp2 l)).trans (h2.2.2.2 l).symm⟩
  · intro g c x y z hne
    constructor
    · by_contra hc
      push_neg at hc
      exact hne ((MRIPML.o2xmE_realizes e).frameF_iter3 g c x y z (Or.inl ⟨hc.1, hc.2⟩))
    · by_contra hex
      push_neg at hex
      refine hne ((MRIPML.o2xmE_realizes e).frameF_iter3 g c x y z (Or.inr ?_))
      intro i j k hi hj hk heq
      rw [Prod.ext_iff] at heq
      obtain ⟨hx, heq2⟩ := heq
      rw [Prod.ext_iff] at heq2
      obtain ⟨hy, hz⟩ := heq2
      exact hex i j k hi hj hk hx hy hz
  · intro g i j k hi hj hk ra rb re rf hra hrb hre hrf
    have h1 := (MRIPML.o2xmE_realizes (e.withProfiles ra rb re rf)).val_iter3 g i j k hi hj hk
    have h2 := (MRIPML.o2xmE_realizes e).val_iter3 g i j k hi hj hk
    have hv1 : MRIPML.o2xmE_vEy (e.withProfiles ra rb re rf) i j k g =
        MRIPML.o2xmE_vEy e i j k g := by
      simp only [MRIPML.o2xmE_vEy, MRIPML.o1xmE_dHz, PMLEnv.withProfiles,
        hra, hrb, hre, hrf]
    have hv2 : MRIPML.o2xmE_vEz (e.withProfiles ra rb re rf) i j k g =
        MRIPML.o2xmE_vEz e i j k g := by
      simp only [MRIPML.o2xmE_vEz, MRIPML.o1xmE_dHy, PMLEnv.withProfiles,
        hra, hrb, hre, hrf]
    have hp1 : ∀ l, MRIPML.o2xmE_pPhi1 (e.withProfiles ra rb re rf) l i j k g =
        MRIPML.o2xmE_pPhi1 e l i j k g := by
      intro l
      simp only [MRIPML.o2xmE_pPhi1, MRIPML.o1xmE_dHz, PMLEnv.withProfiles,
        hra, hrb, hre, hrf]
    have hp2 : ∀ l, MRIPML.o2xmE_pPhi2 (e.withProfiles ra rb re rf) l i j k g =
        MRIPML.o2xmE_pPhi2 e l i j k g := by
      intro l
      simp only [MRIPML.o2xmE_pPhi2, MRIPML.o1xmE_dHy, PMLEnv.withProfiles,
        hra, hrb, hre, hrf]
    exact ⟨(h1.1.trans hv1).trans h2.1.symm,
      (h1.2.1.trans hv2).trans h2.2.1.symm,
      fun l => ((h1.2.2.1 l).trans (hp1 l)).trans (h2.2.2.1 l).symm,
      fun l => ((h1.2.2.2 l).trans (hp2 l)).trans (h2.2.2.2 l).symm⟩
  · intro g c x y z hne
    constructor
    · by_contra hc
      push_neg at hc
      exact hne ((MRIPML.o1ymE_realizes e).frameF_iter3 g c x y z (Or.inl ⟨hc.1, hc.2⟩))
    · by_contra hex
      push_neg at hex
      refine hne ((MRIPML.o1ymE_realizes e).frameF_iter3 g c x y z (Or.inr ?_))
      intro i j k hi hj hk heq
      rw [Prod.ext_iff] at heq
      obtain ⟨hx, heq2⟩ := heq
      rw [Prod.ext_iff] at heq2
      obtain ⟨hy, hz⟩ := heq2
      exact hex i j k hi hj hk hx hy hz
  · intro g i j k hi hj hk ra rb re rf hra hrb hre hrf
    have h1 := (MRIPML.o1ymE_realizes (e.withProfiles ra rb re rf)).val_iter3 g i j k hi hj hk
    have h2 := (MRIPML.o1ymE_realizes e).val_iter3 g i j k hi hj hk
    have hv1 : MRIPML.o1ymE_vEx (e.withProfiles ra rb re rf) i j k g =
        MRIPML.o1ymE_vEx e i j k g := by
      simp only [MRIPML.o1ymE_vEx, MRIPML.o1ymE_dHz, PMLEnv.withProfiles,
        hra, hrb, hre, hrf]
    have hv2 : MRIPML.o1ymE_vEz (e.withProfiles ra rb re rf) i j k g =
        MRIPML.o1ymE_vEz e i j k g := by
      simp only [MRIPML.o1ymE_vEz, MRIPML.o1ymE_dHx, PMLEnv.withProfiles,
        hra, hrb, hre, hrf]
    have hp1 : ∀ l, MRIPML.o1ymE_pPhi1 (e.withProfiles ra rb re rf) l i j k g =
        MRIPML.o1ymE_pPhi1 e l i j k g := by
      intro l
      simp only [MRIPML.o1ymE_pPhi1, MRIPML.o1ymE_dHz, PMLEnv.withProfiles,
        hra, hrb, hre, hrf]
    have hp2 : ∀ l, MRIPML.o1ymE_pPhi2 (e.withProfiles ra rb re rf) l i j k g =
        MRIPML.o1ymE_pPhi2 e l i j k g := by
      intro l
      simp only [MRIPML.o1ymE_pPhi2, MRIPML.o1ymE_dHx, PMLEnv.withProfiles,
        hra, hrb, hre, hrf]
    exact ⟨(h1.1.trans hv1).trans h2.1.symm,
      (h1.2.1.trans hv2).trans h2.2.1.symm,
      fun l => ((h1.2.2.1 l).trans (hp1 l)).trans (h2.2.2.1 l).symm,
      fun l => ((h1.2.2.2 l).trans (hp2 l)).trans (h2.2.2.2 l).symm⟩
  · intro g c x y z hne
    constructor
    · by_contra hc
      push_neg at hc
      exact hne ((MRIPML.o2ymE_realizes e).frameF_iter3 g c x y z (Or.inl ⟨hc.1, hc.2⟩))
    · by_contra hex
      push_neg at hex
      refine hne ((MRIPML.o2ymE_realizes e).frameF_iter3 g c x y z (Or.inr ?_))
      intro i j k hi hj hk heq
      rw [Prod.ext_iff] at heq
      obtain ⟨hx, heq2⟩ := heq
      rw [Prod.ext_iff] at heq2
      obtain ⟨hy, hz⟩ := heq2
      exact hex i j k hi hj hk hx hy hz
  · intro g i j k hi hj hk ra rb re rf hra hrb hre hrf
    have h1 := (MRIPML.o2ymE_realizes (e.withProfiles ra rb re rf)).val_iter3 g i j k hi hj hk
    have h2 := (MRIPML.o2ymE_realizes e).val_iter3 g i j k hi hj hk
    have hv1 : MRIPML.o2ymE_vEx (e.withProfiles ra rb re rf) i j k g =
        MRIPML.o2ymE_vEx e i j k g := by
      simp only [MRIPML.o2ymE_vEx, MRIPML.o1ymE_dHz, PMLEnv.withProfiles,
        hra, hrb, hre, hrf]
    have hv2 : MRIPML.o2ymE_vEz (e.withProfiles ra rb re rf) i j k g =
        MRIPML.o2ymE_vEz e i j k g := by
      simp only [MRIPML.o2ymE_vEz, MRIPML.o1ymE_dHx, PMLEnv.withProfiles,
        hra, hrb, hre, hrf]
    have hp1 : ∀ l, MRIPML.o2ymE_pPhi1 (e.withProfiles ra rb re rf) l i j k g =
        MRIPML.o2ymE_pPhi1 e l i j k g := by
      intro l
      simp only [MRIPML.o2ymE_pPhi1, MRIPML.o1ymE_dHz, PMLEnv.withProfiles,
        hra, hrb, hre, hrf]
    have hp2 : ∀ l, MRIPML.o2ymE_pPhi2 (e.withProfiles ra rb re rf) l i j k g =
        MRIPML.o2ymE_pPhi2 e l i j k g := by
      intro l
      simp only [MRIPML.o2ymE_pPhi2, MRIPML.o1ymE_dHx, PMLEnv.withProfiles,
        hra, hrb, hre, hrf]
    exact ⟨(h1.1.trans hv1).trans h2.1.symm,
      (h1.2.1.trans hv2).trans h2.2.1.symm,
      fun l => ((h1.2.2.1 l).trans (hp1 l)).trans (h2.2.2.1 l).symm,
      fun l => ((h1.2.2.2 l).trans (hp2 l)).trans (h2.2.2.2 l).symm⟩
  · intro g c x y z hne
    constructor
    · by_contra hc
      push_neg at hc
      exact hne ((MRIPML.o1zmE_realizes e).frameF_iter3 g c x y z (Or.inl ⟨hc.1, hc.2⟩))
    · by_contra hex
      push_neg at hex
      refine hne ((MRIPML.o1zmE_realizes e).frameF_iter3 g c x y z (Or.inr ?_))
      intro i j k hi hj hk heq
      rw [Prod.ext_iff] at heq
      obtain ⟨hx, heq2⟩ := heq
      rw [Prod.ext_iff] at heq2
      obtain ⟨hy, hz⟩ := heq2
      exact hex i j k hi hj hk hx hy hz
  · intro g i j k hi hj hk ra rb re rf hra hrb hre hrf
    have h1 := (MRIPML.o1zmE_realizes (e.withProfiles ra rb re rf)).val_iter3 g i j k hi hj hk
    have h2 := (MRIPML.o1zmE_realizes e).val_iter3 g i j k hi hj hk
    have hv1 : MRIPML.o1zmE_vEx (e.withProfiles ra rb re rf) i j k g =
        MRIPML.o1zmE_vEx e i j k g := by
      simp only [MRIPML.o1zmE_vEx, MRIPML.o1zmE_dHy, PMLEnv.withProfiles,
        hra, hrb, hre, hrf]
    have hv2 : MRIPML.o1zmE_vEy (e.withProfiles ra rb re rf) i j k g =
        MRIPML.o1zmE_vEy e i j k g := by
      simp only [MRIPML.o1zmE_vEy, MRIPML.o1zmE_dHx, PMLEnv.withProfiles,
        hra, hrb, hre, hrf]
    have hp1 : ∀ l, MRIPML.o1zmE_pPhi1 (e.withProfiles ra rb re rf) l i j k g =
        MRIPML.o1zmE_pPhi1 e l i j k g := by
      intro l
      simp only [MRIPML.o1zmE_pPhi1, MRIPML.o1zmE_dHy, PMLEnv.withProfiles,
        hra, hrb, hre, hrf]
    have hp2 : ∀ l, MRIPML.o1zmE_pPhi2 (e.withProfiles ra rb re rf) l i j k g =
        MRIPML.o1zmE_pPhi2 e l i j k g := by
      intro l
      simp only [MRIPML.o1zmE_pPhi2, MRIPML.o1zmE_dHx, PMLEnv.withProfiles,
        hra, hrb, hre, hrf]
    exact ⟨(h1.1.trans hv1).trans h2.1.symm,
      (h1.2.1.trans hv2).trans h2.2.1.symm,
      fun l => ((h1.2.2.1 l).trans (hp1 l)).trans (h2.2.2.1 l).symm,
      fun l => ((h1.2.2.2 l).trans (hp2 l)).trans (h2.2.2.2 l).symm⟩
  · intro g c x y z hne
    constructor
    · by_contra hc
      push_neg at hc
      exact hne ((MRIPML.o2zmE_realizes e).frameF_iter3 g c x y z (Or.inl ⟨hc.1, hc.2⟩))
    · by_contra hex
      push_neg at hex
      refine hne ((MRIPML.o2zmE_realizes e).frameF_iter3 g c x y z (Or.inr ?_))
      intro i j k hi hj hk heq
      rw [Prod.ext_iff] at heq
      obtain ⟨hx, heq2⟩ := heq
      rw [Prod.ext_iff] at heq2
      obtain ⟨hy, hz⟩ := heq2
      exact hex i j k hi hj hk hx hy hz
  · intro g i j k hi hj hk ra rb re rf hra hrb hre hrf
    have h1 := (MRIPML.o2zmE_realizes (e.withProfiles ra rb re rf)).val_iter3 g i j k hi hj hk
    have h2 := (MRIPML.o2zmE_realizes e).val_iter3 g i j k hi hj hk
    have hv1 : MRIPML.o2zmE_vEx (e.withProfiles ra rb re rf) i j k g =
        MRIPML.o2zmE_vEx e i j k g := by
      simp only [MRIPML.o2zmE_vEx, MRIPML.o1zmE_dHy, PMLEnv.withProfiles,
        hra, hrb, hre, hrf]
    have hv2 : MRIPML.o2zmE_vEy (e.withProfiles ra rb re rf) i j k g =
        MRIPML.o2zmE_vEy e i j k g := by
      simp only [MRIPML.o2zmE_vEy, MRIPML.o1zmE_dHx, PMLEnv.withProfiles,
        hra, hrb, hre, hrf]
    have hp1 : ∀ l, MRIPML.o2zmE_pPhi1 (e.withProfiles ra rb re rf) l i j k g =
        MRIPML.o2zmE_pPhi1 e l i j k g := by
      intro l
      simp only [MRIPML.o2zmE_pPhi1, MRIPML.o1zmE_dHy, PMLEnv.withProfiles,
        hra, hrb, hre, hrf]
    have hp2 : ∀ l, MRIPML.o2zmE_pPhi2 (e.withProfiles ra rb re rf) l i j k g =
        MRIPML.o2zmE_pPhi2 e l i j k g := by
      intro l
      simp only [MRIPML.o2zmE_pPhi2, MRIPML.o1zmE_dHx, PMLEnv.withProfiles,
        hra, hrb, hre, hrf]
    exact ⟨(h1.1.trans hv1).trans h2.1.symm,
      (h1.2.1.trans hv2).trans h2.2.1.symm,
      fun l => ((h1.2.2.1 l).trans (hp1 l)).trans (h2.2.2.1 l).symm,
      fun l => ((h1.2.2.2 l).trans (hp2 l)).trans (h2.2.2.2 l).symm⟩

/-- **C9.** Signs of the PML correction terms, for every face, order and
formulation: the xminus/xplus kernels update `Hy` with `+`, `Hz` with `-`,
`Ey` with `-`, `Ez` with `+`; the yminus/yplus kernels update `Hx` with
`-`, `Hz` with `+`, `Ex` with `+`, `Ez` with `-`; the zminus/zplus kernels
update `Hx` with `+`, `Hy` with `-`, `Ex` with `-`, `Ey` with `+`; and
every component other than the two targets of a kernel — in particular the
component normal to its face — is never written by it. -/
theorem C9_correction_signs (e : PMLEnv) (g : Grid) :
    (∀ i j k : ℕ, i < e.nx → j < e.ny → k < e.nz →
      (HORIPML.order1_xminus e g).F 4 (e.xf - (i + 1)) (e.ys + j) (e.zs + k) =
        g.F 4 (e.xf - (i + 1)) (e.ys + j) (e.zs + k) +
          e.uc (e.ID 4 (e.xf - (i + 1)) (e.ys + j) (e.zs + k)) 4 *
            ((e.RA 0 i - 1) * HORIPML.o1xmH_dEz e i j k g +
            e.RB 0 i * g.Phi1 0 i j k) ∧
      (HORIPML.order1_xminus e g).F 5 (e.xf - (i + 1)) (e.ys + j) (e.zs + k) =
        g.F 5 (e.xf - (i + 1)) (e.ys + j) (e.zs + k) -
          e.uc (e.ID 5 (e.xf - (i + 1)) (e.ys + j) (e.zs + k)) 4 *
            ((e.RA 0 i - 1) * HORIPML.o1xmH_dEy e i j k g +
            e.RB 0 i * g.Phi2 0 i j k)) ∧
    (∀ c x y z, c ≠ 4 → c ≠ 5 →
      (HORIPML.order1_xminus e g).F c x y z = g.F c x y z) ∧
    (∀ i j k : ℕ, i < e.nx → j < e.ny → k < e.nz →
      (HORIPML.order2_xminus e g).F 4 (e.xf - (i + 1)) (e.ys + j) (e.zs + k) =
        g.F 4 (e.xf - (i + 1)) (e.ys + j) (e.zs + k) +
          e.uc (e.ID 4 (e.xf - (i + 1)) (e.ys + j) (e.zs + k)) 4 *
            ((e.RA 0 i * e.RA 1 i - 1) * HORIPML.o1xmH_dEz e i j k g +
            e.RA 1 i * e.RB 0 i * g.Phi1 0 i j k +
            e.RB 1 i * g.Phi1 1 i j k) ∧
      (HORIPML.order2_xminus e g).F 5 (e.xf - (i + 1)) (e.ys + j) (e.zs + k) =
        g.F 5 (e.xf - (i + 1)) (e.ys + j) (e.zs + k) -
          e.uc (e.ID 5 (e.xf - (i + 1)) (e.ys + j) (e.zs + k)) 4 *
            ((e.RA 0 i * e.RA 1 i - 1) * HORIPML.o1xmH_dEy e i j k g +
            e.RA 1 i * e.RB 0 i * g.Phi2 0 i j k +
            e.RB 1 i * g.Phi2 1 i j k)) ∧
    (∀ c x y z, c ≠ 4 → c ≠ 5 →
      (HORIPML.order2_xminus e g).F c x y z = g.F c x y z) ∧
    (∀ i j k : ℕ, i < e.nx → j < e.ny → k < e.nz →
      (HORIPML.order1_xplus e g).F 4 (e.xs + i) (e.ys + j) (e.zs + k) =
        g.F 4 (e.xs + i) (e.ys + j) (e.zs + k) +
          e.uc (e.ID 4 (e.xs + i) (e.ys + j) (e.zs + k)) 4 *
            ((e.RA 0 i - 1) * HORIPML.o1xpH_dEz e i j k g +
            e.RB 0 i * g.Phi1 0 i j k) ∧
      (HORIPML.order1_xplus e g).F 5 (e.xs + i) (e.ys + j) (e.zs + k) =
        g.F 5 (e.xs + i) (e.ys + j) (e.zs + k) -
          e.uc (e.ID 5 (e.xs + i) (e.ys + j) (e.zs + k)) 4 *
            ((e.RA 0 i - 1) * HORIPML.o1xpH_dEy e i j k g +
            e.RB 0 i * g.Phi2 0 i j k)) ∧
    (∀ c x y z, c ≠ 4 → c ≠ 5 →
      (HORIPML.order1_xplus e g).F c x y z = g.F c x y z) ∧
    (∀ i j k : ℕ, i < e.nx → j < e.ny → k < e.nz →
      (HORIPML.order2_xplus e g).F 4 (e.xs + i) (e.ys + j) (e.zs + k) =
        g.F 4 (e.xs + i) (e.ys + j) (e.zs + k) +
          e.uc (e.ID 4 (e.xs + i) (e.ys + j) (e.zs + k)) 4 *
            ((e.RA 0 i * e.RA 1 i - 1) * HORIPML.o1xpH_dEz e i j k g +
            e.RA 1 i * e.RB 0 i * g.Phi1 0 i j k +
            e.RB 1 i * g.Phi1 1 i j k) ∧
      (HORIPML.order2_xplus e g).F 5 (e.xs + i) (e.ys + j) (e.zs + k) =
        g.F 5 (e.xs + i) (e.ys + j) (e.zs + k) -
          e.uc (e.ID 5 (e.xs + i) (e.ys + j) (e.zs + k)) 4 *
            ((e.RA 0 i * e.RA 1 i - 1) * HORIPML.o1xpH_dEy e i j k g +
            e.RA 1 i * e.RB 0 i * g.Phi2 0 i j k +
            e.RB 1 i * g.Phi2 1 i j k)) ∧
    (∀ c x y z, c ≠ 4 → c ≠ 5 →
      (HORIPML.order2_xplus e g).F c x y z = g.F c x y z) ∧
    (∀ i j k : ℕ, i < e.nx → j < e.ny → k < e.nz →
      (HORIPML.order1_yminus e g).F 3 (e.xs + i) (e.yf - (j + 1)) (e.zs + k) =
        g.F 3 (e.xs + i) (e.yf - (j + 1)) (e.zs + k) -
          e.uc (e.ID 3 (e.xs + i) (e.yf - (j + 1)) (e.zs + k)) 4 *
            ((e.RA 0 j - 1) * HORIPML.o1ymH_dEz e i j k g +
            e.RB 0 j * g.Phi1 0 i j k) ∧
      (HORIPML.order1_yminus e g).F 5 (e.xs + i) (e.yf - (j + 1)) (e.zs + k) =
        g.F 5 (e.xs + i) (e.yf - (j + 1)) (e.zs + k) +
          e.uc (e.ID 5 (e.xs + i) (e.yf - (j + 1)) (e.zs + k)) 4 *
            ((e.RA 0 j - 1) * HORIPML.o1ymH_dEx e i j k g +
            e.RB 0 j * g.Phi2 0 i j k)) ∧
    (∀ c x y z, c ≠ 3 → c ≠ 5 →
      (HORIPML.order1_yminus e g).F c x y z = g.F c x y z) ∧
    (∀ i j k : ℕ, i < e.nx → j < e.ny → k < e.nz →
      (HORIPML.order2_yminus e g).F 3 (e.xs + i) (e.yf - (j + 1)) (e.zs + k) =
        g.F 3 (e.xs + i) (e.yf - (j + 1)) (e.zs + k) -
          e.uc (e.ID 3 (e.xs + i) (e.yf - (j + 1)) (e.zs + k)) 4 *
            ((e.RA 0 j * e.RA 1 j - 1) * HORIPML.o1ymH_dEz e i j k g +
            e.RA 1 j * e.RB 0 j * g.Phi1 0 i j k +
            e.RB 1 j * g.Phi1 1 i j k) ∧
      (HORIPML.order2_yminus e g).F 5 (e.xs + i) (e.yf - (j + 1)) (e.zs + k) =
        g.F 5 (e.xs + i) (e.yf - (j + 1)) (e.zs + k) +
          e.uc (e.ID 5 (e.xs + i) (e.yf - (j + 1)) (e.zs + k)) 4 *
            ((e.RA 0 j * e.RA 1 j - 1) * HORIPML.o1ymH_dEx e i j k g +
            e.RA 1 j * e.RB 0 j * g.Phi2 0 i j k +
            e.RB 1 j * g.Phi2 1 i j k)) ∧
    (∀ c x y z, c ≠ 3 → c ≠ 5 →
      (HORIPML.order2_yminus e g).F c x y z = g.F c x y z) ∧
    (∀ i j k : ℕ, i < e.nx → j < e.ny → k < e.nz →
      (HORIPML.order1_yplus e g).F 3 (e.xs + i) (e.ys + j) (e.zs + k) =
        g.F 3 (e.xs + i) (e.ys + j) (e.zs + k) -
          e.uc (e.ID 3 (e.xs + i) (e.ys + j) (e.zs + k)) 4 *
            ((e.RA 0 j - 1) * HORIPML.o1ypH_dEz e i j k g +
            e.RB 0 j * g.Phi1 0 i j k) ∧
      (HORIPML.order1_yplus e g).F 5 (e.xs + i) (e.ys + j) (e.zs + k) =
        g.F 5 (e.xs + i) (e.ys + j) (e.zs + k) +
          e.uc (e.ID 5 (e.xs + i) (e.ys + j) (e.zs + k)) 4 *
            ((e.RA 0 j - 1) * HORIPML.o1ypH_dEx e i j k g +
            e.RB 0 j * g.Phi2 0 i j k)) ∧
    (∀ c x y z, c ≠ 3 → c ≠ 5 →
      (HORIPML.order1_yplus e g).F c x y z = g.F c x y z) ∧
    (∀ i j k : ℕ, i < e.nx → j < e.ny → k < e.nz →
      (HORIPML.order2_yplus e g).F 3 (e.xs + i) (e.ys + j) (e.zs + k) =
        g.F 3 (e.xs + i) (e.ys + j) (e.zs + k) -
          e.uc (e.ID 3 (e.xs + i) (e.ys + j) (e.zs + k)) 4 *
            ((e.RA 0 j * e.RA 1 j - 1) * HORIPML.o1ypH_dEz e i j k g +
            e.RA 1 j * e.RB 0 j * g.Phi1 0 i j k +
            e.RB 1 j * g.Phi1 1 i j k) ∧
      (HORIPML.order2_yplus e g).F 5 (e.xs + i) (e.ys + j) (e.zs + k) =
        g.F 5 (e.xs + i) (e.ys + j) (e.zs + k) +
          e.uc (e.ID 5 (e.xs + i) (e.ys + j) (e.zs + k)) 4 *
            ((e.RA 0 j * e.RA 1 j - 1) * HORIPML.o1ypH_dEx e i j k g +
            e.RA 1 j * e.RB 0 j * g.Phi2 0 i j k +
            e.RB 1 j * g.Phi2 1 i j k)) ∧
    (∀ c x y z, c ≠ 3 → c ≠ 5 →
      (HORIPML.order2_yplus e g).F c x y z = g.F c x y z) ∧
    (∀ i j k : ℕ, i < e.nx → j < e.ny → k < e.nz →
      (HORIPML.order1_zminus e g).F 3 (e.xs + i) (e.ys + j) (e.zf - (k + 1)) =
        g.F 3 (e.xs + i) (e.ys + j) (e.zf - (k + 1)) +
          e.uc (e.ID 3 (e.xs + i) (e.ys + j) (e.zf - (k + 1))) 4 *
            ((e.RA 0 k - 1) * HORIPML.o1zmH_dEy e i j k g +
            e.RB 0 k * g.Phi1 0 i j k) ∧
      (HORIPML.order1_zminus e g).F 4 (e.xs + i) (e.ys + j) (e.zf - (k + 1)) =
        g.F 4 (e.xs + i) (e.ys + j) (e.zf - (k + 1)) -
          e.uc (e.ID 4 (e.xs + i) (e.ys + j) (e.zf - (k + 1))) 4 *
            ((e.RA 0 k - 1) * HORIPML.o1zmH_dEx e i j k g +
            e.RB 0 k * g.Phi2 0 i j k)) ∧
    (∀ c x y z, c ≠ 3 → c ≠ 4 →
      (HORIPML.order1_zminus e g).F c x y z = g.F c x y z) ∧
    (∀ i j k : ℕ, i < e.nx → j < e.ny → k < e.nz →
      (HORIPML.order2_zminus e g).F 3 (e.xs + i) (e.ys + j) (e.zf - (k + 1)) =
        g.F 3 (e.xs + i) (e.ys + j) (e.zf - (k + 1)) +
          e.uc (e.ID 3 (e.xs + i) (e.ys + j) (e.zf - (k + 1))) 4 *
            ((e.RA 0 k * e.RA 1 k - 1) * HORIPML.o1zmH_dEy e i j k g +
            e.RA 1 k * e.RB 0 k * g.Phi1 0 i j k +
            e.RB 1 k * g.Phi1 1 i j k) ∧
      (HORIPML.order2_zminus e g).F 4 (e.xs + i) (e.ys + j) (e.zf - (k + 1)) =
        g.F 4 (e.xs + i) (e.ys + j) (e.zf - (k + 1)) -
          e.uc (e.ID 4 (e.xs + i) (e.ys + j) (e.zf - (k + 1))) 4 *
            ((e.RA 0 k * e.RA 1 k - 1) * HORIPML.o1zmH_dEx e i j k g +
            e.RA 1 k * e.RB 0 k * g.Phi2 0 i j k +
            e.RB 1 k * g.Phi2 1 i j k)) ∧
    (∀ c x y z, c ≠ 3 → c ≠ 4 →
      (HORIPML.order2_zminus e g).F c x y z = g.F c x y z) ∧
    (∀ i j k : ℕ, i < e.nx → j < e.ny → k < e.nz →
      (HORIPML.order1_zplus e g).F 3 (e.xs + i) (e.ys + j) (e.zs + k) =
        g.F 3 (e.xs + i) (e.ys + j) (e.zs + k) +
          e.uc (e.ID 3 (e.xs + i) (e.ys + j) (e.zs + k)) 4 *
            ((e.RA 0 k - 1) * HORIPML.o1zpH_dEy e i j k g +
            e.RB 0 k * g.Phi1 0 i j k) ∧
      (HORIPML.order1_zplus e g).F 4 (e.xs + i) (e.ys + j) (e.zs + k) =
        g.F 4 (e.xs + i) (e.ys + j) (e.zs + k) -
          e.uc (e.ID 4 (e.xs + i) (e.ys + j) (e.zs + k)) 4 *
            ((e.RA 0 k - 1) * HORIPML.o1zpH_dEx e i j k g +
            e.RB 0 k * g.Phi2 0 i j k)) ∧
    (∀ c x y z, c ≠ 3 → c ≠ 4 →
      (HORIPML.order1_zplus e g).F c x y z = g.F c x y z) ∧
    (∀ i j k : ℕ, i < e.nx → j < e.ny → k < e.nz →
      (HORIPML.order2_zplus e g).F 3 (e.xs + i) (e.ys + j) (e.zs + k) =
        g.F 3 (e.xs + i) (e.ys + j) (e.zs + k) +
          e.uc (e.ID 3 (e.xs + i) (e.ys + j) (e.zs + k)) 4 *
            ((e.RA 0 k * e.RA 1 k - 1) * HORIPML.o1zpH_dEy e i j k g +
            e.RA 1 k * e.RB 0 k * g.Phi1 0 i j k +
            e.RB 1 k * g.Phi1 1 i j k) ∧
      (HORIPML.order2_zplus e g).F 4 (e.xs + i) (e.ys + j) (e.zs + k) =
        g.F 4 (e.xs + i) (e.ys + j) (e.zs + k) -
          e.uc (e.ID 4 (e.xs + i) (e.ys + j) (e.zs + k)) 4 *
            ((e.RA 0 k * e.RA 1 k - 1) * HORIPML.o1zpH_dEx e i j k g +
            e.RA 1 k * e.RB 0 k * g.Phi2 0 i j k +
            e.RB 1 k * g.Phi2 1 i j k)) ∧
    (∀ c x y z, c ≠ 3 → c ≠ 4 →
      (HORIPML.order2_zplus e g).F c x y z = g.F c x y z) ∧
    (∀ i j k : ℕ, i < e.nx → j < e.ny → k < e.nz →
      (MRIPML.order1_xminus e g).F 1 (e.xf - i) (e.ys + j) (e.zs + k) =
        g.F 1 (e.xf - i) (e.ys + j) (e.zs + k) -
          e.uc (e.ID 1 (e.xf - i) (e.ys + j) (e.zs + k)) 4 *
            ((1 / e.RA 0 i - 1) * MRIPML.o1xmE_dHz e i j k g -
            1 / e.RA 0 i * g.Phi1 0 i j k) ∧
      (MRIPML.order1_xminus e g).F 2 (e.xf - i) (e.ys + j) (e.zs + k) =
        g.F 2 (e.xf - i) (e.ys + j) (e.zs + k) +
          e.uc (e.ID 2 (e.xf - i) (e.ys + j) (e.zs + k)) 4 *
            ((1 / e.RA 0 i - 1) * MRIPML.o1xmE_dHy e i j k g -
            1 / e.RA 0 i * g.Phi2 0 i j k)) ∧
    (∀ c x y z, c ≠ 1 → c ≠ 2 →
      (MRIPML.order1_xminus e g).F c x y z = g.F c x y z) ∧
    (∀ i j k : ℕ, i < e.nx → j < e.ny → k < e.nz →
      (MRIPML.order2_xminus e g).F 1 (e.xf - i) (e.ys + j) (e.zs + k) =
        g.F 1 (e.xf - i) (e.ys + j) (e.zs + k) -
          e.uc (e.ID 1 (e.xf - i) (e.ys + j) (e.zs + k)) 4 *
            ((1 / (e.RA 0 i + e.RA 1 i) - 1) * MRIPML.o1xmE_dHz e i j k g -
            1 / (e.RA 0 i + e.RA 1 i) *
              (e.RB 0 i * g.Phi1 0 i j k + e.RB 1 i * g.Phi1 1 i j k)) ∧
      (MRIPML.order2_xminus e g).F 2 (e.xf - i) (e.ys + j) (e.zs + k) =
        g.F 2 (e.xf - i) (e.ys + j) (e.zs + k) +
          e.uc (e.ID 2 (e.xf - i) (e.ys + j) (e.zs + k)) 4 *
            ((1 / (e.RA 0 i + e.RA 1 i) - 1) * MRIPML.o1xmE_dHy e i j k g -
            1 / (e.RA 0 i + e.RA 1 i) *
              (e.RB 0 i * g.Phi2 0 i j k + e.RB 1 i * g.Phi2 1 i j k))) ∧
    (∀ c x y z, c ≠ 1 → c ≠ 2 →
      (MRIPML.order2_xminus e g).F c x y z = g.F c x y z) ∧
    (∀ i j k : ℕ, i < e.nx → j < e.ny → k < e.nz →
      (MRIPML.order1_xplus e g).F 1 (e.xs + i) (e.ys + j) (e.zs + k) =
        g.F 1 (e.xs + i) (e.ys + j) (e.zs + k) -
          e.uc (e.ID 1 (e.xs + i) (e.ys + j) (e.zs + k)) 4 *
            ((1 / e.RA 0 i - 1) * MRIPML.o1xpE_dHz e i j k g -
            1 / e.RA 0 i * g.Phi1 0 i j k) ∧
      (MRIPML.order1_xplus e g).F 2 (e.xs + i) (e.ys + j) (e.zs + k) =
        g.F 2 (e.xs + i) (e.ys + j) (e.zs + k) +
          e.uc (e.ID 2 (e.xs + i) (e.ys + j) (e.zs + k)) 4 *
            ((1 / e.RA 0 i - 1) * MRIPML.o1xpE_dHy e i j k g -
            1 / e.RA 0 i * g.Phi2 0 i j k)) ∧
    (∀ c x y z, c ≠ 1 → c ≠ 2 →
      (MRIPML.order1_xplus e g).F c x y z = g.F c x y z) ∧
    (∀ i j k : ℕ, i < e.nx → j < e.ny → k < e.nz →
      (MRIPML.order2_xplus e g).F 1 (e.xs + i) (e.ys + j) (e.zs + k) =
        g.F 1 (e.xs + i) (e.ys + j) (e.zs + k) -
          e.uc (e.ID 1 (e.xs + i) (e.ys + j) (e.zs + k)) 4 *
            ((1 / (e.RA 0 i + e.RA 1 i) - 1) * MRIPML.o1xpE_dHz e i j k g -
            1 / (e.RA 0 i + e.RA 1 i) *
              (e.RB 0 i * g.Phi1 0 i j k + e.RB 1 i * g.Phi1 1 i j k)) ∧
      (MRIPML.order2_xplus e g).F 2 (e.xs + i) (e.ys + j) (e.zs + k) =
        g.F 2 (e.xs + i) (e.ys + j) (e.zs + k) +
          e.uc (e.ID 2 (e.xs + i) (e.ys + j) (e.zs + k)) 4 *
            ((1 / (e.RA 0 i + e.RA 1 i) - 1) * MRIPML.o1xpE_dHy e i j k g -
            1 / (e.RA 0 i + e.RA 1 i) *
              (e.RB 0 i * g.Phi2 0 i j k + e.RB 1 i * g.Phi2 1 i j k))) ∧
    (∀ c x y z, c ≠ 1 → c ≠ 2 →
      (MRIPML.order2_xplus e g).F c x y z = g.F c x y z) ∧
    (∀ i j k : ℕ, i < e.nx → j < e.ny → k < e.nz →
      (MRIPML.order1_yminus e g).F 0 (e.xs + i) (e.yf - j) (e.zs + k) =
        g.F 0 (e.xs + i) (e.yf - j) (e.zs + k) +
          e.uc (e.ID 0 (e.xs + i) (e.yf - j) (e.zs + k)) 4 *
            ((1 / e.RA 0 j - 1) * MRIPML.o1ymE_dHz e i j k g -
            1 / e.RA 0 j * g.Phi1 0 i j k) ∧
      (MRIPML.order1_yminus e g).F 2 (e.xs + i) (e.yf - j) (e.zs + k) =
        g.F 2 (e.xs + i) (e.yf - j) (e.zs + k) -
          e.uc (e.ID 2 (e.xs + i) (e.yf - j) (e.zs + k)) 4 *
            ((1 / e.RA 0 j - 1) * MRIPML.o1ymE_dHx e i j k g -
            1 / e.RA 0 j * g.Phi2 0 i j k)) ∧
    (∀ c x y z, c ≠ 0 → c ≠ 2 →
      (MRIPML.order1_yminus e g).F c x y z = g.F c x y z) ∧
    (∀ i j k : ℕ, i < e.nx → j < e.ny → k < e.nz →
      (MRIPML.order2_yminus e g).F 0 (e.xs + i) (e.yf - j) (e.zs + k) =
        g.F 0 (e.xs + i) (e.yf - j) (e.zs + k) +
          e.uc (e.ID 0 (e.xs + i) (e.yf - j) (e.zs + k)) 4 *
            ((1 / (e.RA 0 j + e.RA 1 j) - 1) * MRIPML.o1ymE_dHz e i j k g -
            1 / (e.RA 0 j + e.RA 1 j) *
              (e.RB 0 j * g.Phi1 0 i j k + e.RB 1 j * g.Phi1 1 i j k)) ∧
      (MRIPML.order2_yminus e g).F 2 (e.xs + i) (e.yf - j) (e.zs + k) =
        g.F 2 (e.xs + i) (e.yf - j) (e.zs + k) -
          e.uc (e.ID 2 (e.xs + i) (e.yf - j) (e.zs + k)) 4 *
            ((1 / (e.RA 0 j + e.RA 1 j) - 1) * MRIPML.o1ymE_dHx e i j k g -
            1 / (e.RA 0 j + e.RA 1 j) *
              (e.RB 0 j * g.Phi2 0 i j k + e.RB 1 j * g.Phi2 1 i j k))) ∧
    (∀ c x y z, c ≠ 0 → c ≠ 2 →
      (MRIPML.order2_yminus e g).F c x y z = g.F c x y z) ∧
    (∀ i j k : ℕ, i < e.nx → j < e.ny → k < e.nz →
      (MRIPML.order1_yplus e g).F 0 (e.xs + i) (e.ys + j) (e.zs + k) =
        g.F 0 (e.xs + i) (e.ys + j) (e.zs + k) +
          e.uc (e.ID 0 (e.xs + i) (e.ys + j) (e.zs + k)) 4 *
            ((1 / e.RA 0 j - 1) * MRIPML.o1ypE_dHz e i j k g -
            1 / e.RA 0 j * g.Phi1 0 i j k) ∧
      (MRIPML.order1_yplus e g).F 2 (e.xs + i) (e.ys + j) (e.zs + k) =
        g.F 2 (e.xs + i) (e.ys + j) (e.zs + k) -
          e.uc (e.ID 2 (e.xs + i) (e.ys + j) (e.zs + k)) 4 *
            ((1 / e.RA 0 j - 1) * MRIPML.o1ypE_dHx e i j k g -
            1 / e.RA 0 j * g.Phi2 0 i j k)) ∧
    (∀ c x y z, c ≠ 0 → c ≠ 2 →
      (MRIPML.order1_yplus e g).F c x y z = g.F c x y z) ∧
    (∀ i j k : ℕ, i < e.nx → j < e.ny → k < e.nz →
      (MRIPML.order2_yplus e g).F 0 (e.xs + i) (e.ys + j) (e.zs + k) =
        g.F 0 (e.xs + i) (e.ys + j) (e.zs + k) +
          e.uc (e.ID 0 (e.xs + i) (e.ys + j) (e.zs + k)) 4 *
            ((1 / (e.RA 0 j + e.RA 1 j) - 1) * MRIPML.o1ypE_dHz e i j k g -
            1 / (e.RA 0 j + e.RA 1 j) *
              (e.RB 0 j * g.Phi1 0 i j k + e.RB 1 j * g.Phi1 1 i j k)) ∧
      (MRIPML.order2_yplus e g).F 2 (e.xs + i) (e.ys + j) (e.zs + k) =
        g.F 2 (e.xs + i) (e.ys + j) (e.zs + k) -
          e.uc (e.ID 2 (e.xs + i) (e.ys + j) (e.zs + k)) 4 *
            ((1 / (e.RA 0 j + e.RA 1 j) - 1) * MRIPML.o1ypE_dHx e i j k g -
            1 / (e.RA 0 j + e.RA 1 j) *
              (e.RB 0 j * g.Phi2 0 i j k + e.RB 1 j * g.Phi2 1 i j k))) ∧
    (∀ c x y z, c ≠ 0 → c ≠ 2 →
      (MRIPML.order2_yplus e g).F c x y z = g.F c x y z) ∧
    (∀ i j k : ℕ, i < e.nx → j < e.ny → k < e.nz →
      (MRIPML.order1_zminus e g).F 0 (e.xs + i) (e.ys + j) (e.zf - k) =
        g.F 0 (e.xs + i) (e.ys + j) (e.zf - k) -
          e.uc (e.ID 0 (e.xs + i) (e.ys + j) (e.zf - k)) 4 *
            ((1 / e.RA 0 k - 1) * MRIPML.o1zmE_dHy e i j k g -
            1 / e.RA 0 k * g.Phi1 0 i j k) ∧
      (MRIPML.order1_zminus e g).F 1 (e.xs + i) (e.ys + j) (e.zf - k) =
        g.F 1 (e.xs + i) (e.ys + j) (e.zf - k) +
          e.uc (e.ID 1 (e.xs + i) (e.ys + j) (e.zf - k)) 4 *
            ((1 / e.RA 0 k - 1) * MRIPML.o1zmE_dHx e i j k g -
            1 / e.RA 0 k * g.Phi2 0 i j k)) ∧
    (∀ c x y z, c ≠ 0 → c ≠ 1 →
      (MRIPML.order1_zminus e g).F c x y z = g.F c x y z) ∧
    (∀ i j k : ℕ, i < e.nx → j < e.ny → k < e.nz →
      (MRIPML.order2_zminus e g).F 0 (e.xs + i) (e.ys + j) (e.zf - k) =
        g.F 0 (e.xs + i) (e.ys + j) (e.zf - k) -
          e.uc (e.ID 0 (e.xs + i) (e.ys + j) (e.zf - k)) 4 *
            ((1 / (e.RA 0 k + e.RA 1 k) - 1) * MRIPML.o1zmE_dHy e i j k g -
            1 / (e.RA 0 k + e.RA 1 k) *
              (e.RB 0 k * g.Phi1 0 i j k + e.RB 1 k * g.Phi1 1 i j k)) ∧
      (MRIPML.order2_zminus e g).F 1 (e.xs + i) (e.ys + j) (e.zf - k) =
        g.F 1 (e.xs + i) (e.ys + j) (e.zf - k) +
          e.uc (e.ID 1 (e.xs + i) (e.ys + j) (e.zf - k)) 4 *
            ((1 / (e.RA 0 k + e.RA 1 k) - 1) * MRIPML.o1zmE_dHx e i j k g -
            1 / (e.RA 0 k + e.RA 1 k) *
              (e.RB 0 k * g.Phi2 0 i j k + e.RB 1 k * g.Phi2 1 i j k))) ∧
    (∀ c x y z, c ≠ 0 → c ≠ 1 →
      (MRIPML.order2_zminus e g).F c x y z = g.F c x y z) ∧
    (∀ i j k : ℕ, i < e.nx → j < e.ny → k < e.nz →
      (MRIPML.order1_zplus e g).F 0 (e.xs + i) (e.ys + j) (e.zs + k) =
        g.F 0 (e.xs + i) (e.ys + j) (e.zs + k) -
          e.uc (e.ID 0 (e.xs + i) (e.ys + j) (e.zs + k)) 4 *
            ((1 / e.RA 0 k - 1) * MRIPML.o1zpE_dHy e i j k g -
            1 / e.RA 0 k * g.Phi1 0 i j k) ∧
      (MRIPML.order1_zplus e g).F 1 (e.xs + i) (e.ys + j) (e.zs + k) =
        g.F 1 (e.xs + i) (e.ys + j) (e.zs + k) +
          e.uc (e.ID 1 (e.xs + i) (e.ys + j) (e.zs + k)) 4 *
            ((1 / e.RA 0 k - 1) * MRIPML.o1zpE_dHx e i j k g -
            1 / e.RA 0 k * g.Phi2 0 i j k)) ∧
    (∀ c x y z, c ≠ 0 → c ≠ 1 →
      (MRIPML.order1_zplus e g).F c x y z = g.F c x y z) ∧
    (∀ i j k : ℕ, i < e.nx → j < e.ny → k < e.nz →
      (MRIPML.order2_zplus e g).F 0 (e.xs + i) (e.ys + j) (e.zs + k) =
        g.F 0 (e.xs + i) (e.ys + j) (e.zs + k) -
          e.uc (e.ID 0 (e.xs + i) (e.ys + j) (e.zs + k)) 4 *
            ((1 / (e.RA 0 k + e.RA 1 k) - 1) * MRIPML.o1zpE_dHy e i j k g -
            1 / (e.RA 0 k + e.RA 1 k) *
              (e.RB 0 k * g.Phi1 0 i j k + e.RB 1 k * g.Phi1 1 i j k)) ∧
      (MRIPML.order2_zplus e g).F 1 (e.xs + i) (e.ys + j) (e.zs + k) =
        g.F 1 (e.xs + i) (e.ys + j) (e.zs + k) +
          e.uc (e.ID 1 (e.xs + i) (e.ys + j) (e.zs + k)) 4 *
            ((1 / (e.RA 0 k + e.RA 1 k) - 1) * MRIPML.o1zpE_dHx e i j k g -
            1 / (e.RA 0 k + e.RA 1 k) *
              (e.RB 0 k * g.Phi2 0 i j k + e.RB 1 k * g.Phi2 1 i j k))) ∧
    (∀ c x y z, c ≠ 0 → c ≠ 1 →
      (MRIPML.order2_zplus e g).F c x y z = g.F c x y z) := by
  refine ⟨?_, ?_, ?_, ?_, ?_, ?_, ?_, ?_, ?_, ?_, ?_, ?_, ?_, ?_, ?_, ?_, ?_, ?_, ?_, ?_, ?_, ?_, ?_, ?_, ?_, ?_, ?_, ?_, ?_, ?_, ?_, ?_, ?_, ?_, ?_, ?_, ?_, ?_, ?_, ?_, ?_, ?_, ?_, ?_, ?_, ?_, ?_, ?_⟩
  · intro i j k hi hj hk
    exact ⟨((HORIPML.o1xmH_realizes e).val_iter3 g i j k hi hj hk).1,
      ((HORIPML.o1xmH_realizes e).val_iter3 g i j k hi hj hk).2.1⟩
  · intro c x y z hc1 hc2
    exact (HORIPML.o1xmH_realizes e).frameF_iter3 g c x y z (Or.inl ⟨hc1, hc2⟩)
  · intro i j k hi hj hk
    exact ⟨((HORIPML.o2xmH_realizes e).val_iter3 g i j k hi hj hk).1,
      ((HORIPML.o2xmH_realizes e).val_iter3 g i j k hi hj hk).2.1⟩
  · intro c x y z hc1 hc2
    exact (HORIPML.o2xmH_realizes e).frameF_iter3 g c x y z (Or.inl ⟨hc1, hc2⟩)
  · intro i j k hi hj hk
    exact ⟨((HORIPML.o1xpH_realizes e).val_iter3 g i j k hi hj hk).1,
      ((HORIPML.o1xpH_realizes e).val_iter3 g i j k hi hj hk).2.1⟩
  · intro c x y z hc1 hc2
    exact (HORIPML.o1xpH_realizes e).frameF_iter3 g c x y z (Or.inl ⟨hc1, hc2⟩)
  · intro i j k hi hj hk
    exact ⟨((HORIPML.o2xpH_realizes e).val_iter3 g i j k hi hj hk).1,
      ((HORIPML.o2xpH_realizes e).val_iter3 g i j k hi hj hk).2.1⟩
  · intro c x y z hc1 hc2
    exact (HORIPML.o2xpH_realizes e).frameF_iter3 g c x y z (Or.inl ⟨hc1, hc2⟩)
  · intro i j k hi hj hk
    exact ⟨((HORIPML.o1ymH_realizes e).val_iter3 g i j k hi hj hk).1,
      ((HORIPML.o1ymH_realizes e).val_iter3 g i j k hi hj hk).2.1⟩
  · intro c x y z hc1 hc2
    exact (HORIPML.o1ymH_realizes e).frameF_iter3 g c x y z (Or.inl ⟨hc1, hc2⟩)
  · intro i j k hi hj hk
    exact ⟨((HORIPML.o2ymH_realizes e).val_iter3 g i j k hi hj hk).1,
      ((HORIPML.o2ymH_realizes e).val_iter3 g i j k hi hj hk).2.1⟩
  · intro c x y z hc1 hc2
    exact (HORIPML.o2ymH_realizes e).frameF_iter3 g c x y z (Or.inl ⟨hc1, hc2⟩)
  · intro i j k hi hj hk
    exact ⟨((HORIPML.o1ypH_realizes e).val_iter3 g i j k hi hj hk).1,
      ((HORIPML.o1ypH_realizes e).val_iter3 g i j k hi hj hk).2.1⟩
  · intro c x y z hc1 hc2
    exact (HORIPML.o1ypH_realizes e).frameF_iter3 g c x y z (Or.inl ⟨hc1, hc2⟩)
  · intro i j k hi hj hk
    exact ⟨((HORIPML.o2ypH_realizes e).val_iter3 g i j k hi hj hk).1,
      ((HORIPML.o2ypH_realizes e).val_iter3 g i j k hi hj hk).2.1⟩
  · intro c x y z hc1 hc2
    exact (HORIPML.o2ypH_realizes e).frameF_iter3 g c x y z (Or.inl ⟨hc1, hc2⟩)
  · intro i j k hi hj hk
    exact ⟨((HORIPML.o1zmH_realizes e).val_iter3 g i j k hi hj hk).1,
      ((HORIPML.o1zmH_realizes e).val_iter3 g i j k hi hj hk).2.1⟩
  · intro c x y z hc1 hc2
    exact (HORIPML.o1zmH_realizes e).frameF_iter3 g c x y z (Or.inl ⟨hc1, hc2⟩)
  · intro i j k hi hj hk
    exact ⟨((HORIPML.o2zmH_realizes e).val_iter3 g i j k hi hj hk).1,
      ((HORIPML.o2zmH_realizes e).val_iter3 g i j k hi hj hk).2.1⟩
  · intro c x y z hc1 hc2
    exact (HORIPML.o2zmH_realizes e).frameF_iter3 g c x y z (Or.inl ⟨hc1, hc2⟩)
  · intro i j k hi hj hk
    exact ⟨((HORIPML.o1zpH_realizes e).val_iter3 g i j k hi hj hk).1,
      ((HORIPML.o1zpH_realizes e).val_iter3 g i j k hi hj hk).2.1⟩
  · intro c x y z hc1 hc2
    exact (HORIPML.o1zpH_realizes e).frameF_iter3 g c x y z (Or.inl ⟨hc1, hc2⟩)
  · intro i j k hi hj hk
    exact ⟨((HORIPML.o2zpH_realizes e).val_iter3 g i j k hi hj hk).1,
      ((HORIPML.o2zpH_realizes e).val_iter3 g i j k hi hj hk).2.1⟩
  · intro c x y z hc1 hc2
    exact (HORIPML.o2zpH_realizes e).frameF_iter3 g c x y z (Or.inl ⟨hc1, hc2⟩)
  · intro i j k hi hj hk
    exact ⟨((MRIPML.o1xmE_realizes e).val_iter3 g i j k hi hj hk).1,
      ((MRIPML.o1xmE_realizes e).val_iter3 g i j k hi hj hk).2.1⟩
  · intro c x y z hc1 hc2
    exact (MRIPML.o1xmE_realizes e).frameF_iter3 g c x y z (Or.inl ⟨hc1, hc2⟩)
  · intro i j k hi hj hk
    exact ⟨((MRIPML.o2xmE_realizes e).val_iter3 g i j k hi hj hk).1,
      ((MRIPML.o2xmE_realizes e).val_iter3 g i j k hi hj hk).2.1⟩
  · intro c x y z hc1 hc2
    exact (MRIPML.o2xmE_realizes e).frameF_iter3 g c x y z (Or.inl ⟨hc1, hc2⟩)
  · intro i j k hi hj hk
    exact ⟨((MRIPML.o1xpE_realizes e).val_iter3 g i j k hi hj hk).1,
      ((MRIPML.o1xpE_realizes e).val_iter3 g i j k hi hj hk).2.1⟩
  · intro c x y z hc1 hc2
    exact (MRIPML.o1xpE_realizes e).frameF_iter3 g c x y z (Or.inl ⟨hc1, hc2⟩)
  · intro i j k hi hj hk
    exact ⟨((MRIPML.o2xpE_realizes e).val_iter3 g i j k hi hj hk).1,
      ((MRIPML.o2xpE_realizes e).val_iter3 g i j k hi hj hk).2.1⟩
  · intro c x y z hc1 hc2
    exact (MRIPML.o2xpE_realizes e).frameF_iter3 g c x y z (Or.inl ⟨hc1, hc2⟩)
  · intro i j k hi hj hk
    exact ⟨((MRIPML.o1ymE_realizes e).val_iter3 g i j k hi hj hk).1,
      ((MRIPML.o1ymE_realizes e).val_iter3 g i j k hi hj hk).2.1⟩
  · intro c x y z hc1 hc2
    exact (MRIPML.o1ymE_realizes e).frameF_iter3 g c x y z (Or.inl ⟨hc1, hc2⟩)
  · intro i j k hi hj hk
    exact ⟨((MRIPML.o2ymE_realizes e).val_iter3 g i j k hi hj hk).1,
      ((MRIPML.o2ymE_realizes e).val_iter3 g i j k hi hj hk).2.1⟩
  · intro c x y z hc1 hc2
    exact (MRIPML.o2ymE_realizes e).frameF_iter3 g c x y z (Or.inl ⟨hc1, hc2⟩)
  · intro i j k hi hj hk
    exact ⟨((MRIPML.o1ypE_realizes e).val_iter3 g i j k hi hj hk).1,
      ((MRIPML.o1ypE_realizes e).val_iter3 g i j k hi hj hk).2.1⟩
  · intro c x y z hc1 hc2
    exact (MRIPML.o1ypE_realizes e).frameF_iter3 g c x y z (Or.inl ⟨hc1, hc2⟩)
  · intro i j k hi hj hk
    exact ⟨((MRIPML.o2ypE_realizes e).val_iter3 g i j k hi hj hk).1,
      ((MRIPML.o2ypE_realizes e).val_iter3 g i j k hi hj hk).2.1⟩
  · intro c x y z hc1 hc2
    exact (MRIPML.o2ypE_realizes e).frameF_iter3 g c x y z (Or.inl ⟨hc1, hc2⟩)
  · intro i j k hi hj hk
    exact ⟨((MRIPML.o1zmE_realizes e).val_iter3 g i j k hi hj hk).1,
      ((MRIPML.o1zmE_realizes e).val_iter3 g i j k hi hj hk).2.1⟩
  · intro c x y z hc1 hc2
    exact (MRIPML.o1zmE_realizes e).frameF_iter3 g c x y z (Or.inl ⟨hc1, hc2⟩)
  · intro i j k hi hj hk
    exact ⟨((MRIPML.o2zmE_realizes e).val_iter3 g i j k hi hj hk).1,
      ((MRIPML.o2zmE_realizes e).val_iter3 g i j k hi hj hk).2.1⟩
  · intro c x y z hc1 hc2
    exact (MRIPML.o2zmE_realizes e).frameF_iter3 g c x y z (Or.inl ⟨hc1, hc2⟩)
  · intro i j k hi hj hk
    exact ⟨((MRIPML.o1zpE_realizes e).val_iter3 g i j k hi hj hk).1,
      ((MRIPML.o1zpE_realizes e).val_iter3 g i j k hi hj hk).2.1⟩
  · intro c x y z hc1 hc2
    exact (MRIPML.o1zpE_realizes e).frameF_iter3 g c x y z (Or.inl ⟨hc1, hc2⟩)
  · intro i j k hi hj hk
    exact ⟨((MRIPML.o2zpE_realizes e).val_iter3 g i j k hi hj hk).1,
      ((MRIPML.o2zpE_realizes e).val_iter3 g i j k hi hj hk).2.1⟩
  · intro c x y z hc1 hc2
    exact (MRIPML.o2zpE_realizes e).frameF_iter3 g c x y z (Or.inl ⟨hc1, hc2⟩)

/-- Witness for C1: changing the profiles away from column 0 does not
change what the xminus order-1 magnetic kernel writes. -/
theorem C1_minus_face_indexing_witness :
    (HORIPML.order1_xminus
        ((mkEnv cRA cRB cRE cRF).withProfiles
          (fun r n => if n = 0 then cRA r n else 99)
          (fun r n => if n = 0 then cRB r n else 99)
          (fun r n => if n = 0 then cRE r n else 99)
          (fun r n => if n = 0 then cRF r n else 99)) gridEz).F 4 0 0 0 =
      (HORIPML.order1_xminus (mkEnv cRA cRB cRE cRF) gridEz).F 4 0 0 0 := by
  have h := (C1_minus_face_indexing (mkEnv cRA cRB cRE cRF)).2.1 gridEz 0 0 0
    (by decide) (by decide) (by decide)
    (fun r n => if n = 0 then cRA r n else 99)
    (fun r n => if n = 0 then cRB r n else 99)
    (fun r n => if n = 0 then cRE r n else 99)
    (fun r n => if n = 0 then cRF r n else 99)
    (fun r => if_pos rfl) (fun r => if_pos rfl)
    (fun r => if_pos rfl) (fun r => if_pos rfl)
  exact h.1

/-- Witness for C9 on a concrete 1×1×1 slab: the `Ey` correction enters
with a minus sign, and the xminus magnetic kernel never writes `Ex`. -/
theorem C9_correction_signs_witness :
    (MRIPML.order1_xminus (mkEnv cRA cRB cRE cRF) gridEz).F 1 1 0 0 = 1/2 ∧
    (HORIPML.order1_xminus (mkEnv cRA cRB cRE cRF) gridEz).F 0 7 8 9 = 0 := by
  obtain ⟨w1, w2, w3, w4, w5, w6, w7, w8, w9, w10, w11, w12, w13, w14, w15, w16, w17, w18, w19, w20, w21, w22, w23, w24, w25, w26, w27, w28, w29, w30, w31, w32, w33, w34, w35, w36, w37, w38, w39, w40, w41, w42, w43, w44, w45, w46, w47, w48⟩ :=
    C9_correction_signs (mkEnv cRA cRB cRE cRF) gridEz
  constructor
  · have h := (w25 0 0 0 (by decide) (by decide) (by decide)).1
    simp only [mkEnv, cRA, cRB, cRE, cRF, gridEz, MRIPML.o1xmE_dHz] at h
    norm_num at h
    exact h
  · have h := w2 0 7 8 9 (by decide) (by decide)
    rw [h]
    simp [gridEz]

/-- Predicate: the global cell `(x, y, z)` lies in the slab box
`[xs,xf) × [ys,yf) × [zs,zf)`. -/
def slabBox (e : PMLEnv) (x y z : ℤ) : Prop :=
  (e.xs ≤ x ∧ x < e.xf) ∧ (e.ys ≤ y ∧ y < e.yf) ∧ (e.zs ≤ z ∧ z < e.zf)

/-- Write region of the minus-face electric x kernels: the normal range is
`(xs, xf]` — one cell further out than the slab box. -/
def slabBoxEx (e : PMLEnv) (x y z : ℤ) : Prop :=
  (e.xs < x ∧ x ≤ e.xf) ∧ (e.ys ≤ y ∧ y < e.yf) ∧ (e.zs ≤ z ∧ z < e.zf)

/-- Write region of the minus-face electric y kernels. -/
def slabBoxEy (e : PMLEnv) (x y z : ℤ) : Prop :=
  (e.xs ≤ x ∧ x < e.xf) ∧ (e.ys < y ∧ y ≤ e.yf) ∧ (e.zs ≤ z ∧ z < e.zf)

/-- Write region of the minus-face electric z kernels. -/
def slabBoxEz (e : PMLEnv) (x y z : ℤ) : Prop :=
  (e.xs ≤ x ∧ x < e.xf) ∧ (e.ys ≤ y ∧ y < e.yf) ∧ (e.zs < z ∧ z ≤ e.zf)

/-- A kernel call `K` touches only components `c1`, `c2`, only inside the
write region `W`, and only the `Phi` entries of the loop box. -/
def FrameSpec (K : Grid → Grid) (c1 c2 : ℕ) (W : ℤ → ℤ → ℤ → Prop)
    (nx ny nz : ℕ) : Prop :=
  ∀ g : Grid,
    (∀ c x y z, c ≠ c1 → c ≠ c2 → (K g).F c x y z = g.F c x y z) ∧
    (∀ c x y z, ¬ W x y z → (K g).F c x y z = g.F c x y z) ∧
    (∀ l i j k, ¬(i < nx ∧ j < ny ∧ k < nz) →
      (K g).Phi1 l i j k = g.Phi1 l i j k ∧ (K g).Phi2 l i j k = g.Phi2 l i j k)

/-- Counterexample to **C6** as stated: the order-1 MRIPML electric
xminus kernel changes `Ey` at global x-index `1 = xf`, which is outside
the slab bounds `[xs, xf) = [0, 1)`. -/
theorem C6_frame_cex :
    ¬((mkEnv cRA cRB cRE cRF).xs ≤ 1 ∧ (1 : ℤ) < (mkEnv cRA cRB cRE cRF).xf) ∧
    (MRIPML.order1_xminus (mkEnv cRA cRB cRE cRF) gridEz).F 1 1 0 0 ≠
      gridEz.F 1 1 0 0 := by
  constructor
  · decide
  · have h0 := ((MRIPML.o1xmE_realizes (mkEnv cRA cRB cRE cRF)).val_iter3 gridEz
      0 0 0 (by decide) (by decide) (by decide)).1
    have h1 : (MRIPML.order1_xminus (mkEnv cRA cRB cRE cRF) gridEz).F 1 1 0 0 =
        MRIPML.o1xmE_vEy (mkEnv cRA cRB cRE cRF) 0 0 0 gridEz := h0
    rw [h1]
    simp only [MRIPML.o1xmE_vEy, MRIPML.o1xmE_dHz, mkEnv, cRA, cRB, cRE, cRF,
      gridEz]
    norm_num

/-- **C6 (amended).** Frame property of every kernel: a call changes only
its two target components, only inside its write region, and only the
`Phi` entries of its loop box; all other entries of the eight state
arrays are unchanged (the `ID` array, coefficient tables and profiles are
read-only inputs of the embedding and cannot change). The write region is
the slab box `[xs,xf) × [ys,yf) × [zs,zf)` for all magnetic and all
plus-face kernels, but for the three minus-face electric kernels the
normal-axis range is `(xs, xf]` (resp. `(ys, yf]`, `(zs, zf]`) — shifted
one cell outward, including the upper bound `xf`. -/
theorem C6_frame (e : PMLEnv) :
    FrameSpec (HORIPML.order1_xminus e) 4 5 (slabBox e) e.nx e.ny e.nz ∧
    FrameSpec (HORIPML.order2_xminus e) 4 5 (slabBox e) e.nx e.ny e.nz ∧
    FrameSpec (HORIPML.order1_xplus e) 4 5 (slabBox e) e.nx e.ny e.nz ∧
    FrameSpec (HORIPML.order2_xplus e) 4 5 (slabBox e) e.nx e.ny e.nz ∧
    FrameSpec (HORIPML.order1_yminus e) 3 5 (slabBox e) e.nx e.ny e.nz ∧
    FrameSpec (HORIPML.order2_yminus e) 3 5 (slabBox e) e.nx e.ny e.nz ∧
    FrameSpec (HORIPML.order1_yplus e) 3 5 (slabBox e) e.nx e.ny e.nz ∧
    FrameSpec (HORIPML.order2_yplus e) 3 5 (slabBox e) e.nx e.ny e.nz ∧
    FrameSpec (HORIPML.order1_zminus e) 3 4 (slabBox e) e.nx e.ny e.nz ∧
    FrameSpec (HORIPML.order2_zminus e) 3 4 (slabBox e) e.nx e.ny e.nz ∧
    FrameSpec (HORIPML.order1_zplus e) 3 4 (slabBox e) e.nx e.ny e.nz ∧
    FrameSpec (HORIPML.order2_zplus e) 3 4 (slabBox e) e.nx e.ny e.nz ∧
    FrameSpec (MRIPML.order1_xminus e) 1 2 (slabBoxEx e) e.nx e.ny e.nz ∧
    FrameSpec (MRIPML.order2_xminus e) 1 2 (slabBoxEx e) e.nx e.ny e.nz ∧
    FrameSpec (MRIPML.order1_xplus e) 1 2 (slabBox e) e.nx e.ny e.nz ∧
    FrameSpec (MRIPML.order2_xplus e) 1 2 (slabBox e) e.nx e.ny e.nz ∧
    FrameSpec (MRIPML.order1_yminus e) 0 2 (slabBoxEy e) e.nx e.ny e.nz ∧
    FrameSpec (MRIPML.order2_yminus e) 0 2 (slabBoxEy e) e.nx e.ny e.nz ∧
    FrameSpec (MRIPML.order1_yplus e) 0 2 (slabBox e) e.nx e.ny e.nz ∧
    FrameSpec (MRIPML.order2_yplus e) 0 2 (slabBox e) e.nx e.ny e.nz ∧
    FrameSpec (MRIPML.order1_zminus e) 0 1 (slabBoxEz e) e.nx e.ny e.nz ∧
    FrameSpec (MRIPML.order2_zminus e) 0 1 (slabBoxEz e) e.nx e.ny e.nz ∧
    FrameSpec (MRIPML.order1_zplus e) 0 1 (slabBox e) e.nx e.ny e.nz ∧
    FrameSpec (MRIPML.order2_zplus e) 0 1 (slabBox e) e.nx e.ny e.nz := by
  refine ⟨?_, ?_, ?_, ?_, ?_, ?_, ?_, ?_, ?_, ?_, ?_, ?_, ?_, ?_, ?_, ?_, ?_, ?_, ?_, ?_, ?_, ?_, ?_, ?_⟩
  · intro g
    refine ⟨?_, ?_, ?_⟩
    · intro c x y z hc1 hc2
      exact (HORIPML.o1xmH_realizes e).frameF_iter3 g c x y z (Or.inl ⟨hc1, hc2⟩)
    · intro c x y z hw
      refine (HORIPML.o1xmH_realizes e).frameF_iter3 g c x y z (Or.inr ?_)
      intro i j k hi hj hk heq
      simp only [HORIPML.o1xmH_spec, Prod.mk.injEq] at heq
      obtain ⟨hx, hy, hz⟩ := heq
      apply hw
      simp only [slabBox, slabBoxEx, slabBoxEy, slabBoxEz]
      simp only [PMLEnv.nx, PMLEnv.ny, PMLEnv.nz] at hi hj hk
      omega
    · intro l i j k hb
      exact (HORIPML.o1xmH_realizes e).framePhi_iter3 g l i j k hb
  · intro g
    refine ⟨?_, ?_, ?_⟩
    · intro c x y z hc1 hc2
      exact (HORIPML.o2xmH_realizes e).frameF_iter3 g c x y z (Or.inl ⟨hc1, hc2⟩)
    · intro c x y z hw
      refine (HORIPML.o2xmH_realizes e).frameF_iter3 g c x y z (Or.inr ?_)
      intro i j k hi hj hk heq
      simp only [HORIPML.o2xmH_spec, Prod.mk.injEq] at heq
      obtain ⟨hx, hy, hz⟩ := heq
      apply hw
      simp only [slabBox, slabBoxEx, slabBoxEy, slabBoxEz]
      simp only [PMLEnv.nx, PMLEnv.ny, PMLEnv.nz] at hi hj hk
      omega
    · intro l i j k hb
      exact (HORIPML.o2xmH_realizes e).framePhi_iter3 g l i j k hb
  · intro g
    refine ⟨?_, ?_, ?_⟩
    · intro c x y z hc1 hc2
      exact (HORIPML.o1xpH_realizes e).frameF_iter3 g c x y z (Or.inl ⟨hc1, hc2⟩)
    · intro c x y z hw
      refine (HORIPML.o1xpH_realizes e).frameF_iter3 g c x y z (Or.inr ?_)
      intro i j k hi hj hk heq
      simp only [HORIPML.o1xpH_spec, Prod.mk.injEq] at heq
      obtain ⟨hx, hy, hz⟩ := heq
      apply hw
      simp only [slabBox, slabBoxEx, slabBoxEy, slabBoxEz]
      simp only [PMLEnv.nx, PMLEnv.ny, PMLEnv.nz] at hi hj hk
      omega
    · intro l i j k hb
      exact (HORIPML.o1xpH_realizes e).framePhi_iter3 g l i j k hb
  · intro g
    refine ⟨?_, ?_, ?_⟩
    · intro c x y z hc1 hc2
      exact (HORIPML.o2xpH_realizes e).frameF_iter3 g c x y z (Or.inl ⟨hc1, hc2⟩)
    · intro c x y z hw
      refine (HORIPML.o2xpH_realizes e).frameF_iter3 g c x y z (Or.inr ?_)
      intro i j k hi hj hk heq
      simp only [HORIPML.o2xpH_spec, Prod.mk.injEq] at heq
      obtain ⟨hx, hy, hz⟩ := heq
      apply hw
      simp only [slabBox, slabBoxEx, slabBoxEy, slabBoxEz]
      simp only [PMLEnv.nx, PMLEnv.ny, PMLEnv.nz] at hi hj hk
      omega
    · intro l i j k hb
      exact (HORIPML.o2xpH_realizes e).framePhi_iter3 g l i j k hb
  · intro g
    refine ⟨?_, ?_, ?_⟩
    · intro c x y z hc1 hc2
      exact (HORIPML.o1ymH_realizes e).frameF_iter3 g c x y z (Or.inl ⟨hc1, hc2⟩)
    · intro c x y z hw
      refine (HORIPML.o1ymH_realizes e).frameF_iter3 g c x y z (Or.inr ?_)
      intro i j k hi hj hk heq
      simp only [HORIPML.o1ymH_spec, Prod.mk.injEq] at heq
      obtain ⟨hx, hy, hz⟩ := heq
      apply hw
      simp only [slabBox, slabBoxEx, slabBoxEy, slabBoxEz]
      simp only [PMLEnv.nx, PMLEnv.ny, PMLEnv.nz] at hi hj hk
      omega
    · intro l i j k hb
      exact (HORIPML.o1ymH_realizes e).framePhi_iter3 g l i j k hb
  · intro g
    refine ⟨?_, ?_, ?_⟩
    · intro c x y z hc1 hc2
      exact (HORIPML.o2ymH_realizes e).frameF_iter3 g c x y z (Or.inl ⟨hc1, hc2⟩)
    · intro c x y z hw
      refine (HORIPML.o2ymH_realizes e).frameF_iter3 g c x y z (Or.inr ?_)
      intro i j k hi hj hk heq
      simp only [HORIPML.o2ymH_spec, Prod.mk.injEq] at heq
      obtain ⟨hx, hy, hz⟩ := heq
      apply hw
      simp only [slabBox, slabBoxEx, slabBoxEy, slabBoxEz]
      simp only [PMLEnv.nx, PMLEnv.ny, PMLEnv.nz] at hi hj hk
      omega
    · intro l i j k hb
      exact (HORIPML.o2ymH_realizes e).framePhi_iter3 g l i j k hb
  · intro g
    refine ⟨?_, ?_, ?_⟩
    · intro c x y z hc1 hc2
      exact (HORIPML.o1ypH_realizes e).frameF_iter3 g c x y z (Or.inl ⟨hc1, hc2⟩)
    · intro c x y z hw
      refine (HORIPML.o1ypH_realizes e).frameF_iter3 g c x y z (Or.inr ?_)
      intro i j k hi hj hk heq
      simp only [HORIPML.o1ypH_spec, Prod.mk.injEq] at heq
      obtain ⟨hx, hy, hz⟩ := heq
      apply hw
      simp only [slabBox, slabBoxEx, slabBoxEy, slabBoxEz]
      simp only [PMLEnv.nx, PMLEnv.ny, PMLEnv.nz] at hi hj hk
      omega
    · intro l i j k hb
      exact (HORIPML.o1ypH_realizes e).framePhi_iter3 g l i j k hb
  · intro g
    refine ⟨?_, ?_, ?_⟩
    · intro c x y z hc1 hc2
      exact (HORIPML.o2ypH_realizes e).frameF_iter3 g c x y z (Or.inl ⟨hc1, hc2⟩)
    · intro c x y z hw
      refine (HORIPML.o2ypH_realizes e).frameF_iter3 g c x y z (Or.inr ?_)
      intro i j k hi hj hk heq
      simp only [HORIPML.o2ypH_spec, Prod.mk.injEq] at heq
      obtain ⟨hx, hy, hz⟩ := heq
      apply hw
      simp only [slabBox, slabBoxEx, slabBoxEy, slabBoxEz]
      simp only [PMLEnv.nx, PMLEnv.ny, PMLEnv.nz] at hi hj hk
      omega
    · intro l i j k hb
      exact (HORIPML.o2ypH_realizes e).framePhi_iter3 g l i j k hb
  · intro g
    refine ⟨?_, ?_, ?_⟩
    · intro c x y z hc1 hc2
      exact (HORIPML.o1zmH_realizes e).frameF_iter3 g c x y z (Or.inl ⟨hc1, hc2⟩)
    · intro c x y z hw
      refine (HORIPML.o1zmH_realizes e).frameF_iter3 g c x y z (Or.inr ?_)
      intro i j k hi hj hk heq
      simp only [HORIPML.o1zmH_spec, Prod.mk.injEq] at heq
      obtain ⟨hx, hy, hz⟩ := heq
      apply hw
      simp only [slabBox, slabBoxEx, slabBoxEy, slabBoxEz]
      simp only [PMLEnv.nx, PMLEnv.ny, PMLEnv.nz] at hi hj hk
      omega
    · intro l i j k hb
      exact (HORIPML.o1zmH_realizes e).framePhi_iter3 g l i j k hb
  · intro g
    refine ⟨?_, ?_, ?_⟩
    · intro c x y z hc1 hc2
      exact (HORIPML.o2zmH_realizes e).frameF_iter3 g c x y z (Or.inl ⟨hc1, hc2⟩)
    · intro c x y z hw
      refine (HORIPML.o2zmH_realizes e).frameF_iter3 g c x y z (Or.inr ?_)
      intro i j k hi hj hk heq
      simp only [HORIPML.o2zmH_spec, Prod.mk.injEq] at heq
      obtain ⟨hx, hy, hz⟩ := heq
      apply hw
      simp only [slabBox, slabBoxEx, slabBoxEy, slabBoxEz]
      simp only [PMLEnv.nx, PMLEnv.ny, PMLEnv.nz] at hi hj hk
      omega
    · intro l i j k hb
      exact (HORIPML.o2zmH_realizes e).framePhi_iter3 g l i j k hb
  · intro g
    refine ⟨?_, ?_, ?_⟩
    · intro c x y z hc1 hc2
      exact (HORIPML.o1zpH_realizes e).frameF_iter3 g c x y z (Or.inl ⟨hc1, hc2⟩)
    · intro c x y z hw
      refine (HORIPML.o1zpH_realizes e).frameF_iter3 g c x y z (Or.inr ?_)
      intro i j k hi hj hk heq
      simp only [HORIPML.o1zpH_spec, Prod.mk.injEq] at heq
      obtain ⟨hx, hy, hz⟩ := heq
      apply hw
      simp only [slabBox, slabBoxEx, slabBoxEy, slabBoxEz]
      simp only [PMLEnv.nx, PMLEnv.ny, PMLEnv.nz] at hi hj hk
      omega
    · intro l i j k hb
      exact (HORIPML.o1zpH_realizes e).framePhi_iter3 g l i j k hb
  · intro g
    refine ⟨?_, ?_, ?_⟩
    · intro c x y z hc1 hc2
      exact (HORIPML.o2zpH_realizes e).frameF_iter3 g c x y z (Or.inl ⟨hc1, hc2⟩)
    · intro c x y z hw
      refine (HORIPML.o2zpH_realizes e).frameF_iter3 g c x y z (Or.inr ?_)
      intro i j k hi hj hk heq
      simp only [HORIPML.o2zpH_spec, Prod.mk.injEq] at heq
      obtain ⟨hx, hy, hz⟩ := heq
      apply hw
      simp only [slabBox, slabBoxEx, slabBoxEy, slabBoxEz]
      simp only [PMLEnv.nx, PMLEnv.ny, PMLEnv.nz] at hi hj hk
      omega
    · intro l i j k hb
      exact (HORIPML.o2zpH_realizes e).framePhi_iter3 g l i j k hb
  · intro g
    refine ⟨?_, ?_, ?_⟩
    · intro c x y z hc1 hc2
      exact (MRIPML.o1xmE_realizes e).frameF_iter3 g c x y z (Or.inl ⟨hc1, hc2⟩)
    · intro c x y z hw
      refine (MRIPML.o1xmE_realizes e).frameF_iter3 g c x y z (Or.inr ?_)
      intro i j k hi hj hk heq
      simp only [MRIPML.o1xmE_spec, Prod.mk.injEq] at heq
      obtain ⟨hx, hy, hz⟩ := heq
      apply hw
      simp only [slabBox, slabBoxEx, slabBoxEy, slabBoxEz]
      simp only [PMLEnv.nx, PMLEnv.ny, PMLEnv.nz] at hi hj hk
      omega
    · intro l i j k hb
      exact (MRIPML.o1xmE_realizes e).framePhi_iter3 g l i j k hb
  · intro g
    refine ⟨?_, ?_, ?_⟩
    · intro c x y z hc1 hc2
      exact (MRIPML.o2xmE_realizes e).frameF_iter3 g c x y z (Or.inl ⟨hc1, hc2⟩)
    · intro c x y z hw
      refine (MRIPML.o2xmE_realizes e).frameF_iter3 g c x y z (Or.inr ?_)
      intro i j k hi hj hk heq
      simp only [MRIPML.o2xmE_spec, Prod.mk.injEq] at heq
      obtain ⟨hx, hy, hz⟩ := heq
      apply hw
      simp only [slabBox, slabBoxEx, slabBoxEy, slabBoxEz]
      simp only [PMLEnv.nx, PMLEnv.ny, PMLEnv.nz] at hi hj hk
      omega
    · intro l i j k hb
      exact (MRIPML.o2xmE_realizes e).framePhi_iter3 g l i j k hb
  · intro g
    refine ⟨?_, ?_, ?_⟩
    · intro c x y z hc1 hc2
      exact (MRIPML.o1xpE_realizes e).frameF_iter3 g c x y z (Or.inl ⟨hc1, hc2⟩)
    · intro c x y z hw
      refine (MRIPML.o1xpE_realizes e).frameF_iter3 g c x y z (Or.inr ?_)
      intro i j k hi hj hk heq
      simp only [MRIPML.o1xpE_spec, Prod.mk.injEq] at heq
      obtain ⟨hx, hy, hz⟩ := heq
      apply hw
      simp only [slabBox, slabBoxEx, slabBoxEy, slabBoxEz]
      simp only [PMLEnv.nx, PMLEnv.ny, PMLEnv.nz] at hi hj hk
      omega
    · intro l i j k hb
      exact (MRIPML.o1xpE_realizes e).framePhi_iter3 g l i j k hb
  · intro g
    refine ⟨?_, ?_, ?_⟩
    · intro c x y z hc1 hc2
      exact (MRIPML.o2xpE_realizes e).frameF_iter3 g c x y z (Or.inl ⟨hc1, hc2⟩)
    · intro c x y z hw
      refine (MRIPML.o2xpE_realizes e).frameF_iter3 g c x y z (Or.inr ?_)
      intro i j k hi hj hk heq
      simp only [MRIPML.o2xpE_spec, Prod.mk.injEq] at heq
      obtain ⟨hx, hy, hz⟩ := heq
      apply hw
      simp only [slabBox, slabBoxEx, slabBoxEy, slabBoxEz]
      simp only [PMLEnv.nx, PMLEnv.ny, PMLEnv.nz] at hi hj hk
      omega
    · intro l i j k hb
      exact (MRIPML.o2xpE_realizes e).framePhi_iter3 g l i j k hb
  · intro g
    refine ⟨?_, ?_, ?_⟩
    · intro c x y z hc1 hc2
      exact (MRIPML.o1ymE_realizes e).frameF_iter3 g c x y z (Or.inl ⟨hc1, hc2⟩)
    · intro c x y z hw
      refine (MRIPML.o1ymE_realizes e).frameF_iter3 g c x y z (Or.inr ?_)
      intro i j k hi hj hk heq
      simp only [MRIPML.o1ymE_spec, Prod.mk.injEq] at heq
      obtain ⟨hx, hy, hz⟩ := heq
      apply hw
      simp only [slabBox, slabBoxEx, slabBoxEy, slabBoxEz]
      simp only [PMLEnv.nx, PMLEnv.ny, PMLEnv.nz] at hi hj hk
      omega
    · intro l i j k hb
      exact (MRIPML.o1ymE_realizes e).framePhi_iter3 g l i j k hb
  · intro g
    refine ⟨?_, ?_, ?_⟩
    · intro c x y z hc1 hc2
      exact (MRIPML.o2ymE_realizes e).frameF_iter3 g c x y z (Or.inl ⟨hc1, hc2⟩)
    · intro c x y z hw
      refine (MRIPML.o2ymE_realizes e).frameF_iter3 g c x y z (Or.inr ?_)
      intro i j k hi hj hk heq
      simp only [MRIPML.o2ymE_spec, Prod.mk.injEq] at heq
      obtain ⟨hx, hy, hz⟩ := heq
      apply hw
      simp only [slabBox, slabBoxEx, slabBoxEy, slabBoxEz]
      simp only [PMLEnv.nx, PMLEnv.ny, PMLEnv.nz] at hi hj hk
      omega
    · intro l i j k hb
      exact (MRIPML.o2ymE_realizes e).framePhi_iter3 g l i j k hb
  · intro g
    refine ⟨?_, ?_, ?_⟩
    · intro c x y z hc1 hc2
      exact (MRIPML.o1ypE_realizes e).frameF_iter3 g c x y z (Or.inl ⟨hc1, hc2⟩)
    · intro c x y z hw
      refine (MRIPML.o1ypE_realizes e).frameF_iter3 g c x y z (Or.inr ?_)
      intro i j k hi hj hk heq
      simp only [MRIPML.o1ypE_spec, Prod.mk.injEq] at heq
      obtain ⟨hx, hy, hz⟩ := heq
      apply hw
      simp only [slabBox, slabBoxEx, slabBoxEy, slabBoxEz]
      simp only [PMLEnv.nx, PMLEnv.ny, PMLEnv.nz] at hi hj hk
      omega
    · intro l i j k hb
      exact (MRIPML.o1ypE_realizes e).framePhi_iter3 g l i j k hb
  · intro g
    refine ⟨?_, ?_, ?_⟩
    · intro c x y z hc1 hc2
      exact (MRIPML.o2ypE_realizes e).frameF_iter3 g c x y z (Or.inl ⟨hc1, hc2⟩)
    · intro c x y z hw
      refine (MRIPML.o2ypE_realizes e).frameF_iter3 g c x y z (Or.inr ?_)
      intro i j k hi hj hk heq
      simp only [MRIPML.o2ypE_spec, Prod.mk.injEq] at heq
      obtain ⟨hx, hy, hz⟩ := heq
      apply hw
      simp only [slabBox, slabBoxEx, slabBoxEy, slabBoxEz]
      simp only [PMLEnv.nx, PMLEnv.ny, PMLEnv.nz] at hi hj hk
      omega
    · intro l i j k hb
      exact (MRIPML.o2ypE_realizes e).framePhi_iter3 g l i j k hb
  · intro g
    refine ⟨?_, ?_, ?_⟩
    · intro c x y z hc1 hc2
      exact (MRIPML.o1zmE_realizes e).frameF_iter3 g c x y z (Or.inl ⟨hc1, hc2⟩)
    · intro c x y z hw
      refine (MRIPML.o1zmE_realizes e).frameF_iter3 g c x y z (Or.inr ?_)
      intro i j k hi hj hk heq
      simp only [MRIPML.o1zmE_spec, Prod.mk.injEq] at heq
      obtain ⟨hx, hy, hz⟩ := heq
      apply hw
      simp only [slabBox, slabBoxEx, slabBoxEy, slabBoxEz]
      simp only [PMLEnv.nx, PMLEnv.ny, PMLEnv.nz] at hi hj hk
      omega
    · intro l i j k hb
      exact (MRIPML.o1zmE_realizes e).framePhi_iter3 g l i j k hb
  · intro g
    refine ⟨?_, ?_, ?_⟩
    · intro c x y z hc1 hc2
      exact (MRIPML.o2zmE_realizes e).frameF_iter3 g c x y z (Or.inl ⟨hc1, hc2⟩)
    · intro c x y z hw
      refine (MRIPML.o2zmE_realizes e).frameF_iter3 g c x y z (Or.inr ?_)
      intro i j k hi hj hk heq
      simp only [MRIPML.o2zmE_spec, Prod.mk.injEq] at heq
      obtain ⟨hx, hy, hz⟩ := heq
      apply hw
      simp only [slabBox, slabBoxEx, slabBoxEy, slabBoxEz]
      simp only [PMLEnv.nx, PMLEnv.ny, PMLEnv.nz] at hi hj hk
      omega
    · intro l i j k hb
      exact (MRIPML.o2zmE_realizes e).framePhi_iter3 g l i j k hb
  · intro g
    refine ⟨?_, ?_, ?_⟩
    · intro c x y z hc1 hc2
      exact (MRIPML.o1zpE_realizes e).frameF_iter3 g c x y z (Or.inl ⟨hc1, hc2⟩)
    · intro c x y z hw
      refine (MRIPML.o1zpE_realizes e).frameF_iter3 g c x y z (Or.inr ?_)
      intro i j k hi hj hk heq
      simp only [MRIPML.o1zpE_spec, Prod.mk.injEq] at heq
      obtain ⟨hx, hy, hz⟩ := heq
      apply hw
      simp only [slabBox, slabBoxEx, slabBoxEy, slabBoxEz]
      simp only [PMLEnv.nx, PMLEnv.ny, PMLEnv.nz] at hi hj hk
      omega
    · intro l i j k hb
      exact (MRIPML.o1zpE_realizes e).framePhi_iter3 g l i j k hb
  · intro g
    refine ⟨?_, ?_, ?_⟩
    · intro c x y z hc1 hc2
      exact (MRIPML.o2zpE_realizes e).frameF_iter3 g c x y z (Or.inl ⟨hc1, hc2⟩)
    · intro c x y z hw
      refine (MRIPML.o2zpE_realizes e).frameF_iter3 g c x y z (Or.inr ?_)
      intro i j k hi hj hk heq
      simp only [MRIPML.o2zpE_spec, Prod.mk.injEq] at heq
      obtain ⟨hx, hy, hz⟩ := heq
      apply hw
      simp only [slabBox, slabBoxEx, slabBoxEy, slabBoxEz]
      simp only [PMLEnv.nx, PMLEnv.ny, PMLEnv.nz] at hi hj hk
      omega
    · intro l i j k hb
      exact (MRIPML.o2zpE_realizes e).framePhi_iter3 g l i j k hb

/-- Witness for C6 on a concrete 1×1×1 slab: a point outside the write
region keeps its `Hy` value. -/
theorem C6_frame_witness :
    (HORIPML.order1_xminus (mkEnv cRA cRB cRE cRF) gridEz).F 4 5 5 5 = 0 := by
  have h := ((C6_frame (mkEnv cRA cRB cRE cRF)).1 gridEz).2.1 4 5 5 5 (by
    simp only [slabBox, mkEnv]
    decide)
  rw [h]
  simp [gridEz]

/-- Profiles with pole row 1 replaced by the degenerate values
`RA[1] = 1`, `RB[1] = RE[1] = RF[1] = 0` (row 0 kept). -/
def PMLEnv.degenRow1 (e : PMLEnv) : PMLEnv :=
  { e with
    RA := fun r n => if r = 1 then 1 else e.RA r n,
    RB := fun r n => if r = 1 then 0 else e.RB r n,
    RE := fun r n => if r = 1 then 0 else e.RE r n,
    RF := fun r n => if r = 1 then 0 else e.RF r n }

/-- Concrete grid: `Hz[x, y, z] = x`, other components zero,
`Phi1` and `Phi2` are `1` in row 0 and `0` in the other rows. -/
def gridHzP0 : Grid where
  F := fun c x _ _ => if c = 5 then (x : ℚ) else 0
  Phi1 := fun l _ _ _ => if l = 0 then 1 else 0
  Phi2 := fun l _ _ _ => if l = 0 then 1 else 0

/-- Counterexample to **C5** as stated: for the MRIPML electric
formulation, the order-2 xminus kernel with `RA[1]=1, RB[1]=0, RE[1]=0,
RF[1]=0` and `Phi1[1] = Phi2[1] = 0` does **not** reproduce the order-1
field update with the same row-0 profiles (order 2 divides by
`RA[0]+RA[1] = RA[0]+1`, not by `RA[0]`): on a concrete slab the order-2
kernel writes `Ey = 5/3` where order 1 writes `Ey = 1`. -/
theorem C5_order2_reduction_cex :
    (MRIPML.order2_xminus ((mkEnv cRA cRB cRE cRF).degenRow1) gridHzP0).F 1 1 0 0 ≠
      (MRIPML.order1_xminus (mkEnv cRA cRB cRE cRF) gridHzP0).F 1 1 0 0 := by
  have h2 : (MRIPML.order2_xminus ((mkEnv cRA cRB cRE cRF).degenRow1) gridHzP0).F
      1 1 0 0 = MRIPML.o2xmE_vEy ((mkEnv cRA cRB cRE cRF).degenRow1) 0 0 0 gridHzP0 :=
    ((MRIPML.o2xmE_realizes ((mkEnv cRA cRB cRE cRF).degenRow1)).val_iter3 gridHzP0
      0 0 0 (by decide) (by decide) (by decide)).1
  have h1 : (MRIPML.order1_xminus (mkEnv cRA cRB cRE cRF) gridHzP0).F 1 1 0 0 =
      MRIPML.o1xmE_vEy (mkEnv cRA cRB cRE cRF) 0 0 0 gridHzP0 :=
    ((MRIPML.o1xmE_realizes (mkEnv cRA cRB cRE cRF)).val_iter3 gridHzP0
      0 0 0 (by decide) (by decide) (by decide)).1
  rw [h1, h2]
  simp only [MRIPML.o2xmE_vEy, MRIPML.o1xmE_vEy, MRIPML.o1xmE_dHz,
    PMLEnv.degenRow1, mkEnv, cRA, cRB, cRE, cRF, gridHzP0]
  norm_num

/-- **C5 (amended).** Order-2 reduction holds for the HORIPML magnetic
kernels only: for every face, the order-2 magnetic kernel run with the
row-1 profiles degenerated to `RA[1]=1, RB[1]=0, RE[1]=0, RF[1]=0`
produces exactly the field arrays of the order-1 kernel with the same
row-0 profiles, and writes `0` into `Phi1[1]` and `Phi2[1]` on the slab
(so with `Phi1[1]`, `Phi2[1]` initially zero they stay zero). For the
MRIPML electric kernels the reduction fails (see the counterexample):
order 2 uses `IRA = 1/(RA[0]+RA[1])` and `RC0 = IRA·RF[0]`, which do not
degenerate to the order-1 `1/RA[0]` and `IRA·RB[0]·RF[0]`. -/
theorem C5_order2_reduction_horipml (e : PMLEnv) (g : Grid) :
    ((∀ c : ℕ, ∀ x y z : ℤ,
      (HORIPML.order2_xminus (e.degenRow1) g).F c x y z = (HORIPML.order1_xminus e g).F c x y z) ∧
    (∀ i j k : ℕ, i < e.nx → j < e.ny → k < e.nz →
      (HORIPML.order2_xminus (e.degenRow1) g).Phi1 1 i j k = 0 ∧
      (HORIPML.order2_xminus (e.degenRow1) g).Phi2 1 i j k = 0)) ∧
    ((∀ c : ℕ, ∀ x y z : ℤ,
      (HORIPML.order2_xplus (e.degenRow1) g).F c x y z = (HORIPML.order1_xplus e g).F c x y z) ∧
    (∀ i j k : ℕ, i < e.nx → j < e.ny → k < e.nz →
      (HORIPML.order2_xplus (e.degenRow1) g).Phi1 1 i j k = 0 ∧
      (HORIPML.order2_xplus (e.degenRow1) g).Phi2 1 i j k = 0)) ∧
    ((∀ c : ℕ, ∀ x y z : ℤ,
      (HORIPML.order2_yminus (e.degenRow1) g).F c x y z = (HORIPML.order1_yminus e g).F c x y z) ∧
    (∀ i j k : ℕ, i < e.nx → j < e.ny → k < e.nz →
      (HORIPML.order2_yminus (e.degenRow1) g).Phi1 1 i j k = 0 ∧
      (HORIPML.order2_yminus (e.degenRow1) g).Phi2 1 i j k = 0)) ∧
    ((∀ c : ℕ, ∀ x y z : ℤ,
      (HORIPML.order2_yplus (e.degenRow1) g).F c x y z = (HORIPML.order1_yplus e g).F c x y z) ∧
    (∀ i j k : ℕ, i < e.nx → j < e.ny → k < e.nz →
      (HORIPML.order2_yplus (e.degenRow1) g).Phi1 1 i j k = 0 ∧
      (HORIPML.order2_yplus (e.degenRow1) g).Phi2 1 i j k = 0)) ∧
    ((∀ c : ℕ, ∀ x y z : ℤ,
      (HORIPML.order2_zminus (e.degenRow1) g).F c x y z = (HORIPML.order1_zminus e g).F c x y z) ∧
    (∀ i j k : ℕ, i < e.nx → j < e.ny → k < e.nz →
      (HORIPML.order2_zminus (e.degenRow1) g).Phi1 1 i j k = 0 ∧
      (HORIPML.order2_zminus (e.degenRow1) g).Phi2 1 i j k = 0)) ∧
    ((∀ c : ℕ, ∀ x y z : ℤ,
      (HORIPML.order2_zplus (e.degenRow1) g).F c x y z = (HORIPML.order1_zplus e g).F c x y z) ∧
    (∀ i j k : ℕ, i < e.nx → j < e.ny → k < e.nz →
      (HORIPML.order2_zplus (e.degenRow1) g).Phi1 1 i j k = 0 ∧
      (HORIPML.order2_zplus (e.degenRow1) g).Phi2 1 i j k = 0)) := by
  refine ⟨?_, ?_, ?_, ?_, ?_, ?_⟩
  · constructor
    · intro c x y z
      by_cases hc : c = 4 ∨ c = 5
      · by_cases hin : ∃ i j k : ℕ, i < e.nx ∧ j < e.ny ∧ k < e.nz ∧
          (x, y, z) = ((e.xf - (i + 1) : ℤ), (e.ys + j : ℤ), (e.zs + k : ℤ))
        · obtain ⟨i, j, k, hi, hj, hk, heq⟩ := hin
          rw [Prod.ext_iff] at heq
          obtain ⟨hx, heq2⟩ := heq
          rw [Prod.ext_iff] at heq2
          obtain ⟨hy, hz⟩ := heq2
          simp only at hx hy hz
          subst hx
          subst hy
          subst hz
          rcases hc with rfl | rfl
          · have hL : (HORIPML.order2_xminus (e.degenRow1) g).F 4 (e.xf - (i + 1)) (e.ys + j) (e.zs + k) =
                HORIPML.o2xmH_vHy (e.degenRow1) i j k g :=
              ((HORIPML.o2xmH_realizes (e.degenRow1)).val_iter3 g i j k hi hj hk).1
            have hR : (HORIPML.order1_xminus e g).F 4 (e.xf - (i + 1)) (e.ys + j) (e.zs + k) =
                HORIPML.o1xmH_vHy e i j k g :=
              ((HORIPML.o1xmH_realizes e).val_iter3 g i j k hi hj hk).1
            rw [hL, hR]
            simp only [HORIPML.o2xmH_vHy, HORIPML.o1xmH_vHy, HORIPML.o1xmH_dEz,
              PMLEnv.degenRow1, zero_ne_one, ite_true, ite_false, if_true,
              if_false]
            ring
          · have hL : (HORIPML.order2_xminus (e.degenRow1) g).F 5 (e.xf - (i + 1)) (e.ys + j) (e.zs + k) =
                HORIPML.o2xmH_vHz (e.degenRow1) i j k g :=
              ((HORIPML.o2xmH_realizes (e.degenRow1)).val_iter3 g i j k hi hj hk).2.1
            have hR : (HORIPML.order1_xminus e g).F 5 (e.xf - (i + 1)) (e.ys + j) (e.zs + k) =
                HORIPML.o1xmH_vHz e i j k g :=
              ((HORIPML.o1xmH_realizes e).val_iter3 g i j k hi hj hk).2.1
            rw [hL, hR]
            simp only [HORIPML.o2xmH_vHz, HORIPML.o1xmH_vHz, HORIPML.o1xmH_dEy,
              PMLEnv.degenRow1, zero_ne_one, ite_true, ite_false, if_true,
              if_false]
            ring
        · push_neg at hin
          have hL := (HORIPML.o2xmH_realizes (e.degenRow1)).frameF_iter3 g c x y z (Or.inr hin)
          have hR := (HORIPML.o1xmH_realizes e).frameF_iter3 g c x y z (Or.inr hin)
          exact hL.trans hR.symm
      · push_neg at hc
        have hL := (HORIPML.o2xmH_realizes (e.degenRow1)).frameF_iter3 g c x y z (Or.inl hc)
        have hR := (HORIPML.o1xmH_realizes e).frameF_iter3 g c x y z (Or.inl hc)
        exact hL.trans hR.symm
    · intro i j k hi hj hk
      constructor
      · have hL : (HORIPML.order2_xminus (e.degenRow1) g).Phi1 1 i j k =
            HORIPML.o2xmH_pPhi1 (e.degenRow1) 1 i j k g :=
          ((HORIPML.o2xmH_realizes (e.degenRow1)).val_iter3 g i j k hi hj hk).2.2.1 1
        rw [hL]
        simp [HORIPML.o2xmH_pPhi1, HORIPML.o1xmH_dEz, PMLEnv.degenRow1]
      · have hL : (HORIPML.order2_xminus (e.degenRow1) g).Phi2 1 i j k =
            HORIPML.o2xmH_pPhi2 (e.degenRow1) 1 i j k g :=
          ((HORIPML.o2xmH_realizes (e.degenRow1)).val_iter3 g i j k hi hj hk).2.2.2 1
        rw [hL]
        simp [HORIPML.o2xmH_pPhi2, HORIPML.o1xmH_dEy, PMLEnv.degenRow1]
  · constructor
    · intro c x y z
      by_cases hc : c = 4 ∨ c = 5
      · by_cases hin : ∃ i j k : ℕ, i < e.nx ∧ j < e.ny ∧ k < e.nz ∧
          (x, y, z) = ((e.xs + i : ℤ), (e.ys + j : ℤ), (e.zs + k : ℤ))
        · obtain ⟨i, j, k, hi, hj, hk, heq⟩ := hin
          rw [Prod.ext_iff] at heq
          obtain ⟨hx, heq2⟩ := heq
          rw [Prod.ext_iff] at heq2
          obtain ⟨hy, hz⟩ := heq2
          simp only at hx hy hz
          subst hx
          subst hy
          subst hz
          rcases hc with rfl | rfl
          · have hL : (HORIPML.order2_xplus (e.degenRow1) g).F 4 (e.xs + i) (e.ys + j) (e.zs + k) =
                HORIPML.o2xpH_vHy (e.degenRow1) i j k g :=
              ((HORIPML.o2xpH_realizes (e.degenRow1)).val_iter3 g i j k hi hj hk).1
            have hR : (HORIPML.order1_xplus e g).F 4 (e.xs + i) (e.ys + j) (e.zs + k) =
                HORIPML.o1xpH_vHy e i j k g :=
              ((HORIPML.o1xpH_realizes e).val_iter3 g i j k hi hj hk).1
            rw [hL, hR]
            simp only [HORIPML.o2xpH_vHy, HORIPML.o1xpH_vHy, HORIPML.o1xpH_dEz,
              PMLEnv.degenRow1, zero_ne_one, ite_true, ite_false, if_true,
              if_false]
            ring
          · have hL : (HORIPML.order2_xplus (e.degenRow1) g).F 5 (e.xs + i) (e.ys + j) (e.zs + k) =
                HORIPML.o2xpH_vHz (e.degenRow1) i j k g :=
              ((HORIPML.o2xpH_realizes (e.degenRow1)).val_iter3 g i j k hi hj hk).2.1
            have hR : (HORIPML.order1_xplus e g).F 5 (e.xs + i) (e.ys + j) (e.zs + k) =
                HORIPML.o1xpH_vHz e i j k g :=
              ((HORIPML.o1xpH_realizes e).val_iter3 g i j k hi hj hk).2.1
            rw [hL, hR]
            simp only [HORIPML.o2xpH_vHz, HORIPML.o1xpH_vHz, HORIPML.o1xpH_dEy,
              PMLEnv.degenRow1, zero_ne_one, ite_true, ite_false, if_true,
              if_false]
            ring
        · push_neg at hin
          have hL := (HORIPML.o2xpH_realizes (e.degenRow1)).frameF_iter3 g c x y z (Or.inr hin)
          have hR := (HORIPML.o1xpH_realizes e).frameF_iter3 g c x y z (Or.inr hin)
          exact hL.trans hR.symm
      · push_neg at hc
        have hL := (HORIPML.o2xpH_realizes (e.degenRow1)).frameF_iter3 g c x y z (Or.inl hc)
        have hR := (HORIPML.o1xpH_realizes e).frameF_iter3 g c x y z (Or.inl hc)
        exact hL.trans hR.symm
    · intro i j k hi hj hk
      constructor
      · have hL : (HORIPML.order2_xplus (e.degenRow1) g).Phi1 1 i j k =
            HORIPML.o2xpH_pPhi1 (e.degenRow1) 1 i j k g :=
          ((HORIPML.o2xpH_realizes (e.degenRow1)).val_iter3 g i j k hi hj hk).2.2.1 1
        rw [hL]
        simp [HORIPML.o2xpH_pPhi1, HORIPML.o1xpH_dEz, PMLEnv.degenRow1]
      · have hL : (HORIPML.order2_xplus (e.degenRow1) g).Phi2 1 i j k =
            HORIPML.o2xpH_pPhi2 (e.degenRow1) 1 i j k g :=
          ((HORIPML.o2xpH_realizes (e.degenRow1)).val_iter3 g i j k hi hj hk).2.2.2 1
        rw [hL]
        simp [HORIPML.o2xpH_pPhi2, HORIPML.o1xpH_dEy, PMLEnv.degenRow1]
  · constructor
    · intro c x y z
      by_cases hc : c = 3 ∨ c = 5
      · by_cases hin : ∃ i j k : ℕ, i < e.nx ∧ j < e.ny ∧ k < e.nz ∧
          (x, y, z) = ((e.xs + i : ℤ), (e.yf - (j + 1) : ℤ), (e.zs + k : ℤ))
        · obtain ⟨i, j, k, hi, hj, hk, heq⟩ := hin
          rw [Prod.ext_iff] at heq
          obtain ⟨hx, heq2⟩ := heq
          rw [Prod.ext_iff] at heq2
          obtain ⟨hy, hz⟩ := heq2
          simp only at hx hy hz
          subst hx
          subst hy
          subst hz
          rcases hc with rfl | rfl
          · have hL : (HORIPML.order2_yminus (e.degenRow1) g).F 3 (e.xs + i) (e.yf - (j + 1)) (e.zs + k) =
                HORIPML.o2ymH_vHx (e.degenRow1) i j k g :=
              ((HORIPML.o2ymH_realizes (e.degenRow1)).val_iter3 g i j k hi hj hk).1
            have hR : (HORIPML.order1_yminus e g).F 3 (e.xs + i) (e.yf - (j + 1)) (e.zs + k) =
                HORIPML.o1ymH_vHx e i j k g :=
              ((HORIPML.o1ymH_realizes e).val_iter3 g i j k hi hj hk).1
            rw [hL, hR]
            simp only [HORIPML.o2ymH_vHx, HORIPML.o1ymH_vHx, HORIPML.o1ymH_dEz,
              PMLEnv.degenRow1, zero_ne_one, ite_true, ite_false, if_true,
              if_false]
            ring
          · have hL : (HORIPML.order2_yminus (e.degenRow1) g).F 5 (e.xs + i) (e.yf - (j + 1)) (e.zs + k) =
                HORIPML.o2ymH_vHz (e.degenRow1) i j k g :=
              ((HORIPML.o2ymH_realizes (e.degenRow1)).val_iter3 g i j k hi hj hk).2.1
            have hR : (HORIPML.order1_yminus e g).F 5 (e.xs + i) (e.yf - (j + 1)) (e.zs + k) =
                HORIPML.o1ymH_vHz e i j k g :=
              ((HORIPML.o1ymH_realizes e).val_iter3 g i j k hi hj hk).2.1
            rw [hL, hR]
            simp only [HORIPML.o2ymH_vHz, HORIPML.o1ymH_vHz, HORIPML.o1ymH_dEx,
              PMLEnv.degenRow1, zero_ne_one, ite_true, ite_false, if_true,
              if_false]
            ring
        · push_neg at hin
          have hL := (HORIPML.o2ymH_realizes (e.degenRow1)).frameF_iter3 g c x y z (Or.inr hin)
          have hR := (HORIPML.o1ymH_realizes e).frameF_iter3 g c x y z (Or.inr hin)
          exact hL.trans hR.symm
      · push_neg at hc
        have hL := (HORIPML.o2ymH_realizes (e.degenRow1)).frameF_iter3 g c x y z (Or.inl hc)
        have hR := (HORIPML.o1ymH_realizes e).frameF_iter3 g c x y z (Or.inl hc)
        exact hL.trans hR.symm
    · intro i j k hi hj hk
      constructor
      · have hL : (HORIPML.order2_yminus (e.degenRow1) g).Phi1 1 i j k =
            HORIPML.o2ymH_pPhi1 (e.degenRow1) 1 i j k g :=
          ((HORIPML.o2ymH_realizes (e.degenRow1)).val_iter3 g i j k hi hj hk).2.2.1 1
        rw [hL]
        simp [HORIPML.o2ymH_pPhi1, HORIPML.o1ymH_dEz, PMLEnv.degenRow1]
      · have hL : (HORIPML.order2_yminus (e.degenRow1) g).Phi2 1 i j k =
            HORIPML.o2ymH_pPhi2 (e.degenRow1) 1 i j k g :=
          ((HORIPML.o2ymH_realizes (e.degenRow1)).val_iter3 g i j k hi hj hk).2.2.2 1
        rw [hL]
        simp [HORIPML.o2ymH_pPhi2, HORIPML.o1ymH_dEx, PMLEnv.degenRow1]
  · constructor
    · intro c x y z
      by_cases hc : c = 3 ∨ c = 5
      · by_cases hin : ∃ i j k : ℕ, i < e.nx ∧ j < e.ny ∧ k < e.nz ∧
          (x, y, z) = ((e.xs + i : ℤ), (e.ys + j : ℤ), (e.zs + k : ℤ))
        · obtain ⟨i, j, k, hi, hj, hk, heq⟩ := hin
          rw [Prod.ext_iff] at heq
          obtain ⟨hx, heq2⟩ := heq
          rw [Prod.ext_iff] at heq2
          obtain ⟨hy, hz⟩ := heq2
          simp only at hx hy hz
          subst hx
          subst hy
          subst hz
          rcases hc with rfl | rfl
          · have hL : (HORIPML.order2_yplus (e.degenRow1) g).F 3 (e.xs + i) (e.ys + j) (e.zs + k) =
                HORIPML.o2ypH_vHx (e.degenRow1) i j k g :=
              ((HORIPML.o2ypH_realizes (e.degenRow1)).val_iter3 g i j k hi hj hk).1
            have hR : (HORIPML.order1_yplus e g).F 3 (e.xs + i) (e.ys + j) (e.zs + k) =
                HORIPML.o1ypH_vHx e i j k g :=
              ((HORIPML.o1ypH_realizes e).val_iter3 g i j k hi hj hk).1
            rw [hL, hR]
            simp only [HORIPML.o2ypH_vHx, HORIPML.o1ypH_vHx, HORIPML.o1ypH_dEz,
              PMLEnv.degenRow1, zero_ne_one, ite_true, ite_false, if_true,
              if_false]
            ring
          · have hL : (HORIPML.order2_yplus (e.degenRow1) g).F 5 (e.xs + i) (e.ys + j) (e.zs + k) =
                HORIPML.o2ypH_vHz (e.degenRow1) i j k g :=
              ((HORIPML.o2ypH_realizes (e.degenRow1)).val_iter3 g i j k hi hj hk).2.1
            have hR : (HORIPML.order1_yplus e g).F 5 (e.xs + i) (e.ys + j) (e.zs + k) =
                HORIPML.o1ypH_vHz e i j k g :=
              ((HORIPML.o1ypH_realizes e).val_iter3 g i j k hi hj hk).2.1
            rw [hL, hR]
            simp only [HORIPML.o2ypH_vHz, HORIPML.o1ypH_vHz, HORIPML.o1ypH_dEx,
              PMLEnv.degenRow1, zero_ne_one, ite_true, ite_false, if_true,
              if_false]
            ring
        · push_neg at hin
          have hL := (HORIPML.o2ypH_realizes (e.degenRow1)).frameF_iter3 g c x y z (Or.inr hin)
          have hR := (HORIPML.o1ypH_realizes e).frameF_iter3 g c x y z (Or.inr hin)
          exact hL.trans hR.symm
      · push_neg at hc
        have hL := (HORIPML.o2ypH_realizes (e.degenRow1)).frameF_iter3 g c x y z (Or.inl hc)
        have hR := (HORIPML.o1ypH_realizes e).frameF_iter3 g c x y z (Or.inl hc)
        exact hL.trans hR.symm
    · intro i j k hi hj hk
      constructor
      · have hL : (HORIPML.order2_yplus (e.degenRow1) g).Phi1 1 i j k =
            HORIPML.o2ypH_pPhi1 (e.degenRow1) 1 i j k g :=
          ((HORIPML.o2ypH_realizes (e.degenRow1)).val_iter3 g i j k hi hj hk).2.2.1 1
        rw [hL]
        simp [HORIPML.o2ypH_pPhi1, HORIPML.o1ypH_dEz, PMLEnv.degenRow1]
      · have hL : (HORIPML.order2_yplus (e.degenRow1) g).Phi2 1 i j k =
            HORIPML.o2ypH_pPhi2 (e.degenRow1) 1 i j k g :=
          ((HORIPML.o2ypH_realizes (e.degenRow1)).val_iter3 g i j k hi hj hk).2.2.2 1
        rw [hL]
        simp [HORIPML.o2ypH_pPhi2, HORIPML.o1ypH_dEx, PMLEnv.degenRow1]
  · constructor
    · intro c x y z
      by_cases hc : c = 3 ∨ c = 4
      · by_cases hin : ∃ i j k : ℕ, i < e.nx ∧ j < e.ny ∧ k < e.nz ∧
          (x, y, z) = ((e.xs + i : ℤ), (e.ys + j : ℤ), (e.zf - (k + 1) : ℤ))
        · obtain ⟨i, j, k, hi, hj, hk, heq⟩ := hin
          rw [Prod.ext_iff] at heq
          obtain ⟨hx, heq2⟩ := heq
          rw [Prod.ext_iff] at heq2
          obtain ⟨hy, hz⟩ := heq2
          simp only at hx hy hz
          subst hx
          subst hy
          subst hz
          rcases hc with rfl | rfl
          · have hL : (HORIPML.order2_zminus (e.degenRow1) g).F 3 (e.xs + i) (e.ys + j) (e.zf - (k + 1)) =
                HORIPML.o2zmH_vHx (e.degenRow1) i j k g :=
              ((HORIPML.o2zmH_realizes (e.degenRow1)).val_iter3 g i j k hi hj hk).1
            have hR : (HORIPML.order1_zminus e g).F 3 (e.xs + i) (e.ys + j) (e.zf - (k + 1)) =
                HORIPML.o1zmH_vHx e i j k g :=
              ((HORIPML.o1zmH_realizes e).val_iter3 g i j k hi hj hk).1
            rw [hL, hR]
            simp only [HORIPML.o2zmH_vHx, HORIPML.o1zmH_vHx, HORIPML.o1zmH_dEy,
              PMLEnv.degenRow1, zero_ne_one, ite_true, ite_false, if_true,
              if_false]
            ring
          · have hL : (HORIPML.order2_zminus (e.degenRow1) g).F 4 (e.xs + i) (e.ys + j) (e.zf - (k + 1)) =
                HORIPML.o2zmH_vHy (e.degenRow1) i j k g :=
              ((HORIPML.o2zmH_realizes (e.degenRow1)).val_iter3 g i j k hi hj hk).2.1
            have hR : (HORIPML.order1_zminus e g).F 4 (e.xs + i) (e.ys + j) (e.zf - (k + 1)) =
                HORIPML.o1zmH_vHy e i j k g :=
              ((HORIPML.o1zmH_realizes e).val_iter3 g i j k hi hj hk).2.1
            rw [hL, hR]
            simp only [HORIPML.o2zmH_vHy, HORIPML.o1zmH_vHy, HORIPML.o1zmH_dEx,
              PMLEnv.degenRow1, zero_ne_one, ite_true, ite_false, if_true,
              if_false]
            ring
        · push_neg at hin
          have hL := (HORIPML.o2zmH_realizes (e.degenRow1)).frameF_iter3 g c x y z (Or.inr hin)
          have hR := (HORIPML.o1zmH_realizes e).frameF_iter3 g c x y z (Or.inr hin)
          exact hL.trans hR.symm
      · push_neg at hc
        have hL := (HORIPML.o2zmH_realizes (e.degenRow1)).frameF_iter3 g c x y z (Or.inl hc)
        have hR := (HORIPML.o1zmH_realizes e).frameF_iter3 g c x y z (Or.inl hc)
        exact hL.trans hR.symm
    · intro i j k hi hj hk
      constructor
      · have hL : (HORIPML.order2_zminus (e.degenRow1) g).Phi1 1 i j k =
            HORIPML.o2zmH_pPhi1 (e.degenRow1) 1 i j k g :=
          ((HORIPML.o2zmH_realizes (e.degenRow1)).val_iter3 g i j k hi hj hk).2.2.1 1
        rw [hL]
        simp [HORIPML.o2zmH_pPhi1, HORIPML.o1zmH_dEy, PMLEnv.degenRow1]
      · have hL : (HORIPML.order2_zminus (e.degenRow1) g).Phi2 1 i j k =
            HORIPML.o2zmH_pPhi2 (e.degenRow1) 1 i j k g :=
          ((HORIPML.o2zmH_realizes (e.degenRow1)).val_iter3 g i j k hi hj hk).2.2.2 1
        rw [hL]
        simp [HORIPML.o2zmH_pPhi2, HORIPML.o1zmH_dEx, PMLEnv.degenRow1]
  · constructor
    · intro c x y z
      by_cases hc : c = 3 ∨ c = 4
      · by_cases hin : ∃ i j k : ℕ, i < e.nx ∧ j < e.ny ∧ k < e.nz ∧
          (x, y, z) = ((e.xs + i : ℤ), (e.ys + j : ℤ), (e.zs + k : ℤ))
        · obtain ⟨i, j, k, hi, hj, hk, heq⟩ := hin
          rw [Prod.ext_iff] at heq
          obtain ⟨hx, heq2⟩ := heq
          rw [Prod.ext_iff] at heq2
          obtain ⟨hy, hz⟩ := heq2
          simp only at hx hy hz
          subst hx
          subst hy
          subst hz
          rcases hc with rfl | rfl
          · have hL : (HORIPML.order2_zplus (e.degenRow1) g).F 3 (e.xs + i) (e.ys + j) (e.zs + k) =
                HORIPML.o2zpH_vHx (e.degenRow1) i j k g :=
              ((HORIPML.o2zpH_realizes (e.degenRow1)).val_iter3 g i j k hi hj hk).1
            have hR : (HORIPML.order1_zplus e g).F 3 (e.xs + i) (e.ys + j) (e.zs + k) =
                HORIPML.o1zpH_vHx e i j k g :=
              ((HORIPML.o1zpH_realizes e).val_iter3 g i j k hi hj hk).1
            rw [hL, hR]
            simp only [HORIPML.o2zpH_vHx, HORIPML.o1zpH_vHx, HORIPML.o1zpH_dEy,
              PMLEnv.degenRow1, zero_ne_one, ite_true, ite_false, if_true,
              if_false]
            ring
          · have hL : (HORIPML.order2_zplus (e.degenRow1) g).F 4 (e.xs + i) (e.ys + j) (e.zs + k) =
                HORIPML.o2zpH_vHy (e.degenRow1) i j k g :=
              ((HORIPML.o2zpH_realizes (e.degenRow1)).val_iter3 g i j k hi hj hk).2.1
            have hR : (HORIPML.order1_zplus e g).F 4 (e.xs + i) (e.ys + j) (e.zs + k) =
                HORIPML.o1zpH_vHy e i j k g :=
              ((HORIPML.o1zpH_realizes e).val_iter3 g i j k hi hj hk).2.1
            rw [hL, hR]
            simp only [HORIPML.o2zpH_vHy, HORIPML.o1zpH_vHy, HORIPML.o1zpH_dEx,
              PMLEnv.degenRow1, zero_ne_one, ite_true, ite_false, if_true,
              if_false]
            ring
        · push_neg at hin
          have hL := (HORIPML.o2zpH_realizes (e.degenRow1)).frameF_iter3 g c x y z (Or.inr hin)
          have hR := (HORIPML.o1zpH_realizes e).frameF_iter3 g c x y z (Or.inr hin)
          exact hL.trans hR.symm
      · push_neg at hc
        have hL := (HORIPML.o2zpH_realizes (e.degenRow1)).frameF_iter3 g c x y z (Or.inl hc)
        have hR := (HORIPML.o1zpH_realizes e).frameF_iter3 g c x y z (Or.inl hc)
        exact hL.trans hR.symm
    · intro i j k hi hj hk
      constructor
      · have hL : (HORIPML.order2_zplus (e.degenRow1) g).Phi1 1 i j k =
            HORIPML.o2zpH_pPhi1 (e.degenRow1) 1 i j k g :=
          ((HORIPML.o2zpH_realizes (e.degenRow1)).val_iter3 g i j k hi hj hk).2.2.1 1
        rw [hL]
        simp [HORIPML.o2zpH_pPhi1, HORIPML.o1zpH_dEy, PMLEnv.degenRow1]
      · have hL : (HORIPML.order2_zplus (e.degenRow1) g).Phi2 1 i j k =
            HORIPML.o2zpH_pPhi2 (e.degenRow1) 1 i j k g :=
          ((HORIPML.o2zpH_realizes (e.degenRow1)).val_iter3 g i j k hi hj hk).2.2.2 1
        rw [hL]
        simp [HORIPML.o2zpH_pPhi2, HORIPML.o1zpH_dEx, PMLEnv.degenRow1]

/-- Witness for the amended C5 on a concrete 1×1×1 slab. -/
theorem C5_order2_reduction_horipml_witness :
    (HORIPML.order2_xminus ((mkEnv cRA cRB cRE cRF).degenRow1) gridEz).F 4 0 0 0 =
      (HORIPML.order1_xminus (mkEnv cRA cRB cRE cRF) gridEz).F 4 0 0 0 ∧
    (HORIPML.order2_xminus ((mkEnv cRA cRB cRE cRF).degenRow1) gridEz).Phi1 1 0 0 0 = 0 := by
  have h := C5_order2_reduction_horipml (mkEnv cRA cRB cRE cRF) gridEz
  exact ⟨h.1.1 4 0 0 0, (h.1.2 0 0 0 (by decide) (by decide) (by decide)).1⟩

/-- The all-zero-fields grid with `Phi1 = Phi2 = 1` everywhere. -/
def gridF0 : Grid where
  F := fun _ _ _ _ => 0
  Phi1 := fun _ _ _ _ => 1
  Phi2 := fun _ _ _ _ => 1

/-- Constant coefficient profile `1`. -/
def cOne : ℕ → ℕ → ℚ := fun _ _ => 1

/-- Constant coefficient profile `1/2`. -/
def cHalf : ℕ → ℕ → ℚ := fun _ _ => 1/2

/-- Environment of the C7 round-trip scenario: 1×1×1 slab, `d = 1`,
constant profiles `ra`, `rb`, `re`, `rf`. -/
def C7env (ra rb re rf : ℚ) : PMLEnv :=
  mkEnv (fun _ _ => ra) (fun _ _ => rb) (fun _ _ => re) (fun _ _ => rf)

/-- Grid with `Hz[x, y, z] = x` (a unit `dHz` impulse across the slab),
all other components and all `Phi` entries zero. -/
def gridHz0 : Grid where
  F := fun c x _ _ => if c = 5 then (x : ℚ) else 0
  Phi1 := fun _ _ _ _ => 0
  Phi2 := fun _ _ _ _ => 0

/-- State after the impulse call of the round-trip scenario. -/
def C7g1 (ra rb re rf : ℚ) : Grid :=
  MRIPML.order1_xminus (C7env ra rb re rf) gridHz0

/-- The impulse state with the excitation switched off (`Hz` zeroed). -/
def C7g2 (ra rb re rf : ℚ) : Grid where
  F := fun c x y z => if c = 5 then 0 else (C7g1 ra rb re rf).F c x y z
  Phi1 := (C7g1 ra rb re rf).Phi1
  Phi2 := (C7g1 ra rb re rf).Phi2

/-- Counterexamples to **C7** as stated, one per kind of kernel the
claim gets wrong. (i) A zero-excitation call of the order-1 MRIPML
electric xminus kernel does not multiply `Phi1[0]` by `RE[0]`: with
`RA = 1`, `RB = 2`, `RE = 1`, `RF = 1/2` (so `RC0 = RB0·RF0/RA0 = 1`,
while `RF0/RA0 = 1/2`) and `Phi1[0] = 1` it returns `(RE0 - RC0)·1 = 0`,
not `1`. (ii) A zero-excitation call of the order-2 HORIPML magnetic
xminus kernel does not multiply `Phi1[1]` by `RE[1]`: with `RA = 2`,
`RB = 3`, `RE = 5`, `RF = 7` and both rows `= 1` it returns
`RE1 - RF1·RB0 = -16`, not `5` — row 1 couples to row 0. (iii) A
zero-excitation call of the order-2 MRIPML electric xminus kernel does
not multiply `Phi1[0]` by `RE[0]`: same profiles give
`RE0 - RF0/(RA0+RA1)·(RB0+RB1) = -11/2`, not `5`. -/
theorem C7_phi_decay_cex :
    (MRIPML.order1_xminus (mkEnv cOne cRA cOne cHalf) gridEz).Phi1 0 0 0 0 ≠
      (mkEnv cOne cRA cOne cHalf).RE 0 0 * gridEz.Phi1 0 0 0 0 ∧
    (HORIPML.order2_xminus (mkEnv cRA cRB cRE cRF) gridF0).Phi1 1 0 0 0 ≠
      (mkEnv cRA cRB cRE cRF).RE 1 0 * gridF0.Phi1 1 0 0 0 ∧
    (MRIPML.order2_xminus (mkEnv cRA cRB cRE cRF) gridF0).Phi1 0 0 0 0 ≠
      (mkEnv cRA cRB cRE cRF).RE 0 0 * gridF0.Phi1 0 0 0 0 := by
  refine ⟨?_, ?_, ?_⟩
  · have hp : (MRIPML.order1_xminus (mkEnv cOne cRA cOne cHalf) gridEz).Phi1 0 0 0 0 =
        MRIPML.o1xmE_pPhi1 (mkEnv cOne cRA cOne cHalf) 0 0 0 0 gridEz :=
      ((MRIPML.o1xmE_realizes (mkEnv cOne cRA cOne cHalf)).val_iter3 gridEz 0 0 0
        (by decide) (by decide) (by decide)).2.2.1 0
    rw [hp]
    simp only [MRIPML.o1xmE_pPhi1, MRIPML.o1xmE_dHz, mkEnv, cOne, cRA, cHalf, gridEz]
    norm_num
  · have hp : (HORIPML.order2_xminus (mkEnv cRA cRB cRE cRF) gridF0).Phi1 1 0 0 0 =
        HORIPML.o2xmH_pPhi1 (mkEnv cRA cRB cRE cRF) 1 0 0 0 gridF0 :=
      ((HORIPML.o2xmH_realizes (mkEnv cRA cRB cRE cRF)).val_iter3 gridF0 0 0 0
        (by decide) (by decide) (by decide)).2.2.1 1
    rw [hp]
    simp only [HORIPML.o2xmH_pPhi1, HORIPML.o1xmH_dEz, mkEnv, cRA, cRB, cRE, cRF,
      gridF0]
    norm_num
  · have hp : (MRIPML.order2_xminus (mkEnv cRA cRB cRE cRF) gridF0).Phi1 0 0 0 0 =
        MRIPML.o2xmE_pPhi1 (mkEnv cRA cRB cRE cRF) 0 0 0 0 gridF0 :=
      ((MRIPML.o2xmE_realizes (mkEnv cRA cRB cRE cRF)).val_iter3 gridF0 0 0 0
        (by decide) (by decide) (by decide)).2.2.1 0
    rw [hp]
    simp only [MRIPML.o2xmE_pPhi1, MRIPML.o1xmE_dHz, mkEnv, cRA, cRB, cRE, cRF,
      gridF0]
    norm_num

/-- Zero-excitation iteration of the order-1 MRIPML xminus kernel on the
C7 scenario slab: each call multiplies `Phi1[0]` by `RE0 - RC0`. -/
theorem phi_decay_aux (ra rb re rf : ℚ) :
    ∀ N : ℕ, ∀ g : Grid, (∀ x y z : ℤ, g.F 5 x y z = 0) →
    ((MRIPML.order1_xminus (C7env ra rb re rf))^[N] g).Phi1 0 0 0 0 =
      (re - 1 / ra * rb * rf) ^ N * g.Phi1 0 0 0 0 := by
  intro N
  induction N with
  | zero =>
    intro g _
    simp
  | succ n ih =>
    intro g hz
    rw [Function.iterate_succ_apply]
    have hz' : ∀ x y z : ℤ,
        (MRIPML.order1_xminus (C7env ra rb re rf) g).F 5 x y z = 0 := by
      intro x y z
      have hb : (MRIPML.order1_xminus (C7env ra rb re rf) g).F 5 x y z =
          g.F 5 x y z :=
        (MRIPML.o1xmE_realizes (C7env ra rb re rf)).frameF_iter3 g 5 x y z
          (Or.inl ⟨by
            simp only [MRIPML.o1xmE_spec]
            decide, by
            simp only [MRIPML.o1xmE_spec]
            decide⟩)
      rw [hb]
      exact hz x y z
    rw [ih (MRIPML.order1_xminus (C7env ra rb re rf) g) hz']
    have hp : (MRIPML.order1_xminus (C7env ra rb re rf) g).Phi1 0 0 0 0 =
        MRIPML.o1xmE_pPhi1 (C7env ra rb re rf) 0 0 0 0 g :=
      ((MRIPML.o1xmE_realizes (C7env ra rb re rf)).val_iter3 g 0 0 0
        (by
          simp only [C7env, mkEnv, PMLEnv.nx]
          decide)
        (by
          simp only [C7env, mkEnv, PMLEnv.ny]
          decide)
        (by
          simp only [C7env, mkEnv, PMLEnv.nz]
          decide)).2.2.1 0
    rw [hp]
    simp only [MRIPML.o1xmE_pPhi1, MRIPML.o1xmE_dHz, C7env, mkEnv,
      ite_true, if_true, hz]
    ring

/-- **C7 (amended).** Zero-excitation `Phi` dynamics of every kernel, as
the code implements it, at a slab cell whose driving curl differences
vanish. (a) Each order-1 HORIPML magnetic kernel maps its (only) stored
`Phi` row to `RE[0,n]` times its old value. (b) Each order-2 HORIPML
magnetic kernel maps row 0 to `RE[0,n]` times its old value, but row 1
to `RE[1,n]·Phi[1] - RF[1,n]·RB[0,n]·Phi[0]` — coupled to row 0, not the
claimed pure `RE[1,n]` multiple. (c) Each order-1 MRIPML electric kernel
maps `Phi[0]` to `(RE[0,n] - RC0)` times its old value, with
`RC0 = RB[0,n]·RF[0,n]/RA[0,n]` — the semi-implicit step, not the plain
`RE[0,n]` claimed. (d) Each order-2 MRIPML electric kernel maps row `l`
to `RE[l,n]·Phi[l] - RF[l,n]/(RA[0,n]+RA[1,n])·Psi` with
`Psi = RB[0,n]·Phi[0] + RB[1,n]·Phi[1]` — both rows coupled. (e) Hence
`N` zero-excitation order-1 HORIPML calls multiply `Phi1[0]` by
`RE[0,i]^N`. (f) Round trip: from `Phi = 0`, one order-1 electric call
with a unit `dHz` impulse followed by `N` zero-excitation calls leaves
`Phi1[0] = (RE0 - RC0)^N · RC0`, not `RE0^N · RC0`. -/
theorem C7_phi_decay (e : PMLEnv) (g : Grid) :
    (∀ i j k : ℕ, i < e.nx → j < e.ny → k < e.nz →
      g.F 2 (e.xf - (i + 1) + 1) (e.ys + j) (e.zs + k) = g.F 2 (e.xf - (i + 1)) (e.ys + j) (e.zs + k) →
      g.F 1 (e.xf - (i + 1) + 1) (e.ys + j) (e.zs + k) = g.F 1 (e.xf - (i + 1)) (e.ys + j) (e.zs + k) →
      (HORIPML.order1_xminus e g).Phi1 0 i j k = e.RE 0 i * g.Phi1 0 i j k ∧
      (HORIPML.order1_xminus e g).Phi2 0 i j k = e.RE 0 i * g.Phi2 0 i j k) ∧
    (∀ i j k : ℕ, i < e.nx → j < e.ny → k < e.nz →
      g.F 2 (e.xs + i + 1) (e.ys + j) (e.zs + k) = g.F 2 (e.xs + i) (e.ys + j) (e.zs + k) →
      g.F 1 (e.xs + i + 1) (e.ys + j) (e.zs + k) = g.F 1 (e.xs + i) (e.ys + j) (e.zs + k) →
      (HORIPML.order1_xplus e g).Phi1 0 i j k = e.RE 0 i * g.Phi1 0 i j k ∧
      (HORIPML.order1_xplus e g).Phi2 0 i j k = e.RE 0 i * g.Phi2 0 i j k) ∧
    (∀ i j k : ℕ, i < e.nx → j < e.ny → k < e.nz →
      g.F 2 (e.xs + i) (e.yf - (j + 1) + 1) (e.zs + k) = g.F 2 (e.xs + i) (e.yf - (j + 1)) (e.zs + k) →
      g.F 0 (e.xs + i) (e.yf - (j + 1) + 1) (e.zs + k) = g.F 0 (e.xs + i) (e.yf - (j + 1)) (e.zs + k) →
      (HORIPML.order1_yminus e g).Phi1 0 i j k = e.RE 0 j * g.Phi1 0 i j k ∧
      (HORIPML.order1_yminus e g).Phi2 0 i j k = e.RE 0 j * g.Phi2 0 i j k) ∧
    (∀ i j k : ℕ, i < e.nx → j < e.ny → k < e.nz →
      g.F 2 (e.xs + i) (e.ys + j + 1) (e.zs + k) = g.F 2 (e.xs + i) (e.ys + j) (e.zs + k) →
      g.F 0 (e.xs + i) (e.ys + j + 1) (e.zs + k) = g.F 0 (e.xs + i) (e.ys + j) (e.zs + k) →
      (HORIPML.order1_yplus e g).Phi1 0 i j k = e.RE 0 j * g.Phi1 0 i j k ∧
      (HORIPML.order1_yplus e g).Phi2 0 i j k = e.RE 0 j * g.Phi2 0 i j k) ∧
    (∀ i j k : ℕ, i < e.nx → j < e.ny → k < e.nz →
      g.F 1 (e.xs + i) (e.ys + j) (e.zf - (k + 1) + 1) = g.F 1 (e.xs + i) (e.ys + j) (e.zf - (k + 1)) →
      g.F 0 (e.xs + i) (e.ys + j) (e.zf - (k + 1) + 1) = g.F 0 (e.xs + i) (e.ys + j) (e.zf - (k + 1)) →
      (HORIPML.order1_zminus e g).Phi1 0 i j k = e.RE 0 k * g.Phi1 0 i j k ∧
      (HORIPML.order1_zminus e g).Phi2 0 i j k = e.RE 0 k * g.Phi2 0 i j k) ∧
    (∀ i j k : ℕ, i < e.nx → j < e.ny → k < e.nz →
      g.F 1 (e.xs + i) (e.ys + j) (e.zs + k + 1) = g.F 1 (e.xs + i) (e.ys + j) (e.zs + k) →
      g.F 0 (e.xs + i) (e.ys + j) (e.zs + k + 1) = g.F 0 (e.xs + i) (e.ys + j) (e.zs + k) →
      (HORIPML.order1_zplus e g).Phi1 0 i j k = e.RE 0 k * g.Phi1 0 i j k ∧
      (HORIPML.order1_zplus e g).Phi2 0 i j k = e.RE 0 k * g.Phi2 0 i j k) ∧
    (∀ i j k : ℕ, i < e.nx → j < e.ny → k < e.nz →
      g.F 5 (e.xf - i) (e.ys + j) (e.zs + k) = g.F 5 (e.xf - i - 1) (e.ys + j) (e.zs + k) →
      g.F 4 (e.xf - i) (e.ys + j) (e.zs + k) = g.F 4 (e.xf - i - 1) (e.ys + j) (e.zs + k) →
      (MRIPML.order1_xminus e g).Phi1 0 i j k =
        (e.RE 0 i - 1 / e.RA 0 i * e.RB 0 i * e.RF 0 i) * g.Phi1 0 i j k ∧
      (MRIPML.order1_xminus e g).Phi2 0 i j k =
        (e.RE 0 i - 1 / e.RA 0 i * e.RB 0 i * e.RF 0 i) * g.Phi2 0 i j k) ∧
    (∀ i j k : ℕ, i < e.nx → j < e.ny → k < e.nz →
      g.F 5 (e.xs + i) (e.ys + j) (e.zs + k) = g.F 5 (e.xs + i - 1) (e.ys + j) (e.zs + k) →
      g.F 4 (e.xs + i) (e.ys + j) (e.zs + k) = g.F 4 (e.xs + i - 1) (e.ys + j) (e.zs + k) →
      (MRIPML.order1_xplus e g).Phi1 0 i j k =
        (e.RE 0 i - 1 / e.RA 0 i * e.RB 0 i * e.RF 0 i) * g.Phi1 0 i j k ∧
      (MRIPML.order1_xplus e g).Phi2 0 i j k =
        (e.RE 0 i - 1 / e.RA 0 i * e.RB 0 i * e.RF 0 i) * g.Phi2 0 i j k) ∧
    (∀ i j k : ℕ, i < e.nx → j < e.ny → k < e.nz →
      g.F 5 (e.xs + i) (e.yf - j) (e.zs + k) = g.F 5 (e.xs + i) (e.yf - j - 1) (e.zs + k) →
      g.F 3 (e.xs + i) (e.yf - j) (e.zs + k) = g.F 3 (e.xs + i) (e.yf - j - 1) (e.zs + k) →
      (MRIPML.order1_yminus e g).Phi1 0 i j k =
        (e.RE 0 j - 1 / e.RA 0 j * e.RB 0 j * e.RF 0 j) * g.Phi1 0 i j k ∧
      (MRIPML.order1_yminus e g).Phi2 0 i j k =
        (e.RE 0 j - 1 / e.RA 0 j * e.RB 0 j * e.RF 0 j) * g.Phi2 0 i j k) ∧
    (∀ i j k : ℕ, i < e.nx → j < e.ny → k < e.nz →
      g.F 5 (e.xs + i) (e.ys + j) (e.zs + k) = g.F 5 (e.xs + i) (e.ys + j - 1) (e.zs + k) →
      g.F 3 (e.xs + i) (e.ys + j) (e.zs + k) = g.F 3 (e.xs + i) (e.ys + j - 1) (e.zs + k) →
      (MRIPML.order1_yplus e g).Phi1 0 i j k =
        (e.RE 0 j - 1 / e.RA 0 j * e.RB 0 j * e.RF 0 j) * g.Phi1 0 i j k ∧
      (MRIPML.order1_yplus e g).Phi2 0 i j k =
        (e.RE 0 j - 1 / e.RA 0 j * e.RB 0 j * e.RF 0 j) * g.Phi2 0 i j k) ∧
    (∀ i j k : ℕ, i < e.nx → j < e.ny → k < e.nz →
      g.F 4 (e.xs + i) (e.ys + j) (e.zf - k) = g.F 4 (e.xs + i) (e.ys + j) (e.zf - k - 1) →
      g.F 3 (e.xs + i) (e.ys + j) (e.zf - k) = g.F 3 (e.xs + i) (e.ys + j) (e.zf - k - 1) →
      (MRIPML.order1_zminus e g).Phi1 0 i j k =
        (e.RE 0 k - 1 / e.RA 0 k * e.RB 0 k * e.RF 0 k) * g.Phi1 0 i j k ∧
      (MRIPML.order1_zminus e g).Phi2 0 i j k =
        (e.RE 0 k - 1 / e.RA 0 k * e.RB 0 k * e.RF 0 k) * g.Phi2 0 i j k) ∧
    (∀ i j k : ℕ, i < e.nx → j < e.ny → k < e.nz →
      g.F 4 (e.xs + i) (e.ys + j) (e.zs + k) = g.F 4 (e.xs + i) (e.ys + j) (e.zs + k - 1) →
      g.F 3 (e.xs + i) (e.ys + j) (e.zs + k) = g.F 3 (e.xs + i) (e.ys + j) (e.zs + k - 1) →
      (MRIPML.order1_zplus e g).Phi1 0 i j k =
        (e.RE 0 k - 1 / e.RA 0 k * e.RB 0 k * e.RF 0 k) * g.Phi1 0 i j k ∧
      (MRIPML.order1_zplus e g).Phi2 0 i j k =
        (e.RE 0 k - 1 / e.RA 0 k * e.RB 0 k * e.RF 0 k) * g.Phi2 0 i j k) ∧
    (∀ i j k : ℕ, i < e.nx → j < e.ny → k < e.nz →
      g.F 2 (e.xf - (i + 1) + 1) (e.ys + j) (e.zs + k) = g.F 2 (e.xf - (i + 1)) (e.ys + j) (e.zs + k) →
      g.F 1 (e.xf - (i + 1) + 1) (e.ys + j) (e.zs + k) = g.F 1 (e.xf - (i + 1)) (e.ys + j) (e.zs + k) →
      ((HORIPML.order2_xminus e g).Phi1 0 i j k = e.RE 0 i * g.Phi1 0 i j k ∧
        (HORIPML.order2_xminus e g).Phi1 1 i j k =
          e.RE 1 i * g.Phi1 1 i j k - e.RF 1 i * e.RB 0 i * g.Phi1 0 i j k) ∧
      ((HORIPML.order2_xminus e g).Phi2 0 i j k = e.RE 0 i * g.Phi2 0 i j k ∧
        (HORIPML.order2_xminus e g).Phi2 1 i j k =
          e.RE 1 i * g.Phi2 1 i j k - e.RF 1 i * e.RB 0 i * g.Phi2 0 i j k)) ∧
    (∀ i j k : ℕ, i < e.nx → j < e.ny → k < e.nz →
      g.F 2 (e.xs + i + 1) (e.ys + j) (e.zs + k) = g.F 2 (e.xs + i) (e.ys + j) (e.zs + k) →
      g.F 1 (e.xs + i + 1) (e.ys + j) (e.zs + k) = g.F 1 (e.xs + i) (e.ys + j) (e.zs + k) →
      ((HORIPML.order2_xplus e g).Phi1 0 i j k = e.RE 0 i * g.Phi1 0 i j k ∧
        (HORIPML.order2_xplus e g).Phi1 1 i j k =
          e.RE 1 i * g.Phi1 1 i j k - e.RF 1 i * e.RB 0 i * g.Phi1 0 i j k) ∧
      ((HORIPML.order2_xplus e g).Phi2 0 i j k = e.RE 0 i * g.Phi2 0 i j k ∧
        (HORIPML.order2_xplus e g).Phi2 1 i j k =
          e.RE 1 i * g.Phi2 1 i j k - e.RF 1 i * e.RB 0 i * g.Phi2 0 i j k)) ∧
    (∀ i j k : ℕ, i < e.nx → j < e.ny → k < e.nz →
      g.F 2 (e.xs + i) (e.yf - (j + 1) + 1) (e.zs + k) = g.F 2 (e.xs + i) (e.yf - (j + 1)) (e.zs + k) →
      g.F 0 (e.xs + i) (e.yf - (j + 1) + 1) (e.zs + k) = g.F 0 (e.xs + i) (e.yf - (j + 1)) (e.zs + k) →
      ((HORIPML.order2_yminus e g).Phi1 0 i j k = e.RE 0 j * g.Phi1 0 i j k ∧
        (HORIPML.order2_yminus e g).Phi1 1 i j k =
          e.RE 1 j * g.Phi1 1 i j k - e.RF 1 j * e.RB 0 j * g.Phi1 0 i j k) ∧
      ((HORIPML.order2_yminus e g).Phi2 0 i j k = e.RE 0 j * g.Phi2 0 i j k ∧
        (HORIPML.order2_yminus e g).Phi2 1 i j k =
          e.RE 1 j * g.Phi2 1 i j k - e.RF 1 j * e.RB 0 j * g.Phi2 0 i j k)) ∧
    (∀ i j k : ℕ, i < e.nx → j < e.ny → k < e.nz →
      g.F 2 (e.xs + i) (e.ys + j + 1) (e.zs + k) = g.F 2 (e.xs + i) (e.ys + j) (e.zs + k) →
      g.F 0 (e.xs + i) (e.ys + j + 1) (e.zs + k) = g.F 0 (e.xs + i) (e.ys + j) (e.zs + k) →
      ((HORIPML.order2_yplus e g).Phi1 0 i j k = e.RE 0 j * g.Phi1 0 i j k ∧
        (HORIPML.order2_yplus e g).Phi1 1 i j k =
          e.RE 1 j * g.Phi1 1 i j k - e.RF 1 j * e.RB 0 j * g.Phi1 0 i j k) ∧
      ((HORIPML.order2_yplus e g).Phi2 0 i j k = e.RE 0 j * g.Phi2 0 i j k ∧
        (HORIPML.order2_yplus e g).Phi2 1 i j k =
          e.RE 1 j * g.Phi2 1 i j k - e.RF 1 j * e.RB 0 j * g.Phi2 0 i j k)) ∧
    (∀ i j k : ℕ, i < e.nx → j < e.ny → k < e.nz →
      g.F 1 (e.xs + i) (e.ys + j) (e.zf - (k + 1) + 1) = g.F 1 (e.xs + i) (e.ys + j) (e.zf - (k + 1)) →
      g.F 0 (e.xs + i) (e.ys + j) (e.zf - (k + 1) + 1) = g.F 0 (e.xs + i) (e.ys + j) (e.zf - (k + 1)) →
      ((HORIPML.order2_zminus e g).Phi1 0 i j k = e.RE 0 k * g.Phi1 0 i j k ∧
        (HORIPML.order2_zminus e g).Phi1 1 i j k =
          e.RE 1 k * g.Phi1 1 i j k - e.RF 1 k * e.RB 0 k * g.Phi1 0 i j k) ∧
      ((HORIPML.order2_zminus e g).Phi2 0 i j k = e.RE 0 k * g.Phi2 0 i j k ∧
        (HORIPML.order2_zminus e g).Phi2 1 i j k =
          e.RE 1 k * g.Phi2 1 i j k - e.RF 1 k * e.RB 0 k * g.Phi2 0 i j k)) ∧
    (∀ i j k : ℕ, i < e.nx → j < e.ny → k < e.nz →
      g.F 1 (e.xs + i) (e.ys + j) (e.zs + k + 1) = g.F 1 (e.xs + i) (e.ys + j) (e.zs + k) →
      g.F 0 (e.xs + i) (e.ys + j) (e.zs + k + 1) = g.F 0 (e.xs + i) (e.ys + j) (e.zs + k) →
      ((HORIPML.order2_zplus e g).Phi1 0 i j k = e.RE 0 k * g.Phi1 0 i j k ∧
        (HORIPML.order2_zplus e g).Phi1 1 i j k =
          e.RE 1 k * g.Phi1 1 i j k - e.RF 1 k * e.RB 0 k * g.Phi1 0 i j k) ∧
      ((HORIPML.order2_zplus e g).Phi2 0 i j k = e.RE 0 k * g.Phi2 0 i j k ∧
        (HORIPML.order2_zplus e g).Phi2 1 i j k =
          e.RE 1 k * g.Phi2 1 i j k - e.RF 1 k * e.RB 0 k * g.Phi2 0 i j k)) ∧
    (∀ i j k : ℕ, i < e.nx → j < e.ny → k < e.nz →
      g.F 5 (e.xf - i) (e.ys + j) (e.zs + k) = g.F 5 (e.xf - i - 1) (e.ys + j) (e.zs + k) →
      g.F 4 (e.xf - i) (e.ys + j) (e.zs + k) = g.F 4 (e.xf - i - 1) (e.ys + j) (e.zs + k) →
      ((MRIPML.order2_xminus e g).Phi1 0 i j k =
          e.RE 0 i * g.Phi1 0 i j k -
            1 / (e.RA 0 i + e.RA 1 i) * e.RF 0 i * (e.RB 0 i * g.Phi1 0 i j k + e.RB 1 i * g.Phi1 1 i j k) ∧
        (MRIPML.order2_xminus e g).Phi1 1 i j k =
          e.RE 1 i * g.Phi1 1 i j k -
            1 / (e.RA 0 i + e.RA 1 i) * e.RF 1 i * (e.RB 0 i * g.Phi1 0 i j k + e.RB 1 i * g.Phi1 1 i j k)) ∧
      ((MRIPML.order2_xminus e g).Phi2 0 i j k =
          e.RE 0 i * g.Phi2 0 i j k -
            1 / (e.RA 0 i + e.RA 1 i) * e.RF 0 i * (e.RB 0 i * g.Phi2 0 i j k + e.RB 1 i * g.Phi2 1 i j k) ∧
        (MRIPML.order2_xminus e g).Phi2 1 i j k =
          e.RE 1 i * g.Phi2 1 i j k -
            1 / (e.RA 0 i + e.RA 1 i) * e.RF 1 i * (e.RB 0 i * g.Phi2 0 i j k + e.RB 1 i * g.Phi2 1 i j k))) ∧
    (∀ i j k : ℕ, i < e.nx → j < e.ny → k < e.nz →
      g.F 5 (e.xs + i) (e.ys + j) (e.zs + k) = g.F 5 (e.xs + i - 1) (e.ys + j) (e.zs + k) →
      g.F 4 (e.xs + i) (e.ys + j) (e.zs + k) = g.F 4 (e.xs + i - 1) (e.ys + j) (e.zs + k) →
      ((MRIPML.order2_xplus e g).Phi1 0 i j k =
          e.RE 0 i * g.Phi1 0 i j k -
            1 / (e.RA 0 i + e.RA 1 i) * e.RF 0 i * (e.RB 0 i * g.Phi1 0 i j k + e.RB 1 i * g.Phi1 1 i j k) ∧
        (MRIPML.order2_xplus e g).Phi1 1 i j k =
          e.RE 1 i * g.Phi1 1 i j k -
            1 / (e.RA 0 i + e.RA 1 i) * e.RF 1 i * (e.RB 0 i * g.Phi1 0 i j k + e.RB 1 i * g.Phi1 1 i j k)) ∧
      ((MRIPML.order2_xplus e g).Phi2 0 i j k =
          e.RE 0 i * g.Phi2 0 i j k -
            1 / (e.RA 0 i + e.RA 1 i) * e.RF 0 i * (e.RB 0 i * g.Phi2 0 i j k + e.RB 1 i * g.Phi2 1 i j k) ∧
        (MRIPML.order2_xplus e g).Phi2 1 i j k =
          e.RE 1 i * g.Phi2 1 i j k -
            1 / (e.RA 0 i + e.RA 1 i) * e.RF 1 i * (e.RB 0 i * g.Phi2 0 i j k + e.RB 1 i * g.Phi2 1 i j k))) ∧
    (∀ i j k : ℕ, i < e.nx → j < e.ny → k < e.nz →
      g.F 5 (e.xs + i) (e.yf - j) (e.zs + k) = g.F 5 (e.xs + i) (e.yf - j - 1) (e.zs + k) →
      g.F 3 (e.xs + i) (e.yf - j) (e.zs + k) = g.F 3 (e.xs + i) (e.yf - j - 1) (e.zs + k) →
      ((MRIPML.order2_yminus e g).Phi1 0 i j k =
          e.RE 0 j * g.Phi1 0 i j k -
            1 / (e.RA 0 j + e.RA 1 j) * e.RF 0 j * (e.RB 0 j * g.Phi1 0 i j k + e.RB 1 j * g.Phi1 1 i j k) ∧
        (MRIPML.order2_yminus e g).Phi1 1 i j k =
          e.RE 1 j * g.Phi1 1 i j k -
            1 / (e.RA 0 j + e.RA 1 j) * e.RF 1 j * (e.RB 0 j * g.Phi1 0 i j k + e.RB 1 j * g.Phi1 1 i j k)) ∧
      ((MRIPML.order2_yminus e g).Phi2 0 i j k =
          e.RE 0 j * g.Phi2 0 i j k -
            1 / (e.RA 0 j + e.RA 1 j) * e.RF 0 j * (e.RB 0 j * g.Phi2 0 i j k + e.RB 1 j * g.Phi2 1 i j k) ∧
        (MRIPML.order2_yminus e g).Phi2 1 i j k =
          e.RE 1 j * g.Phi2 1 i j k -
            1 / (e.RA 0 j + e.RA 1 j) * e.RF 1 j * (e.RB 0 j * g.Phi2 0 i j k + e.RB 1 j * g.Phi2 1 i j k))) ∧
    (∀ i j k : ℕ, i < e.nx → j < e.ny → k < e.nz →
      g.F 5 (e.xs + i) (e.ys + j) (e.zs + k) = g.F 5 (e.xs + i) (e.ys + j - 1) (e.zs + k) →
      g.F 3 (e.xs + i) (e.ys + j) (e.zs + k) = g.F 3 (e.xs + i) (e.ys + j - 1) (e.zs + k) →
      ((MRIPML.order2_yplus e g).Phi1 0 i j k =
          e.RE 0 j * g.Phi1 0 i j k -
            1 / (e.RA 0 j + e.RA 1 j) * e.RF 0 j * (e.RB 0 j * g.Phi1 0 i j k + e.RB 1 j * g.Phi1 1 i j k) ∧
        (MRIPML.order2_yplus e g).Phi1 1 i j k =
          e.RE 1 j * g.Phi1 1 i j k -
            1 / (e.RA 0 j + e.RA 1 j) * e.RF 1 j * (e.RB 0 j * g.Phi1 0 i j k + e.RB 1 j * g.Phi1 1 i j k)) ∧
      ((MRIPML.order2_yplus e g).Phi2 0 i j k =
          e.RE 0 j * g.Phi2 0 i j k -
            1 / (e.RA 0 j + e.RA 1 j) * e.RF 0 j * (e.RB 0 j * g.Phi2 0 i j k + e.RB 1 j * g.Phi2 1 i j k) ∧
        (MRIPML.order2_yplus e g).Phi2 1 i j k =
          e.RE 1 j * g.Phi2 1 i j k -
            1 / (e.RA 0 j + e.RA 1 j) * e.RF 1 j * (e.RB 0 j * g.Phi2 0 i j k + e.RB 1 j * g.Phi2 1 i j k))) ∧
    (∀ i j k : ℕ, i < e.nx → j < e.ny → k < e.nz →
      g.F 4 (e.xs + i) (e.ys + j) (e.zf - k) = g.F 4 (e.xs + i) (e.ys + j) (e.zf - k - 1) →
      g.F 3 (e.xs + i) (e.ys + j) (e.zf - k) = g.F 3 (e.xs + i) (e.ys + j) (e.zf - k - 1) →
      ((MRIPML.order2_zminus e g).Phi1 0 i j k =
          e.RE 0 k * g.Phi1 0 i j k -
            1 / (e.RA 0 k + e.RA 1 k) * e.RF 0 k * (e.RB 0 k * g.Phi1 0 i j k + e.RB 1 k * g.Phi1 1 i j k) ∧
        (MRIPML.order2_zminus e g).Phi1 1 i j k =
          e.RE 1 k * g.Phi1 1 i j k -
            1 / (e.RA 0 k + e.RA 1 k) * e.RF 1 k * (e.RB 0 k * g.Phi1 0 i j k + e.RB 1 k * g.Phi1 1 i j k)) ∧
      ((MRIPML.order2_zminus e g).Phi2 0 i j k =
          e.RE 0 k * g.Phi2 0 i j k -
            1 / (e.RA 0 k + e.RA 1 k) * e.RF 0 k * (e.RB 0 k * g.Phi2 0 i j k + e.RB 1 k * g.Phi2 1 i j k) ∧
        (MRIPML.order2_zminus e g).Phi2 1 i j k =
          e.RE 1 k * g.Phi2 1 i j k -
            1 / (e.RA 0 k + e.RA 1 k) * e.RF 1 k * (e.RB 0 k * g.Phi2 0 i j k + e.RB 1 k * g.Phi2 1 i j k))) ∧
    (∀ i j k : ℕ, i < e.nx → j < e.ny → k < e.nz →
      g.F 4 (e.xs + i) (e.ys + j) (e.zs + k) = g.F 4 (e.xs + i) (e.ys + j) (e.zs + k - 1) →
      g.F 3 (e.xs + i) (e.ys + j) (e.zs + k) = g.F 3 (e.xs + i) (e.ys + j) (e.zs + k - 1) →
      ((MRIPML.order2_zplus e g).Phi1 0 i j k =
          e.RE 0 k * g.Phi1 0 i j k -
            1 / (e.RA 0 k + e.RA 1 k) * e.RF 0 k * (e.RB 0 k * g.Phi1 0 i j k + e.RB 1 k * g.Phi1 1 i j k) ∧
        (MRIPML.order2_zplus e g).Phi1 1 i j k =
          e.RE 1 k * g.Phi1 1 i j k -
            1 / (e.RA 0 k + e.RA 1 k) * e.RF 1 k * (e.RB 0 k * g.Phi1 0 i j k + e.RB 1 k * g.Phi1 1 i j k)) ∧
      ((MRIPML.order2_zplus e g).Phi2 0 i j k =
          e.RE 0 k * g.Phi2 0 i j k -
            1 / (e.RA 0 k + e.RA 1 k) * e.RF 0 k * (e.RB 0 k * g.Phi2 0 i j k + e.RB 1 k * g.Phi2 1 i j k) ∧
        (MRIPML.order2_zplus e g).Phi2 1 i j k =
          e.RE 1 k * g.Phi2 1 i j k -
            1 / (e.RA 0 k + e.RA 1 k) * e.RF 1 k * (e.RB 0 k * g.Phi2 0 i j k + e.RB 1 k * g.Phi2 1 i j k))) ∧
    (∀ i j k : ℕ, i < e.nx → j < e.ny → k < e.nz →
      ∀ g' : Grid,
      (∀ x y z : ℤ, g'.F 2 x y z = 0) → (∀ x y z : ℤ, g'.F 1 x y z = 0) →
      ∀ N : ℕ,
      ((HORIPML.order1_xminus e)^[N] g').Phi1 0 i j k =
        e.RE 0 i ^ N * g'.Phi1 0 i j k) ∧
    (∀ ra rb re rf : ℚ, ∀ N : ℕ,
      ((MRIPML.order1_xminus (C7env ra rb re rf))^[N]
          (C7g2 ra rb re rf)).Phi1 0 0 0 0 =
        (re - 1 / ra * rb * rf) ^ N * (1 / ra * rb * rf)) := by
  refine ⟨?_, ?_, ?_, ?_, ?_, ?_, ?_, ?_, ?_, ?_, ?_, ?_, ?_, ?_, ?_, ?_, ?_, ?_, ?_, ?_, ?_, ?_, ?_, ?_, ?_, ?_⟩
  · intro i j k hi hj hk h1 h2
    constructor
    · have hp : (HORIPML.order1_xminus e g).Phi1 0 i j k = HORIPML.o1xmH_pPhi1 e 0 i j k g :=
        ((HORIPML.o1xmH_realizes e).val_iter3 g i j k hi hj hk).2.2.1 0
      rw [hp]
      simp only [HORIPML.o1xmH_pPhi1, HORIPML.o1xmH_dEz, ite_true, if_true]
      rw [h1]
      ring
    · have hp : (HORIPML.order1_xminus e g).Phi2 0 i j k = HORIPML.o1xmH_pPhi2 e 0 i j k g :=
        ((HORIPML.o1xmH_realizes e).val_iter3 g i j k hi hj hk).2.2.2 0
      rw [hp]
      simp only [HORIPML.o1xmH_pPhi2, HORIPML.o1xmH_dEy, ite_true, if_true]
      rw [h2]
      ring
  · intro i j k hi hj hk h1 h2
    constructor
    · have hp : (HORIPML.order1_xplus e g).Phi1 0 i j k = HORIPML.o1xpH_pPhi1 e 0 i j k g :=
        ((HORIPML.o1xpH_realizes e).val_iter3 g i j k hi hj hk).2.2.1 0
      rw [hp]
      simp only [HORIPML.o1xpH_pPhi1, HORIPML.o1xpH_dEz, ite_true, if_true]
      rw [h1]
      ring
    · have hp : (HORIPML.order1_xplus e g).Phi2 0 i j k = HORIPML.o1xpH_pPhi2 e 0 i j k g :=
        ((HORIPML.o1xpH_realizes e).val_iter3 g i j k hi hj hk).2.2.2 0
      rw [hp]
      simp only [HORIPML.o1xpH_pPhi2, HORIPML.o1xpH_dEy, ite_true, if_true]
      rw [h2]
      ring
  · intro i j k hi hj hk h1 h2
    constructor
    · have hp : (HORIPML.order1_yminus e g).Phi1 0 i j k = HORIPML.o1ymH_pPhi1 e 0 i j k g :=
        ((HORIPML.o1ymH_realizes e).val_iter3 g i j k hi hj hk).2.2.1 0
      rw [hp]
      simp only [HORIPML.o1ymH_pPhi1, HORIPML.o1ymH_dEz, ite_true, if_true]
      rw [h1]
      ring
    · have hp : (HORIPML.order1_yminus e g).Phi2 0 i j k = HORIPML.o1ymH_pPhi2 e 0 i j k g :=
        ((HORIPML.o1ymH_realizes e).val_iter3 g i j k hi hj hk).2.2.2 0
      rw [hp]
      simp only [HORIPML.o1ymH_pPhi2, HORIPML.o1ymH_dEx, ite_true, if_true]
      rw [h2]
      ring
  · intro i j k hi hj hk h1 h2
    constructor
    · have hp : (HORIPML.order1_yplus e g).Phi1 0 i j k = HORIPML.o1ypH_pPhi1 e 0 i j k g :=
        ((HORIPML.o1ypH_realizes e).val_iter3 g i j k hi hj hk).2.2.1 0
      rw [hp]
      simp only [HORIPML.o1ypH_pPhi1, HORIPML.o1ypH_dEz, ite_true, if_true]
      rw [h1]
      ring
    · have hp : (HORIPML.order1_yplus e g).Phi2 0 i j k = HORIPML.o1ypH_pPhi2 e 0 i j k g :=
        ((HORIPML.o1ypH_realizes e).val_iter3 g i j k hi hj hk).2.2.2 0
      rw [hp]
      simp only [HORIPML.o1ypH_pPhi2, HORIPML.o1ypH_dEx, ite_true, if_true]
      rw [h2]
      ring
  · intro i j k hi hj hk h1 h2
    constructor
    · have hp : (HORIPML.order1_zminus e g).Phi1 0 i j k = HORIPML.o1zmH_pPhi1 e 0 i j k g :=
        ((HORIPML.o1zmH_realizes e).val_iter3 g i j k hi hj hk).2.2.1 0
      rw [hp]
      simp only [HORIPML.o1zmH_pPhi1, HORIPML.o1zmH_dEy, ite_true, if_true]
      rw [h1]
      ring
    · have hp : (HORIPML.order1_zminus e g).Phi2 0 i j k = HORIPML.o1zmH_pPhi2 e 0 i j k g :=
        ((HORIPML.o1zmH_realizes e).val_iter3 g i j k hi hj hk).2.2.2 0
      rw [hp]
      simp only [HORIPML.o1zmH_pPhi2, HORIPML.o1zmH_dEx, ite_true, if_true]
      rw [h2]
      ring
  · intro i j k hi hj hk h1 h2
    constructor
    · have hp : (HORIPML.order1_zplus e g).Phi1 0 i j k = HORIPML.o1zpH_pPhi1 e 0 i j k g :=
        ((HORIPML.o1zpH_realizes e).val_iter3 g i j k hi hj hk).2.2.1 0
      rw [hp]
      simp only [HORIPML.o1zpH_pPhi1, HORIPML.o1zpH_dEy, ite_true, if_true]
      rw [h1]
      ring
    · have hp : (HORIPML.order1_zplus e g).Phi2 0 i j k = HORIPML.o1zpH_pPhi2 e 0 i j k g :=
        ((HORIPML.o1zpH_realizes e).val_iter3 g i j k hi hj hk).2.2.2 0
      rw [hp]
      simp only [HORIPML.o1zpH_pPhi2, HORIPML.o1zpH_dEx, ite_true, if_true]
      rw [h2]
      ring
  · intro i j k hi hj hk h1 h2
    constructor
    · have hp : (MRIPML.order1_xminus e g).Phi1 0 i j k = MRIPML.o1xmE_pPhi1 e 0 i j k g :=
        ((MRIPML.o1xmE_realizes e).val_iter3 g i j k hi hj hk).2.2.1 0
      rw [hp]
      simp only [MRIPML.o1xmE_pPhi1, MRIPML.o1xmE_dHz, ite_true, if_true]
      rw [h1]
      ring
    · have hp : (MRIPML.order1_xminus e g).Phi2 0 i j k = MRIPML.o1xmE_pPhi2 e 0 i j k g :=
        ((MRIPML.o1xmE_realizes e).val_iter3 g i j k hi hj hk).2.2.2 0
      rw [hp]
      simp only [MRIPML.o1xmE_pPhi2, MRIPML.o1xmE_dHy, ite_true, if_true]
      rw [h2]
      ring
  · intro i j k hi hj hk h1 h2
    constructor
    · have hp : (MRIPML.order1_xplus e g).Phi1 0 i j k = MRIPML.o1xpE_pPhi1 e 0 i j k g :=
        ((MRIPML.o1xpE_realizes e).val_iter3 g i j k hi hj hk).2.2.1 0
      rw [hp]
      simp only [MRIPML.o1xpE_pPhi1, MRIPML.o1xpE_dHz, ite_true, if_true]
      rw [h1]
      ring
    · have hp : (MRIPML.order1_xplus e g).Phi2 0 i j k = MRIPML.o1xpE_pPhi2 e 0 i j k g :=
        ((MRIPML.o1xpE_realizes e).val_iter3 g i j k hi hj hk).2.2.2 0
      rw [hp]
      simp only [MRIPML.o1xpE_pPhi2, MRIPML.o1xpE_dHy, ite_true, if_true]
      rw [h2]
      ring
  · intro i j k hi hj hk h1 h2
    constructor
    · have hp : (MRIPML.order1_yminus e g).Phi1 0 i j k = MRIPML.o1ymE_pPhi1 e 0 i j k g :=
        ((MRIPML.o1ymE_realizes e).val_iter3 g i j k hi hj hk).2.2.1 0
      rw [hp]
      simp only [MRIPML.o1ymE_pPhi1, MRIPML.o1ymE_dHz, ite_true, if_true]
      rw [h1]
      ring
    · have hp : (MRIPML.order1_yminus e g).Phi2 0 i j k = MRIPML.o1ymE_pPhi2 e 0 i j k g :=
        ((MRIPML.o1ymE_realizes e).val_iter3 g i j k hi hj hk).2.2.2 0
      rw [hp]
      simp only [MRIPML.o1ymE_pPhi2, MRIPML.o1ymE_dHx, ite_true, if_true]
      rw [h2]
      ring
  · intro i j k hi hj hk h1 h2
    constructor
    · have hp : (MRIPML.order1_yplus e g).Phi1 0 i j k = MRIPML.o1ypE_pPhi1 e 0 i j k g :=
        ((MRIPML.o1ypE_realizes e).val_iter3 g i j k hi hj hk).2.2.1 0
      rw [hp]
      simp only [MRIPML.o1ypE_pPhi1, MRIPML.o1ypE_dHz, ite_true, if_true]
      rw [h1]
      ring
    · have hp : (MRIPML.order1_yplus e g).Phi2 0 i j k = MRIPML.o1ypE_pPhi2 e 0 i j k g :=
        ((MRIPML.o1ypE_realizes e).val_iter3 g i j k hi hj hk).2.2.2 0
      rw [hp]
      simp only [MRIPML.o1ypE_pPhi2, MRIPML.o1ypE_dHx, ite_true, if_true]
      rw [h2]
      ring
  · intro i j k hi hj hk h1 h2
    constructor
    · have hp : (MRIPML.order1_zminus e g).Phi1 0 i j k = MRIPML.o1zmE_pPhi1 e 0 i j k g :=
        ((MRIPML.o1zmE_realizes e).val_iter3 g i j k hi hj hk).2.2.1 0
      rw [hp]
      simp only [MRIPML.o1zmE_pPhi1, MRIPML.o1zmE_dHy, ite_true, if_true]
      rw [h1]
      ring
    · have hp : (MRIPML.order1_zminus e g).Phi2 0 i j k = MRIPML.o1zmE_pPhi2 e 0 i j k g :=
        ((MRIPML.o1zmE_realizes e).val_iter3 g i j k hi hj hk).2.2.2 0
      rw [hp]
      simp only [MRIPML.o1zmE_pPhi2, MRIPML.o1zmE_dHx, ite_true, if_true]
      rw [h2]
      ring
  · intro i j k hi hj hk h1 h2
    constructor
    · have hp : (MRIPML.order1_zplus e g).Phi1 0 i j k = MRIPML.o1zpE_pPhi1 e 0 i j k g :=
        ((MRIPML.o1zpE_realizes e).val_iter3 g i j k hi hj hk).2.2.1 0
      rw [hp]
      simp only [MRIPML.o1zpE_pPhi1, MRIPML.o1zpE_dHy, ite_true, if_true]
      rw [h1]
      ring
    · have hp : (MRIPML.order1_zplus e g).Phi2 0 i j k = MRIPML.o1zpE_pPhi2 e 0 i j k g :=
        ((MRIPML.o1zpE_realizes e).val_iter3 g i j k hi hj hk).2.2.2 0
      rw [hp]
      simp only [MRIPML.o1zpE_pPhi2, MRIPML.o1zpE_dHx, ite_true, if_true]
      rw [h2]
      ring
  · intro i j k hi hj hk h1 h2
    refine ⟨⟨?_, ?_⟩, ?_, ?_⟩
    · have hp : (HORIPML.order2_xminus e g).Phi1 0 i j k =
          HORIPML.o2xmH_pPhi1 e 0 i j k g :=
        ((HORIPML.o2xmH_realizes e).val_iter3 g i j k hi hj hk).2.2.1 0
      rw [hp]
      simp only [HORIPML.o2xmH_pPhi1, HORIPML.o1xmH_dEz, ite_true, if_true]
      rw [h1]
      ring
    · have hp11 : (HORIPML.order2_xminus e g).Phi1 1 i j k =
          HORIPML.o2xmH_pPhi1 e 1 i j k g :=
        ((HORIPML.o2xmH_realizes e).val_iter3 g i j k hi hj hk).2.2.1 1
      rw [hp11]
      simp only [HORIPML.o2xmH_pPhi1, HORIPML.o1xmH_dEz, ite_true, ite_false, if_true,
        if_false, one_ne_zero, zero_ne_one]
      rw [h1]
      ring
    · have hp02 : (HORIPML.order2_xminus e g).Phi2 0 i j k =
          HORIPML.o2xmH_pPhi2 e 0 i j k g :=
        ((HORIPML.o2xmH_realizes e).val_iter3 g i j k hi hj hk).2.2.2 0
      rw [hp02]
      simp only [HORIPML.o2xmH_pPhi2, HORIPML.o1xmH_dEy, ite_true, if_true]
      rw [h2]
      ring
    · have hp12 : (HORIPML.order2_xminus e g).Phi2 1 i j k =
          HORIPML.o2xmH_pPhi2 e 1 i j k g :=
        ((HORIPML.o2xmH_realizes e).val_iter3 g i j k hi hj hk).2.2.2 1
      rw [hp12]
      simp only [HORIPML.o2xmH_pPhi2, HORIPML.o1xmH_dEy, ite_true, ite_false, if_true,
        if_false, one_ne_zero, zero_ne_one]
      rw [h2]
      ring
  · intro i j k hi hj hk h1 h2
    refine ⟨⟨?_, ?_⟩, ?_, ?_⟩
    · have hp : (HORIPML.order2_xplus e g).Phi1 0 i j k =
          HORIPML.o2xpH_pPhi1 e 0 i j k g :=
        ((HORIPML.o2xpH_realizes e).val_iter3 g i j k hi hj hk).2.2.1 0
      rw [hp]
      simp only [HORIPML.o2xpH_pPhi1, HORIPML.o1xpH_dEz, ite_true, if_true]
      rw [h1]
      ring
    · have hp11 : (HORIPML.order2_xplus e g).Phi1 1 i j k =
          HORIPML.o2xpH_pPhi1 e 1 i j k g :=
        ((HORIPML.o2xpH_realizes e).val_iter3 g i j k hi hj hk).2.2.1 1
      rw [hp11]
      simp only [HORIPML.o2xpH_pPhi1, HORIPML.o1xpH_dEz, ite_true, ite_false, if_true,
        if_false, one_ne_zero, zero_ne_one]
      rw [h1]
      ring
    · have hp02 : (HORIPML.order2_xplus e g).Phi2 0 i j k =
          HORIPML.o2xpH_pPhi2 e 0 i j k g :=
        ((HORIPML.o2xpH_realizes e).val_iter3 g i j k hi hj hk).2.2.2 0
      rw [hp02]
      simp only [HORIPML.o2xpH_pPhi2, HORIPML.o1xpH_dEy, ite_true, if_true]
      rw [h2]
      ring
    · have hp12 : (HORIPML.order2_xplus e g).Phi2 1 i j k =
          HORIPML.o2xpH_pPhi2 e 1 i j k g :=
        ((HORIPML.o2xpH_realizes e).val_iter3 g i j k hi hj hk).2.2.2 1
      rw [hp12]
      simp only [HORIPML.o2xpH_pPhi2, HORIPML.o1xpH_dEy, ite_true, ite_false, if_true,
        if_false, one_ne_zero, zero_ne_one]
      rw [h2]
      ring
  · intro i j k hi hj hk h1 h2
    refine ⟨⟨?_, ?_⟩, ?_, ?_⟩
    · have hp : (HORIPML.order2_yminus e g).Phi1 0 i j k =
          HORIPML.o2ymH_pPhi1 e 0 i j k g :=
        ((HORIPML.o2ymH_realizes e).val_iter3 g i j k hi hj hk).2.2.1 0
      rw [hp]
      simp only [HORIPML.o2ymH_pPhi1, HORIPML.o1ymH_dEz, ite_true, if_true]
      rw [h1]
      ring
    · have hp11 : (HORIPML.order2_yminus e g).Phi1 1 i j k =
          HORIPML.o2ymH_pPhi1 e 1 i j k g :=
        ((HORIPML.o2ymH_realizes e).val_iter3 g i j k hi hj hk).2.2.1 1
      rw [hp11]
      simp only [HORIPML.o2ymH_pPhi1, HORIPML.o1ymH_dEz, ite_true, ite_false, if_true,
        if_false, one_ne_zero, zero_ne_one]
      rw [h1]
      ring
    · have hp02 : (HORIPML.order2_yminus e g).Phi2 0 i j k =
          HORIPML.o2ymH_pPhi2 e 0 i j k g :=
        ((HORIPML.o2ymH_realizes e).val_iter3 g i j k hi hj hk).2.2.2 0
      rw [hp02]
      simp only [HORIPML.o2ymH_pPhi2, HORIPML.o1ymH_dEx, ite_true, if_true]
      rw [h2]
      ring
    · have hp12 : (HORIPML.order2_yminus e g).Phi2 1 i j k =
          HORIPML.o2ymH_pPhi2 e 1 i j k g :=
        ((HORIPML.o2ymH_realizes e).val_iter3 g i j k hi hj hk).2.2.2 1
      rw [hp12]
      simp only [HORIPML.o2ymH_pPhi2, HORIPML.o1ymH_dEx, ite_true, ite_false, if_true,
        if_false, one_ne_zero, zero_ne_one]
      rw [h2]
      ring
  · intro i j k hi hj hk h1 h2
    refine ⟨⟨?_, ?_⟩, ?_, ?_⟩
    · have hp : (HORIPML.order2_yplus e g).Phi1 0 i j k =
          HORIPML.o2ypH_pPhi1 e 0 i j k g :=
        ((HORIPML.o2ypH_realizes e).val_iter3 g i j k hi hj hk).2.2.1 0
      rw [hp]
      simp only [HORIPML.o2ypH_pPhi1, HORIPML.o1ypH_dEz, ite_true, if_true]
      rw [h1]
      ring
    · have hp11 : (HORIPML.order2_yplus e g).Phi1 1 i j k =
          HORIPML.o2ypH_pPhi1 e 1 i j k g :=
        ((HORIPML.o2ypH_realizes e).val_iter3 g i j k hi hj hk).2.2.1 1
      rw [hp11]
      simp only [HORIPML.o2ypH_pPhi1, HORIPML.o1ypH_dEz, ite_true, ite_false, if_true,
        if_false, one_ne_zero, zero_ne_one]
      rw [h1]
      ring
    · have hp02 : (HORIPML.order2_yplus e g).Phi2 0 i j k =
          HORIPML.o2ypH_pPhi2 e 0 i j k g :=
        ((HORIPML.o2ypH_realizes e).val_iter3 g i j k hi hj hk).2.2.2 0
      rw [hp02]
      simp only [HORIPML.o2ypH_pPhi2, HORIPML.o1ypH_dEx, ite_true, if_true]
      rw [h2]
      ring
    · have hp12 : (HORIPML.order2_yplus e g).Phi2 1 i j k =
          HORIPML.o2ypH_pPhi2 e 1 i j k g :=
        ((HORIPML.o2ypH_realizes e).val_iter3 g i j k hi hj hk).2.2.2 1
      rw [hp12]
      simp only [HORIPML.o2ypH_pPhi2, HORIPML.o1ypH_dEx, ite_true, ite_false, if_true,
        if_false, one_ne_zero, zero_ne_one]
      rw [h2]
      ring
  · intro i j k hi hj hk h1 h2
    refine ⟨⟨?_, ?_⟩, ?_, ?_⟩
    · have hp : (HORIPML.order2_zminus e g).Phi1 0 i j k =
          HORIPML.o2zmH_pPhi1 e 0 i j k g :=
        ((HORIPML.o2zmH_realizes e).val_iter3 g i j k hi hj hk).2.2.1 0
      rw [hp]
      simp only [HORIPML.o2zmH_pPhi1, HORIPML.o1zmH_dEy, ite_true, if_true]
      rw [h1]
      ring
    · have hp11 : (HORIPML.order2_zminus e g).Phi1 1 i j k =
          HORIPML.o2zmH_pPhi1 e 1 i j k g :=
        ((HORIPML.o2zmH_realizes e).val_iter3 g i j k hi hj hk).2.2.1 1
      rw [hp11]
      simp only [HORIPML.o2zmH_pPhi1, HORIPML.o1zmH_dEy, ite_true, ite_false, if_true,
        if_false, one_ne_zero, zero_ne_one]
      rw [h1]
      ring
    · have hp02 : (HORIPML.order2_zminus e g).Phi2 0 i j k =
          HORIPML.o2zmH_pPhi2 e 0 i j k g :=
        ((HORIPML.o2zmH_realizes e).val_iter3 g i j k hi hj hk).2.2.2 0
      rw [hp02]
      simp only [HORIPML.o2zmH_pPhi2, HORIPML.o1zmH_dEx, ite_true, if_true]
      rw [h2]
      ring
    · have hp12 : (HORIPML.order2_zminus e g).Phi2 1 i j k =
          HORIPML.o2zmH_pPhi2 e 1 i j k g :=
        ((HORIPML.o2zmH_realizes e).val_iter3 g i j k hi hj hk).2.2.2 1
      rw [hp12]
      simp only [HORIPML.o2zmH_pPhi2, HORIPML.o1zmH_dEx, ite_true, ite_false, if_true,
        if_false, one_ne_zero, zero_ne_one]
      rw [h2]
      ring
  · intro i j k hi hj hk h1 h2
    refine ⟨⟨?_, ?_⟩, ?_, ?_⟩
    · have hp : (HORIPML.order2_zplus e g).Phi1 0 i j k =
          HORIPML.o2zpH_pPhi1 e 0 i j k g :=
        ((HORIPML.o2zpH_realizes e).val_iter3 g i j k hi hj hk).2.2.1 0
      rw [hp]
      simp only [HORIPML.o2zpH_pPhi1, HORIPML.o1zpH_dEy, ite_true, if_true]
      rw [h1]
      ring
    · have hp11 : (HORIPML.order2_zplus e g).Phi1 1 i j k =
          HORIPML.o2zpH_pPhi1 e 1 i j k g :=
        ((HORIPML.o2zpH_realizes e).val_iter3 g i j k hi hj hk).2.2.1 1
      rw [hp11]
      simp only [HORIPML.o2zpH_pPhi1, HORIPML.o1zpH_dEy, ite_true, ite_false, if_true,
        if_false, one_ne_zero, zero_ne_one]
      rw [h1]
      ring
    · have hp02 : (HORIPML.order2_zplus e g).Phi2 0 i j k =
          HORIPML.o2zpH_pPhi2 e 0 i j k g :=
        ((HORIPML.o2zpH_realizes e).val_iter3 g i j k hi hj hk).2.2.2 0
      rw [hp02]
      simp only [HORIPML.o2zpH_pPhi2, HORIPML.o1zpH_dEx, ite_true, if_true]
      rw [h2]
      ring
    · have hp12 : (HORIPML.order2_zplus e g).Phi2 1 i j k =
          HORIPML.o2zpH_pPhi2 e 1 i j k g :=
        ((HORIPML.o2zpH_realizes e).val_iter3 g i j k hi hj hk).2.2.2 1
      rw [hp12]
      simp only [HORIPML.o2zpH_pPhi2, HORIPML.o1zpH_dEx, ite_true, ite_false, if_true,
        if_false, one_ne_zero, zero_ne_one]
      rw [h2]
      ring
  · intro i j k hi hj hk h1 h2
    refine ⟨⟨?_, ?_⟩, ?_, ?_⟩
    · have hp : (MRIPML.order2_xminus e g).Phi1 0 i j k =
          MRIPML.o2xmE_pPhi1 e 0 i j k g :=
        ((MRIPML.o2xmE_realizes e).val_iter3 g i j k hi hj hk).2.2.1 0
      rw [hp]
      simp only [MRIPML.o2xmE_pPhi1, MRIPML.o1xmE_dHz, ite_true, if_true]
      rw [h1]
      ring
    · have hp11 : (MRIPML.order2_xminus e g).Phi1 1 i j k =
          MRIPML.o2xmE_pPhi1 e 1 i j k g :=
        ((MRIPML.o2xmE_realizes e).val_iter3 g i j k hi hj hk).2.2.1 1
      rw [hp11]
      simp only [MRIPML.o2xmE_pPhi1, MRIPML.o1xmE_dHz, ite_true, ite_false, if_true,
        if_false, one_ne_zero, zero_ne_one]
      rw [h1]
      ring
    · have hp02 : (MRIPML.order2_xminus e g).Phi2 0 i j k =
          MRIPML.o2xmE_pPhi2 e 0 i j k g :=
        ((MRIPML.o2xmE_realizes e).val_iter3 g i j k hi hj hk).2.2.2 0
      rw [hp02]
      simp only [MRIPML.o2xmE_pPhi2, MRIPML.o1xmE_dHy, ite_true, if_true]
      rw [h2]
      ring
    · have hp12 : (MRIPML.order2_xminus e g).Phi2 1 i j k =
          MRIPML.o2xmE_pPhi2 e 1 i j k g :=
        ((MRIPML.o2xmE_realizes e).val_iter3 g i j k hi hj hk).2.2.2 1
      rw [hp12]
      simp only [MRIPML.o2xmE_pPhi2, MRIPML.o1xmE_dHy, ite_true, ite_false, if_true,
        if_false, one_ne_zero, zero_ne_one]
      rw [h2]
      ring
  · intro i j k hi hj hk h1 h2
    refine ⟨⟨?_, ?_⟩, ?_, ?_⟩
    · have hp : (MRIPML.order2_xplus e g).Phi1 0 i j k =
          MRIPML.o2xpE_pPhi1 e 0 i j k g :=
        ((MRIPML.o2xpE_realizes e).val_iter3 g i j k hi hj hk).2.2.1 0
      rw [hp]
      simp only [MRIPML.o2xpE_pPhi1, MRIPML.o1xpE_dHz, ite_true, if_true]
      rw [h1]
      ring
    · have hp11 : (MRIPML.order2_xplus e g).Phi1 1 i j k =
          MRIPML.o2xpE_pPhi1 e 1 i j k g :=
        ((MRIPML.o2xpE_realizes e).val_iter3 g i j k hi hj hk).2.2.1 1
      rw [hp11]
      simp only [MRIPML.o2xpE_pPhi1, MRIPML.o1xpE_dHz, ite_true, ite_false, if_true,
        if_false, one_ne_zero, zero_ne_one]
      rw [h1]
      ring
    · have hp02 : (MRIPML.order2_xplus e g).Phi2 0 i j k =
          MRIPML.o2xpE_pPhi2 e 0 i j k g :=
        ((MRIPML.o2xpE_realizes e).val_iter3 g i j k hi hj hk).2.2.2 0
      rw [hp02]
      simp only [MRIPML.o2xpE_pPhi2, MRIPML.o1xpE_dHy, ite_true, if_true]
      rw [h2]
      ring
    · have hp12 : (MRIPML.order2_xplus e g).Phi2 1 i j k =
          MRIPML.o2xpE_pPhi2 e 1 i j k g :=
        ((MRIPML.o2xpE_realizes e).val_iter3 g i j k hi hj hk).2.2.2 1
      rw [hp12]
      simp only [MRIPML.o2xpE_pPhi2, MRIPML.o1xpE_dHy, ite_true, ite_false, if_true,
        if_false, one_ne_zero, zero_ne_one]
      rw [h2]
      ring
  · intro i j k hi hj hk h1 h2
    refine ⟨⟨?_, ?_⟩, ?_, ?_⟩
    · have hp : (MRIPML.order2_yminus e g).Phi1 0 i j k =
          MRIPML.o2ymE_pPhi1 e 0 i j k g :=
        ((MRIPML.o2ymE_realizes e).val_iter3 g i j k hi hj hk).2.2.1 0
      rw [hp]
      simp only [MRIPML.o2ymE_pPhi1, MRIPML.o1ymE_dHz, ite_true, if_true]
      rw [h1]
      ring
    · have hp11 : (MRIPML.order2_yminus e g).Phi1 1 i j k =
          MRIPML.o2ymE_pPhi1 e 1 i j k g :=
        ((MRIPML.o2ymE_realizes e).val_iter3 g i j k hi hj hk).2.2.1 1
      rw [hp11]
      simp only [MRIPML.o2ymE_pPhi1, MRIPML.o1ymE_dHz, ite_true, ite_false, if_true,
        if_false, one_ne_zero, zero_ne_one]
      rw [h1]
      ring
    · have hp02 : (MRIPML.order2_yminus e g).Phi2 0 i j k =
          MRIPML.o2ymE_pPhi2 e 0 i j k g :=
        ((MRIPML.o2ymE_realizes e).val_iter3 g i j k hi hj hk).2.2.2 0
      rw [hp02]
      simp only [MRIPML.o2ymE_pPhi2, MRIPML.o1ymE_dHx, ite_true, if_true]
      rw [h2]
      ring
    · have hp12 : (MRIPML.order2_yminus e g).Phi2 1 i j k =
          MRIPML.o2ymE_pPhi2 e 1 i j k g :=
        ((MRIPML.o2ymE_realizes e).val_iter3 g i j k hi hj hk).2.2.2 1
      rw [hp12]
      simp only [MRIPML.o2ymE_pPhi2, MRIPML.o1ymE_dHx, ite_true, ite_false, if_true,
        if_false, one_ne_zero, zero_ne_one]
      rw [h2]
      ring
  · intro i j k hi hj hk h1 h2
    refine ⟨⟨?_, ?_⟩, ?_, ?_⟩
    · have hp : (MRIPML.order2_yplus e g).Phi1 0 i j k =
          MRIPML.o2ypE_pPhi1 e 0 i j k g :=
        ((MRIPML.o2ypE_realizes e).val_iter3 g i j k hi hj hk).2.2.1 0
      rw [hp]
      simp only [MRIPML.o2ypE_pPhi1, MRIPML.o1ypE_dHz, ite_true, if_true]
      rw [h1]
      ring
    · have hp11 : (MRIPML.order2_yplus e g).Phi1 1 i j k =
          MRIPML.o2ypE_pPhi1 e 1 i j k g :=
        ((MRIPML.o2ypE_realizes e).val_iter3 g i j k hi hj hk).2.2.1 1
      rw [hp11]
      simp only [MRIPML.o2ypE_pPhi1, MRIPML.o1ypE_dHz, ite_true, ite_false, if_true,
        if_false, one_ne_zero, zero_ne_one]
      rw [h1]
      ring
    · have hp02 : (MRIPML.order2_yplus e g).Phi2 0 i j k =
          MRIPML.o2ypE_pPhi2 e 0 i j k g :=
        ((MRIPML.o2ypE_realizes e).val_iter3 g i j k hi hj hk).2.2.2 0
      rw [hp02]
      simp only [MRIPML.o2ypE_pPhi2, MRIPML.o1ypE_dHx, ite_true, if_true]
      rw [h2]
      ring
    · have hp12 : (MRIPML.order2_yplus e g).Phi2 1 i j k =
          MRIPML.o2ypE_pPhi2 e 1 i j k g :=
        ((MRIPML.o2ypE_realizes e).val_iter3 g i j k hi hj hk).2.2.2 1
      rw [hp12]
      simp only [MRIPML.o2ypE_pPhi2, MRIPML.o1ypE_dHx, ite_true, ite_false, if_true,
        if_false, one_ne_zero, zero_ne_one]
      rw [h2]
      ring
  · intro i j k hi hj hk h1 h2
    refine ⟨⟨?_, ?_⟩, ?_, ?_⟩
    · have hp : (MRIPML.order2_zminus e g).Phi1 0 i j k =
          MRIPML.o2zmE_pPhi1 e 0 i j k g :=
        ((MRIPML.o2zmE_realizes e).val_iter3 g i j k hi hj hk).2.2.1 0
      rw [hp]
      simp only [MRIPML.o2zmE_pPhi1, MRIPML.o1zmE_dHy, ite_true, if_true]
      rw [h1]
      ring
    · have hp11 : (MRIPML.order2_zminus e g).Phi1 1 i j k =
          MRIPML.o2zmE_pPhi1 e 1 i j k g :=
        ((MRIPML.o2zmE_realizes e).val_iter3 g i j k hi hj hk).2.2.1 1
      rw [hp11]
      simp only [MRIPML.o2zmE_pPhi1, MRIPML.o1zmE_dHy, ite_true, ite_false, if_true,
        if_false, one_ne_zero, zero_ne_one]
      rw [h1]
      ring
    · have hp02 : (MRIPML.order2_zminus e g).Phi2 0 i j k =
          MRIPML.o2zmE_pPhi2 e 0 i j k g :=
        ((MRIPML.o2zmE_realizes e).val_iter3 g i j k hi hj hk).2.2.2 0
      rw [hp02]
      simp only [MRIPML.o2zmE_pPhi2, MRIPML.o1zmE_dHx, ite_true, if_true]
      rw [h2]
      ring
    · have hp12 : (MRIPML.order2_zminus e g).Phi2 1 i j k =
          MRIPML.o2zmE_pPhi2 e 1 i j k g :=
        ((MRIPML.o2zmE_realizes e).val_iter3 g i j k hi hj hk).2.2.2 1
      rw [hp12]
      simp only [MRIPML.o2zmE_pPhi2, MRIPML.o1zmE_dHx, ite_true, ite_false, if_true,
        if_false, one_ne_zero, zero_ne_one]
      rw [h2]
      ring
  · intro i j k hi hj hk h1 h2
    refine ⟨⟨?_, ?_⟩, ?_, ?_⟩
    · have hp : (MRIPML.order2_zplus e g).Phi1 0 i j k =
          MRIPML.o2zpE_pPhi1 e 0 i j k g :=
        ((MRIPML.o2zpE_realizes e).val_iter3 g i j k hi hj hk).2.2.1 0
      rw [hp]
      simp only [MRIPML.o2zpE_pPhi1, MRIPML.o1zpE_dHy, ite_true, if_true]
      rw [h1]
      ring
    · have hp11 : (MRIPML.order2_zplus e g).Phi1 1 i j k =
          MRIPML.o2zpE_pPhi1 e 1 i j k g :=
        ((MRIPML.o2zpE_realizes e).val_iter3 g i j k hi hj hk).2.2.1 1
      rw [hp11]
      simp only [MRIPML.o2zpE_pPhi1, MRIPML.o1zpE_dHy, ite_true, ite_false, if_true,
        if_false, one_ne_zero, zero_ne_one]
      rw [h1]
      ring
    · have hp02 : (MRIPML.order2_zplus e g).Phi2 0 i j k =
          MRIPML.o2zpE_pPhi2 e 0 i j k g :=
        ((MRIPML.o2zpE_realizes e).val_iter3 g i j k hi hj hk).2.2.2 0
      rw [hp02]
      simp only [MRIPML.o2zpE_pPhi2, MRIPML.o1zpE_dHx, ite_true, if_true]
      rw [h2]
      ring
    · have hp12 : (MRIPML.order2_zplus e g).Phi2 1 i j k =
          MRIPML.o2zpE_pPhi2 e 1 i j k g :=
        ((MRIPML.o2zpE_realizes e).val_iter3 g i j k hi hj hk).2.2.2 1
      rw [hp12]
      simp only [MRIPML.o2zpE_pPhi2, MRIPML.o1zpE_dHx, ite_true, ite_false, if_true,
        if_false, one_ne_zero, zero_ne_one]
      rw [h2]
      ring
  · intro i j k hi hj hk g' h2 h1 N
    induction N generalizing g' with
    | zero => simp
    | succ n ih =>
      rw [Function.iterate_succ_apply]
      have h2' : ∀ x y z : ℤ, (HORIPML.order1_xminus e g').F 2 x y z = 0 := by
        intro x y z
        have hb : (HORIPML.order1_xminus e g').F 2 x y z = g'.F 2 x y z :=
          (HORIPML.o1xmH_realizes e).frameF_iter3 g' 2 x y z (Or.inl ⟨by
            simp only [HORIPML.o1xmH_spec]
            decide, by
            simp only [HORIPML.o1xmH_spec]
            decide⟩)
        rw [hb]
        exact h2 x y z
      have h1' : ∀ x y z : ℤ, (HORIPML.order1_xminus e g').F 1 x y z = 0 := by
        intro x y z
        have hb : (HORIPML.order1_xminus e g').F 1 x y z = g'.F 1 x y z :=
          (HORIPML.o1xmH_realizes e).frameF_iter3 g' 1 x y z (Or.inl ⟨by
            simp only [HORIPML.o1xmH_spec]
            decide, by
            simp only [HORIPML.o1xmH_spec]
            decide⟩)
        rw [hb]
        exact h1 x y z
      rw [ih (HORIPML.order1_xminus e g') h2' h1']
      have hp : (HORIPML.order1_xminus e g').Phi1 0 i j k =
          HORIPML.o1xmH_pPhi1 e 0 i j k g' :=
        ((HORIPML.o1xmH_realizes e).val_iter3 g' i j k hi hj hk).2.2.1 0
      rw [hp]
      simp only [HORIPML.o1xmH_pPhi1, HORIPML.o1xmH_dEz, ite_true, if_true, h2]
      ring
  · intro ra rb re rf N
    have himp : (C7g1 ra rb re rf).Phi1 0 0 0 0 = 1 / ra * rb * rf := by
      have hp : (C7g1 ra rb re rf).Phi1 0 0 0 0 =
          MRIPML.o1xmE_pPhi1 (C7env ra rb re rf) 0 0 0 0 gridHz0 :=
        ((MRIPML.o1xmE_realizes (C7env ra rb re rf)).val_iter3 gridHz0 0 0 0
          (by
            simp only [C7env, mkEnv, PMLEnv.nx]
            decide)
          (by
            simp only [C7env, mkEnv, PMLEnv.ny]
            decide)
          (by
            simp only [C7env, mkEnv, PMLEnv.nz]
            decide)).2.2.1 0
      rw [hp]
      simp only [MRIPML.o1xmE_pPhi1, MRIPML.o1xmE_dHz, C7env, mkEnv, gridHz0,
        ite_true, if_true]
      norm_num
    have hz2 : ∀ x y z : ℤ, (C7g2 ra rb re rf).F 5 x y z = 0 := by
      intro x y z
      simp [C7g2]
    rw [phi_decay_aux ra rb re rf N (C7g2 ra rb re rf) hz2]
    have hcopy : (C7g2 ra rb re rf).Phi1 0 0 0 0 =
        (C7g1 ra rb re rf).Phi1 0 0 0 0 := rfl
    rw [hcopy, himp]

/-- Witness for the amended C7: concrete decay instances. -/
theorem C7_phi_decay_witness :
    (HORIPML.order1_xminus (mkEnv cOne cOne cOne cHalf) gridF0).Phi1 0 0 0 0 =
      (mkEnv cOne cOne cOne cHalf).RE 0 0 * gridF0.Phi1 0 0 0 0 ∧
    ((MRIPML.order1_xminus (C7env 1 1 1 (1/2)))^[2] (C7g2 1 1 1 (1/2))).Phi1 0 0 0 0 =
      (1 - 1 / 1 * 1 * (1/2)) ^ 2 * (1 / 1 * 1 * (1/2)) := by
  obtain ⟨a1, a2, a3, a4, a5, a6, b1, b2, b3, b4, b5, b6,
    m1, m2, m3, m4, m5, m6, n1, n2, n3, n4, n5, n6, it, rt⟩ :=
    C7_phi_decay (mkEnv cOne cOne cOne cHalf) gridF0
  exact ⟨(a1 0 0 0 (by decide) (by decide) (by decide)
    (by simp [gridF0]) (by simp [gridF0])).1, rt 1 1 1 (1/2) 2⟩

/-- Denominators evaluated by a call of the magnetic HORIPML
`order1_xminus`: the two divisions by `dx` in each loop cell; no other
division occurs in the kernel. -/
def H1xm_denoms (e : PMLEnv) : List ℚ :=
  (boxList e.nx e.ny e.nz).flatMap fun _ => [e.d, e.d]

/-- Denominators evaluated by a call of the magnetic HORIPML
`order2_xminus`: again only the two divisions by `dx` per loop cell. -/
def H2xm_denoms (e : PMLEnv) : List ℚ :=
  (boxList e.nx e.ny e.nz).flatMap fun _ => [e.d, e.d]

/-- Denominators evaluated by a call of the electric MRIPML
`order1_xminus`: `RA[0, n]` once per normal-axis index `n`
(the hoisted `IRA = 1 / RA[0, i]`), plus the two divisions by `dx` per
loop cell. -/
def M1xm_denoms (e : PMLEnv) : List ℚ :=
  ((List.range e.nx).map fun n => e.RA 0 n) ++
    ((boxList e.nx e.ny e.nz).flatMap fun _ => [e.d, e.d])

/-- Denominators evaluated by a call of the electric MRIPML
`order2_xminus`: `RA[0, n] + RA[1, n]` once per normal-axis index `n`
(the hoisted `IRA = 1 / (RA[0, i] + RA[1, i])`), plus the divisions by
`dx`. -/
def M2xm_denoms (e : PMLEnv) : List ℚ :=
  ((List.range e.nx).map fun n => e.RA 0 n + e.RA 1 n) ++
    ((boxList e.nx e.ny e.nz).flatMap fun _ => [e.d, e.d])

/-- Denominators evaluated by one call of any HORIPML magnetic kernel
(all six faces, both orders): exactly two divisions by the spatial step
per loop cell (the two curl differences); no other division occurs in
`pml_updates_magnetic_HORIPML.pyx`. -/
def H_denoms (e : PMLEnv) : List ℚ :=
  (boxList e.nx e.ny e.nz).flatMap fun _ => [e.d, e.d]

/-- Denominators evaluated by a call of the electric MRIPML
`order1_yminus` / `order1_yplus`: `RA[0, j]` once per `(i, j)` pair —
the `IRA = 1 / RA[0, j]` assignment sits inside the `j` loop, which is
nested in the `i` loop — plus the two divisions by `dy` per loop cell. -/
def M1y_denoms (e : PMLEnv) : List ℚ :=
  (List.range e.nx).flatMap fun _ =>
    (List.range e.ny).flatMap fun n =>
      e.RA 0 n :: ((List.range e.nz).flatMap fun _ => [e.d, e.d])

/-- Denominators evaluated by a call of the electric MRIPML
`order2_yminus` / `order2_yplus`: `RA[0, j] + RA[1, j]` once per
`(i, j)` pair, plus the divisions by `dy`. -/
def M2y_denoms (e : PMLEnv) : List ℚ :=
  (List.range e.nx).flatMap fun _ =>
    (List.range e.ny).flatMap fun n =>
      (e.RA 0 n + e.RA 1 n) :: ((List.range e.nz).flatMap fun _ => [e.d, e.d])

/-- Denominators evaluated by a call of the electric MRIPML
`order1_zminus` / `order1_zplus`: `RA[0, k]` once per loop cell — the
`IRA = 1 / RA[0, k]` assignment sits inside the innermost `k` loop —
plus the two divisions by `dz` per loop cell. -/
def M1z_denoms (e : PMLEnv) : List ℚ :=
  (List.range e.nx).flatMap fun _ =>
    (List.range e.ny).flatMap fun _ =>
      (List.range e.nz).flatMap fun n => [e.RA 0 n, e.d, e.d]

/-- Denominators evaluated by a call of the electric MRIPML
`order2_zminus` / `order2_zplus`: `RA[0, k] + RA[1, k]` once per loop
cell, plus the divisions by `dz`. -/
def M2z_denoms (e : PMLEnv) : List ℚ :=
  (List.range e.nx).flatMap fun _ =>
    (List.range e.ny).flatMap fun _ =>
      (List.range e.nz).flatMap fun n => [e.RA 0 n + e.RA 1 n, e.d, e.d]

/-- The division inventory claim C10 asserts for the y-face electric
order-1 kernels: one `RA[0, n]` division per normal-axis index `n`,
plus the per-cell step divisions (written from the claim's words, for
comparison with `M1y_denoms`). -/
def M1y_denoms_claimed (e : PMLEnv) : List ℚ :=
  ((List.range e.ny).map fun n => e.RA 0 n) ++
    ((boxList e.nx e.ny e.nz).flatMap fun _ => [e.d, e.d])

/-- 2×1×1 box with the constant profiles: each y-face electric kernel
evaluates its `RA` division once per `(i, j)`, here twice. -/
def envC10A : PMLEnv := { mkEnv cRA cRB cRE cRF with xf := 2 }

/-- Degenerate box with `nx = 0` and a vanishing `RA` row: each y-face
electric kernel call evaluates no division at all. -/
def envC10B : PMLEnv := { mkEnv (fun _ _ => 0) cRB cRE cRF with xf := 0 }

/-- Counterexample to **C10** as stated, at the y-face electric kernels:
(i) on a 2×1×1 box the order-1 y-face kernels evaluate their `RA`
division once per `(i, j)` — twice — not once per normal-axis index as
claimed (the claimed inventory has 5 entries, the code evaluates 6);
(ii) on a box with `nx = 0` a y-face kernel call evaluates no division
at all, hence is free of division-by-zero even though `RA[0, 0] = 0`
with `0 < ny`, so the claimed "if and only if" fails. -/
theorem C10_division_cex :
    (M1y_denoms envC10A).length ≠ (M1y_denoms_claimed envC10A).length ∧
    M1y_denoms envC10B = [] ∧ envC10B.RA 0 0 = 0 ∧ 0 < envC10B.ny := by
  refine ⟨?_, ?_, ?_, ?_⟩
  · decide
  · rfl
  · rfl
  · decide

/-- **C10 (amended).** Division inventory and safety of the kernels,
`d ≠ 0` assumed. The HORIPML magnetic kernels divide only by the spatial
step `d` (twice per loop cell), so no denominator can vanish for any
coefficient input. The MRIPML electric kernels additionally compute
`IRA = 1/RA[0, n]` (order 1), resp. `1/(RA[0, n] + RA[1, n])` (order 2),
at the cell's normal index `n`: the x-face kernels hoist this division
once per normal index `i < nx`, but the y-face kernels evaluate it once
per `(i, j)` and the z-face kernels once per loop cell — not once per
normal-axis index as claimed. All denominators of a call are nonzero iff
the `RA` quantity is nonzero at every normal index the loops reach: for
every `n < nx` (x faces), for every `n < ny` provided `0 < nx` (y
faces), and for every `n < nz` provided `0 < nx` and `0 < ny` (z faces)
— a precondition the specification does not state. -/
theorem C10_division_safety (e : PMLEnv) (hd : e.d ≠ 0) :
    (∀ q ∈ H1xm_denoms e, q ≠ 0) ∧
    (∀ q ∈ H2xm_denoms e, q ≠ 0) ∧
    ((∀ q ∈ M1xm_denoms e, q ≠ 0) ↔ ∀ n, n < e.nx → e.RA 0 n ≠ 0) ∧
    ((∀ q ∈ M2xm_denoms e, q ≠ 0) ↔ ∀ n, n < e.nx → e.RA 0 n + e.RA 1 n ≠ 0) ∧
    (∀ q ∈ H_denoms e, q ≠ 0) ∧
    ((∀ q ∈ M1y_denoms e, q ≠ 0) ↔
      (0 < e.nx → ∀ n, n < e.ny → e.RA 0 n ≠ 0)) ∧
    ((∀ q ∈ M2y_denoms e, q ≠ 0) ↔
      (0 < e.nx → ∀ n, n < e.ny → e.RA 0 n + e.RA 1 n ≠ 0)) ∧
    ((∀ q ∈ M1z_denoms e, q ≠ 0) ↔
      (0 < e.nx → 0 < e.ny → ∀ n, n < e.nz → e.RA 0 n ≠ 0)) ∧
    ((∀ q ∈ M2z_denoms e, q ≠ 0) ↔
      (0 < e.nx → 0 < e.ny → ∀ n, n < e.nz → e.RA 0 n + e.RA 1 n ≠ 0)) := by
  refine ⟨?_, ?_, ?_, ?_, ?_, ?_, ?_, ?_, ?_⟩
  · intro q hq
    simp only [H1xm_denoms, List.mem_flatMap, List.mem_cons,
      List.not_mem_nil, or_false] at hq
    obtain ⟨t, -, hq⟩ := hq
    rcases hq with rfl | rfl <;> exact hd
  · intro q hq
    simp only [H2xm_denoms, List.mem_flatMap, List.mem_cons,
      List.not_mem_nil, or_false] at hq
    obtain ⟨t, -, hq⟩ := hq
    rcases hq with rfl | rfl <;> exact hd
  · constructor
    · intro h n hn
      apply h
      simp only [M1xm_denoms, List.mem_append, List.mem_map, List.mem_range]
      exact Or.inl ⟨n, hn, rfl⟩
    · intro h q hq
      simp only [M1xm_denoms, List.mem_append, List.mem_map, List.mem_range,
        List.mem_flatMap, List.mem_cons, List.not_mem_nil, or_false] at hq
      rcases hq with ⟨n, hn, rfl⟩ | ⟨t, -, hq⟩
      · exact h n hn
      · rcases hq with rfl | rfl <;> exact hd
  · constructor
    · intro h n hn
      apply h
      simp only [M2xm_denoms, List.mem_append, List.mem_map, List.mem_range]
      exact Or.inl ⟨n, hn, rfl⟩
    · intro h q hq
      simp only [M2xm_denoms, List.mem_append, List.mem_map, List.mem_range,
        List.mem_flatMap, List.mem_cons, List.not_mem_nil, or_false] at hq
      rcases hq with ⟨n, hn, rfl⟩ | ⟨t, -, hq⟩
      · exact h n hn
      · rcases hq with rfl | rfl <;> exact hd

  · intro q hq
    simp only [H_denoms, List.mem_flatMap, List.mem_cons,
      List.not_mem_nil, or_false] at hq
    obtain ⟨t, -, hq⟩ := hq
    rcases hq with rfl | rfl <;> exact hd
  · constructor
    · intro h hx n hn
      apply h
      simp only [M1y_denoms, List.mem_flatMap, List.mem_range, List.mem_cons]
      exact ⟨0, hx, n, hn, Or.inl rfl⟩
    · intro h q hq
      simp only [M1y_denoms, List.mem_flatMap, List.mem_range, List.mem_cons,
        List.not_mem_nil, or_false] at hq
      obtain ⟨i, hi, n, hn, hq⟩ := hq
      rcases hq with rfl | hq
      · exact h (lt_of_le_of_lt (Nat.zero_le i) hi) n hn
      · obtain ⟨m, -, hq⟩ := hq
        rcases hq with rfl | rfl <;> exact hd
  · constructor
    · intro h hx n hn
      apply h
      simp only [M2y_denoms, List.mem_flatMap, List.mem_range, List.mem_cons]
      exact ⟨0, hx, n, hn, Or.inl rfl⟩
    · intro h q hq
      simp only [M2y_denoms, List.mem_flatMap, List.mem_range, List.mem_cons,
        List.not_mem_nil, or_false] at hq
      obtain ⟨i, hi, n, hn, hq⟩ := hq
      rcases hq with rfl | hq
      · exact h (lt_of_le_of_lt (Nat.zero_le i) hi) n hn
      · obtain ⟨m, -, hq⟩ := hq
        rcases hq with rfl | rfl <;> exact hd
  · constructor
    · intro h hx hy n hn
      apply h
      simp only [M1z_denoms, List.mem_flatMap, List.mem_range, List.mem_cons]
      exact ⟨0, hx, 0, hy, n, hn, Or.inl rfl⟩
    · intro h q hq
      simp only [M1z_denoms, List.mem_flatMap, List.mem_range, List.mem_cons,
        List.not_mem_nil, or_false] at hq
      obtain ⟨i, hi, m, hm, n, hn, hq⟩ := hq
      rcases hq with rfl | hq
      · exact h (lt_of_le_of_lt (Nat.zero_le i) hi)
          (lt_of_le_of_lt (Nat.zero_le m) hm) n hn
      · rcases hq with rfl | rfl <;> exact hd
  · constructor
    · intro h hx hy n hn
      apply h
      simp only [M2z_denoms, List.mem_flatMap, List.mem_range, List.mem_cons]
      exact ⟨0, hx, 0, hy, n, hn, Or.inl rfl⟩
    · intro h q hq
      simp only [M2z_denoms, List.mem_flatMap, List.mem_range, List.mem_cons,
        List.not_mem_nil, or_false] at hq
      obtain ⟨i, hi, m, hm, n, hn, hq⟩ := hq
      rcases hq with rfl | hq
      · exact h (lt_of_le_of_lt (Nat.zero_le i) hi)
          (lt_of_le_of_lt (Nat.zero_le m) hm) n hn
      · rcases hq with rfl | rfl <;> exact hd

/-- Witness for C10 on a concrete environment (`d = 1`, `RA = 2`):
zero is not among the denominators the kernel evaluates. -/
theorem C10_division_safety_witness :
    (0 : ℚ) ∉ M1xm_denoms (mkEnv cRA cRB cRE cRF) := by
  intro h0
  exact
    ((C10_division_safety (mkEnv cRA cRB cRE cRF) (by
        norm_num [mkEnv])).2.2.1.mpr
      (by intro n _; norm_num [mkEnv, cRA]) 0 h0) rfl

/-! Fractal generator `generate_fractal2D` (appended to
`pml_updates_electric_MRIPML.pyx` in this snapshot). Real arithmetic is
modelled exactly (`**(1/2)` and `**D` are real powers), so these
definitions are noncomputable. -/

/-- In-place store `fractalsurface[i, j] = v`. -/
def upd2 (f : ℕ → ℕ → ℂ) (a b : ℕ) (v : ℂ) : ℕ → ℕ → ℂ :=
  fun i j => if i = a ∧ j = b then v else f i j

theorem upd2_apply (f : ℕ → ℕ → ℂ) (a b : ℕ) (v : ℂ) (i j : ℕ) :
    upd2 f a b v i j = if i = a ∧ j = b then v else f i j := rfl

/-- Value stored at `(i, j)` by `generate_fractal2D`, translated
statement by statement from the source loop body. -/
noncomputable def fractal2Dvalue (ox oy gx gy : ℕ) (D : ℝ)
    (weighting v1 : ℕ → ℝ) (A : ℕ → ℕ → ℂ) (i j : ℕ) : ℂ :=
  let sx : ℕ := gx / 2
  let sy : ℕ := gy / 2
  let v2x : ℝ := weighting 0 * (((i + ox + sx) % gx : ℕ) : ℝ)
  let v2y : ℝ := weighting 1 * (((j + oy + sy) % gy : ℕ) : ℝ)
  let rr : ℝ := ((v2x - v1 0) ^ 2 + (v2y - v1 1) ^ 2) ^ ((1 : ℝ) / 2)
  let B : ℝ := rr ^ D
  let B2 : ℝ := if B = 0 then 0.9 else B
  A i j / (B2 : ℂ)

/-- `generate_fractal2D`: the double loop writing `A[i, j] / B` into the
fractal surface. -/
noncomputable def generate_fractal2D (nx ny ox oy gx gy : ℕ) (D : ℝ)
    (weighting v1 : ℕ → ℝ) (A : ℕ → ℕ → ℂ)
    (fractalsurface : ℕ → ℕ → ℂ) : ℕ → ℕ → ℂ :=
  loopN nx
    (fun i s =>
      loopN ny (fun j s' => upd2 s' i j (fractal2Dvalue ox oy gx gy D weighting v1 A i j)) s)
    fractalsurface

theorem loopN_succ {α : Type} (n : ℕ) (f : ℕ → α → α) (s : α) :
    loopN (n + 1) f s = f n (loopN n f s) := by
  unfold loopN
  rw [List.range_succ, List.foldl_append, List.foldl_cons, List.foldl_nil]

theorem loopN_upd2_inner (m : ℕ) (a : ℕ) (val : ℕ → ℂ) (s : ℕ → ℕ → ℂ)
    (x y : ℕ) :
    loopN m (fun j s' => upd2 s' a j (val j)) s x y =
      if x = a ∧ y < m then val y else s x y := by
  induction m with
  | zero =>
    simp only [loopN, List.range_zero, List.foldl_nil]
    rw [if_neg]
    rintro ⟨-, hy⟩
    exact Nat.not_lt_zero y hy
  | succ m ih =>
    rw [loopN_succ, upd2_apply]
    by_cases hxy : x = a ∧ y = m
    · rw [if_pos hxy, if_pos ⟨hxy.1, hxy.2 ▸ Nat.lt_succ_self m⟩, hxy.2]
    · rw [if_neg hxy, ih]
      by_cases hin : x = a ∧ y < m
      · rw [if_pos hin, if_pos ⟨hin.1, Nat.lt_succ_of_lt hin.2⟩]
      · rw [if_neg hin, if_neg]
        rintro ⟨hx, hy⟩
        rcases Nat.lt_succ_iff_lt_or_eq.mp hy with hy | hy
        · exact hin ⟨hx, hy⟩
        · exact hxy ⟨hx, hy⟩

theorem generate_fractal2D_apply (nx ny ox oy gx gy : ℕ) (D : ℝ)
    (weighting v1 : ℕ → ℝ) (A : ℕ → ℕ → ℂ) (fs : ℕ → ℕ → ℂ) (i j : ℕ) :
    generate_fractal2D nx ny ox oy gx gy D weighting v1 A fs i j =
      if i < nx ∧ j < ny then fractal2Dvalue ox oy gx gy D weighting v1 A i j
      else fs i j := by
  unfold generate_fractal2D
  induction nx with
  | zero =>
    simp only [loopN, List.range_zero, List.foldl_nil]
    rw [if_neg]
    rintro ⟨hi, -⟩
    exact Nat.not_lt_zero i hi
  | succ n ih =>
    rw [loopN_succ, loopN_upd2_inner, ih]
    by_cases hin : i = n ∧ j < ny
    · rw [if_pos hin, hin.1, if_pos ⟨Nat.lt_succ_self n, hin.2⟩]
    · rw [if_neg hin]
      by_cases hlt : i < n ∧ j < ny
      · rw [if_pos hlt, if_pos ⟨Nat.lt_succ_of_lt hlt.1, hlt.2⟩]
      · rw [if_neg hlt, if_neg]
        rintro ⟨hi, hj⟩
        rcases Nat.lt_succ_iff_lt_or_eq.mp hi with hi | hi
        · exact hlt ⟨hi, hj⟩
        · exact hin ⟨hi, hj⟩

theorem fr_pow_eq (s : ℝ) (hs : 0 ≤ s) :
    (s ^ ((1 : ℝ) / 2)) ^ ((5 : ℝ) / 2) = s ^ ((5 : ℝ) / 4) := by
  rw [← Real.rpow_mul hs]
  norm_num

theorem fr_pow_pos (s : ℝ) (hs : 0 < s) :
    0 < (s ^ ((1 : ℝ) / 2)) ^ ((5 : ℝ) / 2) :=
  Real.rpow_pos_of_pos (Real.rpow_pos_of_pos hs _) _

/-- Counterexample to **C8** as stated: in the concrete run
(`nx = ny = 4`, `ox = oy = 0`, `gx = gy = 4`, `D = 5/2`,
`weighting = (1,1)`, `v1 = (2,2)`, `A ≡ 1`) the centre cell `(2, 2)` does
**not** receive `1/0.9`: its wrapped coordinate is `(2+2) % 4 = 0`, so
`r² = 8` and it receives `1/8^(5/4)`; the DC cell is `(0, 0)`. -/
theorem C8_fractal_cex :
    generate_fractal2D 4 4 0 0 4 4 ((5 : ℝ) / 2) (fun _ => 1) (fun _ => 2)
      (fun _ _ => 1) (fun _ _ => 0) 2 2 ≠ 1 / (0.9 : ℂ) := by
  rw [generate_fractal2D_apply, if_pos (by norm_num : (2 : ℕ) < 4 ∧ (2 : ℕ) < 4)]
  simp only [fractal2Dvalue]
  norm_num
  rw [if_neg (ne_of_gt (fr_pow_pos 8 (by norm_num))), fr_pow_eq 8 (by norm_num)]
  intro h
  rw [inv_eq_iff_eq_inv] at h
  norm_num at h
  have hc : ((9 : ℂ) / 10) = (((9 : ℝ) / 10 : ℝ) : ℂ) := by norm_num
  rw [hc] at h
  have h8 : (8 : ℝ) ^ ((5 : ℝ) / 4) = 9 / 10 := Complex.ofReal_inj.mp h
  have hge : (8 : ℝ) ≤ (8 : ℝ) ^ ((5 : ℝ) / 4) := by
    have := (Real.rpow_le_rpow_left_iff (x := (8 : ℝ)) (by norm_num)).mpr
      (by norm_num : (1 : ℝ) ≤ (5 : ℝ) / 4)
    rwa [Real.rpow_one] at this
  rw [h8] at hge
  norm_num at hge

/-- Spec-side formula for C8: `A[i,j] / B` with `B = r^D`, `r` the
Euclidean norm of `weighting·((index + offset + size/2) mod size) − v1`
per axis, and `0.9` substituted exactly when `B = 0` (written from the
spec text, for comparison with `generate_fractal2D`). -/
noncomputable def fractal2Dspec (ox oy gx gy : ℕ) (D : ℝ)
    (weighting v1 : ℕ → ℝ) (A : ℕ → ℕ → ℂ) (i j : ℕ) : ℂ :=
  let B : ℝ :=
    (((weighting 0 * (((i + ox + gx / 2) % gx : ℕ) : ℝ) - v1 0) ^ 2 +
      (weighting 1 * (((j + oy + gy / 2) % gy : ℕ) : ℝ) - v1 1) ^ 2) ^
        ((1 : ℝ) / 2)) ^ D
  A i j / ((if B = 0 then (0.9 : ℝ) else B : ℝ) : ℂ)

/-- **C8** (amended): `generate_fractal2D` writes `A[i,j] / B` with
`B = r^D`, `r` the Euclidean norm of the wrapped weighted coordinate
differences, and the sentinel `0.9` substituted exactly when `B = 0`;
in the concrete run (`nx = ny = 4`, `ox = oy = 0`, `gx = gy = 4`,
`D = 5/2`, `weighting = (1,1)`, `v1 = (2,2)`, `A ≡ 1`) the cell that
receives `1/0.9` is `(0, 0)` (not `(2, 2)` as claimed), and every other
cell receives `1/((Δx² + Δy²)^(5/4))` with wrapped differences
`Δx = (i+2) % 4 − 2`, `Δy = (j+2) % 4 − 2`. -/
theorem C8_fractal2D :
    (∀ (nx ny ox oy gx gy : ℕ) (D : ℝ) (weighting v1 : ℕ → ℝ)
        (A : ℕ → ℕ → ℂ) (fs : ℕ → ℕ → ℂ) (i j : ℕ), i < nx → j < ny →
      generate_fractal2D nx ny ox oy gx gy D weighting v1 A fs i j =
        fractal2Dspec ox oy gx gy D weighting v1 A i j) ∧
    (∀ i j : ℕ, i < 4 → j < 4 →
      generate_fractal2D 4 4 0 0 4 4 ((5 : ℝ) / 2) (fun _ => 1) (fun _ => 2)
          (fun _ _ => 1) (fun _ _ => 0) i j =
        if i = 0 ∧ j = 0 then 1 / (0.9 : ℂ)
        else (1 : ℂ) /
          ((((((i + 2) % 4 : ℕ) : ℝ) - 2) ^ 2 +
              ((((j + 2) % 4 : ℕ) : ℝ) - 2) ^ 2) ^ ((5 : ℝ) / 4) : ℝ)) := by
  constructor
  · intro nx ny ox oy gx gy D w v1 A fs i j hi hj
    rw [generate_fractal2D_apply, if_pos ⟨hi, hj⟩]
    rfl
  · intro i j hi hj
    rw [generate_fractal2D_apply, if_pos ⟨hi, hj⟩]
    simp only [fractal2Dvalue]
    interval_cases i <;> interval_cases j <;> norm_num <;>
      first
      | (rw [Real.zero_rpow (show ((1 : ℝ) / 2) ≠ 0 by norm_num),
            Real.zero_rpow (show ((5 : ℝ) / 2) ≠ 0 by norm_num)]
         norm_num)
      | (rw [if_neg (ne_of_gt (fr_pow_pos 1 (by norm_num))), fr_pow_eq 1 (by norm_num)]
         try norm_num)
      | (rw [if_neg (ne_of_gt (fr_pow_pos 2 (by norm_num))), fr_pow_eq 2 (by norm_num)]
         try norm_num)
      | (rw [if_neg (ne_of_gt (fr_pow_pos 4 (by norm_num))), fr_pow_eq 4 (by norm_num)]
         try norm_num)
      | (rw [if_neg (ne_of_gt (fr_pow_pos 5 (by norm_num))), fr_pow_eq 5 (by norm_num)]
         try norm_num)
      | (rw [if_neg (ne_of_gt (fr_pow_pos 8 (by norm_num))), fr_pow_eq 8 (by norm_num)]
         try norm_num)

theorem C8_fractal2D_witness :
    generate_fractal2D 4 4 0 0 4 4 ((5 : ℝ) / 2) (fun _ => 1) (fun _ => 2)
        (fun _ _ => 1) (fun _ _ => 0) 0 0 = 1 / (0.9 : ℂ) := by
  have h := C8_fractal2D.2 0 0 (by norm_num) (by norm_num)
  rw [if_pos (And.intro rfl rfl)] at h
  exact h
